import Mathlib

/-!
# RV32I-Sim: a shallow embedding of the simulator and its verified properties

The C++ sources are embedded as pure Lean functions:

* `uint32_t` values are natural numbers below `2^32`, with every wrap written as
  an explicit `% 4294967296`;
* `int32_t` values are integers in `[-2^31, 2^31)`; the conversions between the
  two are `toU32` and `toS32`;
* the objects (`memory`, `registerfile`, `rv32i_hart`) are structures passed
  explicitly from state to state;
* an operation whose C++ behaviour is undefined (a `std::vector` subscript
  outside the buffer, a shift by a count outside `0..31`) returns `none`;
* the constants of the header rv32i_decode.h, which is not among the sources, are the
  RV32I encodings the specification names.

Text sent to `std::cout` (warnings, dumps, trace lines) is not part of the
modelled state.
-/

namespace RV32I

/-! ## Machine words -/

/-- Conversion of an integer to `uint32_t`: reduction modulo `2^32`. -/
def toU32 (i : Int) : Nat := (i % 4294967296).toNat

/-- Conversion of a 32-bit pattern to `int32_t` (two's complement). -/
def toS32 (n : Nat) : Int :=
  if n % 4294967296 < 2147483648 then ((n % 4294967296 : Nat) : Int)
  else ((n % 4294967296 : Nat) : Int) - 4294967296

/-- The bit field `x[hi:lo]` of a word, as a number below `2^(hi-lo+1)`. -/
def bitfield (x hi lo : Nat) : Nat := x / 2 ^ lo % 2 ^ (hi + 1 - lo)

/-- Sign extension of the low `w` bits of `x` to an integer (two's complement on `w` bits). -/
def signExtend (w x : Nat) : Int :=
  if x % 2 ^ w < 2 ^ (w - 1) then ((x % 2 ^ w : Nat) : Int)
  else ((x % 2 ^ w : Nat) : Int) - ((2 ^ w : Nat) : Int)

/-! ## memory (memory.h, memory.cpp) -/

/-- The class `memory`: its only member is the byte vector `mem`. -/
structure memory where
  mem : List (Fin 256)
deriving DecidableEq, Repr

/-- Conversion of a value to `uint8_t`. -/
def toByte (val : Nat) : Fin 256 := ⟨val % 256, Nat.mod_lt val (by decide)⟩

/-- The constructor `memory::memory(uint32_t siz)`: the size is rounded with
`(siz+15)&0xfffffff0` in 32-bit arithmetic and every byte is `0xa5`. -/
def memory.new (siz : Nat) : memory :=
  { mem := List.replicate (((siz + 15) % 4294967296) &&& 0xfffffff0) (toByte 0xa5) }

/-- `memory::check_illegal`: true exactly when `i` is below the vector size
(the warning printed otherwise is not modelled). -/
def memory.check_illegal (m : memory) (i : Nat) : Bool := decide (i < m.mem.length)

/-- `memory::get_size`. -/
def memory.get_size (m : memory) : Nat := m.mem.length % 4294967296

/-- `memory::get8`. -/
def memory.get8 (m : memory) (addr : Nat) : Nat :=
  if m.check_illegal addr then (m.mem.getD addr 0).val else 0

/-- `memory::get16`: `get8(addr) | get8(addr+1) << 8`, the address increment
wrapping as `uint32_t` and the result converted to `uint16_t`. -/
def memory.get16 (m : memory) (addr : Nat) : Nat :=
  (m.get8 addr ||| (m.get8 ((addr + 1) % 4294967296) <<< 8)) % 65536

/-- `memory::get32`: `get16(addr) | get16(addr+2) << 16`, converted to `uint32_t`. -/
def memory.get32 (m : memory) (addr : Nat) : Nat :=
  (m.get16 addr ||| (m.get16 ((addr + 2) % 4294967296) <<< 16)) % 4294967296

/-- `memory::get8_sx`: `(int8_t)get8(addr)` widened to `int32_t`. -/
def memory.get8_sx (m : memory) (addr : Nat) : Int := signExtend 8 (m.get8 addr)

/-- `memory::get16_sx`: `(int16_t)get16(addr)` widened to `int32_t`. -/
def memory.get16_sx (m : memory) (addr : Nat) : Int := signExtend 16 (m.get16 addr)

/-- `memory::get32_sx`: `get32(addr)` converted to `int32_t`. -/
def memory.get32_sx (m : memory) (addr : Nat) : Int := toS32 (m.get32 addr)

/-- `memory::set8`: the store happens only when `check_illegal(addr)` holds. -/
def memory.set8 (m : memory) (addr val : Nat) : memory :=
  if m.check_illegal addr then { mem := m.mem.set addr (toByte val) } else m

/-- The unchecked statement `mem[addr] = val;` that ends `set16` and `set32`:
a `std::vector` subscript with no bounds test.  Outside the buffer its
behaviour is undefined, which is the result `none`. -/
def memory.store (m : memory) (addr val : Nat) : Option memory :=
  if addr < m.mem.length then some { mem := m.mem.set addr (toByte val) } else none

/-- `memory::set16`: `set8(addr+1, val>>8); set8(addr, val); mem[addr] = val;`
with `val` converted to `uint16_t` on entry. -/
def memory.set16 (m : memory) (addr val : Nat) : Option memory :=
  let val := val % 65536
  let m1 := m.set8 ((addr + 1) % 4294967296) (val >>> 8)
  let m2 := m1.set8 addr val
  m2.store addr val

/-- `memory::set32`: `set16(addr+1, val>>8); set16(addr+2, val>>16); mem[addr] = val;`. -/
def memory.set32 (m : memory) (addr val : Nat) : Option memory :=
  match m.set16 ((addr + 1) % 4294967296) (val >>> 8) with
  | none => none
  | some m1 =>
    match m1.set16 ((addr + 2) % 4294967296) (val >>> 16) with
    | none => none
    | some m2 => m2.store addr val

/-! ## registerfile (registerfile.h, registerfile.cpp) -/

/-- The class `registerfile`: the array `int32_t reg[32]`. -/
structure registerfile where
  reg : List Int
deriving DecidableEq, Repr

/-- `registerfile::reset`: slot 0 becomes 0, slots 1..31 become `0xf0f0f0f0`
(converted to `int32_t`). -/
def registerfile.reset (_rf : registerfile) : registerfile :=
  { reg := 0 :: List.replicate 31 (toS32 0xf0f0f0f0) }

/-- The constructor `registerfile::registerfile()`, which calls `reset`. -/
def registerfile.new : registerfile := registerfile.reset { reg := List.replicate 32 0 }

/-- `registerfile::set`: nothing happens for `r == 0`, otherwise `reg[r] = val`.
The index is a register number, `r < 32`. -/
def registerfile.set (rf : registerfile) (r : Nat) (val : Int) : registerfile :=
  if r = 0 then rf else { reg := rf.reg.set r val }

/-- `registerfile::get`: 0 for `r == 0`, otherwise `reg[r]`. -/
def registerfile.get (rf : registerfile) (r : Nat) : Int :=
  if r = 0 then 0 else rf.reg.getD r 0

/-! ## rv32i_decode (rv32i_decode.cpp; the header rv32i_decode.h is not among the sources) -/

/-- Modelled from the spec: `XLEN`, declared in rv32i_decode.h like the other constants
of the decoder (all `uint32_t`); the spec fixes the register width to 32 bits and gives
the shift amount `imm_i % XLEN` of `SLLI`/`SRLI`/`SRAI` as `imm_i & 31`, the remainder of
unsigned 32-bit operands. -/
def XLEN : Nat := 32

/-- Modelled from the spec: `mnemonic_width`, declared in rv32i_decode.h; the spec's
rendering contract gives a mnemonic field of width 8. -/
def mnemonic_width : Nat := 8

/-- Modelled from the spec: opcode constant of rv32i_decode.h (RV32I `LUI`). -/
def opcode_lui : Nat := 0x37
/-- Modelled from the spec: opcode constant of rv32i_decode.h (RV32I `AUIPC`). -/
def opcode_auipc : Nat := 0x17
/-- Modelled from the spec: opcode constant of rv32i_decode.h (RV32I `JAL`). -/
def opcode_jal : Nat := 0x6f
/-- Modelled from the spec: opcode constant of rv32i_decode.h (RV32I `JALR`). -/
def opcode_jalr : Nat := 0x67
/-- Modelled from the spec: opcode constant of rv32i_decode.h (RV32I branches). -/
def opcode_btype : Nat := 0x63
/-- Modelled from the spec: opcode constant of rv32i_decode.h (RV32I loads). -/
def opcode_load_imm : Nat := 0x03
/-- Modelled from the spec: opcode constant of rv32i_decode.h (RV32I stores). -/
def opcode_stype : Nat := 0x23
/-- Modelled from the spec: opcode constant of rv32i_decode.h (RV32I I-type ALU). -/
def opcode_alu_imm : Nat := 0x13
/-- Modelled from the spec: opcode constant of rv32i_decode.h (RV32I R-type, `0x33`). -/
def opcode_rtype : Nat := 0x33
/-- Modelled from the spec: opcode constant of rv32i_decode.h (RV32I `SYSTEM`). -/
def opcode_system : Nat := 0x73

/-- Modelled from the spec: funct3 constant of rv32i_decode.h (`BEQ`). -/
def funct3_beq : Nat := 0
/-- Modelled from the spec: funct3 constant of rv32i_decode.h (`BNE`). -/
def funct3_bne : Nat := 1
/-- Modelled from the spec: funct3 constant of rv32i_decode.h (`BLT`). -/
def funct3_blt : Nat := 4
/-- Modelled from the spec: funct3 constant of rv32i_decode.h (`BGE`). -/
def funct3_bge : Nat := 5
/-- Modelled from the spec: funct3 constant of rv32i_decode.h (`BLTU`). -/
def funct3_bltu : Nat := 6
/-- Modelled from the spec: funct3 constant of rv32i_decode.h (`BGEU`). -/
def funct3_bgeu : Nat := 7

/-- Modelled from the spec: funct3 constant of rv32i_decode.h (`LB`). -/
def funct3_lb : Nat := 0
/-- Modelled from the spec: funct3 constant of rv32i_decode.h (`LH`). -/
def funct3_lh : Nat := 1
/-- Modelled from the spec: funct3 constant of rv32i_decode.h (`LW`). -/
def funct3_lw : Nat := 2
/-- Modelled from the spec: funct3 constant of rv32i_decode.h (`LBU`). -/
def funct3_lbu : Nat := 4
/-- Modelled from the spec: funct3 constant of rv32i_decode.h (`LHU`). -/
def funct3_lhu : Nat := 5

/-- Modelled from the spec: funct3 constant of rv32i_decode.h (`SB`). -/
def funct3_sb : Nat := 0
/-- Modelled from the spec: funct3 constant of rv32i_decode.h (`SH`). -/
def funct3_sh : Nat := 1
/-- Modelled from the spec: funct3 constant of rv32i_decode.h (`SW`). -/
def funct3_sw : Nat := 2

/-- Modelled from the spec: funct3 constant of rv32i_decode.h (`ADD`/`SUB`/`ADDI`). -/
def funct3_add : Nat := 0
/-- Modelled from the spec: funct3 constant of rv32i_decode.h (`SLL`/`SLLI`). -/
def funct3_sll : Nat := 1
/-- Modelled from the spec: funct3 constant of rv32i_decode.h (`SLT`/`SLTI`). -/
def funct3_slt : Nat := 2
/-- Modelled from the spec: funct3 constant of rv32i_decode.h (`SLTU`/`SLTIU`). -/
def funct3_sltu : Nat := 3
/-- Modelled from the spec: funct3 constant of rv32i_decode.h (`XOR`/`XORI`). -/
def funct3_xor : Nat := 4
/-- Modelled from the spec: funct3 constant of rv32i_decode.h (`SRL`/`SRA`/`SRLI`/`SRAI`). -/
def funct3_srx : Nat := 5
/-- Modelled from the spec: funct3 constant of rv32i_decode.h (`OR`/`ORI`). -/
def funct3_or : Nat := 6
/-- Modelled from the spec: funct3 constant of rv32i_decode.h (`AND`/`ANDI`). -/
def funct3_and : Nat := 7

/-- Modelled from the spec: funct7 constant of rv32i_decode.h (`SRL`/`SRLI`, `0x00`). -/
def funct7_srl : Nat := 0x00
/-- Modelled from the spec: funct7 constant of rv32i_decode.h (`SRA`/`SRAI`, `0x20`). -/
def funct7_sra : Nat := 0x20
/-- Modelled from the spec: funct7 constant of rv32i_decode.h (`ADD`, `0x00`). -/
def funct7_add : Nat := 0x00
/-- Modelled from the spec: funct7 constant of rv32i_decode.h (`SUB`, `0x20`). -/
def funct7_sub : Nat := 0x20

/-- Modelled from the spec: the full-word encoding of `ECALL`, declared in rv32i_decode.h. -/
def insn_ecall : Nat := 0x00000073
/-- Modelled from the spec: the full-word encoding of `EBREAK`, declared in
rv32i_decode.h; the spec's scenario S1 gives the word `0x00100073`. -/
def insn_ebreak : Nat := 0x00100073

/-- Modelled from the spec: funct3 constant of rv32i_decode.h (`CSRRW`). -/
def funct3_csrrw : Nat := 1
/-- Modelled from the spec: funct3 constant of rv32i_decode.h (`CSRRS`). -/
def funct3_csrrs : Nat := 2
/-- Modelled from the spec: funct3 constant of rv32i_decode.h (`CSRRC`). -/
def funct3_csrrc : Nat := 3
/-- Modelled from the spec: funct3 constant of rv32i_decode.h (`CSRRWI`). -/
def funct3_csrrwi : Nat := 5
/-- Modelled from the spec: funct3 constant of rv32i_decode.h (`CSRRSI`). -/
def funct3_csrrsi : Nat := 6
/-- Modelled from the spec: funct3 constant of rv32i_decode.h (`CSRRCI`). -/
def funct3_csrrci : Nat := 7

/-- `rv32i_decode::get_opcode`. -/
def get_opcode (insn : Nat) : Nat := insn &&& 0x0000007f

/-- `rv32i_decode::get_rd`. -/
def get_rd (insn : Nat) : Nat := (insn &&& 0x00000f80) >>> 7

/-- `rv32i_decode::get_funct3`. -/
def get_funct3 (insn : Nat) : Nat := (insn &&& 0x00007000) >>> 12

/-- `rv32i_decode::get_rs1`. -/
def get_rs1 (insn : Nat) : Nat := (insn &&& 0x000f8000) >>> 15

/-- `rv32i_decode::get_rs2`. -/
def get_rs2 (insn : Nat) : Nat := (insn &&& 0x01f00000) >>> 20

/-- `rv32i_decode::get_funct7`. -/
def get_funct7 (insn : Nat) : Nat := (insn &&& 0xfe000000) >>> 25

/-- `rv32i_decode::get_imm_i`: the bit pattern is built unsigned and returned as `int32_t`. -/
def get_imm_i (insn : Nat) : Int :=
  let imm_i := (insn &&& 0xfff00000) >>> 20
  let imm_i := if insn &&& 0x80000000 ≠ 0 then imm_i ||| 0xfffff000 else imm_i
  toS32 imm_i

/-- `rv32i_decode::get_imm_u`. -/
def get_imm_u (insn : Nat) : Int := toS32 (insn &&& 0xfffff000)

/-- `rv32i_decode::get_imm_b`. -/
def get_imm_b (insn : Nat) : Int :=
  let imm_b := (insn &&& 0x80000000) >>> (31 - 12)
  let imm_b := imm_b ||| ((insn &&& 0x7e000000) >>> (25 - 5))
  let imm_b := imm_b ||| ((insn &&& 0x00000f00) >>> (8 - 1))
  let imm_b := imm_b ||| (((insn &&& 0x00000080) <<< (11 - 7)) % 4294967296)
  let imm_b := if insn &&& 0x80000000 ≠ 0 then imm_b ||| 0xfffff000 else imm_b
  toS32 imm_b

/-- `rv32i_decode::get_imm_s`. -/
def get_imm_s (insn : Nat) : Int :=
  let imm_s := (insn &&& 0xfe000000) >>> 20
  let imm_s := imm_s ||| ((insn &&& 0x00000f80) >>> 7)
  let imm_s := if insn &&& 0x80000000 ≠ 0 then imm_s ||| 0xfffff000 else imm_s
  toS32 imm_s

/-- `rv32i_decode::get_imm_j`. -/
def get_imm_j (insn : Nat) : Int :=
  let imm_j := insn &&& 0x000ff000
  let imm_j := imm_j ||| ((insn &&& 0x00100000) >>> (20 - 11))
  let imm_j := imm_j ||| ((insn &&& 0x7fe00000) >>> (30 - 10))
  let imm_j := imm_j ||| ((insn &&& 0x80000000) >>> (31 - 20))
  let imm_j := if insn &&& 0x80000000 ≠ 0 then imm_j ||| 0xfff00000 else imm_j
  toS32 imm_j

/-! ### hex (hex.cpp) and the text rendering -/

/-- The stream output `std::hex << std::setfill(0) << std::setw(width) << n`:
lower-case hexadecimal digits, padded on the left with zeros to at least `width`. -/
def hexPad (width n : Nat) : String :=
  let ds := Nat.toDigits 16 n
  String.mk (List.replicate (width - ds.length) '0' ++ ds)

/-- `hex::to_hex8`. -/
def to_hex8 (i : Nat) : String := hexPad 2 (i % 256)

/-- `hex::to_hex32`. -/
def to_hex32 (i : Nat) : String := hexPad 8 (i % 4294967296)

/-- `hex::to_hex0x32`. -/
def to_hex0x32 (i : Nat) : String := "0x" ++ to_hex32 i

/-- `hex::to_hex0x20`: five digits of `i >> 12`. -/
def to_hex0x20 (i : Nat) : String := "0x" ++ hexPad 5 ((i % 4294967296) >>> 12)

/-- `hex::to_hex0x12`: three digits of `((signed short)i) & 0x0fff`, the low 12 bits of `i`. -/
def to_hex0x12 (i : Nat) : String := "0x" ++ hexPad 3 ((i % 65536) &&& 0x0fff)

/-- `rv32i_decode::render_illegal_insn`. -/
def render_illegal_insn (_insn : Nat) : String := "ERROR: UNIMPLEMENTED INSTRUCTION"

/-- `rv32i_decode::render_reg`. -/
def render_reg (r : Nat) : String := "x" ++ toString r

/-- `rv32i_decode::render_base_disp`. -/
def render_base_disp (base : Nat) (disp : Int) : String :=
  toString disp ++ "(x" ++ toString base ++ ")"

/-- `rv32i_decode::render_mnemonic`: `setw(mnemonic_width)`, left-justified, filled with blanks. -/
def render_mnemonic (m : String) : String :=
  m ++ String.mk (List.replicate (mnemonic_width - m.length) ' ')

/-- `rv32i_decode::render_lui`. -/
def render_lui (insn : Nat) : String :=
  render_mnemonic "lui" ++ render_reg (get_rd insn) ++ "," ++ to_hex0x20 (toU32 (get_imm_u insn))

/-- `rv32i_decode::render_auipc`. -/
def render_auipc (insn : Nat) : String :=
  render_mnemonic "auipc" ++ render_reg (get_rd insn) ++ "," ++ to_hex0x20 (toU32 (get_imm_u insn))

/-- `rv32i_decode::render_jal`. -/
def render_jal (addr insn : Nat) : String :=
  let pcrel_21 : Int := toS32 (toU32 (get_imm_j insn + addr))
  render_mnemonic "jal" ++ render_reg (get_rd insn) ++ ",0x" ++ to_hex32 (toU32 pcrel_21)

/-- `rv32i_decode::render_jalr`. -/
def render_jalr (insn : Nat) : String :=
  render_mnemonic "jalr" ++ render_reg (get_rd insn) ++ ","
    ++ render_base_disp (get_rs1 insn) (get_imm_i insn)

/-- `rv32i_decode::render_btype`. -/
def render_btype (addr insn : Nat) (mnemonic : String) : String :=
  let pcrel_13 : Int := toS32 (toU32 (get_imm_b insn + addr))
  render_mnemonic mnemonic ++ render_reg (get_rs1 insn) ++ ",x" ++ toString (get_rs2 insn)
    ++ ",0x" ++ to_hex32 (toU32 pcrel_13)

/-- `rv32i_decode::render_itype_load`. -/
def render_itype_load (insn : Nat) (mnemonic : String) : String :=
  render_mnemonic mnemonic ++ render_reg (get_rd insn) ++ ","
    ++ render_base_disp (get_rs1 insn) (get_imm_i insn)

/-- `rv32i_decode::render_stype`. -/
def render_stype (insn : Nat) (mnemonic : String) : String :=
  render_mnemonic mnemonic ++ render_reg (get_rs2 insn) ++ ","
    ++ render_base_disp (get_rs1 insn) (get_imm_s insn)

/-- `rv32i_decode::render_itype_alu`. -/
def render_itype_alu (insn : Nat) (mnemonic : String) (imm_i : Int) : String :=
  render_mnemonic mnemonic ++ render_reg (get_rd insn) ++ ",x" ++ toString (get_rs1 insn)
    ++ "," ++ toString imm_i

/-- `rv32i_decode::render_rtype`. -/
def render_rtype (insn : Nat) (mnemonic : String) : String :=
  render_mnemonic mnemonic ++ render_reg (get_rd insn) ++ ",x" ++ toString (get_rs1 insn)
    ++ ",x" ++ toString (get_rs2 insn)

/-- `rv32i_decode::render_ecall`. -/
def render_ecall (_insn : Nat) : String := "ecall"

/-- `rv32i_decode::render_ebreak`. -/
def render_ebreak (_insn : Nat) : String := "ebreak"

/-- `rv32i_decode::render_csrrx`. -/
def render_csrrx (insn : Nat) (mnemonic : String) : String :=
  render_mnemonic mnemonic ++ render_reg (get_rd insn) ++ ","
    ++ to_hex0x12 (toU32 (get_imm_i insn)) ++ ",x" ++ toString (get_rs1 insn)

/-- `rv32i_decode::render_csrrxi`. -/
def render_csrrxi (insn : Nat) (mnemonic : String) : String :=
  render_mnemonic mnemonic ++ render_reg (get_rd insn) ++ ","
    ++ to_hex0x12 (toU32 (get_imm_i insn)) ++ "," ++ toString (get_rs1 insn)

/-- `rv32i_decode::decode`: the nested `switch` on opcode, funct3 and funct7
(and on the whole word for `SYSTEM`); every `case` returns. -/
def decode (addr insn : Nat) : String :=
  let opcode := get_opcode insn
  let funct3 := get_funct3 insn
  let funct7 := get_funct7 insn
  let imm_i := get_imm_i insn
  if opcode = opcode_lui then render_lui insn
  else if opcode = opcode_auipc then render_auipc insn
  else if opcode = opcode_rtype then
    if funct3 = funct3_add then
      if funct7 = funct7_add then render_rtype insn "add"
      else if funct7 = funct7_sub then render_rtype insn "sub"
      else render_illegal_insn insn
    else if funct3 = funct3_sll then render_rtype insn "sll"
    else if funct3 = funct3_slt then render_rtype insn "slt"
    else if funct3 = funct3_sltu then render_rtype insn "sltu"
    else if funct3 = funct3_xor then render_rtype insn "xor"
    else if funct3 = funct3_srx then
      if funct7 = funct7_srl then render_rtype insn "srl"
      else if funct7 = funct7_sra then render_rtype insn "sra"
      else render_illegal_insn insn
    else if funct3 = funct3_or then render_rtype insn "or"
    else if funct3 = funct3_and then render_rtype insn "and"
    else render_illegal_insn insn
  else if opcode = opcode_stype then
    if funct3 = funct3_sb then render_stype insn "sb"
    else if funct3 = funct3_sh then render_stype insn "sh"
    else if funct3 = funct3_sw then render_stype insn "sw"
    else render_illegal_insn insn
  else if opcode = opcode_alu_imm then
    if funct3 = funct3_sll then render_itype_alu insn "slli" imm_i
    else if funct3 = funct3_add then render_itype_alu insn "addi" imm_i
    else if funct3 = funct3_slt then render_itype_alu insn "slti" imm_i
    else if funct3 = funct3_sltu then render_itype_alu insn "sltiu" imm_i
    else if funct3 = funct3_xor then render_itype_alu insn "xori" imm_i
    else if funct3 = funct3_or then render_itype_alu insn "ori" imm_i
    else if funct3 = funct3_and then render_itype_alu insn "andi" imm_i
    else if funct3 = funct3_srx then
      if funct7 = funct7_srl then render_itype_alu insn "srli" imm_i
      else if funct7 = funct7_sra then render_itype_alu insn "srai" (toS32 (toU32 imm_i % XLEN))
      else render_illegal_insn insn
    else render_illegal_insn insn
  else if opcode = opcode_load_imm then
    if funct3 = funct3_lb then render_itype_load insn "lb"
    else if funct3 = funct3_lh then render_itype_load insn "lh"
    else if funct3 = funct3_lw then render_itype_load insn "lw"
    else if funct3 = funct3_lbu then render_itype_load insn "lbu"
    else if funct3 = funct3_lhu then render_itype_load insn "lhu"
    else render_illegal_insn insn
  else if opcode = opcode_btype then
    if funct3 = funct3_beq then render_btype addr insn "beq"
    else if funct3 = funct3_bne then render_btype addr insn "bne"
    else if funct3 = funct3_blt then render_btype addr insn "blt"
    else if funct3 = funct3_bge then render_btype addr insn "bge"
    else if funct3 = funct3_bltu then render_btype addr insn "bltu"
    else if funct3 = funct3_bgeu then render_btype addr insn "bgeu"
    else render_illegal_insn insn
  else if opcode = opcode_jal then render_jal addr insn
  else if opcode = opcode_jalr then render_jalr insn
  else if opcode = opcode_system then
    if insn = insn_ecall then render_ecall insn
    else if insn = insn_ebreak then render_ebreak insn
    else if funct3 = funct3_csrrw then render_csrrx insn "csrrw"
    else if funct3 = funct3_csrrs then render_csrrx insn "csrrs"
    else if funct3 = funct3_csrrc then render_csrrx insn "csrrc"
    else if funct3 = funct3_csrrwi then render_csrrxi insn "csrrwi"
    else if funct3 = funct3_csrrsi then render_csrrxi insn "csrrsi"
    else if funct3 = funct3_csrrci then render_csrrxi insn "csrrci"
    else render_illegal_insn insn
  else render_illegal_insn insn

/-! ## rv32i_hart (rv32i_hart.h, rv32i_hart.cpp) -/

/-- The class `rv32i_hart`: its data members, with the register file it owns and
the memory it refers to. -/
structure rv32i_hart where
  halt : Bool
  halt_reason : String
  insn_counter : Nat
  pc : Nat
  mhartid : Nat
  show_instructions : Bool
  show_registers : Bool
  regs : registerfile
  mem : memory
deriving DecidableEq, Repr

/-- A freshly constructed hart over the memory `m`: the member initialisers of
rv32i_hart.h and the `registerfile` constructor. -/
def rv32i_hart.new (m : memory) : rv32i_hart :=
  { halt := false, halt_reason := "none", insn_counter := 0, pc := 0, mhartid := 0,
    show_instructions := false, show_registers := false,
    regs := registerfile.new, mem := m }

/-- `rv32i_hart::reset`. -/
def rv32i_hart.reset (h : rv32i_hart) : rv32i_hart :=
  { h with pc := 0, regs := h.regs.reset, insn_counter := 0, halt := false,
           halt_reason := "none" }

/-- The statement `pc += 4;` on the `uint32_t` program counter. -/
def rv32i_hart.advance (h : rv32i_hart) : rv32i_hart :=
  { h with pc := (h.pc + 4) % 4294967296 }

/-- The C++ expression `x << s` on `int32_t` operands: the pattern of `x` shifted
left and cut to 32 bits; undefined (`none`) for a count outside `0..31`. -/
def shl32 (x s : Int) : Option Int :=
  if 0 ≤ s ∧ s < 32 then some (toS32 ((toU32 x <<< s.toNat) % 4294967296)) else none

/-- The C++ expression `(uint32_t)x >> s`: logical right shift; undefined (`none`) for a
count outside `0..31`. -/
def shr32 (x s : Int) : Option Int :=
  if 0 ≤ s ∧ s < 32 then some (toS32 (toU32 x >>> s.toNat)) else none

/-- The C++ expression `x >> s` on a signed `int32_t`: arithmetic right shift (floor
division by `2^s`); undefined (`none`) for a count outside `0..31`. -/
def sra32 (x s : Int) : Option Int :=
  if 0 ≤ s ∧ s < 32 then some (x / ((2 ^ s.toNat : Nat) : Int)) else none

/-- `rv32i_hart::exec_illegal_insn`. -/
def exec_illegal_insn (h : rv32i_hart) (_insn : Nat) : rv32i_hart :=
  { h with halt := true, halt_reason := "Illegal instruction" }

/-- `rv32i_hart::exec_lui`. -/
def exec_lui (h : rv32i_hart) (insn : Nat) : rv32i_hart :=
  let rd := get_rd insn
  let imm_u := get_imm_u insn
  ({ h with regs := h.regs.set rd imm_u }).advance

/-- `rv32i_hart::exec_auipc`. -/
def exec_auipc (h : rv32i_hart) (insn : Nat) : rv32i_hart :=
  let rd := get_rd insn
  let imm_u := get_imm_u insn
  let val : Int := toS32 (toU32 (imm_u + h.pc))
  ({ h with regs := h.regs.set rd val }).advance

/-- `rv32i_hart::exec_jal`. -/
def exec_jal (h : rv32i_hart) (insn : Nat) : rv32i_hart :=
  let rd := get_rd insn
  let imm_j := get_imm_j insn
  let val : Int := toS32 (toU32 (h.pc + imm_j))
  { h with regs := h.regs.set rd (toS32 ((h.pc + 4) % 4294967296)), pc := toU32 val }

/-- `rv32i_hart::exec_jalr`. -/
def exec_jalr (h : rv32i_hart) (insn : Nat) : rv32i_hart :=
  let rd := get_rd insn
  let imm_i := get_imm_i insn
  let rs1 := get_rs1 insn
  let val : Int := toS32 (toU32 (h.regs.get rs1 + imm_i) &&& 0xfffffffe)
  { h with regs := h.regs.set rd (toS32 ((h.pc + 4) % 4294967296)), pc := toU32 val }

/-- The common body of the six branch functions: `t_addr` is `pc + imm_b` when the
condition holds and `pc + 4` otherwise, then `pc = t_addr`. -/
def exec_branch (h : rv32i_hart) (insn : Nat) (taken : Bool) : rv32i_hart :=
  let imm_b := get_imm_b insn
  let t_addr : Int := if taken then toS32 (toU32 (h.pc + imm_b)) else toS32 ((h.pc + 4) % 4294967296)
  { h with pc := toU32 t_addr }

/-- `rv32i_hart::exec_beq`: the registers are compared as `uint32_t`. -/
def exec_beq (h : rv32i_hart) (insn : Nat) : rv32i_hart :=
  exec_branch h insn
    (decide (toU32 (h.regs.get (get_rs1 insn)) = toU32 (h.regs.get (get_rs2 insn))))

/-- `rv32i_hart::exec_bne`. -/
def exec_bne (h : rv32i_hart) (insn : Nat) : rv32i_hart :=
  exec_branch h insn (decide (h.regs.get (get_rs1 insn) ≠ h.regs.get (get_rs2 insn)))

/-- `rv32i_hart::exec_blt`: signed comparison. -/
def exec_blt (h : rv32i_hart) (insn : Nat) : rv32i_hart :=
  exec_branch h insn (decide (h.regs.get (get_rs1 insn) < h.regs.get (get_rs2 insn)))

/-- `rv32i_hart::exec_bge`: signed comparison. -/
def exec_bge (h : rv32i_hart) (insn : Nat) : rv32i_hart :=
  exec_branch h insn (decide (h.regs.get (get_rs1 insn) ≥ h.regs.get (get_rs2 insn)))

/-- `rv32i_hart::exec_bltu`: the registers are compared as `uint32_t`. -/
def exec_bltu (h : rv32i_hart) (insn : Nat) : rv32i_hart :=
  exec_branch h insn
    (decide (toU32 (h.regs.get (get_rs1 insn)) < toU32 (h.regs.get (get_rs2 insn))))

/-- `rv32i_hart::exec_bgeu`: the registers are compared as `uint32_t`. -/
def exec_bgeu (h : rv32i_hart) (insn : Nat) : rv32i_hart :=
  exec_branch h insn
    (decide (toU32 (h.regs.get (get_rs1 insn)) ≥ toU32 (h.regs.get (get_rs2 insn))))

/-- The effective address `regs.get(rs1) + imm` as a `uint32_t`. -/
def eff_addr (h : rv32i_hart) (insn : Nat) (imm : Int) : Nat :=
  toU32 (h.regs.get (get_rs1 insn) + imm)

/-- `rv32i_hart::exec_lb`. -/
def exec_lb (h : rv32i_hart) (insn : Nat) : rv32i_hart :=
  let t_addr := eff_addr h insn (get_imm_i insn)
  let val := h.mem.get8 t_addr
  let val := 0xff &&& val
  let val := if 0x80 &&& val ≠ 0 then (val + 0xffffff00) % 4294967296 else val
  ({ h with regs := h.regs.set (get_rd insn) (toS32 val) }).advance

/-- `rv32i_hart::exec_lh`. -/
def exec_lh (h : rv32i_hart) (insn : Nat) : rv32i_hart :=
  let t_addr := eff_addr h insn (get_imm_i insn)
  let val := h.mem.get16 t_addr
  let val := 0xffff &&& val
  let val := if 0x8000 &&& val ≠ 0 then (val + 0xffff0000) % 4294967296 else val
  ({ h with regs := h.regs.set (get_rd insn) (toS32 val) }).advance

/-- `rv32i_hart::exec_lw`. -/
def exec_lw (h : rv32i_hart) (insn : Nat) : rv32i_hart :=
  let t_addr := eff_addr h insn (get_imm_i insn)
  let val := h.mem.get32 t_addr
  ({ h with regs := h.regs.set (get_rd insn) (toS32 val) }).advance

/-- `rv32i_hart::exec_lbu`. -/
def exec_lbu (h : rv32i_hart) (insn : Nat) : rv32i_hart :=
  let t_addr := eff_addr h insn (get_imm_i insn)
  let val := h.mem.get8 t_addr &&& 0x000000ff
  ({ h with regs := h.regs.set (get_rd insn) (toS32 val) }).advance

/-- `rv32i_hart::exec_lhu`. -/
def exec_lhu (h : rv32i_hart) (insn : Nat) : rv32i_hart :=
  let t_addr := eff_addr h insn (get_imm_i insn)
  let val := h.mem.get16 t_addr &&& 0x0000ffff
  ({ h with regs := h.regs.set (get_rd insn) (toS32 val) }).advance

/-- `rv32i_hart::exec_sb`. -/
def exec_sb (h : rv32i_hart) (insn : Nat) : rv32i_hart :=
  let t_addr := eff_addr h insn (get_imm_s insn)
  let val := toU32 (h.regs.get (get_rs2 insn)) &&& 0x000000ff
  ({ h with mem := h.mem.set8 t_addr val }).advance

/-- `rv32i_hart::exec_sh`: `none` when `memory::set16` is undefined. -/
def exec_sh (h : rv32i_hart) (insn : Nat) : Option rv32i_hart :=
  let t_addr := eff_addr h insn (get_imm_s insn)
  let val := toU32 (h.regs.get (get_rs2 insn)) &&& 0x0000ffff
  (h.mem.set16 t_addr val).map (fun m => ({ h with mem := m }).advance)

/-- `rv32i_hart::exec_sw`: `none` when `memory::set32` is undefined. -/
def exec_sw (h : rv32i_hart) (insn : Nat) : Option rv32i_hart :=
  let t_addr := eff_addr h insn (get_imm_s insn)
  let val := toU32 (h.regs.get (get_rs2 insn))
  (h.mem.set32 t_addr val).map (fun m => ({ h with mem := m }).advance)

/-- The tail shared by the ALU functions: `regs.set(rd, val); pc += 4;`. -/
def write_rd (h : rv32i_hart) (insn : Nat) (val : Int) : rv32i_hart :=
  ({ h with regs := h.regs.set (get_rd insn) val }).advance

/-- `rv32i_hart::exec_addi`. -/
def exec_addi (h : rv32i_hart) (insn : Nat) : rv32i_hart :=
  let sum := toU32 (h.regs.get (get_rs1 insn) + get_imm_i insn)
  write_rd h insn (toS32 sum)

/-- `rv32i_hart::exec_slti`: signed comparison. -/
def exec_slti (h : rv32i_hart) (insn : Nat) : rv32i_hart :=
  write_rd h insn (if h.regs.get (get_rs1 insn) < get_imm_i insn then 1 else 0)

/-- `rv32i_hart::exec_sltiu`: both operands converted to `uint32_t`. -/
def exec_sltiu (h : rv32i_hart) (insn : Nat) : rv32i_hart :=
  write_rd h insn (if toU32 (h.regs.get (get_rs1 insn)) < toU32 (get_imm_i insn) then 1 else 0)

/-- `rv32i_hart::exec_xori`: the operator acts on the two's-complement patterns. -/
def exec_xori (h : rv32i_hart) (insn : Nat) : rv32i_hart :=
  write_rd h insn (toS32 (toU32 (h.regs.get (get_rs1 insn)) ^^^ toU32 (get_imm_i insn)))

/-- `rv32i_hart::exec_ori`. -/
def exec_ori (h : rv32i_hart) (insn : Nat) : rv32i_hart :=
  write_rd h insn (toS32 (toU32 (h.regs.get (get_rs1 insn)) ||| toU32 (get_imm_i insn)))

/-- `rv32i_hart::exec_andi`. -/
def exec_andi (h : rv32i_hart) (insn : Nat) : rv32i_hart :=
  write_rd h insn (toS32 (toU32 (h.regs.get (get_rs1 insn)) &&& toU32 (get_imm_i insn)))

/-- The local `shift` of `exec_slli`, `exec_srli` and `exec_srai`:
`int32_t shift = get_imm_i(insn) % XLEN`, the immediate being converted to the unsigned
type of `XLEN` for the remainder. -/
def imm_shift (insn : Nat) : Int := toS32 (toU32 (get_imm_i insn) % XLEN)

/-- `rv32i_hart::exec_slli`: `none` when the shift is undefined. -/
def exec_slli (h : rv32i_hart) (insn : Nat) : Option rv32i_hart :=
  (shl32 (h.regs.get (get_rs1 insn)) (imm_shift insn)).map (write_rd h insn)

/-- `rv32i_hart::exec_srli`: `none` when the shift is undefined. -/
def exec_srli (h : rv32i_hart) (insn : Nat) : Option rv32i_hart :=
  (shr32 (h.regs.get (get_rs1 insn)) (imm_shift insn)).map (write_rd h insn)

/-- `rv32i_hart::exec_srai`: `none` when the shift is undefined. -/
def exec_srai (h : rv32i_hart) (insn : Nat) : Option rv32i_hart :=
  (sra32 (h.regs.get (get_rs1 insn)) (imm_shift insn)).map (write_rd h insn)

/-- `rv32i_hart::exec_add`: 32-bit wrap. -/
def exec_add (h : rv32i_hart) (insn : Nat) : rv32i_hart :=
  write_rd h insn (toS32 (toU32 (h.regs.get (get_rs1 insn) + h.regs.get (get_rs2 insn))))

/-- `rv32i_hart::exec_sub`: 32-bit wrap. -/
def exec_sub (h : rv32i_hart) (insn : Nat) : rv32i_hart :=
  write_rd h insn (toS32 (toU32 (h.regs.get (get_rs1 insn) - h.regs.get (get_rs2 insn))))

/-- The local `shamt` / `shift` of `exec_sll`, `exec_srl` and `exec_sra`:
`regs.get(rs2) & 0x01f`. -/
def reg_shift (h : rv32i_hart) (insn : Nat) : Int :=
  ((toU32 (h.regs.get (get_rs2 insn)) &&& 0x01f : Nat) : Int)

/-- `rv32i_hart::exec_sll`. -/
def exec_sll (h : rv32i_hart) (insn : Nat) : Option rv32i_hart :=
  (shl32 (h.regs.get (get_rs1 insn)) (reg_shift h insn)).map (write_rd h insn)

/-- `rv32i_hart::exec_slt`: signed comparison. -/
def exec_slt (h : rv32i_hart) (insn : Nat) : rv32i_hart :=
  write_rd h insn (if h.regs.get (get_rs1 insn) < h.regs.get (get_rs2 insn) then 1 else 0)

/-- `rv32i_hart::exec_sltu`: both operands converted to `uint32_t`. -/
def exec_sltu (h : rv32i_hart) (insn : Nat) : rv32i_hart :=
  write_rd h insn
    (if toU32 (h.regs.get (get_rs1 insn)) < toU32 (h.regs.get (get_rs2 insn)) then 1 else 0)

/-- `rv32i_hart::exec_xor`. -/
def exec_xor (h : rv32i_hart) (insn : Nat) : rv32i_hart :=
  write_rd h insn
    (toS32 (toU32 (h.regs.get (get_rs1 insn)) ^^^ toU32 (h.regs.get (get_rs2 insn))))

/-- `rv32i_hart::exec_srl`. -/
def exec_srl (h : rv32i_hart) (insn : Nat) : Option rv32i_hart :=
  (shr32 (h.regs.get (get_rs1 insn)) (reg_shift h insn)).map (write_rd h insn)

/-- `rv32i_hart::exec_sra`. -/
def exec_sra (h : rv32i_hart) (insn : Nat) : Option rv32i_hart :=
  (sra32 (h.regs.get (get_rs1 insn)) (reg_shift h insn)).map (write_rd h insn)

/-- `rv32i_hart::exec_or`. -/
def exec_or (h : rv32i_hart) (insn : Nat) : rv32i_hart :=
  write_rd h insn
    (toS32 (toU32 (h.regs.get (get_rs1 insn)) ||| toU32 (h.regs.get (get_rs2 insn))))

/-- `rv32i_hart::exec_and`. -/
def exec_and (h : rv32i_hart) (insn : Nat) : rv32i_hart :=
  write_rd h insn
    (toS32 (toU32 (h.regs.get (get_rs1 insn)) &&& toU32 (h.regs.get (get_rs2 insn))))

/-- `rv32i_hart::exec_ebreak`. -/
def exec_ebreak (h : rv32i_hart) (_insn : Nat) : rv32i_hart :=
  { h with halt := true, halt_reason := "EBREAK instruction" }

/-- `rv32i_hart::exec_csrrs`: the halt flag is set first, and the register write and
the `pc += 4` are guarded by `if(!halt)`. -/
def exec_csrrs (h : rv32i_hart) (insn : Nat) : rv32i_hart :=
  let rd := get_rd insn
  let rs1 := get_rs1 insn
  let csr := toU32 (get_imm_i insn) &&& 0x00000fff
  let h1 := if csr ≠ 0xf14 ∨ rs1 ≠ 0 then
      { h with halt := true, halt_reason := "Illegal CSR in CRSS instruction" } else h
  if !h1.halt then ({ h1 with regs := h1.regs.set rd (toS32 h1.mhartid) }).advance else h1

/-- `rv32i_hart::exec`: the nested `switch` on opcode, funct3 and funct7 (and on the
whole word for `SYSTEM`); every `case` returns.  The result is `none` when the
function reached has undefined behaviour. -/
def exec (h : rv32i_hart) (insn : Nat) : Option rv32i_hart :=
  let opcode := get_opcode insn
  let funct3 := get_funct3 insn
  let funct7 := get_funct7 insn
  if opcode = opcode_lui then some (exec_lui h insn)
  else if opcode = opcode_auipc then some (exec_auipc h insn)
  else if opcode = opcode_rtype then
    if funct3 = funct3_add then
      if funct7 = funct7_add then some (exec_add h insn)
      else if funct7 = funct7_sub then some (exec_sub h insn)
      else some (exec_illegal_insn h insn)
    else if funct3 = funct3_sll then exec_sll h insn
    else if funct3 = funct3_slt then some (exec_slt h insn)
    else if funct3 = funct3_sltu then some (exec_sltu h insn)
    else if funct3 = funct3_xor then some (exec_xor h insn)
    else if funct3 = funct3_srx then
      if funct7 = funct7_srl then exec_srl h insn
      else if funct7 = funct7_sra then exec_sra h insn
      else some (exec_illegal_insn h insn)
    else if funct3 = funct3_or then some (exec_or h insn)
    else if funct3 = funct3_and then some (exec_and h insn)
    else some (exec_illegal_insn h insn)
  else if opcode = opcode_stype then
    if funct3 = funct3_sb then some (exec_sb h insn)
    else if funct3 = funct3_sh then exec_sh h insn
    else if funct3 = funct3_sw then exec_sw h insn
    else some (exec_illegal_insn h insn)
  else if opcode = opcode_alu_imm then
    if funct3 = funct3_sll then exec_slli h insn
    else if funct3 = funct3_add then some (exec_addi h insn)
    else if funct3 = funct3_slt then some (exec_slti h insn)
    else if funct3 = funct3_sltu then some (exec_sltiu h insn)
    else if funct3 = funct3_xor then some (exec_xori h insn)
    else if funct3 = funct3_or then some (exec_ori h insn)
    else if funct3 = funct3_and then some (exec_andi h insn)
    else if funct3 = funct3_srx then
      if funct7 = funct7_srl then exec_srli h insn
      else if funct7 = funct7_sra then exec_srai h insn
      else some (exec_illegal_insn h insn)
    else some (exec_illegal_insn h insn)
  else if opcode = opcode_load_imm then
    if funct3 = funct3_lb then some (exec_lb h insn)
    else if funct3 = funct3_lh then some (exec_lh h insn)
    else if funct3 = funct3_lw then some (exec_lw h insn)
    else if funct3 = funct3_lbu then some (exec_lbu h insn)
    else if funct3 = funct3_lhu then some (exec_lhu h insn)
    else some (exec_illegal_insn h insn)
  else if opcode = opcode_btype then
    if funct3 = funct3_beq then some (exec_beq h insn)
    else if funct3 = funct3_bne then some (exec_bne h insn)
    else if funct3 = funct3_blt then some (exec_blt h insn)
    else if funct3 = funct3_bge then some (exec_bge h insn)
    else if funct3 = funct3_bltu then some (exec_bltu h insn)
    else if funct3 = funct3_bgeu then some (exec_bgeu h insn)
    else some (exec_illegal_insn h insn)
  else if opcode = opcode_jal then some (exec_jal h insn)
  else if opcode = opcode_jalr then some (exec_jalr h insn)
  else if opcode = opcode_system then
    if insn = insn_ebreak then some (exec_ebreak h insn)
    else if funct3 = funct3_csrrs then some (exec_csrrs h insn)
    else some (exec_illegal_insn h insn)
  else some (exec_illegal_insn h insn)

/-- `rv32i_hart::tick`: nothing happens on a halted hart; otherwise the counter
(a `uint64_t`) is incremented, the word at `pc` is fetched and executed. -/
def tick (h : rv32i_hart) : Option rv32i_hart :=
  if h.halt then some h
  else
    let h1 := { h with insn_counter := (h.insn_counter + 1) % 18446744073709551616 }
    let insn := h1.mem.get32 h1.pc
    exec h1 insn

/-- The hart after `n` calls of `tick` (`none` as soon as one of them is undefined). -/
def ticks : Nat → rv32i_hart → Option rv32i_hart
  | 0, h => some h
  | n + 1, h =>
    match tick h with
    | none => none
    | some h1 => ticks n h1

/-- The register-file states reachable from `reset()` by calls `set(r, v)` with a
register number `r` in `0..31`. -/
inductive registerfile.Reachable : registerfile → Prop
  | reset (rf : registerfile) : registerfile.Reachable rf.reset
  | set (rf : registerfile) (r : Nat) (v : Int) :
      registerfile.Reachable rf → r < 32 → registerfile.Reachable (rf.set r v)

/-- The register file after an instruction function is the old one, or the old one after
one `set(rd, v)`. -/
def RegsStep (h : rv32i_hart) (insn : Nat) (o : Option rv32i_hart) : Prop :=
  ∀ h', o = some h' → h'.regs = h.regs ∨ ∃ v, h'.regs = h.regs.set (get_rd insn) v

/-- The type invariant of `int32_t reg[32]`: 32 slots, each holding a value of
`[-2^31, 2^31)`. -/
def registerfile.wf (rf : registerfile) : Bool :=
  decide (rf.reg.length = 32) &&
    rf.reg.all (fun v => decide (-2147483648 ≤ v) && decide (v < 2147483648))

/-- `memory::load_file` on the bytes of the opened file, from address `addr` on: each byte
is stored while `check_illegal(addr)` holds; the result is `false` as soon as a byte lies
outside the memory. -/
def memory.load_from (m : memory) : Nat → List Nat → Bool × memory
  | _, [] => (true, m)
  | addr, b :: bs =>
    if m.check_illegal addr then
      memory.load_from { mem := m.mem.set addr (toByte b) } ((addr + 1) % 4294967296) bs
    else (false, m)

/-- `memory::load_file` for a file that could be opened, given by its bytes. -/
def memory.load_file (m : memory) (bytes : List Nat) : Bool × memory :=
  m.load_from 0 bytes

/-! ## cpu_single_hart (cpu_single_hart.cpp) -/

/-- The condition of the `while` loop of `cpu_single_hart::run`. -/
def run_continues (exec_limit : Nat) (h : rv32i_hart) : Bool :=
  (!h.halt && exec_limit == 0) || (!h.halt && decide (h.insn_counter < exec_limit))

/-- The `while` loop of `cpu_single_hart::run`, unrolled at most `fuel` times: `none` when
a tick is undefined or the loop has not ended after `fuel` ticks. -/
def run_loop : Nat → Nat → rv32i_hart → Option rv32i_hart
  | 0, exec_limit, h => if run_continues exec_limit h then none else some h
  | fuel + 1, exec_limit, h =>
    if run_continues exec_limit h then
      match tick h with
      | none => none
      | some h1 => run_loop fuel exec_limit h1
    else some h

/-- `cpu_single_hart::run`: `regs.set(2, mem.get_size())`, then the loop (the two lines
printed at the end are not modelled). -/
def run (fuel exec_limit : Nat) (h : rv32i_hart) : Option rv32i_hart :=
  run_loop fuel exec_limit { h with regs := h.regs.set 2 (toS32 h.mem.get_size) }

/-! ## The scenarios of the specification -/

/-- The little-endian bytes of a list of 32-bit words, as they stand in a program image. -/
def image_of_words : List Nat → List Nat
  | [] => []
  | w :: ws => w % 256 :: w / 256 % 256 :: w / 65536 % 256 :: w / 16777216 % 256
      :: image_of_words ws

/-- A fresh hart over a memory of the default size `0x100` loaded with a program image. -/
def scenario (words : List Nat) : rv32i_hart :=
  rv32i_hart.new ((memory.new 0x100).load_file (image_of_words words)).2

/-- The observable outcome of a run: halt flag, halt reason, instruction counter and PC. -/
def outcome (h : rv32i_hart) : Bool × String × Nat × Nat :=
  (h.halt, h.halt_reason, h.insn_counter, h.pc)

/-- What the specification says of a branch: the new PC is `(pc + imm_b) mod 2^32` when the
predicate holds and `(pc + 4) mod 2^32` otherwise, and nothing else of the hart changes. -/
def BranchStep (h : rv32i_hart) (insn : Nat) (taken : Prop) [Decidable taken]
    (o : Option rv32i_hart) : Prop :=
  ∃ h', o = some h' ∧
    ((h'.pc : Nat) : Int) = (if taken then (((h.pc : Nat) : Int) + get_imm_b insn) % 4294967296
      else (((h.pc : Nat) : Int) + 4) % 4294967296) ∧
    h'.regs = h.regs ∧ h'.mem = h.mem ∧ h'.halt = h.halt ∧ h'.halt_reason = h.halt_reason

/-- What the specification says of an instruction that writes `rd` and falls through:
`rd` receives `v` (nothing is stored for `rd = 0`), the PC advances by 4 modulo `2^32`,
and the memory and the halt state are unchanged. -/
def WritesRd (h : rv32i_hart) (insn : Nat) (v : Int) (o : Option rv32i_hart) : Prop :=
  ∃ h', o = some h' ∧ h'.regs = h.regs.set (get_rd insn) v ∧
    h'.pc = (h.pc + 4) % 4294967296 ∧ h'.mem = h.mem ∧ h'.halt = h.halt ∧
    h'.halt_reason = h.halt_reason

/-- What the specification says of an arithmetic right shift: `v` is
`floor(x / 2^s)`, negative exactly when `x` is. -/
def IsSra (x : Int) (s : Nat) (v : Int) : Prop :=
  v * 2 ^ s ≤ x ∧ x < (v + 1) * 2 ^ s ∧ (v < 0 ↔ x < 0)

/-- What the specification says of a logical right shift: the pattern of `v` is
`floor(unsigned(x) / 2^s)`. -/
def IsSrl (x : Int) (s : Nat) (v : Int) : Prop :=
  toU32 v = toU32 x / 2 ^ s

/-- What the specification says of an instruction of linear code: it is executed, the PC
advances by 4 modulo `2^32` and the halt flag is unchanged. -/
def Advances (h : rv32i_hart) (o : Option rv32i_hart) : Prop :=
  ∃ h', o = some h' ∧ h'.pc = (h.pc + 4) % 4294967296 ∧ h'.halt = h.halt

/-! ## Definitions for the run loop, the reset and the rendering contract -/

/-- The state in which the `while` loop of `cpu_single_hart::run` starts, after
`regs.set(2, mem.get_size())`. -/
def run_start (h : rv32i_hart) : rv32i_hart :=
  { h with regs := h.regs.set 2 (toS32 h.mem.get_size) }

/-- The text `rv32i_hart::tick` sends to `std::cout`: nothing on a halted hart
(`if (halt) return;`); on a running hart the register dump, the warnings of the memory
and the trace line, which are not modelled here and come as the parameter `running_text`. -/
def tick_text (running_text : rv32i_hart → String → String) (h : rv32i_hart) (hdr : String) :
    String :=
  if h.halt then "" else running_text h hdr

/-- The specification's rounding of the memory size: `n` is the least multiple of 16 that
is at least `s`. -/
def IsLeastMultiple16 (s n : Nat) : Prop :=
  n % 16 = 0 ∧ s ≤ n ∧ ∀ k, k % 16 = 0 → s ≤ k → n ≤ k

/-- The mnemonics `decode` passes to `render_mnemonic`. -/
def padded_mnemonics : List String :=
  ["lui", "auipc", "add", "sub", "sll", "slt", "sltu", "xor", "srl", "sra", "or", "and",
   "sb", "sh", "sw", "slli", "addi", "slti", "sltiu", "xori", "ori", "andi", "srli", "srai",
   "lb", "lh", "lw", "lbu", "lhu", "beq", "bne", "blt", "bge", "bltu", "bgeu", "jal", "jalr",
   "csrrw", "csrrs", "csrrc", "csrrwi", "csrrsi", "csrrci"]

/-- The words for which the nested `switch` of `rv32i_hart::exec` ends in a `default:` label:
every one of these labels calls `exec_illegal_insn`. -/
def dispatches_illegal (insn : Nat) : Bool :=
  if get_opcode insn = opcode_lui then false
  else if get_opcode insn = opcode_auipc then false
  else if get_opcode insn = opcode_rtype then
    if get_funct3 insn = funct3_add then
      if get_funct7 insn = funct7_add then false
      else if get_funct7 insn = funct7_sub then false
      else true
    else if get_funct3 insn = funct3_sll then false
    else if get_funct3 insn = funct3_slt then false
    else if get_funct3 insn = funct3_sltu then false
    else if get_funct3 insn = funct3_xor then false
    else if get_funct3 insn = funct3_srx then
      if get_funct7 insn = funct7_srl then false
      else if get_funct7 insn = funct7_sra then false
      else true
    else if get_funct3 insn = funct3_or then false
    else if get_funct3 insn = funct3_and then false
    else true
  else if get_opcode insn = opcode_stype then
    if get_funct3 insn = funct3_sb then false
    else if get_funct3 insn = funct3_sh then false
    else if get_funct3 insn = funct3_sw then false
    else true
  else if get_opcode insn = opcode_alu_imm then
    if get_funct3 insn = funct3_sll then false
    else if get_funct3 insn = funct3_add then false
    else if get_funct3 insn = funct3_slt then false
    else if get_funct3 insn = funct3_sltu then false
    else if get_funct3 insn = funct3_xor then false
    else if get_funct3 insn = funct3_or then false
    else if get_funct3 insn = funct3_and then false
    else if get_funct3 insn = funct3_srx then
      if get_funct7 insn = funct7_srl then false
      else if get_funct7 insn = funct7_sra then false
      else true
    else true
  else if get_opcode insn = opcode_load_imm then
    if get_funct3 insn = funct3_lb then false
    else if get_funct3 insn = funct3_lh then false
    else if get_funct3 insn = funct3_lw then false
    else if get_funct3 insn = funct3_lbu then false
    else if get_funct3 insn = funct3_lhu then false
    else true
  else if get_opcode insn = opcode_btype then
    if get_funct3 insn = funct3_beq then false
    else if get_funct3 insn = funct3_bne then false
    else if get_funct3 insn = funct3_blt then false
    else if get_funct3 insn = funct3_bge then false
    else if get_funct3 insn = funct3_bltu then false
    else if get_funct3 insn = funct3_bgeu then false
    else true
  else if get_opcode insn = opcode_jal then false
  else if get_opcode insn = opcode_jalr then false
  else if get_opcode insn = opcode_system then
    if insn = insn_ebreak then false
    else if get_funct3 insn = funct3_csrrs then false
    else true
  else true

/-- What every instruction function leaves alone: the instruction counter and the hart id. -/
def KeepsCounter (h : rv32i_hart) (o : Option rv32i_hart) : Prop :=
  ∀ h', o = some h' → h'.insn_counter = h.insn_counter ∧ h'.mhartid = h.mhartid

/-- The state `exec` is called on by `tick`: the counter has been incremented. -/
def counted (h : rv32i_hart) : rv32i_hart :=
  { h with insn_counter := (h.insn_counter + 1) % 18446744073709551616 }

/-- The store functions are the only ones whose result can be undefined. -/
def DefinedUnlessStore (h : rv32i_hart) (insn : Nat) (o : Option rv32i_hart) : Prop :=
  o = none → get_opcode insn = opcode_stype ∧
    ((get_funct3 insn = funct3_sh ∧ h.mem.mem.length ≤ eff_addr h insn (get_imm_s insn)) ∨
     (get_funct3 insn = funct3_sw ∧ (h.mem.mem.length ≤ 4294967296 →
        h.mem.mem.length ≤ eff_addr h insn (get_imm_s insn) + 2)))

/-! ## Definitions for the stores, the reachable states, the trace and the legality -/

/-- The memory after the four byte stores of a clean little-endian word store. -/
def store_word_bytes (m : memory) (a v : Nat) : memory :=
  (((m.set8 a v).set8 (a + 1) (v >>> 8)).set8 (a + 2) (v >>> 16)).set8 (a + 3) (v >>> 24)

/-- The memory after the two byte stores of a clean little-endian halfword store. -/
def store_half_bytes (m : memory) (a v : Nat) : memory :=
  (m.set8 a v).set8 (a + 1) (v >>> 8)

/-- The hart states reachable from a freshly constructed hart by `tick`, `reset` and
`run`. -/
inductive rv32i_hart.Reached : rv32i_hart → Prop
  | fresh (m : memory) : rv32i_hart.Reached (rv32i_hart.new m)
  | by_tick (h h' : rv32i_hart) : rv32i_hart.Reached h → tick h = some h' →
      rv32i_hart.Reached h'
  | by_reset (h : rv32i_hart) : rv32i_hart.Reached h → rv32i_hart.Reached h.reset
  | by_run (h h' : rv32i_hart) (fuel exec_limit : Nat) : rv32i_hart.Reached h →
      run fuel exec_limit h = some h' → rv32i_hart.Reached h'

/-- What `exec` does to an even PC. -/
def PcEvenStep (h : rv32i_hart) (o : Option rv32i_hart) : Prop :=
  h.pc % 2 = 0 → ∀ h', o = some h' → h'.pc % 2 = 0

/-- The halt flag and the halt reason agree: running exactly with the reason `"none"`, and
halted only with one of the three reasons the executor assigns. -/
def halt_consistent (h : rv32i_hart) : Prop :=
  (h.halt = false ↔ h.halt_reason = "none") ∧
  (h.halt = true → h.halt_reason = "EBREAK instruction" ∨
    h.halt_reason = "Illegal instruction" ∨
    h.halt_reason = "Illegal CSR in CRSS instruction")

/-- What `exec` does to a consistent halt state. -/
def HaltStep (h : rv32i_hart) (o : Option rv32i_hart) : Prop :=
  halt_consistent h → ∀ h', o = some h' → halt_consistent h'

/-- The number of bytes a store of the word writes: 1, 2, 4 for the words `exec` dispatches
to `exec_sb`, `exec_sh`, `exec_sw`, and 0 for every other word. -/
def store_width (insn : Nat) : Nat :=
  if get_opcode insn = opcode_stype then
    if get_funct3 insn = funct3_sb then 1
    else if get_funct3 insn = funct3_sh then 2
    else if get_funct3 insn = funct3_sw then 4
    else 0
  else 0

/-- The memory frame of one instruction: the size is kept, every byte outside
`[ea, ea + store_width)` is kept, where `ea = regs[rs1] + imm_s` modulo `2^32`, and a store
changes no register. -/
def FrameStep (h : rv32i_hart) (insn : Nat) (o : Option rv32i_hart) : Prop :=
  h.mem.mem.length ≤ 0xfffffff0 → ∀ h', o = some h' →
    h'.mem.mem.length = h.mem.mem.length ∧
    (∀ b, ¬ (eff_addr h insn (get_imm_s insn) ≤ b ∧
        b < eff_addr h insn (get_imm_s insn) + store_width insn) →
      h'.mem.get8 b = h.mem.get8 b) ∧
    (store_width insn ≠ 0 → h'.regs = h.regs)

/-- The setters `set_show_instructions(a)` and `set_show_registers(b)` of rv32i_hart.h. -/
def rv32i_hart.with_flags (h : rv32i_hart) (a b : Bool) : rv32i_hart :=
  { h with show_instructions := a, show_registers := b }

/-- The constant `instruction_width` of rv32i_hart.h. -/
def instruction_width : Nat := 35

/-- The statement `*pos << std::setw(instruction_width) << std::setfill(' ') << std::left << s`
of the instruction functions: `s` padded with blanks on the right to `instruction_width`
characters, and unchanged when it is longer. -/
def render_insn_field (s : String) : String :=
  s ++ String.mk (List.replicate (instruction_width - s.length) ' ')

/-- The two output statements the instruction functions execute when `pos` is not null:
the field with the rendered instruction, then the operands of the second `<<` chain,
which ends with `std::endl`. -/
def trace_line (s : String) (comment : List String) : String :=
  render_insn_field s ++ String.join comment ++ "\n"

/-- The trace text of the six branch functions: `op` is the comparison they print and
`taken` the condition they test. -/
def trace_branch (h : rv32i_hart) (insn : Nat) (mnemonic op : String) (taken : Bool) : String :=
  let t_addr : Int :=
    if taken then toS32 (toU32 (h.pc + get_imm_b insn)) else toS32 ((h.pc + 4) % 4294967296)
  trace_line (render_btype h.pc insn mnemonic)
    ["// pc += (", to_hex0x32 (toU32 (h.regs.get (get_rs1 insn))), op,
     to_hex0x32 (toU32 (h.regs.get (get_rs2 insn))), " ? ",
     to_hex0x32 (toU32 (get_imm_b insn)), " : 4) = ", to_hex0x32 (toU32 t_addr)]

/-- The text `exec_lui` writes to the trace stream. -/
def trace_lui (_h : rv32i_hart) (insn : Nat) : String :=
  trace_line (render_lui insn)
    ["// ", render_reg (get_rd insn), " = ", to_hex0x32 (toU32 (get_imm_u insn))]

/-- The text `exec_auipc` writes to the trace stream. -/
def trace_auipc (h : rv32i_hart) (insn : Nat) : String :=
  let val : Int := toS32 (toU32 (get_imm_u insn + h.pc))
  trace_line (render_auipc insn)
    ["// ", render_reg (get_rd insn), " = ", to_hex0x32 h.pc, " + ",
     to_hex0x32 (toU32 (get_imm_u insn)), " = ", to_hex0x32 (toU32 (val))]

/-- The text `exec_jal` writes to the trace stream. -/
def trace_jal (h : rv32i_hart) (insn : Nat) : String :=
  let val : Int := toS32 (toU32 (h.pc + get_imm_j insn))
  trace_line (render_jal h.pc insn)
    ["// ", render_reg (get_rd insn), " = ", to_hex0x32 ((h.pc + 4) % 4294967296), ",  pc = ",
     to_hex0x32 h.pc, " + ", to_hex0x32 (toU32 (get_imm_j insn)), " = ",
     to_hex0x32 (toU32 (val))]

/-- The text `exec_jalr` writes to the trace stream. -/
def trace_jalr (h : rv32i_hart) (insn : Nat) : String :=
  let val : Int := toS32 (toU32 (h.regs.get (get_rs1 insn) + get_imm_i insn) &&& 0xfffffffe)
  trace_line (render_jalr insn)
    ["// ", render_reg (get_rd insn), " = ", to_hex0x32 ((h.pc + 4) % 4294967296), ",  pc = (",
     to_hex0x32 (toU32 (get_imm_i insn)), " + ", to_hex0x32 (toU32 (h.regs.get (get_rs1 insn))),
     ") & 0xfffffffe = ", to_hex0x32 (toU32 (val))]

/-- The text `exec_beq` writes to the trace stream. -/
def trace_beq (h : rv32i_hart) (insn : Nat) : String :=
  trace_branch h insn "beq" " == "
    (decide (toU32 (h.regs.get (get_rs1 insn)) = toU32 (h.regs.get (get_rs2 insn))))

/-- The text `exec_bne` writes to the trace stream. -/
def trace_bne (h : rv32i_hart) (insn : Nat) : String :=
  trace_branch h insn "bne" " != "
    (decide (h.regs.get (get_rs1 insn) ≠ h.regs.get (get_rs2 insn)))

/-- The text `exec_blt` writes to the trace stream. -/
def trace_blt (h : rv32i_hart) (insn : Nat) : String :=
  trace_branch h insn "blt" " < "
    (decide (h.regs.get (get_rs1 insn) < h.regs.get (get_rs2 insn)))

/-- The text `exec_bge` writes to the trace stream. -/
def trace_bge (h : rv32i_hart) (insn : Nat) : String :=
  trace_branch h insn "bge" " >= "
    (decide (h.regs.get (get_rs1 insn) ≥ h.regs.get (get_rs2 insn)))

/-- The text `exec_bltu` writes to the trace stream. -/
def trace_bltu (h : rv32i_hart) (insn : Nat) : String :=
  trace_branch h insn "bltu" " <U "
    (decide (toU32 (h.regs.get (get_rs1 insn)) < toU32 (h.regs.get (get_rs2 insn))))

/-- The text `exec_bgeu` writes to the trace stream. -/
def trace_bgeu (h : rv32i_hart) (insn : Nat) : String :=
  trace_branch h insn "bgeu" " >=U "
    (decide (toU32 (h.regs.get (get_rs1 insn)) ≥ toU32 (h.regs.get (get_rs2 insn))))

/-- The text `exec_lb` writes to the trace stream. -/
def trace_lb (h : rv32i_hart) (insn : Nat) : String :=
  let val := h.mem.get8 (eff_addr h insn (get_imm_i insn))
  let val := 0xff &&& val
  let val := if 0x80 &&& val ≠ 0 then (val + 0xffffff00) % 4294967296 else val
  trace_line (render_itype_load insn "lb")
    ["// ", render_reg (get_rd insn), " = sx(m8(",
     to_hex0x32 (toU32 (h.regs.get (get_rs1 insn))), " + ", to_hex0x32 (toU32 (get_imm_i insn)),
     ")) = ", to_hex0x32 val]

/-- The text `exec_lh` writes to the trace stream. -/
def trace_lh (h : rv32i_hart) (insn : Nat) : String :=
  let val := h.mem.get16 (eff_addr h insn (get_imm_i insn))
  let val := 0xffff &&& val
  let val := if 0x8000 &&& val ≠ 0 then (val + 0xffff0000) % 4294967296 else val
  trace_line (render_itype_load insn "lh")
    ["// ", render_reg (get_rd insn), " = sx(m16(",
     to_hex0x32 (toU32 (h.regs.get (get_rs1 insn))), " + ", to_hex0x32 (toU32 (get_imm_i insn)),
     ")) = ", to_hex0x32 val]

/-- The text `exec_lw` writes to the trace stream. -/
def trace_lw (h : rv32i_hart) (insn : Nat) : String :=
  let val := h.mem.get32 (eff_addr h insn (get_imm_i insn))
  trace_line (render_itype_load insn "lw")
    ["// ", render_reg (get_rd insn), " = sx(m32(",
     to_hex0x32 (toU32 (h.regs.get (get_rs1 insn))), " + ", to_hex0x32 (toU32 (get_imm_i insn)),
     ")) = ", to_hex0x32 val]

/-- The text `exec_lbu` writes to the trace stream. -/
def trace_lbu (h : rv32i_hart) (insn : Nat) : String :=
  let val := h.mem.get8 (eff_addr h insn (get_imm_i insn)) &&& 0x000000ff
  trace_line (render_itype_load insn "lbu")
    ["// ", render_reg (get_rd insn), " = zx(m8(",
     to_hex0x32 (toU32 (h.regs.get (get_rs1 insn))), " + ", to_hex0x32 (toU32 (get_imm_i insn)),
     ")) = ", to_hex0x32 val]

/-- The text `exec_lhu` writes to the trace stream. -/
def trace_lhu (h : rv32i_hart) (insn : Nat) : String :=
  let val := h.mem.get16 (eff_addr h insn (get_imm_i insn)) &&& 0x0000ffff
  trace_line (render_itype_load insn "lhu")
    ["// ", render_reg (get_rd insn), " = zx(m16(",
     to_hex0x32 (toU32 (h.regs.get (get_rs1 insn))), " + ", to_hex0x32 (toU32 (get_imm_i insn)),
     ")) = ", to_hex0x32 val]

/-- The text `exec_sb` writes to the trace stream. -/
def trace_sb (h : rv32i_hart) (insn : Nat) : String :=
  let val := toU32 (h.regs.get (get_rs2 insn)) &&& 0x000000ff
  trace_line (render_stype insn "sb")
    ["// m8(", to_hex0x32 (toU32 (h.regs.get (get_rs1 insn))), " + ",
     to_hex0x32 (toU32 (get_imm_s insn)), ") = ", to_hex0x32 val]

/-- The text `exec_sh` writes to the trace stream. -/
def trace_sh (h : rv32i_hart) (insn : Nat) : String :=
  let val := toU32 (h.regs.get (get_rs2 insn)) &&& 0x0000ffff
  trace_line (render_stype insn "sh")
    ["// m16(", to_hex0x32 (toU32 (h.regs.get (get_rs1 insn))), " + ",
     to_hex0x32 (toU32 (get_imm_s insn)), ") = ", to_hex0x32 val]

/-- The text `exec_sw` writes to the trace stream. -/
def trace_sw (h : rv32i_hart) (insn : Nat) : String :=
  let val := toU32 (h.regs.get (get_rs2 insn))
  trace_line (render_stype insn "sw")
    ["// m32(", to_hex0x32 (toU32 (h.regs.get (get_rs1 insn))), " + ",
     to_hex0x32 (toU32 (get_imm_s insn)), ") = ", to_hex0x32 val]

/-- The text `exec_addi` writes to the trace stream. -/
def trace_addi (h : rv32i_hart) (insn : Nat) : String :=
  let sum := toU32 (h.regs.get (get_rs1 insn) + get_imm_i insn)
  trace_line (render_itype_alu insn "addi" (get_imm_i insn))
    ["// ", render_reg (get_rd insn), " = ", to_hex0x32 (toU32 (h.regs.get (get_rs1 insn))),
     " + ", to_hex0x32 (toU32 (get_imm_i insn)), " = ", to_hex0x32 sum]

/-- The text `exec_slti` writes to the trace stream. -/
def trace_slti (h : rv32i_hart) (insn : Nat) : String :=
  let val : Int := if h.regs.get (get_rs1 insn) < get_imm_i insn then 1 else 0
  trace_line (render_itype_alu insn "slti" (get_imm_i insn))
    ["// ", render_reg (get_rd insn), " = (", to_hex0x32 (toU32 (h.regs.get (get_rs1 insn))),
     " < ", toString (get_imm_i insn), ") ? 1 : 0 = ", to_hex0x32 (toU32 (val))]

/-- The text `exec_sltiu` writes to the trace stream. -/
def trace_sltiu (h : rv32i_hart) (insn : Nat) : String :=
  let val : Int := if toU32 (h.regs.get (get_rs1 insn)) < toU32 (get_imm_i insn) then 1 else 0
  trace_line (render_itype_alu insn "sltiu" (get_imm_i insn))
    ["// ", render_reg (get_rd insn), " = (", to_hex0x32 (toU32 (h.regs.get (get_rs1 insn))),
     " <U ", toString (get_imm_i insn), ") ? 1 : 0 = ", to_hex0x32 (toU32 (val))]

/-- The text `exec_xori` writes to the trace stream. -/
def trace_xori (h : rv32i_hart) (insn : Nat) : String :=
  let val : Int := toS32 (toU32 (h.regs.get (get_rs1 insn)) ^^^ toU32 (get_imm_i insn))
  trace_line (render_itype_alu insn "xori" (get_imm_i insn))
    ["// ", render_reg (get_rd insn), " = ", to_hex0x32 (toU32 (h.regs.get (get_rs1 insn))),
     " ^ ", to_hex0x32 (toU32 (get_imm_i insn)), " = ", to_hex0x32 (toU32 (val))]

/-- The text `exec_ori` writes to the trace stream. -/
def trace_ori (h : rv32i_hart) (insn : Nat) : String :=
  let val : Int := toS32 (toU32 (h.regs.get (get_rs1 insn)) ||| toU32 (get_imm_i insn))
  trace_line (render_itype_alu insn "ori" (get_imm_i insn))
    ["// ", render_reg (get_rd insn), " = ", to_hex0x32 (toU32 (h.regs.get (get_rs1 insn))),
     " | ", to_hex0x32 (toU32 (get_imm_i insn)), " = ", to_hex0x32 (toU32 (val))]

/-- The text `exec_andi` writes to the trace stream. -/
def trace_andi (h : rv32i_hart) (insn : Nat) : String :=
  let val : Int := toS32 (toU32 (h.regs.get (get_rs1 insn)) &&& toU32 (get_imm_i insn))
  trace_line (render_itype_alu insn "andi" (get_imm_i insn))
    ["// ", render_reg (get_rd insn), " = ", to_hex0x32 (toU32 (h.regs.get (get_rs1 insn))),
     " & ", to_hex0x32 (toU32 (get_imm_i insn)), " = ", to_hex0x32 (toU32 (val))]

/-- The text `exec_add` writes to the trace stream. -/
def trace_add (h : rv32i_hart) (insn : Nat) : String :=
  let val : Int := toS32 (toU32 (h.regs.get (get_rs1 insn) + h.regs.get (get_rs2 insn)))
  trace_line (render_rtype insn "add")
    ["// ", render_reg (get_rd insn), " = ", to_hex0x32 (toU32 (h.regs.get (get_rs1 insn))),
     " + ", to_hex0x32 (toU32 (h.regs.get (get_rs2 insn))), " = ", to_hex0x32 (toU32 (val))]

/-- The text `exec_sub` writes to the trace stream. -/
def trace_sub (h : rv32i_hart) (insn : Nat) : String :=
  let val : Int := toS32 (toU32 (h.regs.get (get_rs1 insn) - h.regs.get (get_rs2 insn)))
  trace_line (render_rtype insn "sub")
    ["// ", render_reg (get_rd insn), " = ", to_hex0x32 (toU32 (h.regs.get (get_rs1 insn))),
     " - ", to_hex0x32 (toU32 (h.regs.get (get_rs2 insn))), " = ", to_hex0x32 (toU32 (val))]

/-- The text `exec_slt` writes to the trace stream. -/
def trace_slt (h : rv32i_hart) (insn : Nat) : String :=
  let val : Int := if h.regs.get (get_rs1 insn) < h.regs.get (get_rs2 insn) then 1 else 0
  trace_line (render_rtype insn "slt")
    ["// ", render_reg (get_rd insn), " = (", to_hex0x32 (toU32 (h.regs.get (get_rs1 insn))),
     " < ", to_hex0x32 (toU32 (h.regs.get (get_rs2 insn))), ") ? 1 : 0 = ",
     to_hex0x32 (toU32 (val))]

/-- The text `exec_sltu` writes to the trace stream. -/
def trace_sltu (h : rv32i_hart) (insn : Nat) : String :=
  let val : Int :=
    if toU32 (h.regs.get (get_rs1 insn)) < toU32 (h.regs.get (get_rs2 insn)) then 1 else 0
  trace_line (render_rtype insn "sltu")
    ["// ", render_reg (get_rd insn), " = (", to_hex0x32 (toU32 (h.regs.get (get_rs1 insn))),
     " <U ", to_hex0x32 (toU32 (h.regs.get (get_rs2 insn))), ") ? 1 : 0 = ",
     to_hex0x32 (toU32 (val))]

/-- The text `exec_xor` writes to the trace stream. -/
def trace_xor (h : rv32i_hart) (insn : Nat) : String :=
  let val : Int := toS32 (toU32 (h.regs.get (get_rs1 insn)) ^^^ toU32 (h.regs.get (get_rs2 insn)))
  trace_line (render_rtype insn "xor")
    ["// ", render_reg (get_rd insn), " = ", to_hex0x32 (toU32 (h.regs.get (get_rs1 insn))),
     " ^ ", to_hex0x32 (toU32 (h.regs.get (get_rs2 insn))), " = ", to_hex0x32 (toU32 (val))]

/-- The text `exec_or` writes to the trace stream. -/
def trace_or (h : rv32i_hart) (insn : Nat) : String :=
  let val : Int := toS32 (toU32 (h.regs.get (get_rs1 insn)) ||| toU32 (h.regs.get (get_rs2 insn)))
  trace_line (render_rtype insn "or")
    ["// ", render_reg (get_rd insn), " = ", to_hex0x32 (toU32 (h.regs.get (get_rs1 insn))),
     " | ", to_hex0x32 (toU32 (h.regs.get (get_rs2 insn))), " = ", to_hex0x32 (toU32 (val))]

/-- The text `exec_and` writes to the trace stream. -/
def trace_and (h : rv32i_hart) (insn : Nat) : String :=
  let val : Int := toS32 (toU32 (h.regs.get (get_rs1 insn)) &&& toU32 (h.regs.get (get_rs2 insn)))
  trace_line (render_rtype insn "and")
    ["// ", render_reg (get_rd insn), " = ", to_hex0x32 (toU32 (h.regs.get (get_rs1 insn))),
     " & ", to_hex0x32 (toU32 (h.regs.get (get_rs2 insn))), " = ", to_hex0x32 (toU32 (val))]

/-- The text `exec_ebreak` writes to the trace stream. -/
def trace_ebreak (_h : rv32i_hart) (insn : Nat) : String :=
  trace_line (render_ebreak insn)
    ["// HALT"]

/-- The text `exec_csrrs` writes to the trace stream. -/
def trace_csrrs (h : rv32i_hart) (insn : Nat) : String :=
  trace_line (render_csrrx insn "csrrs")
    ["// ", render_reg (get_rd insn), " = ", toString h.mhartid]

/-- The words of the `SYSTEM` opcode that `decode` renders as `ecall`, `csrrw`, `csrrc`,
`csrrwi`, `csrrsi` or `csrrci`: the cases of its `switch` that the `switch` of `exec` does
not have. -/
def decode_only (insn : Nat) : Prop :=
  get_opcode insn = opcode_system ∧
    (insn = insn_ecall ∨ get_funct3 insn = funct3_csrrw ∨ get_funct3 insn = funct3_csrrc ∨
      get_funct3 insn = funct3_csrrwi ∨ get_funct3 insn = funct3_csrrsi ∨
      get_funct3 insn = funct3_csrrci)

/-! ## Definitions for the instruction table and the rendering contract -/

/-- The operand shapes of the specification's rendering contract. -/
inductive operand_form where
  | upper
  | jump
  | jump_reg
  | branch
  | load
  | store
  | alu_imm
  | shift_imm
  | alu_reg
  | csr_reg
  | csr_imm
  | bare
deriving DecidableEq, Repr

/-- One line of the specification's instruction table: the mnemonic, the shape of the
operands, and the key of the dispatch (a field that is `none` is not looked at). -/
structure insn_entry where
  mnemonic : String
  form : operand_form
  opcode : Nat
  funct3 : Option Nat
  funct7 : Option Nat
  word : Option Nat
deriving DecidableEq, Repr

/-- The instruction table of the specification, the 45 instructions of RV32I it lists, each
with its mnemonic, the shape of its operands and its key: the opcode, `funct3` where the
opcode has several instructions, `funct7` for the R-type instructions and the immediate
shifts (`0x20` for `SUB`, `SRA` and `SRAI`, 0 for the others), and the whole word for `ECALL`
and `EBREAK` (whose `funct3` is 0). -/
def instr_table : List insn_entry :=
  [⟨"lui", operand_form.upper, opcode_lui, none, none, none⟩,
   ⟨"auipc", operand_form.upper, opcode_auipc, none, none, none⟩,
   ⟨"add", operand_form.alu_reg, opcode_rtype, some funct3_add, some funct7_add, none⟩,
   ⟨"sub", operand_form.alu_reg, opcode_rtype, some funct3_add, some funct7_sub, none⟩,
   ⟨"sll", operand_form.alu_reg, opcode_rtype, some funct3_sll, some 0, none⟩,
   ⟨"slt", operand_form.alu_reg, opcode_rtype, some funct3_slt, some 0, none⟩,
   ⟨"sltu", operand_form.alu_reg, opcode_rtype, some funct3_sltu, some 0, none⟩,
   ⟨"xor", operand_form.alu_reg, opcode_rtype, some funct3_xor, some 0, none⟩,
   ⟨"srl", operand_form.alu_reg, opcode_rtype, some funct3_srx, some funct7_srl, none⟩,
   ⟨"sra", operand_form.alu_reg, opcode_rtype, some funct3_srx, some funct7_sra, none⟩,
   ⟨"or", operand_form.alu_reg, opcode_rtype, some funct3_or, some 0, none⟩,
   ⟨"and", operand_form.alu_reg, opcode_rtype, some funct3_and, some 0, none⟩,
   ⟨"sb", operand_form.store, opcode_stype, some funct3_sb, none, none⟩,
   ⟨"sh", operand_form.store, opcode_stype, some funct3_sh, none, none⟩,
   ⟨"sw", operand_form.store, opcode_stype, some funct3_sw, none, none⟩,
   ⟨"slli", operand_form.shift_imm, opcode_alu_imm, some funct3_sll, some 0, none⟩,
   ⟨"addi", operand_form.alu_imm, opcode_alu_imm, some funct3_add, none, none⟩,
   ⟨"slti", operand_form.alu_imm, opcode_alu_imm, some funct3_slt, none, none⟩,
   ⟨"sltiu", operand_form.alu_imm, opcode_alu_imm, some funct3_sltu, none, none⟩,
   ⟨"xori", operand_form.alu_imm, opcode_alu_imm, some funct3_xor, none, none⟩,
   ⟨"ori", operand_form.alu_imm, opcode_alu_imm, some funct3_or, none, none⟩,
   ⟨"andi", operand_form.alu_imm, opcode_alu_imm, some funct3_and, none, none⟩,
   ⟨"srli", operand_form.shift_imm, opcode_alu_imm, some funct3_srx, some funct7_srl, none⟩,
   ⟨"srai", operand_form.shift_imm, opcode_alu_imm, some funct3_srx, some funct7_sra, none⟩,
   ⟨"lb", operand_form.load, opcode_load_imm, some funct3_lb, none, none⟩,
   ⟨"lh", operand_form.load, opcode_load_imm, some funct3_lh, none, none⟩,
   ⟨"lw", operand_form.load, opcode_load_imm, some funct3_lw, none, none⟩,
   ⟨"lbu", operand_form.load, opcode_load_imm, some funct3_lbu, none, none⟩,
   ⟨"lhu", operand_form.load, opcode_load_imm, some funct3_lhu, none, none⟩,
   ⟨"beq", operand_form.branch, opcode_btype, some funct3_beq, none, none⟩,
   ⟨"bne", operand_form.branch, opcode_btype, some funct3_bne, none, none⟩,
   ⟨"blt", operand_form.branch, opcode_btype, some funct3_blt, none, none⟩,
   ⟨"bge", operand_form.branch, opcode_btype, some funct3_bge, none, none⟩,
   ⟨"bltu", operand_form.branch, opcode_btype, some funct3_bltu, none, none⟩,
   ⟨"bgeu", operand_form.branch, opcode_btype, some funct3_bgeu, none, none⟩,
   ⟨"jal", operand_form.jump, opcode_jal, none, none, none⟩,
   ⟨"jalr", operand_form.jump_reg, opcode_jalr, none, none, none⟩,
   ⟨"ecall", operand_form.bare, opcode_system, some 0, none, some insn_ecall⟩,
   ⟨"ebreak", operand_form.bare, opcode_system, some 0, none, some insn_ebreak⟩,
   ⟨"csrrw", operand_form.csr_reg, opcode_system, some funct3_csrrw, none, none⟩,
   ⟨"csrrs", operand_form.csr_reg, opcode_system, some funct3_csrrs, none, none⟩,
   ⟨"csrrc", operand_form.csr_reg, opcode_system, some funct3_csrrc, none, none⟩,
   ⟨"csrrwi", operand_form.csr_imm, opcode_system, some funct3_csrrwi, none, none⟩,
   ⟨"csrrsi", operand_form.csr_imm, opcode_system, some funct3_csrrsi, none, none⟩,
   ⟨"csrrci", operand_form.csr_imm, opcode_system, some funct3_csrrci, none, none⟩]

/-- One field of a key: no constraint, or the value the field must have. -/
def field_ok (want : Option Nat) (got : Nat) : Bool :=
  match want with
  | none => true
  | some v => decide (got = v)

/-- The word `insn` has the key of the entry `e`. -/
def entry_matches (e : insn_entry) (insn : Nat) : Bool :=
  decide (get_opcode insn = e.opcode) && field_ok e.funct3 (get_funct3 insn) &&
    field_ok e.funct7 (get_funct7 insn) && field_ok e.word insn

/-- The instruction of a word: the entry of the table whose key the word has, if any. -/
def lookup (insn : Nat) : Option insn_entry :=
  instr_table.find? (fun e => entry_matches e insn)

/-- The specification's mnemonic field: the mnemonic, left-justified and padded with blanks
to 8 characters. -/
def mnemonic_field (m : String) : String :=
  m ++ String.mk (List.replicate (8 - m.length) ' ')

/-- A register operand of the contract: `x<num>`. -/
def contract_reg (r : Nat) : String := "x" ++ toString r

/-- A hexadecimal operand of the contract: `0x` and `digits` hex digits. -/
def contract_hex (digits n : Nat) : String := "0x" ++ hexPad digits n

/-- A PC-relative target of the contract: 8 hex digits of the resolved absolute address,
the address of the instruction plus the immediate, modulo `2^32`. -/
def contract_target (addr : Nat) (imm : Int) : String := contract_hex 8 (toU32 (addr + imm))

/-- A memory operand of the contract: `<disp>(x<base>)` with a signed decimal displacement. -/
def contract_mem (base : Nat) (disp : Int) : String :=
  toString disp ++ "(" ++ contract_reg base ++ ")"

/-- The operands of the specification's rendering contract for each shape: registers as
`x<num>`, signed immediates in decimal, the shift amount `insn[24:20]` in decimal, CSR
numbers (`insn[31:20]`) as `0x` and 3 hex digits, U-type immediates as `0x` and the 5 hex
digits of `insn[31:12]`, branch and jump targets as `0x` and 8 hex digits. -/
def contract_operands (f : operand_form) (addr insn : Nat) : String :=
  match f with
  | operand_form.upper =>
    contract_reg (get_rd insn) ++ "," ++ contract_hex 5 (bitfield insn 31 12)
  | operand_form.jump =>
    contract_reg (get_rd insn) ++ "," ++ contract_target addr (get_imm_j insn)
  | operand_form.jump_reg =>
    contract_reg (get_rd insn) ++ "," ++ contract_mem (get_rs1 insn) (get_imm_i insn)
  | operand_form.branch =>
    contract_reg (get_rs1 insn) ++ "," ++ contract_reg (get_rs2 insn) ++ ","
      ++ contract_target addr (get_imm_b insn)
  | operand_form.load =>
    contract_reg (get_rd insn) ++ "," ++ contract_mem (get_rs1 insn) (get_imm_i insn)
  | operand_form.store =>
    contract_reg (get_rs2 insn) ++ "," ++ contract_mem (get_rs1 insn) (get_imm_s insn)
  | operand_form.alu_imm =>
    contract_reg (get_rd insn) ++ "," ++ contract_reg (get_rs1 insn) ++ ","
      ++ toString (get_imm_i insn)
  | operand_form.shift_imm =>
    contract_reg (get_rd insn) ++ "," ++ contract_reg (get_rs1 insn) ++ ","
      ++ toString ((bitfield insn 24 20 : Nat) : Int)
  | operand_form.alu_reg =>
    contract_reg (get_rd insn) ++ "," ++ contract_reg (get_rs1 insn) ++ ","
      ++ contract_reg (get_rs2 insn)
  | operand_form.csr_reg =>
    contract_reg (get_rd insn) ++ "," ++ contract_hex 3 (bitfield insn 31 20) ++ ","
      ++ contract_reg (get_rs1 insn)
  | operand_form.csr_imm =>
    contract_reg (get_rd insn) ++ "," ++ contract_hex 3 (bitfield insn 31 20) ++ ","
      ++ toString (get_rs1 insn)
  | operand_form.bare => ""

/-- The text of the specification's rendering contract for the instruction `e`: the mnemonic
field of width 8 followed by the operands. -/
def contract_text (e : insn_entry) (addr insn : Nat) : String :=
  mnemonic_field e.mnemonic ++ contract_operands e.form addr insn

/-- Two keys that some word can have at once: the same opcode, and no field on which both
put a different value. -/
def keys_agree (e1 e2 : insn_entry) : Bool :=
  let agree (a b : Option Nat) : Bool :=
    match a, b with
    | some x, some y => decide (x = y)
    | _, _ => true
  decide (e1.opcode = e2.opcode) && agree e1.funct3 e2.funct3 && agree e1.funct7 e2.funct7 &&
    agree e1.word e2.word

/-- The operands `decode` prints for a word whose `funct7` it does not look at: those of the
instruction with the same opcode and `funct3`, the whole I-immediate standing for the shift
amount in the case of `slli`. -/
def loose_form (f : operand_form) : operand_form :=
  if f = operand_form.shift_imm then operand_form.alu_imm else f

/-- How `decode` renders a word, in terms of the entry `o` of the instruction table the word
has the key of.  With the entry `e` the text `t` is not the illegal-instruction text: it is
the text of the contract for `e`, or the bare mnemonic for `ecall` and `ebreak`.  With no
entry the text is the illegal-instruction text, or, for a word with `funct7 ≠ 0`, the
rendering of the instruction of the table with the same opcode and `funct3` and with
`funct7 = 0`. -/
def rendered_as (addr insn : Nat) (o : Option insn_entry) (t : String) : Prop :=
  (∀ e, o = some e →
    t ≠ render_illegal_insn insn ∧
    (e.form ≠ operand_form.bare → t = contract_text e addr insn) ∧
    (e.form = operand_form.bare →
      t = e.mnemonic ∧
      ((insn = insn_ecall ∧ e.mnemonic = "ecall") ∨
        (insn = insn_ebreak ∧ e.mnemonic = "ebreak")))) ∧
  (o = none →
    t = render_illegal_insn insn ∨
    (get_funct7 insn ≠ 0 ∧ ∃ e ∈ instr_table,
      e.opcode = get_opcode insn ∧ e.funct3 = some (get_funct3 insn) ∧ e.funct7 = some 0 ∧
      t ≠ render_illegal_insn insn ∧
      t = mnemonic_field e.mnemonic ++ contract_operands (loose_form e.form) addr insn))

/-! ## Definitions for the text on the standard output -/

/-- The order in which the compiler evaluates the two operands of `|` in `memory::get16`
and in `memory::get32` (C++ leaves it unspecified): `true` for the left operand first.  It
decides the order of the warnings when both reads are outside the memory. -/
structure eval_order where
  get16_left_first : Bool
  get32_left_first : Bool
deriving DecidableEq, Repr

/-- The hart together with the text written to `std::cout` so far.  The only stream
`rv32i_hart::tick` passes as `pos` is `&std::cout`, so the trace lines, the register dumps
and the warnings of the memory all go to this text, in the order they are written. -/
structure machine where
  hart : rv32i_hart
  cout : String
deriving DecidableEq, Repr

/-- Writing the text `s` to `std::cout`. -/
def machine.put (w : machine) (s : String) : machine := { w with cout := w.cout ++ s }

/-- The line `memory::check_illegal` prints for an address outside the memory. -/
def warning_line (i : Nat) : String :=
  "WARNING: Address out of range: " ++ to_hex0x32 i ++ "\n"

/-- `memory::check_illegal` with the text it sends to `std::cout`. -/
def memory.check_illegal_out (m : memory) (i : Nat) (cout : String) : Bool × String :=
  if i < m.mem.length then (true, cout) else (false, cout ++ warning_line i)

/-- `memory::get8` with the text it sends to `std::cout`. -/
def memory.get8_out (m : memory) (addr : Nat) (cout : String) : Nat × String :=
  let r := m.check_illegal_out addr cout
  if r.1 then ((m.mem.getD addr 0).val, r.2) else (0, r.2)

/-- `memory::get16` with the text it sends to `std::cout`: the two calls of `get8` in the
order `o` gives. -/
def memory.get16_out (o : eval_order) (m : memory) (addr : Nat) (cout : String) : Nat × String :=
  if o.get16_left_first then
    let a := m.get8_out addr cout
    let b := m.get8_out ((addr + 1) % 4294967296) a.2
    ((a.1 ||| (b.1 <<< 8)) % 65536, b.2)
  else
    let b := m.get8_out ((addr + 1) % 4294967296) cout
    let a := m.get8_out addr b.2
    ((a.1 ||| (b.1 <<< 8)) % 65536, a.2)

/-- `memory::get32` with the text it sends to `std::cout`: the two calls of `get16` in the
order `o` gives. -/
def memory.get32_out (o : eval_order) (m : memory) (addr : Nat) (cout : String) : Nat × String :=
  if o.get32_left_first then
    let a := m.get16_out o addr cout
    let b := m.get16_out o ((addr + 2) % 4294967296) a.2
    ((a.1 ||| (b.1 <<< 16)) % 4294967296, b.2)
  else
    let b := m.get16_out o ((addr + 2) % 4294967296) cout
    let a := m.get16_out o addr b.2
    ((a.1 ||| (b.1 <<< 16)) % 4294967296, a.2)

/-- `memory::set8` with the text it sends to `std::cout`. -/
def memory.set8_out (m : memory) (addr val : Nat) (cout : String) : memory × String :=
  let r := m.check_illegal_out addr cout
  if r.1 then ({ mem := m.mem.set addr (toByte val) }, r.2) else (m, r.2)

/-- `memory::set16` with the text it sends to `std::cout`:
`set8(addr+1, val>>8); set8(addr, val); mem[addr] = val;`. -/
def memory.set16_out (m : memory) (addr val : Nat) (cout : String) : Option (memory × String) :=
  let val := val % 65536
  let r1 := m.set8_out ((addr + 1) % 4294967296) (val >>> 8) cout
  let r2 := r1.1.set8_out addr val r1.2
  (r2.1.store addr val).map (fun m2 => (m2, r2.2))

/-- `memory::set32` with the text it sends to `std::cout`:
`set16(addr+1, val>>8); set16(addr+2, val>>16); mem[addr] = val;`. -/
def memory.set32_out (m : memory) (addr val : Nat) (cout : String) : Option (memory × String) :=
  match m.set16_out ((addr + 1) % 4294967296) (val >>> 8) cout with
  | none => none
  | some r1 =>
    match r1.1.set16_out ((addr + 2) % 4294967296) (val >>> 16) r1.2 with
    | none => none
    | some r2 => (r2.1.store addr val).map (fun m2 => (m2, r2.2))

/-- The output `std::dec << std::right << std::setw(width) << std::setfill(' ') << s`: `s`
padded with blanks on the left to `width` characters. -/
def right_field (width : Nat) (s : String) : String :=
  String.mk (List.replicate (width - s.length) ' ') ++ s

/-- One iteration of the loop of `registerfile::dump`, for the register `i`: the newline
before the registers 8, 16 and 24, the header of the line before the registers 0, 8, 16 and
24, and the register itself with the blanks around it. -/
def registerfile.dump_cell (rf : registerfile) (hdr : String) (i : Nat) : String :=
  let nl := if i ≠ 0 ∧ i % 8 = 0 then "\n" else ""
  let head :=
    if i % 8 = 0 then
      let h := if i = 0 then "x0" else if i = 8 then "x8" else if i = 16 then "x16"
        else if i = 24 then "x24" else ""
      hdr ++ right_field 3 h ++ " "
    else ""
  let cell :=
    if i % 8 = 7 then to_hex32 (toU32 (rf.reg.getD i 0))
    else if i % 4 = 0 ∧ i ≠ 0 ∧ i % 8 ≠ 0 then " " ++ to_hex32 (toU32 (rf.reg.getD i 0)) ++ " "
    else to_hex32 (toU32 (rf.reg.getD i 0)) ++ " "
  nl ++ head ++ cell

/-- The text `registerfile::dump` writes: the 32 iterations of its loop and the final
newline. -/
def registerfile.dump_text (rf : registerfile) (hdr : String) : String :=
  String.join ((List.range 32).map (rf.dump_cell hdr)) ++ "\n"

/-- The text `rv32i_hart::dump` writes: the registers, then the line with the PC. -/
def rv32i_hart.dump_text (h : rv32i_hart) (hdr : String) : String :=
  h.regs.dump_text hdr ++ " pc " ++ to_hex32 h.pc ++ "\n"

/-- The text `exec_slli` writes to the trace stream, `val` being the result of the shift. -/
def trace_slli (h : rv32i_hart) (insn : Nat) (val : Int) : String :=
  trace_line (render_itype_alu insn "slli" (get_imm_i insn))
    ["// ", render_reg (get_rd insn), " = ", to_hex0x32 (toU32 (h.regs.get (get_rs1 insn))),
     " << ", toString (imm_shift insn), " = ", to_hex0x32 (toU32 val)]

/-- The text `exec_srli` writes to the trace stream, `val` being the result of the shift. -/
def trace_srli (h : rv32i_hart) (insn : Nat) (val : Int) : String :=
  trace_line (render_itype_alu insn "srli" (get_imm_i insn))
    ["// ", render_reg (get_rd insn), " = ", to_hex0x32 (toU32 (h.regs.get (get_rs1 insn))),
     " >> ", toString (imm_shift insn), " = ", to_hex0x32 (toU32 val)]

/-- The text `exec_srai` writes to the trace stream, `val` being the result of the shift. -/
def trace_srai (h : rv32i_hart) (insn : Nat) (val : Int) : String :=
  trace_line (render_itype_alu insn "srai" (imm_shift insn))
    ["// ", render_reg (get_rd insn), " = ", to_hex0x32 (toU32 (h.regs.get (get_rs1 insn))),
     " >> ", toString (imm_shift insn), " = ", to_hex0x32 (toU32 val)]

/-- The text `exec_sll` writes to the trace stream, `val` being the result of the shift. -/
def trace_sll (h : rv32i_hart) (insn : Nat) (val : Int) : String :=
  trace_line (render_rtype insn "sll")
    ["// ", render_reg (get_rd insn), " = ", to_hex0x32 (toU32 (h.regs.get (get_rs1 insn))),
     " << ", toString (reg_shift h insn), " = ", to_hex0x32 (toU32 val)]

/-- The text `exec_srl` writes to the trace stream, `val` being the result of the shift. -/
def trace_srl (h : rv32i_hart) (insn : Nat) (val : Int) : String :=
  trace_line (render_rtype insn "srl")
    ["// ", render_reg (get_rd insn), " = ", to_hex0x32 (toU32 (h.regs.get (get_rs1 insn))),
     " >> ", toString (reg_shift h insn), " = ", to_hex0x32 (toU32 val)]

/-- The text `exec_sra` writes to the trace stream, `val` being the result of the shift. -/
def trace_sra (h : rv32i_hart) (insn : Nat) (val : Int) : String :=
  trace_line (render_rtype insn "sra")
    ["// ", render_reg (get_rd insn), " = ", to_hex0x32 (toU32 (h.regs.get (get_rs1 insn))),
     " >> ", toString (reg_shift h insn), " = ", to_hex0x32 (toU32 val)]

/-- `rv32i_hart::exec_lui` with its parameter `pos` (`true` for a stream, `false` for
`nullptr`): the `if(pos)` block writes the trace line, then the state changes. -/
def exec_lui_out (w : machine) (insn : Nat) (pos : Bool) : machine :=
  let w1 := if pos then w.put (trace_lui w.hart insn) else w
  { w1 with hart := exec_lui w1.hart insn }

/-- `rv32i_hart::exec_auipc` with its parameter `pos` (`true` for a stream, `false` for
`nullptr`): the `if(pos)` block writes the trace line, then the state changes. -/
def exec_auipc_out (w : machine) (insn : Nat) (pos : Bool) : machine :=
  let w1 := if pos then w.put (trace_auipc w.hart insn) else w
  { w1 with hart := exec_auipc w1.hart insn }

/-- `rv32i_hart::exec_jal` with its parameter `pos` (`true` for a stream, `false` for
`nullptr`): the `if(pos)` block writes the trace line, then the state changes. -/
def exec_jal_out (w : machine) (insn : Nat) (pos : Bool) : machine :=
  let w1 := if pos then w.put (trace_jal w.hart insn) else w
  { w1 with hart := exec_jal w1.hart insn }

/-- `rv32i_hart::exec_jalr` with its parameter `pos` (`true` for a stream, `false` for
`nullptr`): the `if(pos)` block writes the trace line, then the state changes. -/
def exec_jalr_out (w : machine) (insn : Nat) (pos : Bool) : machine :=
  let w1 := if pos then w.put (trace_jalr w.hart insn) else w
  { w1 with hart := exec_jalr w1.hart insn }

/-- `rv32i_hart::exec_beq` with its parameter `pos` (`true` for a stream, `false` for
`nullptr`): the `if(pos)` block writes the trace line, then the state changes. -/
def exec_beq_out (w : machine) (insn : Nat) (pos : Bool) : machine :=
  let w1 := if pos then w.put (trace_beq w.hart insn) else w
  { w1 with hart := exec_beq w1.hart insn }

/-- `rv32i_hart::exec_bne` with its parameter `pos` (`true` for a stream, `false` for
`nullptr`): the `if(pos)` block writes the trace line, then the state changes. -/
def exec_bne_out (w : machine) (insn : Nat) (pos : Bool) : machine :=
  let w1 := if pos then w.put (trace_bne w.hart insn) else w
  { w1 with hart := exec_bne w1.hart insn }

/-- `rv32i_hart::exec_blt` with its parameter `pos` (`true` for a stream, `false` for
`nullptr`): the `if(pos)` block writes the trace line, then the state changes. -/
def exec_blt_out (w : machine) (insn : Nat) (pos : Bool) : machine :=
  let w1 := if pos then w.put (trace_blt w.hart insn) else w
  { w1 with hart := exec_blt w1.hart insn }

/-- `rv32i_hart::exec_bge` with its parameter `pos` (`true` for a stream, `false` for
`nullptr`): the `if(pos)` block writes the trace line, then the state changes. -/
def exec_bge_out (w : machine) (insn : Nat) (pos : Bool) : machine :=
  let w1 := if pos then w.put (trace_bge w.hart insn) else w
  { w1 with hart := exec_bge w1.hart insn }

/-- `rv32i_hart::exec_bltu` with its parameter `pos` (`true` for a stream, `false` for
`nullptr`): the `if(pos)` block writes the trace line, then the state changes. -/
def exec_bltu_out (w : machine) (insn : Nat) (pos : Bool) : machine :=
  let w1 := if pos then w.put (trace_bltu w.hart insn) else w
  { w1 with hart := exec_bltu w1.hart insn }

/-- `rv32i_hart::exec_bgeu` with its parameter `pos` (`true` for a stream, `false` for
`nullptr`): the `if(pos)` block writes the trace line, then the state changes. -/
def exec_bgeu_out (w : machine) (insn : Nat) (pos : Bool) : machine :=
  let w1 := if pos then w.put (trace_bgeu w.hart insn) else w
  { w1 with hart := exec_bgeu w1.hart insn }

/-- `rv32i_hart::exec_addi` with its parameter `pos` (`true` for a stream, `false` for
`nullptr`): the `if(pos)` block writes the trace line, then the state changes. -/
def exec_addi_out (w : machine) (insn : Nat) (pos : Bool) : machine :=
  let w1 := if pos then w.put (trace_addi w.hart insn) else w
  { w1 with hart := exec_addi w1.hart insn }

/-- `rv32i_hart::exec_slti` with its parameter `pos` (`true` for a stream, `false` for
`nullptr`): the `if(pos)` block writes the trace line, then the state changes. -/
def exec_slti_out (w : machine) (insn : Nat) (pos : Bool) : machine :=
  let w1 := if pos then w.put (trace_slti w.hart insn) else w
  { w1 with hart := exec_slti w1.hart insn }

/-- `rv32i_hart::exec_sltiu` with its parameter `pos` (`true` for a stream, `false` for
`nullptr`): the `if(pos)` block writes the trace line, then the state changes. -/
def exec_sltiu_out (w : machine) (insn : Nat) (pos : Bool) : machine :=
  let w1 := if pos then w.put (trace_sltiu w.hart insn) else w
  { w1 with hart := exec_sltiu w1.hart insn }

/-- `rv32i_hart::exec_xori` with its parameter `pos` (`true` for a stream, `false` for
`nullptr`): the `if(pos)` block writes the trace line, then the state changes. -/
def exec_xori_out (w : machine) (insn : Nat) (pos : Bool) : machine :=
  let w1 := if pos then w.put (trace_xori w.hart insn) else w
  { w1 with hart := exec_xori w1.hart insn }

/-- `rv32i_hart::exec_ori` with its parameter `pos` (`true` for a stream, `false` for
`nullptr`): the `if(pos)` block writes the trace line, then the state changes. -/
def exec_ori_out (w : machine) (insn : Nat) (pos : Bool) : machine :=
  let w1 := if pos then w.put (trace_ori w.hart insn) else w
  { w1 with hart := exec_ori w1.hart insn }

/-- `rv32i_hart::exec_andi` with its parameter `pos` (`true` for a stream, `false` for
`nullptr`): the `if(pos)` block writes the trace line, then the state changes. -/
def exec_andi_out (w : machine) (insn : Nat) (pos : Bool) : machine :=
  let w1 := if pos then w.put (trace_andi w.hart insn) else w
  { w1 with hart := exec_andi w1.hart insn }

/-- `rv32i_hart::exec_add` with its parameter `pos` (`true` for a stream, `false` for
`nullptr`): the `if(pos)` block writes the trace line, then the state changes. -/
def exec_add_out (w : machine) (insn : Nat) (pos : Bool) : machine :=
  let w1 := if pos then w.put (trace_add w.hart insn) else w
  { w1 with hart := exec_add w1.hart insn }

/-- `rv32i_hart::exec_sub` with its parameter `pos` (`true` for a stream, `false` for
`nullptr`): the `if(pos)` block writes the trace line, then the state changes. -/
def exec_sub_out (w : machine) (insn : Nat) (pos : Bool) : machine :=
  let w1 := if pos then w.put (trace_sub w.hart insn) else w
  { w1 with hart := exec_sub w1.hart insn }

/-- `rv32i_hart::exec_slt` with its parameter `pos` (`true` for a stream, `false` for
`nullptr`): the `if(pos)` block writes the trace line, then the state changes. -/
def exec_slt_out (w : machine) (insn : Nat) (pos : Bool) : machine :=
  let w1 := if pos then w.put (trace_slt w.hart insn) else w
  { w1 with hart := exec_slt w1.hart insn }

/-- `rv32i_hart::exec_sltu` with its parameter `pos` (`true` for a stream, `false` for
`nullptr`): the `if(pos)` block writes the trace line, then the state changes. -/
def exec_sltu_out (w : machine) (insn : Nat) (pos : Bool) : machine :=
  let w1 := if pos then w.put (trace_sltu w.hart insn) else w
  { w1 with hart := exec_sltu w1.hart insn }

/-- `rv32i_hart::exec_xor` with its parameter `pos` (`true` for a stream, `false` for
`nullptr`): the `if(pos)` block writes the trace line, then the state changes. -/
def exec_xor_out (w : machine) (insn : Nat) (pos : Bool) : machine :=
  let w1 := if pos then w.put (trace_xor w.hart insn) else w
  { w1 with hart := exec_xor w1.hart insn }

/-- `rv32i_hart::exec_or` with its parameter `pos` (`true` for a stream, `false` for
`nullptr`): the `if(pos)` block writes the trace line, then the state changes. -/
def exec_or_out (w : machine) (insn : Nat) (pos : Bool) : machine :=
  let w1 := if pos then w.put (trace_or w.hart insn) else w
  { w1 with hart := exec_or w1.hart insn }

/-- `rv32i_hart::exec_and` with its parameter `pos` (`true` for a stream, `false` for
`nullptr`): the `if(pos)` block writes the trace line, then the state changes. -/
def exec_and_out (w : machine) (insn : Nat) (pos : Bool) : machine :=
  let w1 := if pos then w.put (trace_and w.hart insn) else w
  { w1 with hart := exec_and w1.hart insn }

/-- `rv32i_hart::exec_ebreak` with its parameter `pos` (`true` for a stream, `false` for
`nullptr`): the `if(pos)` block writes the trace line, then the state changes. -/
def exec_ebreak_out (w : machine) (insn : Nat) (pos : Bool) : machine :=
  let w1 := if pos then w.put (trace_ebreak w.hart insn) else w
  { w1 with hart := exec_ebreak w1.hart insn }

/-- `rv32i_hart::exec_slli` with its parameter `pos`: the shift, then the `if(pos)` block,
then `regs.set(rd, val); pc += 4;`; `none` when the shift is undefined. -/
def exec_slli_out (w : machine) (insn : Nat) (pos : Bool) : Option machine :=
  (shl32 (w.hart.regs.get (get_rs1 insn)) (imm_shift insn)).map (fun val =>
    let w1 := if pos then w.put (trace_slli w.hart insn val) else w
    { w1 with hart := write_rd w1.hart insn val })

/-- `rv32i_hart::exec_srli` with its parameter `pos`: the shift, then the `if(pos)` block,
then `regs.set(rd, val); pc += 4;`; `none` when the shift is undefined. -/
def exec_srli_out (w : machine) (insn : Nat) (pos : Bool) : Option machine :=
  (shr32 (w.hart.regs.get (get_rs1 insn)) (imm_shift insn)).map (fun val =>
    let w1 := if pos then w.put (trace_srli w.hart insn val) else w
    { w1 with hart := write_rd w1.hart insn val })

/-- `rv32i_hart::exec_srai` with its parameter `pos`: the shift, then the `if(pos)` block,
then `regs.set(rd, val); pc += 4;`; `none` when the shift is undefined. -/
def exec_srai_out (w : machine) (insn : Nat) (pos : Bool) : Option machine :=
  (sra32 (w.hart.regs.get (get_rs1 insn)) (imm_shift insn)).map (fun val =>
    let w1 := if pos then w.put (trace_srai w.hart insn val) else w
    { w1 with hart := write_rd w1.hart insn val })

/-- `rv32i_hart::exec_sll` with its parameter `pos`: the shift, then the `if(pos)` block,
then `regs.set(rd, val); pc += 4;`; `none` when the shift is undefined. -/
def exec_sll_out (w : machine) (insn : Nat) (pos : Bool) : Option machine :=
  (shl32 (w.hart.regs.get (get_rs1 insn)) (reg_shift w.hart insn)).map (fun val =>
    let w1 := if pos then w.put (trace_sll w.hart insn val) else w
    { w1 with hart := write_rd w1.hart insn val })

/-- `rv32i_hart::exec_srl` with its parameter `pos`: the shift, then the `if(pos)` block,
then `regs.set(rd, val); pc += 4;`; `none` when the shift is undefined. -/
def exec_srl_out (w : machine) (insn : Nat) (pos : Bool) : Option machine :=
  (shr32 (w.hart.regs.get (get_rs1 insn)) (reg_shift w.hart insn)).map (fun val =>
    let w1 := if pos then w.put (trace_srl w.hart insn val) else w
    { w1 with hart := write_rd w1.hart insn val })

/-- `rv32i_hart::exec_sra` with its parameter `pos`: the shift, then the `if(pos)` block,
then `regs.set(rd, val); pc += 4;`; `none` when the shift is undefined. -/
def exec_sra_out (w : machine) (insn : Nat) (pos : Bool) : Option machine :=
  (sra32 (w.hart.regs.get (get_rs1 insn)) (reg_shift w.hart insn)).map (fun val =>
    let w1 := if pos then w.put (trace_sra w.hart insn val) else w
    { w1 with hart := write_rd w1.hart insn val })

/-- `rv32i_hart::exec_lb` with its parameter `pos`: the memory is read first, with the
warnings of `check_illegal`, then the `if(pos)` block writes the trace line, then
`regs.set(rd, val); pc += 4;`. -/
def exec_lb_out (w : machine) (insn : Nat) (pos : Bool) : machine :=
  let t_addr := eff_addr w.hart insn (get_imm_i insn)
  let r := w.hart.mem.get8_out t_addr w.cout
  let w1 : machine := { w with cout := r.2 }
  let w2 := if pos then w1.put (trace_lb w1.hart insn) else w1
  { w2 with hart := exec_lb w2.hart insn }

/-- `rv32i_hart::exec_lbu` with its parameter `pos`: the memory is read first, with the
warnings of `check_illegal`, then the `if(pos)` block writes the trace line, then
`regs.set(rd, val); pc += 4;`. -/
def exec_lbu_out (w : machine) (insn : Nat) (pos : Bool) : machine :=
  let t_addr := eff_addr w.hart insn (get_imm_i insn)
  let r := w.hart.mem.get8_out t_addr w.cout
  let w1 : machine := { w with cout := r.2 }
  let w2 := if pos then w1.put (trace_lbu w1.hart insn) else w1
  { w2 with hart := exec_lbu w2.hart insn }

/-- `rv32i_hart::exec_lh` with its parameter `pos`: the memory is read first, with the
warnings of `check_illegal`, then the `if(pos)` block writes the trace line, then
`regs.set(rd, val); pc += 4;`. -/
def exec_lh_out (o : eval_order) (w : machine) (insn : Nat) (pos : Bool) : machine :=
  let t_addr := eff_addr w.hart insn (get_imm_i insn)
  let r := w.hart.mem.get16_out o t_addr w.cout
  let w1 : machine := { w with cout := r.2 }
  let w2 := if pos then w1.put (trace_lh w1.hart insn) else w1
  { w2 with hart := exec_lh w2.hart insn }

/-- `rv32i_hart::exec_lhu` with its parameter `pos`: the memory is read first, with the
warnings of `check_illegal`, then the `if(pos)` block writes the trace line, then
`regs.set(rd, val); pc += 4;`. -/
def exec_lhu_out (o : eval_order) (w : machine) (insn : Nat) (pos : Bool) : machine :=
  let t_addr := eff_addr w.hart insn (get_imm_i insn)
  let r := w.hart.mem.get16_out o t_addr w.cout
  let w1 : machine := { w with cout := r.2 }
  let w2 := if pos then w1.put (trace_lhu w1.hart insn) else w1
  { w2 with hart := exec_lhu w2.hart insn }

/-- `rv32i_hart::exec_lw` with its parameter `pos`: the memory is read first, with the
warnings of `check_illegal`, then the `if(pos)` block writes the trace line, then
`regs.set(rd, val); pc += 4;`. -/
def exec_lw_out (o : eval_order) (w : machine) (insn : Nat) (pos : Bool) : machine :=
  let t_addr := eff_addr w.hart insn (get_imm_i insn)
  let r := w.hart.mem.get32_out o t_addr w.cout
  let w1 : machine := { w with cout := r.2 }
  let w2 := if pos then w1.put (trace_lw w1.hart insn) else w1
  { w2 with hart := exec_lw w2.hart insn }

/-- `rv32i_hart::exec_sb` with its parameter `pos`: the `if(pos)` block writes the trace
line, then `mem.set8(t_addr, val)`, with the warning of `check_illegal`, and `pc += 4`. -/
def exec_sb_out (w : machine) (insn : Nat) (pos : Bool) : machine :=
  let t_addr := eff_addr w.hart insn (get_imm_s insn)
  let val := toU32 (w.hart.regs.get (get_rs2 insn)) &&& 0x000000ff
  let w1 := if pos then w.put (trace_sb w.hart insn) else w
  let r := w1.hart.mem.set8_out t_addr val w1.cout
  { hart := ({ w1.hart with mem := r.1 }).advance, cout := r.2 }

/-- `rv32i_hart::exec_sh` with its parameter `pos`: the `if(pos)` block writes the trace
line, then `mem.set16(t_addr, val)`, with the warnings of `check_illegal`, and `pc += 4`;
`none` when `memory::set16` is undefined. -/
def exec_sh_out (w : machine) (insn : Nat) (pos : Bool) : Option machine :=
  let t_addr := eff_addr w.hart insn (get_imm_s insn)
  let val := toU32 (w.hart.regs.get (get_rs2 insn)) &&& 0x0000ffff
  let w1 := if pos then w.put (trace_sh w.hart insn) else w
  (w1.hart.mem.set16_out t_addr val w1.cout).map
    (fun r => { hart := ({ w1.hart with mem := r.1 }).advance, cout := r.2 })

/-- `rv32i_hart::exec_sw` with its parameter `pos`: the `if(pos)` block writes the trace
line, then `mem.set32(t_addr, val)`, with the warnings of `check_illegal`, and `pc += 4`;
`none` when `memory::set32` is undefined. -/
def exec_sw_out (w : machine) (insn : Nat) (pos : Bool) : Option machine :=
  let t_addr := eff_addr w.hart insn (get_imm_s insn)
  let val := toU32 (w.hart.regs.get (get_rs2 insn))
  let w1 := if pos then w.put (trace_sw w.hart insn) else w
  (w1.hart.mem.set32_out t_addr val w1.cout).map
    (fun r => { hart := ({ w1.hart with mem := r.1 }).advance, cout := r.2 })

/-- `rv32i_hart::exec_csrrs` with its parameter `pos`: the halt flag is set first, then the
`if(pos)` block writes the trace line, then the register write and the `pc += 4` are
guarded by `if(!halt)`. -/
def exec_csrrs_out (w : machine) (insn : Nat) (pos : Bool) : machine :=
  let rd := get_rd insn
  let rs1 := get_rs1 insn
  let csr := toU32 (get_imm_i insn) &&& 0x00000fff
  let h1 := if csr ≠ 0xf14 ∨ rs1 ≠ 0 then
      { w.hart with halt := true, halt_reason := "Illegal CSR in CRSS instruction" }
    else w.hart
  let w1 : machine := { w with hart := h1 }
  let w2 := if pos then w1.put (trace_csrrs w1.hart insn) else w1
  if !w2.hart.halt then
    { w2 with hart := ({ w2.hart with regs := w2.hart.regs.set rd (toS32 w2.hart.mhartid) }).advance }
  else w2

/-- `rv32i_hart::exec_illegal_insn` with its parameter `pos`:
`if(pos) *pos << render_illegal_insn(insn);`, with no field, no comment and no newline,
then the hart halts. -/
def exec_illegal_insn_out (w : machine) (insn : Nat) (pos : Bool) : machine :=
  let w1 := if pos then w.put (render_illegal_insn insn) else w
  { w1 with hart := exec_illegal_insn w1.hart insn }

/-- `rv32i_hart::exec` with its parameter `pos`: the nested `switch` on opcode, funct3 and
funct7 (and on the whole word for `SYSTEM`), every instruction function being called with
`pos`.  The result is `none` when the function reached has undefined behaviour. -/
def exec_out (o : eval_order) (w : machine) (insn : Nat) (pos : Bool) : Option machine :=
  let opcode := get_opcode insn
  let funct3 := get_funct3 insn
  let funct7 := get_funct7 insn
  if opcode = opcode_lui then some (exec_lui_out w insn pos)
  else if opcode = opcode_auipc then some (exec_auipc_out w insn pos)
  else if opcode = opcode_rtype then
    if funct3 = funct3_add then
      if funct7 = funct7_add then some (exec_add_out w insn pos)
      else if funct7 = funct7_sub then some (exec_sub_out w insn pos)
      else some (exec_illegal_insn_out w insn pos)
    else if funct3 = funct3_sll then exec_sll_out w insn pos
    else if funct3 = funct3_slt then some (exec_slt_out w insn pos)
    else if funct3 = funct3_sltu then some (exec_sltu_out w insn pos)
    else if funct3 = funct3_xor then some (exec_xor_out w insn pos)
    else if funct3 = funct3_srx then
      if funct7 = funct7_srl then exec_srl_out w insn pos
      else if funct7 = funct7_sra then exec_sra_out w insn pos
      else some (exec_illegal_insn_out w insn pos)
    else if funct3 = funct3_or then some (exec_or_out w insn pos)
    else if funct3 = funct3_and then some (exec_and_out w insn pos)
    else some (exec_illegal_insn_out w insn pos)
  else if opcode = opcode_stype then
    if funct3 = funct3_sb then some (exec_sb_out w insn pos)
    else if funct3 = funct3_sh then exec_sh_out w insn pos
    else if funct3 = funct3_sw then exec_sw_out w insn pos
    else some (exec_illegal_insn_out w insn pos)
  else if opcode = opcode_alu_imm then
    if funct3 = funct3_sll then exec_slli_out w insn pos
    else if funct3 = funct3_add then some (exec_addi_out w insn pos)
    else if funct3 = funct3_slt then some (exec_slti_out w insn pos)
    else if funct3 = funct3_sltu then some (exec_sltiu_out w insn pos)
    else if funct3 = funct3_xor then some (exec_xori_out w insn pos)
    else if funct3 = funct3_or then some (exec_ori_out w insn pos)
    else if funct3 = funct3_and then some (exec_andi_out w insn pos)
    else if funct3 = funct3_srx then
      if funct7 = funct7_srl then exec_srli_out w insn pos
      else if funct7 = funct7_sra then exec_srai_out w insn pos
      else some (exec_illegal_insn_out w insn pos)
    else some (exec_illegal_insn_out w insn pos)
  else if opcode = opcode_load_imm then
    if funct3 = funct3_lb then some (exec_lb_out w insn pos)
    else if funct3 = funct3_lh then some (exec_lh_out o w insn pos)
    else if funct3 = funct3_lw then some (exec_lw_out o w insn pos)
    else if funct3 = funct3_lbu then some (exec_lbu_out w insn pos)
    else if funct3 = funct3_lhu then some (exec_lhu_out o w insn pos)
    else some (exec_illegal_insn_out w insn pos)
  else if opcode = opcode_btype then
    if funct3 = funct3_beq then some (exec_beq_out w insn pos)
    else if funct3 = funct3_bne then some (exec_bne_out w insn pos)
    else if funct3 = funct3_blt then some (exec_blt_out w insn pos)
    else if funct3 = funct3_bge then some (exec_bge_out w insn pos)
    else if funct3 = funct3_bltu then some (exec_bltu_out w insn pos)
    else if funct3 = funct3_bgeu then some (exec_bgeu_out w insn pos)
    else some (exec_illegal_insn_out w insn pos)
  else if opcode = opcode_jal then some (exec_jal_out w insn pos)
  else if opcode = opcode_jalr then some (exec_jalr_out w insn pos)
  else if opcode = opcode_system then
    if insn = insn_ebreak then some (exec_ebreak_out w insn pos)
    else if funct3 = funct3_csrrs then some (exec_csrrs_out w insn pos)
    else some (exec_illegal_insn_out w insn pos)
  else some (exec_illegal_insn_out w insn pos)

/-- `rv32i_hart::tick` with the text it sends to `std::cout`: nothing happens on a halted
hart; otherwise the counter is incremented, `dump(hdr)` is called when `show_registers` is
set, the word at `pc` is fetched (with the warnings of `check_illegal`), and the word is
executed, after the header `hdr`, the PC and the word and with `pos = &std::cout` when
`show_instructions` is set, with `pos = nullptr` otherwise. -/
def tick_out (o : eval_order) (w : machine) (hdr : String) : Option machine :=
  if w.hart.halt then some w
  else
    let w1 : machine :=
      { w with hart :=
          { w.hart with insn_counter := (w.hart.insn_counter + 1) % 18446744073709551616 } }
    let w2 := if w1.hart.show_registers then w1.put (w1.hart.dump_text hdr) else w1
    let r := w2.hart.mem.get32_out o w2.hart.pc w2.cout
    let insn := r.1
    let w3 : machine := { w2 with cout := r.2 }
    if w3.hart.show_instructions then
      exec_out o (w3.put (hdr ++ to_hex32 w3.hart.pc ++ ": " ++ to_hex32 insn ++ "  ")) insn true
    else exec_out o w3 insn false

/-- The warnings of `check_illegal` for the addresses of the list that are outside a memory
of `size` bytes, in the order of the list. -/
def warnings (size : Nat) (addrs : List Nat) : String :=
  String.join ((addrs.filter (fun a => decide (size ≤ a))).map warning_line)

/-! # Theorems -/

theorem get_rd_lt (insn : Nat) : get_rd insn < 32 := by
  unfold get_rd
  have h : insn &&& 0x00000f80 ≤ 0x00000f80 := Nat.and_le_right
  rw [Nat.shiftRight_eq_div_pow]
  omega

theorem reachable_slot0 (rf : registerfile) (hr : rf.Reachable) : rf.reg[0]? = some 0 := by
  induction hr with
  | reset rf => rfl
  | set rf r v _ _ ih =>
    unfold registerfile.set
    split
    · exact ih
    · rename_i hne
      simp only [List.getElem?_set, if_neg hne]
      exact ih

/-- Case analysis on the function `exec` dispatches to: a property of the result of each
of the instruction functions is a property of the result of `exec`. -/
theorem exec_cases (P : Option rv32i_hart → Prop) (h : rv32i_hart) (insn : Nat)
    (h_lui : P (some (exec_lui h insn)))
    (h_auipc : P (some (exec_auipc h insn)))
    (h_add : P (some (exec_add h insn)))
    (h_sub : P (some (exec_sub h insn)))
    (h_illegal_insn : P (some (exec_illegal_insn h insn)))
    (h_slt : P (some (exec_slt h insn)))
    (h_sltu : P (some (exec_sltu h insn)))
    (h_xor : P (some (exec_xor h insn)))
    (h_or : P (some (exec_or h insn)))
    (h_and : P (some (exec_and h insn)))
    (h_sb : P (some (exec_sb h insn)))
    (h_addi : P (some (exec_addi h insn)))
    (h_slti : P (some (exec_slti h insn)))
    (h_sltiu : P (some (exec_sltiu h insn)))
    (h_xori : P (some (exec_xori h insn)))
    (h_ori : P (some (exec_ori h insn)))
    (h_andi : P (some (exec_andi h insn)))
    (h_lb : P (some (exec_lb h insn)))
    (h_lh : P (some (exec_lh h insn)))
    (h_lw : P (some (exec_lw h insn)))
    (h_lbu : P (some (exec_lbu h insn)))
    (h_lhu : P (some (exec_lhu h insn)))
    (h_beq : P (some (exec_beq h insn)))
    (h_bne : P (some (exec_bne h insn)))
    (h_blt : P (some (exec_blt h insn)))
    (h_bge : P (some (exec_bge h insn)))
    (h_bltu : P (some (exec_bltu h insn)))
    (h_bgeu : P (some (exec_bgeu h insn)))
    (h_jal : P (some (exec_jal h insn)))
    (h_jalr : P (some (exec_jalr h insn)))
    (h_ebreak : P (some (exec_ebreak h insn)))
    (h_csrrs : P (some (exec_csrrs h insn)))
    (h_sll : P (exec_sll h insn))
    (h_srl : P (exec_srl h insn))
    (h_sra : P (exec_sra h insn))
    (h_sh : P (exec_sh h insn))
    (h_sw : P (exec_sw h insn))
    (h_slli : P (exec_slli h insn))
    (h_srli : P (exec_srli h insn))
    (h_srai : P (exec_srai h insn)) :
    P (exec h insn) := by
  unfold exec
  dsimp only
  by_cases c1 : get_opcode insn = opcode_lui
  · rw [if_pos c1]; exact h_lui
  rw [if_neg c1]
  by_cases c2 : get_opcode insn = opcode_auipc
  · rw [if_pos c2]; exact h_auipc
  rw [if_neg c2]
  by_cases c3 : get_opcode insn = opcode_rtype
  · rw [if_pos c3]
    by_cases c4 : get_funct3 insn = funct3_add
    · rw [if_pos c4]
      by_cases c5 : get_funct7 insn = funct7_add
      · rw [if_pos c5]; exact h_add
      rw [if_neg c5]
      by_cases c6 : get_funct7 insn = funct7_sub
      · rw [if_pos c6]; exact h_sub
      rw [if_neg c6]
      exact h_illegal_insn
    rw [if_neg c4]
    by_cases c7 : get_funct3 insn = funct3_sll
    · rw [if_pos c7]; exact h_sll
    rw [if_neg c7]
    by_cases c8 : get_funct3 insn = funct3_slt
    · rw [if_pos c8]; exact h_slt
    rw [if_neg c8]
    by_cases c9 : get_funct3 insn = funct3_sltu
    · rw [if_pos c9]; exact h_sltu
    rw [if_neg c9]
    by_cases c10 : get_funct3 insn = funct3_xor
    · rw [if_pos c10]; exact h_xor
    rw [if_neg c10]
    by_cases c11 : get_funct3 insn = funct3_srx
    · rw [if_pos c11]
      by_cases c12 : get_funct7 insn = funct7_srl
      · rw [if_pos c12]; exact h_srl
      rw [if_neg c12]
      by_cases c13 : get_funct7 insn = funct7_sra
      · rw [if_pos c13]; exact h_sra
      rw [if_neg c13]
      exact h_illegal_insn
    rw [if_neg c11]
    by_cases c14 : get_funct3 insn = funct3_or
    · rw [if_pos c14]; exact h_or
    rw [if_neg c14]
    by_cases c15 : get_funct3 insn = funct3_and
    · rw [if_pos c15]; exact h_and
    rw [if_neg c15]
    exact h_illegal_insn
  rw [if_neg c3]
  by_cases c16 : get_opcode insn = opcode_stype
  · rw [if_pos c16]
    by_cases c17 : get_funct3 insn = funct3_sb
    · rw [if_pos c17]; exact h_sb
    rw [if_neg c17]
    by_cases c18 : get_funct3 insn = funct3_sh
    · rw [if_pos c18]; exact h_sh
    rw [if_neg c18]
    by_cases c19 : get_funct3 insn = funct3_sw
    · rw [if_pos c19]; exact h_sw
    rw [if_neg c19]
    exact h_illegal_insn
  rw [if_neg c16]
  by_cases c20 : get_opcode insn = opcode_alu_imm
  · rw [if_pos c20]
    by_cases c21 : get_funct3 insn = funct3_sll
    · rw [if_pos c21]; exact h_slli
    rw [if_neg c21]
    by_cases c22 : get_funct3 insn = funct3_add
    · rw [if_pos c22]; exact h_addi
    rw [if_neg c22]
    by_cases c23 : get_funct3 insn = funct3_slt
    · rw [if_pos c23]; exact h_slti
    rw [if_neg c23]
    by_cases c24 : get_funct3 insn = funct3_sltu
    · rw [if_pos c24]; exact h_sltiu
    rw [if_neg c24]
    by_cases c25 : get_funct3 insn = funct3_xor
    · rw [if_pos c25]; exact h_xori
    rw [if_neg c25]
    by_cases c26 : get_funct3 insn = funct3_or
    · rw [if_pos c26]; exact h_ori
    rw [if_neg c26]
    by_cases c27 : get_funct3 insn = funct3_and
    · rw [if_pos c27]; exact h_andi
    rw [if_neg c27]
    by_cases c28 : get_funct3 insn = funct3_srx
    · rw [if_pos c28]
      by_cases c29 : get_funct7 insn = funct7_srl
      · rw [if_pos c29]; exact h_srli
      rw [if_neg c29]
      by_cases c30 : get_funct7 insn = funct7_sra
      · rw [if_pos c30]; exact h_srai
      rw [if_neg c30]
      exact h_illegal_insn
    rw [if_neg c28]
    exact h_illegal_insn
  rw [if_neg c20]
  by_cases c31 : get_opcode insn = opcode_load_imm
  · rw [if_pos c31]
    by_cases c32 : get_funct3 insn = funct3_lb
    · rw [if_pos c32]; exact h_lb
    rw [if_neg c32]
    by_cases c33 : get_funct3 insn = funct3_lh
    · rw [if_pos c33]; exact h_lh
    rw [if_neg c33]
    by_cases c34 : get_funct3 insn = funct3_lw
    · rw [if_pos c34]; exact h_lw
    rw [if_neg c34]
    by_cases c35 : get_funct3 insn = funct3_lbu
    · rw [if_pos c35]; exact h_lbu
    rw [if_neg c35]
    by_cases c36 : get_funct3 insn = funct3_lhu
    · rw [if_pos c36]; exact h_lhu
    rw [if_neg c36]
    exact h_illegal_insn
  rw [if_neg c31]
  by_cases c37 : get_opcode insn = opcode_btype
  · rw [if_pos c37]
    by_cases c38 : get_funct3 insn = funct3_beq
    · rw [if_pos c38]; exact h_beq
    rw [if_neg c38]
    by_cases c39 : get_funct3 insn = funct3_bne
    · rw [if_pos c39]; exact h_bne
    rw [if_neg c39]
    by_cases c40 : get_funct3 insn = funct3_blt
    · rw [if_pos c40]; exact h_blt
    rw [if_neg c40]
    by_cases c41 : get_funct3 insn = funct3_bge
    · rw [if_pos c41]; exact h_bge
    rw [if_neg c41]
    by_cases c42 : get_funct3 insn = funct3_bltu
    · rw [if_pos c42]; exact h_bltu
    rw [if_neg c42]
    by_cases c43 : get_funct3 insn = funct3_bgeu
    · rw [if_pos c43]; exact h_bgeu
    rw [if_neg c43]
    exact h_illegal_insn
  rw [if_neg c37]
  by_cases c44 : get_opcode insn = opcode_jal
  · rw [if_pos c44]; exact h_jal
  rw [if_neg c44]
  by_cases c45 : get_opcode insn = opcode_jalr
  · rw [if_pos c45]; exact h_jalr
  rw [if_neg c45]
  by_cases c46 : get_opcode insn = opcode_system
  · rw [if_pos c46]
    by_cases c47 : insn = insn_ebreak
    · rw [if_pos c47]; exact h_ebreak
    rw [if_neg c47]
    by_cases c48 : get_funct3 insn = funct3_csrrs
    · rw [if_pos c48]; exact h_csrrs
    rw [if_neg c48]
    exact h_illegal_insn
  rw [if_neg c46]
  exact h_illegal_insn

theorem regsStep_same (h h1 : rv32i_hart) (insn : Nat) (e : h1.regs = h.regs) :
    RegsStep h insn (some h1) := by
  intro h' he
  simp only [Option.some.injEq] at he
  subst he
  exact Or.inl e

theorem regsStep_set (h h1 : rv32i_hart) (insn : Nat) (v : Int)
    (e : h1.regs = h.regs.set (get_rd insn) v) : RegsStep h insn (some h1) := by
  intro h' he
  simp only [Option.some.injEq] at he
  subst he
  exact Or.inr ⟨v, e⟩

theorem regsStep_map (h : rv32i_hart) (insn : Nat) (o : Option Int) :
    RegsStep h insn (o.map (write_rd h insn)) := by
  intro h' he
  simp only [Option.map_eq_some'] at he
  obtain ⟨a, _, rfl⟩ := he
  exact Or.inr ⟨a, rfl⟩

theorem regsStep_mem (h : rv32i_hart) (insn : Nat) (o : Option memory) :
    RegsStep h insn (o.map (fun m => ({ h with mem := m }).advance)) := by
  intro h' he
  simp only [Option.map_eq_some'] at he
  obtain ⟨a, _, rfl⟩ := he
  exact Or.inl rfl

theorem exec_regs (h h' : rv32i_hart) (insn : Nat) (he : exec h insn = some h') :
    h'.regs = h.regs ∨ ∃ v, h'.regs = h.regs.set (get_rd insn) v := by
  refine exec_cases (RegsStep h insn) h insn ?_ ?_ ?_ ?_ ?_ ?_ ?_ ?_ ?_ ?_ ?_ ?_ ?_ ?_ ?_ ?_
    ?_ ?_ ?_ ?_ ?_ ?_ ?_ ?_ ?_ ?_ ?_ ?_ ?_ ?_ ?_ ?_ ?_ ?_ ?_ ?_ ?_ ?_ ?_ ?_ h' he
  all_goals
    first
    | exact regsStep_same _ _ _ rfl
    | exact regsStep_set _ _ _ _ rfl
    | exact regsStep_map _ _ _
    | exact regsStep_mem _ _ _
    | (unfold exec_csrrs; simp only; split_ifs
       · exact regsStep_set _ _ _ _ rfl
       · exact regsStep_same _ _ _ rfl
       · exact regsStep_set _ _ _ _ rfl
       · exact regsStep_same _ _ _ rfl)

theorem tick_regs_reachable (h h' : rv32i_hart) (hr : h.regs.Reachable) (ht : tick h = some h') :
    h'.regs.Reachable := by
  unfold tick at ht
  split_ifs at ht
  · simp only [Option.some.injEq] at ht; subst ht; exact hr
  · rcases exec_regs _ _ _ ht with h1 | ⟨v, h1⟩
    · rw [h1]; exact hr
    · rw [h1]; exact registerfile.Reachable.set _ _ _ hr (get_rd_lt _)

theorem ticks_regs_reachable (n : Nat) (h h' : rv32i_hart) (hr : h.regs.Reachable)
    (ht : ticks n h = some h') : h'.regs.Reachable := by
  induction n generalizing h with
  | zero => simp only [ticks, Option.some.injEq] at ht; subst ht; exact hr
  | succ n ih =>
    simp only [ticks] at ht
    split at ht
    · exact absurd ht (by simp)
    · rename_i h1 h1eq
      exact ih h1 (tick_regs_reachable h h1 hr h1eq) ht

/-- C1: in every register-file state reachable from `reset()` by calls `set(r, v)` with
`r` in `0..31`, `get(0)` is 0, `set(0, v)` changes nothing, and the stored slot 0 is 0;
the same holds for the register file of a hart after any number of ticks. -/
theorem C1_zero_register (rf : registerfile) (hr : rf.Reachable) :
    rf.get 0 = 0 ∧ (∀ v : Int, rf.set 0 v = rf) ∧ rf.reg[0]? = some 0 ∧
    ∀ (h h' : rv32i_hart) (n : Nat), h.regs = rf → ticks n h = some h' →
      h'.regs.get 0 = 0 ∧ (∀ v : Int, h'.regs.set 0 v = h'.regs) ∧ h'.regs.reg[0]? = some 0 := by
  refine ⟨rfl, fun _ => rfl, reachable_slot0 rf hr, ?_⟩
  intro h h' n hrf ht
  exact ⟨rfl, fun _ => rfl,
    reachable_slot0 _ (ticks_regs_reachable n h h' (hrf ▸ hr) ht)⟩

theorem C1_zero_register_witness :
    (registerfile.new.set 5 7).get 0 = 0 ∧ (∀ v : Int, (registerfile.new.set 5 7).set 0 v = registerfile.new.set 5 7) ∧
    (registerfile.new.set 5 7).reg[0]? = some 0 ∧
    ∀ (h h' : rv32i_hart) (n : Nat), h.regs = registerfile.new.set 5 7 → ticks n h = some h' →
      h'.regs.get 0 = 0 ∧ (∀ v : Int, h'.regs.set 0 v = h'.regs) ∧ h'.regs.reg[0]? = some 0 :=
  C1_zero_register (registerfile.new.set 5 7)
    (registerfile.Reachable.set _ 5 7 (registerfile.Reachable.reset _) (by decide))

/-! ## Bit-level arithmetic -/

theorem lor_mul (a b k : Nat) (hb : b < 2 ^ k) : (a * 2 ^ k) ||| b = a * 2 ^ k + b := by
  rw [Nat.mul_comm a, Nat.mul_add_lt_is_or hb a]

theorem lor_shl (b a k : Nat) (hb : b < 2 ^ k) : b ||| (a <<< k) = b + a * 2 ^ k := by
  rw [Nat.lor_comm, Nat.shiftLeft_eq, lor_mul a b k hb]
  omega

/-! ## Memory -/

theorem get8_lt (m : memory) (a : Nat) : m.get8 a < 256 := by
  unfold memory.get8
  split
  · exact (m.mem.getD a 0).isLt
  · decide

theorem get8_eq (m : memory) (a : Nat) :
    m.get8 a = if a < m.mem.length then (m.mem.getD a 0).val else 0 := by
  unfold memory.get8 memory.check_illegal
  by_cases h : a < m.mem.length <;> simp [h]

theorem get16_eq (m : memory) (a : Nat) :
    m.get16 a = m.get8 a + m.get8 ((a + 1) % 4294967296) * 256 := by
  unfold memory.get16
  have h0 := get8_lt m a
  have h1 := get8_lt m ((a + 1) % 4294967296)
  rw [lor_shl _ _ 8 h0]
  omega

theorem get32_eq (m : memory) (a : Nat) :
    m.get32 a = m.get8 a + m.get8 ((a + 1) % 4294967296) * 256
      + m.get8 ((a + 2) % 4294967296) * 65536 + m.get8 ((a + 3) % 4294967296) * 16777216 := by
  unfold memory.get32
  have e : ((a + 2) % 4294967296 + 1) % 4294967296 = (a + 3) % 4294967296 := by omega
  rw [get16_eq, get16_eq, e]
  have h0 := get8_lt m a
  have h1 := get8_lt m ((a + 1) % 4294967296)
  have h2 := get8_lt m ((a + 2) % 4294967296)
  have h3 := get8_lt m ((a + 3) % 4294967296)
  rw [lor_shl _ _ 16 (by omega)]
  omega

theorem set8_length (m : memory) (a v : Nat) : (m.set8 a v).mem.length = m.mem.length := by
  unfold memory.set8
  split <;> simp

theorem get8_set8 (m : memory) (a v b : Nat) :
    (m.set8 a v).get8 b = if b = a ∧ a < m.mem.length then v % 256 else m.get8 b := by
  rw [get8_eq, get8_eq, set8_length]
  unfold memory.set8 memory.check_illegal
  by_cases ha : a < m.mem.length
  · by_cases hb : b = a
    · subst hb
      simp [ha, toByte, List.getD_eq_getElem?_getD]
    · have hne : a ≠ b := fun e => hb e.symm
      simp [ha, hb, hne, List.getD_eq_getElem?_getD, List.getElem?_set]
  · simp [ha]

theorem store_eq (m : memory) (a v : Nat) (ha : a < m.mem.length) :
    m.store a v = some (m.set8 a v) := by
  unfold memory.store memory.set8 memory.check_illegal
  simp [ha]

theorem store_none (m : memory) (a v : Nat) (ha : m.mem.length ≤ a) : m.store a v = none := by
  unfold memory.store
  simp [Nat.not_lt.mpr ha]

theorem set16_eq (m : memory) (a v : Nat) (ha : a < m.mem.length) :
    m.set16 a v = some (((m.set8 ((a + 1) % 4294967296) ((v % 65536) >>> 8)).set8 a
      (v % 65536)).set8 a (v % 65536)) := by
  unfold memory.set16
  simp only
  rw [store_eq]
  rw [set8_length, set8_length]
  exact ha

theorem set16_none (m : memory) (a v : Nat) (ha : m.mem.length ≤ a) : m.set16 a v = none := by
  unfold memory.set16
  simp only
  apply store_none
  rw [set8_length, set8_length]
  exact ha

theorem set32_eq (m : memory) (a v : Nat) (ha : a + 3 < m.mem.length)
    (hN : m.mem.length ≤ 4294967296) :
    ∃ m', m.set32 a v = some m' ∧ m'.mem.length = m.mem.length ∧
      ∀ b, m'.get8 b =
        if b = a then v % 256
        else if b = a + 1 then v / 256 % 256
        else if b = a + 2 then v / 65536 % 256
        else if b = a + 3 then v / 16777216 % 256
        else m.get8 b := by
  have e1 : (a + 1) % 4294967296 = a + 1 := by omega
  have e2 : (a + 2) % 4294967296 = a + 2 := by omega
  have e3 : (a + 2 + 1) % 4294967296 = a + 3 := by omega
  have e4 : (a + 1 + 1) % 4294967296 = a + 2 := by omega
  unfold memory.set32
  rw [e1, e2, set16_eq _ _ _ (by omega)]
  simp only
  rw [set16_eq _ _ _ (by simp only [set8_length]; omega)]
  simp only
  rw [store_eq _ _ _ (by simp only [set8_length]; omega)]
  refine ⟨_, rfl, by simp only [set8_length], ?_⟩
  intro b
  simp only [get8_set8, set8_length, e3, e4, Nat.shiftRight_eq_div_pow]
  split_ifs <;> omega

/-- C2: a value written by `set32`, `set16` or `set8` at an address whose bytes all lie
inside the memory is read back unchanged by `get32`, `get16` or `get8` (the value being
a `uint32_t`, `uint16_t` or `uint8_t`, that is `v` reduced to the width of the access). -/
theorem C2_memory_round_trip (m : memory) (a v : Nat) (hN : m.mem.length ≤ 4294967296) :
    (a + 3 < m.mem.length → ∃ m', m.set32 a v = some m' ∧ m'.get32 a = v % 4294967296) ∧
    (a + 1 < m.mem.length → ∃ m', m.set16 a v = some m' ∧ m'.get16 a = v % 65536) ∧
    (a < m.mem.length → (m.set8 a v).get8 a = v % 256) := by
  refine ⟨?_, ?_, ?_⟩
  · intro ha
    obtain ⟨m', hm', _, hb⟩ := set32_eq m a v ha hN
    refine ⟨m', hm', ?_⟩
    have e1 : (a + 1) % 4294967296 = a + 1 := by omega
    have e2 : (a + 2) % 4294967296 = a + 2 := by omega
    have e3 : (a + 3) % 4294967296 = a + 3 := by omega
    rw [get32_eq, e1, e2, e3, hb, hb, hb, hb]
    simp only [if_true, Nat.add_right_eq_self, Nat.add_right_cancel_iff]
    norm_num
    omega
  · intro ha
    have e1 : (a + 1) % 4294967296 = a + 1 := by omega
    refine ⟨_, set16_eq m a v (by omega), ?_⟩
    rw [get16_eq, e1]
    simp only [get8_set8, set8_length, Nat.shiftRight_eq_div_pow]
    have h0 : a < m.mem.length := by omega
    simp only [ha, h0, and_true, and_self, if_true, Nat.add_right_eq_self, if_false]
    norm_num
    omega
  · intro ha
    rw [get8_set8]
    simp only [ha, and_self, if_true]

theorem C2_memory_round_trip_witness :
    (∃ m', (memory.new 16).set32 4 3735928559 = some m' ∧ m'.get32 4 = 3735928559) ∧
    (∃ m', (memory.new 16).set16 4 48879 = some m' ∧ m'.get16 4 = 48879) ∧
    ((memory.new 16).set8 4 239).get8 4 = 239 :=
  ⟨(C2_memory_round_trip (memory.new 16) 4 3735928559 (by decide)).1 (by decide),
   (C2_memory_round_trip (memory.new 16) 4 48879 (by decide)).2.1 (by decide),
   (C2_memory_round_trip (memory.new 16) 4 239 (by decide)).2.2 (by decide)⟩

/-- C4: `get32`, `get16` and `get8` return the little-endian composition of the stored
bytes at the (wrapping) addresses that lie inside the memory, with 0 for every byte
outside; so `get8` is 0 at and above the size. -/
theorem C4_reads_neutralized (m : memory) (a : Nat) :
    m.get32 a =
      ((if a < m.mem.length then (m.mem.getD a 0).val else 0)
        ||| ((if (a + 1) % 4294967296 < m.mem.length
              then (m.mem.getD ((a + 1) % 4294967296) 0).val else 0) <<< 8)
        ||| ((if (a + 2) % 4294967296 < m.mem.length
              then (m.mem.getD ((a + 2) % 4294967296) 0).val else 0) <<< 16)
        ||| ((if (a + 3) % 4294967296 < m.mem.length
              then (m.mem.getD ((a + 3) % 4294967296) 0).val else 0) <<< 24)) ∧
    m.get16 a =
      ((if a < m.mem.length then (m.mem.getD a 0).val else 0)
        ||| ((if (a + 1) % 4294967296 < m.mem.length
              then (m.mem.getD ((a + 1) % 4294967296) 0).val else 0) <<< 8)) ∧
    m.get8 a = (if a < m.mem.length then (m.mem.getD a 0).val else 0) ∧
    (m.mem.length ≤ a → m.get8 a = 0) := by
  have h0 := get8_lt m a
  have h1 := get8_lt m ((a + 1) % 4294967296)
  have h2 := get8_lt m ((a + 2) % 4294967296)
  have h3 := get8_lt m ((a + 3) % 4294967296)
  refine ⟨?_, ?_, get8_eq m a, ?_⟩
  · rw [get32_eq]
    simp only [← get8_eq]
    rw [lor_shl _ _ 8 h0, lor_shl _ _ 16 (by omega), lor_shl _ _ 24 (by omega)]
    omega
  · rw [get16_eq]
    simp only [← get8_eq]
    rw [lor_shl _ _ 8 h0]
    omega
  · intro h
    rw [get8_eq, if_neg (by omega)]

theorem store_length (m m' : memory) (a v : Nat) (h : m.store a v = some m') :
    m'.mem.length = m.mem.length := by
  unfold memory.store at h
  split at h
  · simp only [Option.some.injEq] at h
    subst h
    simp
  · exact absurd h (by simp)

theorem set16_length (m m' : memory) (a v : Nat) (h : m.set16 a v = some m') :
    m'.mem.length = m.mem.length := by
  unfold memory.set16 at h
  simp only at h
  rw [store_length _ _ _ _ h, set8_length, set8_length]

/-- `set32` at an address at or above the size always reaches the unchecked store. -/
theorem set32_none (m : memory) (a v : Nat) (ha : m.mem.length ≤ a) : m.set32 a v = none := by
  unfold memory.set32
  split
  · rfl
  · rename_i m1 h1
    split
    · rfl
    · rename_i m2 h2
      apply store_none
      rw [set16_length _ _ _ _ h2, set16_length _ _ _ _ h1]
      exact ha

/-- C3 (the code at the failing inputs): on a memory of 16 bytes, `set8(16, v)` is
dropped, but `set16(16, v)`, `set32(16, v)` and the straddling `set32(15, v)` and
`set32(14, v)` reach the unchecked `mem[addr] = val` with an index at or above the size;
the straddling `set32(13, v)` writes the three bytes in range. -/
theorem C3_unchecked_store :
    (memory.new 16).set8 16 0x12 = memory.new 16 ∧
    (memory.new 16).set16 16 0x1234 = none ∧
    (memory.new 16).set32 16 0x12345678 = none ∧
    (memory.new 16).set32 15 0x12345678 = none ∧
    (memory.new 16).set32 14 0x12345678 = none ∧
    (memory.new 16).set32 13 0x12345678 =
      some ((((memory.new 16).set8 13 0x78).set8 14 0x56).set8 15 0x34) := by
  decide

/-! ## Decoder fields and immediates -/

theorem and_mask (x lo w : Nat) :
    x &&& ((2 ^ w - 1) <<< lo) = (x / 2 ^ lo % 2 ^ w) * 2 ^ lo := by
  apply Nat.eq_of_testBit_eq
  intro i
  rw [← Nat.shiftLeft_eq, ← Nat.shiftRight_eq_div_pow]
  simp only [Nat.testBit_and, Nat.testBit_shiftLeft, Nat.testBit_two_pow_sub_one,
    Nat.testBit_mod_two_pow, Nat.testBit_shiftRight]
  by_cases h : lo ≤ i
  · have e : lo + (i - lo) = i := by omega
    simp [h, e, Bool.and_comm, Bool.and_left_comm]
  · simp [h]

theorem field_shr (x lo w s : Nat) (h : s ≤ lo) :
    (x &&& ((2 ^ w - 1) <<< lo)) >>> s = (x / 2 ^ lo % 2 ^ w) * 2 ^ (lo - s) := by
  rw [and_mask, Nat.shiftRight_eq_div_pow]
  have e : 2 ^ lo = 2 ^ (lo - s) * 2 ^ s := by
    rw [← Nat.pow_add]; congr 1; omega
  rw [e, ← Nat.mul_assoc, Nat.mul_div_cancel _ (Nat.pow_pos (by decide))]

theorem field_shl (x lo w s : Nat) :
    (x &&& ((2 ^ w - 1) <<< lo)) <<< s = (x / 2 ^ lo % 2 ^ w) * 2 ^ (lo + s) := by
  rw [and_mask, Nat.shiftLeft_eq, Nat.mul_assoc, ← Nat.pow_add]

theorem toS32_small (n : Nat) (h : n < 2147483648) : toS32 n = (n : Int) := by
  unfold toS32
  rw [if_pos (by omega)]
  congr 1
  omega

theorem toS32_high (n r : Nat) (hr : r < 2147483648) (h : n = 4294967296 - 2147483648 + r) :
    toS32 n = (r : Int) - 2147483648 := by
  unfold toS32
  rw [if_neg (by omega)]
  omega

/-- The value of `get_imm_b` in terms of the fields of the word. -/
theorem get_imm_b_eq (insn : Nat) :
    get_imm_b insn = 2 * ((insn / 256 % 16 : Nat) : Int) + 32 * ((insn / 33554432 % 64 : Nat) : Int)
      + 2048 * ((insn / 128 % 2 : Nat) : Int) - 4096 * ((insn / 2147483648 % 2 : Nat) : Int) := by
  unfold get_imm_b
  simp only
  have hS : insn &&& 0x80000000 = insn / 2147483648 % 2 * 2147483648 := and_mask insn 31 1
  have hA : (insn &&& 0x80000000) >>> (31 - 12) = insn / 2147483648 % 2 * 2 ^ 12 :=
    field_shr insn 31 1 19 (by decide)
  have hB : (insn &&& 0x7e000000) >>> (25 - 5) = insn / 33554432 % 64 * 2 ^ 5 :=
    field_shr insn 25 6 20 (by decide)
  have hC : (insn &&& 0x00000f00) >>> (8 - 1) = insn / 256 % 16 * 2 ^ 1 :=
    field_shr insn 8 4 7 (by decide)
  have hD : (insn &&& 0x00000080) <<< (11 - 7) = insn / 128 % 2 * 2 ^ 11 :=
    field_shl insn 7 1 4
  rw [hA, hB, hC, hD, hS]
  have hs : insn / 2147483648 % 2 < 2 := Nat.mod_lt _ (by decide)
  have h6 : insn / 33554432 % 64 < 64 := Nat.mod_lt _ (by decide)
  have h4 : insn / 256 % 16 < 16 := Nat.mod_lt _ (by decide)
  have h1 : insn / 128 % 2 < 2 := Nat.mod_lt _ (by decide)
  generalize insn / 2147483648 % 2 = s at *
  generalize insn / 33554432 % 64 = f6 at *
  generalize insn / 256 % 16 = f4 at *
  generalize insn / 128 % 2 = f1 at *
  have e1 : f1 * 2 ^ 11 % 4294967296 = f1 * 2 ^ 11 := Nat.mod_eq_of_lt (by omega)
  rw [e1]
  have eBC : f6 * 2 ^ 5 ||| f4 * 2 ^ 1 = f6 * 2 ^ 5 + f4 * 2 ^ 1 := lor_mul _ _ _ (by omega)
  have eD : f1 * 2 ^ 11 ||| (f6 * 2 ^ 5 + f4 * 2 ^ 1) = f1 * 2 ^ 11 + (f6 * 2 ^ 5 + f4 * 2 ^ 1) :=
    lor_mul _ _ _ (by omega)
  have hs' : s = 0 ∨ s = 1 := by omega
  rcases hs' with rfl | rfl
  · have e : 0 * 2 ^ 12 ||| f6 * 2 ^ 5 ||| f4 * 2 ^ 1 ||| f1 * 2 ^ 11
        = 0 * 2 ^ 12 ||| (f1 * 2 ^ 11 ||| (f6 * 2 ^ 5 ||| f4 * 2 ^ 1)) := by ac_rfl
    rw [if_neg (by decide), e, eBC, eD, lor_mul _ _ _ (by omega), toS32_small _ (by omega)]
    push_cast
    omega
  · have e : 1 * 2 ^ 12 ||| f6 * 2 ^ 5 ||| f4 * 2 ^ 1 ||| f1 * 2 ^ 11 ||| 0xfffff000
        = (0xfffff000 ||| 1 * 2 ^ 12) ||| (f1 * 2 ^ 11 ||| (f6 * 2 ^ 5 ||| f4 * 2 ^ 1)) := by ac_rfl
    have e2 : (0xfffff000 ||| 1 * 2 ^ 12) = 0xfffff * 2 ^ 12 := by decide
    rw [if_pos (by decide), e, e2, eBC, eD, lor_mul _ _ _ (by omega),
      toS32_high _ (2147479552 + (f1 * 2 ^ 11 + (f6 * 2 ^ 5 + f4 * 2 ^ 1))) (by omega) (by omega)]
    push_cast
    omega

theorem testBit_congr (x y i j : Nat) (h : x / 2 ^ i % 2 = y / 2 ^ j % 2) :
    x.testBit i = y.testBit j := by
  rw [Nat.testBit_to_div_mod, Nat.testBit_to_div_mod, h]

theorem testBit_false_of (x i : Nat) (h : x / 2 ^ i % 2 = 0) : x.testBit i = false := by
  rw [Nat.testBit_to_div_mod, h]
  rfl

theorem imm_b_bits (s f6 f4 f1 u : Nat) (hs : s < 2) (h6 : f6 < 64) (h4 : f4 < 16) (h1 : f1 < 2)
    (hu : u = 2 * f4 + 32 * f6 + 2048 * f1 + 4294963200 * s) :
    u / 4096 % 2 = s ∧ u / 2048 % 2 = f1 ∧ u / 32 % 64 = f6 ∧ u / 2 % 16 = f4 ∧ u % 2 = 0 ∧
    ∀ i, 13 ≤ i → i ≤ 31 → u / 2 ^ i % 2 = s := by
  subst hu
  refine ⟨by omega, by omega, by omega, by omega, by omega, ?_⟩
  intro i h13 h31
  have hs' : s = 0 ∨ s = 1 := by omega
  rcases hs' with rfl | rfl <;> interval_cases i <;> omega

/-- C5: `get_imm_b` is the two's-complement value whose bit 12 is `insn[31]`, bit 11 is
`insn[7]`, bits 10:5 are `insn[30:25]`, bits 4:1 are `insn[11:8]`, bit 0 is 0 and bits
31:13 copy `insn[31]`; it is even and lies in `[-4096, 4094]`. -/
theorem C5_imm_b (insn : Nat) :
    toS32 (toU32 (get_imm_b insn)) = get_imm_b insn ∧
    (toU32 (get_imm_b insn)).testBit 12 = insn.testBit 31 ∧
    (toU32 (get_imm_b insn)).testBit 11 = insn.testBit 7 ∧
    bitfield (toU32 (get_imm_b insn)) 10 5 = bitfield insn 30 25 ∧
    bitfield (toU32 (get_imm_b insn)) 4 1 = bitfield insn 11 8 ∧
    (toU32 (get_imm_b insn)).testBit 0 = false ∧
    (∀ i, 13 ≤ i → i ≤ 31 → (toU32 (get_imm_b insn)).testBit i = insn.testBit 31) ∧
    get_imm_b insn % 2 = 0 ∧ -4096 ≤ get_imm_b insn ∧ get_imm_b insn ≤ 4094 := by
  have hv := get_imm_b_eq insn
  have hs : insn / 2147483648 % 2 < 2 := Nat.mod_lt _ (by decide)
  have h6 : insn / 33554432 % 64 < 64 := Nat.mod_lt _ (by decide)
  have h4 : insn / 256 % 16 < 16 := Nat.mod_lt _ (by decide)
  have h1 : insn / 128 % 2 < 2 := Nat.mod_lt _ (by decide)
  have hu : toU32 (get_imm_b insn) = 2 * (insn / 256 % 16) + 32 * (insn / 33554432 % 64)
      + 2048 * (insn / 128 % 2) + 4294963200 * (insn / 2147483648 % 2) := by
    rw [hv]; unfold toU32; omega
  obtain ⟨b12, b11, b10, b4, b0, bhi⟩ := imm_b_bits _ _ _ _ _ hs h6 h4 h1 hu
  refine ⟨?_, ?_, ?_, ?_, ?_, ?_, ?_, ?_, ?_, ?_⟩
  · rw [hu, hv]; unfold toS32; omega
  · exact testBit_congr _ _ 12 31 b12
  · exact testBit_congr _ _ 11 7 b11
  · exact b10
  · exact b4
  · exact testBit_false_of _ 0 (by rw [Nat.pow_zero, Nat.div_one]; exact b0)
  · intro i h13 h31
    exact testBit_congr _ _ i 31 (bhi i h13 h31)
  · omega
  · omega
  · omega

/-- The value of `get_imm_j` in terms of the fields of the word. -/
theorem get_imm_j_eq (insn : Nat) :
    get_imm_j insn = 2 * ((insn / 2097152 % 1024 : Nat) : Int)
      + 2048 * ((insn / 1048576 % 2 : Nat) : Int) + 4096 * ((insn / 4096 % 256 : Nat) : Int)
      - 1048576 * ((insn / 2147483648 % 2 : Nat) : Int) := by
  unfold get_imm_j
  simp only
  have hS : insn &&& 0x80000000 = insn / 2147483648 % 2 * 2147483648 := and_mask insn 31 1
  have hA : insn &&& 0x000ff000 = insn / 4096 % 256 * 2 ^ 12 := and_mask insn 12 8
  have hB : (insn &&& 0x00100000) >>> (20 - 11) = insn / 1048576 % 2 * 2 ^ 11 :=
    field_shr insn 20 1 9 (by decide)
  have hC : (insn &&& 0x7fe00000) >>> (30 - 10) = insn / 2097152 % 1024 * 2 ^ 1 :=
    field_shr insn 21 10 20 (by decide)
  have hD : (insn &&& 0x80000000) >>> (31 - 20) = insn / 2147483648 % 2 * 2 ^ 20 :=
    field_shr insn 31 1 11 (by decide)
  rw [hA, hB, hC, hD, hS]
  have hs : insn / 2147483648 % 2 < 2 := Nat.mod_lt _ (by decide)
  have h8 : insn / 4096 % 256 < 256 := Nat.mod_lt _ (by decide)
  have h10 : insn / 2097152 % 1024 < 1024 := Nat.mod_lt _ (by decide)
  have h1 : insn / 1048576 % 2 < 2 := Nat.mod_lt _ (by decide)
  generalize insn / 2147483648 % 2 = s at *
  generalize insn / 4096 % 256 = f8 at *
  generalize insn / 2097152 % 1024 = f10 at *
  generalize insn / 1048576 % 2 = f1 at *
  have eBC : f1 * 2 ^ 11 ||| f10 * 2 ^ 1 = f1 * 2 ^ 11 + f10 * 2 ^ 1 := lor_mul _ _ _ (by omega)
  have eD : f8 * 2 ^ 12 ||| (f1 * 2 ^ 11 + f10 * 2 ^ 1)
      = f8 * 2 ^ 12 + (f1 * 2 ^ 11 + f10 * 2 ^ 1) := lor_mul _ _ _ (by omega)
  have hs' : s = 0 ∨ s = 1 := by omega
  rcases hs' with rfl | rfl
  · have e : f8 * 2 ^ 12 ||| f1 * 2 ^ 11 ||| f10 * 2 ^ 1 ||| 0 * 2 ^ 20
        = 0 * 2 ^ 20 ||| (f8 * 2 ^ 12 ||| (f1 * 2 ^ 11 ||| f10 * 2 ^ 1)) := by ac_rfl
    rw [if_neg (by decide), e, eBC, eD, lor_mul _ _ _ (by omega), toS32_small _ (by omega)]
    push_cast
    omega
  · have e : f8 * 2 ^ 12 ||| f1 * 2 ^ 11 ||| f10 * 2 ^ 1 ||| 1 * 2 ^ 20 ||| 0xfff00000
        = (0xfff00000 ||| 1 * 2 ^ 20) ||| (f8 * 2 ^ 12 ||| (f1 * 2 ^ 11 ||| f10 * 2 ^ 1)) := by
      ac_rfl
    have e2 : (0xfff00000 ||| 1 * 2 ^ 20) = 0xfff * 2 ^ 20 := by decide
    rw [if_pos (by decide), e, e2, eBC, eD, lor_mul _ _ _ (by omega),
      toS32_high _ (2146435072 + (f8 * 2 ^ 12 + (f1 * 2 ^ 11 + f10 * 2 ^ 1))) (by omega)
        (by omega)]
    push_cast
    omega

/-- The value of `get_imm_i` in terms of the fields of the word. -/
theorem get_imm_i_eq (insn : Nat) :
    get_imm_i insn = ((insn / 1048576 % 4096 : Nat) : Int)
      - 4096 * ((insn / 2147483648 % 2 : Nat) : Int) := by
  unfold get_imm_i
  simp only
  have hS : insn &&& 0x80000000 = insn / 2147483648 % 2 * 2147483648 := and_mask insn 31 1
  have hA : (insn &&& 0xfff00000) >>> 20 = insn / 1048576 % 4096 * 2 ^ 0 :=
    field_shr insn 20 12 20 (by decide)
  rw [hA, hS]
  have hs : insn / 2147483648 % 2 < 2 := Nat.mod_lt _ (by decide)
  have h12 : insn / 1048576 % 4096 < 4096 := Nat.mod_lt _ (by decide)
  generalize insn / 2147483648 % 2 = s at *
  generalize insn / 1048576 % 4096 = f12 at *
  have hs' : s = 0 ∨ s = 1 := by omega
  rcases hs' with rfl | rfl
  · rw [if_neg (by decide), toS32_small _ (by omega)]
    push_cast
    omega
  · have e2 : (0xfffff000 : Nat) = 0xfffff * 2 ^ 12 := by decide
    rw [if_pos (by decide), Nat.lor_comm, e2, lor_mul _ _ _ (by omega),
      toS32_high _ (2147479552 + f12 * 2 ^ 0) (by omega) (by omega)]
    push_cast
    omega

/-- The value of `get_imm_s` in terms of the fields of the word. -/
theorem get_imm_s_eq (insn : Nat) :
    get_imm_s insn = 32 * ((insn / 33554432 % 128 : Nat) : Int) + ((insn / 128 % 32 : Nat) : Int)
      - 4096 * ((insn / 2147483648 % 2 : Nat) : Int) := by
  unfold get_imm_s
  simp only
  have hS : insn &&& 0x80000000 = insn / 2147483648 % 2 * 2147483648 := and_mask insn 31 1
  have hA : (insn &&& 0xfe000000) >>> 20 = insn / 33554432 % 128 * 2 ^ 5 :=
    field_shr insn 25 7 20 (by decide)
  have hB : (insn &&& 0x00000f80) >>> 7 = insn / 128 % 32 * 2 ^ 0 :=
    field_shr insn 7 5 7 (by decide)
  rw [hA, hB, hS]
  have hs : insn / 2147483648 % 2 < 2 := Nat.mod_lt _ (by decide)
  have h7 : insn / 33554432 % 128 < 128 := Nat.mod_lt _ (by decide)
  have h5 : insn / 128 % 32 < 32 := Nat.mod_lt _ (by decide)
  generalize insn / 2147483648 % 2 = s at *
  generalize insn / 33554432 % 128 = f7 at *
  generalize insn / 128 % 32 = f5 at *
  have eAB : f7 * 2 ^ 5 ||| f5 * 2 ^ 0 = f7 * 2 ^ 5 + f5 * 2 ^ 0 := lor_mul _ _ _ (by omega)
  have hs' : s = 0 ∨ s = 1 := by omega
  rcases hs' with rfl | rfl
  · rw [if_neg (by decide), eAB, toS32_small _ (by omega)]
    push_cast
    omega
  · have e2 : (0xfffff000 : Nat) = 0xfffff * 2 ^ 12 := by decide
    rw [if_pos (by decide), eAB, Nat.lor_comm, e2, lor_mul _ _ _ (by omega),
      toS32_high _ (2147479552 + (f7 * 2 ^ 5 + f5 * 2 ^ 0)) (by omega) (by omega)]
    push_cast
    omega

theorem imm_j_bits (s f8 f10 f1 u : Nat) (hs : s < 2) (h8 : f8 < 256) (h10 : f10 < 1024)
    (h1 : f1 < 2) (hu : u = 2 * f10 + 2048 * f1 + 4096 * f8 + 4293918720 * s) :
    u / 1048576 % 2 = s ∧ u / 4096 % 256 = f8 ∧ u / 2048 % 2 = f1 ∧ u / 2 % 1024 = f10 ∧
    u % 2 = 0 ∧ ∀ i, 21 ≤ i → i ≤ 31 → u / 2 ^ i % 2 = s := by
  subst hu
  refine ⟨by omega, by omega, by omega, by omega, by omega, ?_⟩
  intro i h21 h31
  have hs' : s = 0 ∨ s = 1 := by omega
  rcases hs' with rfl | rfl <;> interval_cases i <;> omega

/-- C6: `get_imm_j` is the two's-complement value whose bit 20 is `insn[31]`, bits 19:12
are `insn[19:12]`, bit 11 is `insn[20]`, bits 10:1 are `insn[30:21]`, bit 0 is 0 and bits
31:21 copy `insn[31]`; it is even and lies in `[-2^20, 2^20 - 2]`. -/
theorem C6_imm_j (insn : Nat) :
    toS32 (toU32 (get_imm_j insn)) = get_imm_j insn ∧
    (toU32 (get_imm_j insn)).testBit 20 = insn.testBit 31 ∧
    bitfield (toU32 (get_imm_j insn)) 19 12 = bitfield insn 19 12 ∧
    (toU32 (get_imm_j insn)).testBit 11 = insn.testBit 20 ∧
    bitfield (toU32 (get_imm_j insn)) 10 1 = bitfield insn 30 21 ∧
    (toU32 (get_imm_j insn)).testBit 0 = false ∧
    (∀ i, 21 ≤ i → i ≤ 31 → (toU32 (get_imm_j insn)).testBit i = insn.testBit 31) ∧
    get_imm_j insn % 2 = 0 ∧ -1048576 ≤ get_imm_j insn ∧ get_imm_j insn ≤ 1048574 := by
  have hv := get_imm_j_eq insn
  have hs : insn / 2147483648 % 2 < 2 := Nat.mod_lt _ (by decide)
  have h8 : insn / 4096 % 256 < 256 := Nat.mod_lt _ (by decide)
  have h10 : insn / 2097152 % 1024 < 1024 := Nat.mod_lt _ (by decide)
  have h1 : insn / 1048576 % 2 < 2 := Nat.mod_lt _ (by decide)
  have hu : toU32 (get_imm_j insn) = 2 * (insn / 2097152 % 1024) + 2048 * (insn / 1048576 % 2)
      + 4096 * (insn / 4096 % 256) + 4293918720 * (insn / 2147483648 % 2) := by
    rw [hv]; unfold toU32; omega
  obtain ⟨b20, b19, b11, b10, b0, bhi⟩ := imm_j_bits _ _ _ _ _ hs h8 h10 h1 hu
  refine ⟨?_, ?_, ?_, ?_, ?_, ?_, ?_, ?_, ?_, ?_⟩
  · rw [hu, hv]; unfold toS32; omega
  · exact testBit_congr _ _ 20 31 b20
  · exact b19
  · exact testBit_congr _ _ 11 20 b11
  · exact b10
  · exact testBit_false_of _ 0 (by rw [Nat.pow_zero, Nat.div_one]; exact b0)
  · intro i h21 h31
    exact testBit_congr _ _ i 31 (bhi i h21 h31)
  · omega
  · omega
  · omega

theorem imm_i_sext (insn : Nat) :
    get_imm_i insn = signExtend 12 (insn / 1048576 % 4096) ∧
    -2048 ≤ get_imm_i insn ∧ get_imm_i insn ≤ 2047 := by
  have k1 : insn / 2147483648 = insn / 1048576 / 2048 := by
    rw [Nat.div_div_eq_div_mul]
  have p12 : (2 : Nat) ^ 12 = 4096 := by decide
  have p11 : (2 : Nat) ^ (12 - 1) = 2048 := by decide
  rw [get_imm_i_eq, k1]
  unfold signExtend
  rw [p12, p11]
  clear k1
  generalize insn / 1048576 = x
  refine ⟨?_, ?_, ?_⟩
  · split <;> omega
  · omega
  · omega

theorem imm_s_sext (insn : Nat) :
    get_imm_s insn = signExtend 12 (insn / 33554432 % 128 * 32 + insn / 128 % 32) ∧
    -2048 ≤ get_imm_s insn ∧ get_imm_s insn ≤ 2047 := by
  have k2 : insn / 2147483648 = insn / 33554432 / 64 := by
    rw [Nat.div_div_eq_div_mul]
  have p12 : (2 : Nat) ^ 12 = 4096 := by decide
  have p11 : (2 : Nat) ^ (12 - 1) = 2048 := by decide
  have h5 : insn / 128 % 32 < 32 := Nat.mod_lt _ (by decide)
  rw [get_imm_s_eq, k2]
  unfold signExtend
  rw [p12, p11]
  clear k2
  generalize insn / 33554432 = x
  generalize insn / 128 % 32 = y at h5 ⊢
  refine ⟨?_, ?_, ?_⟩
  · split <;> omega
  · omega
  · omega

/-- C7: `get_imm_i` is the sign extension of the 12-bit field `insn[31:20]`, `get_imm_s`
the sign extension of the 12-bit value `insn[31:25] : insn[11:7]`; both lie in
`[-2048, 2047]`. -/
theorem C7_imm_i_s (insn : Nat) :
    get_imm_i insn = signExtend 12 (bitfield insn 31 20) ∧
    get_imm_s insn = signExtend 12 (bitfield insn 31 25 * 32 + bitfield insn 11 7) ∧
    -2048 ≤ get_imm_i insn ∧ get_imm_i insn ≤ 2047 ∧
    -2048 ≤ get_imm_s insn ∧ get_imm_s insn ≤ 2047 :=
  ⟨(imm_i_sext insn).1, (imm_s_sext insn).1, (imm_i_sext insn).2.1, (imm_i_sext insn).2.2,
    (imm_s_sext insn).2.1, (imm_s_sext insn).2.2⟩

theorem lor_add (x b k : Nat) (hx : x % 2 ^ k = 0) (hb : b < 2 ^ k) : x ||| b = x + b := by
  obtain ⟨c, rfl⟩ := Nat.dvd_of_mod_eq_zero hx
  rw [Nat.mul_comm, lor_mul c b k hb]

theorem get_opcode_eq (insn : Nat) : get_opcode insn = insn % 128 := by
  have e : insn &&& 0x0000007f = insn / 2 ^ 0 % 2 ^ 7 * 2 ^ 0 := and_mask insn 0 7
  unfold get_opcode
  rw [e]
  omega

theorem get_rd_eq (insn : Nat) : get_rd insn = insn / 128 % 32 := by
  have e : (insn &&& 0x00000f80) >>> 7 = insn / 128 % 32 * 2 ^ 0 :=
    field_shr insn 7 5 7 (by decide)
  unfold get_rd
  rw [e]
  omega

theorem get_funct3_eq (insn : Nat) : get_funct3 insn = insn / 4096 % 8 := by
  have e : (insn &&& 0x00007000) >>> 12 = insn / 4096 % 8 * 2 ^ 0 :=
    field_shr insn 12 3 12 (by decide)
  unfold get_funct3
  rw [e]
  omega

theorem get_rs1_eq (insn : Nat) : get_rs1 insn = insn / 32768 % 32 := by
  have e : (insn &&& 0x000f8000) >>> 15 = insn / 32768 % 32 * 2 ^ 0 :=
    field_shr insn 15 5 15 (by decide)
  unfold get_rs1
  rw [e]
  omega

theorem get_rs2_eq (insn : Nat) : get_rs2 insn = insn / 1048576 % 32 := by
  have e : (insn &&& 0x01f00000) >>> 20 = insn / 1048576 % 32 * 2 ^ 0 :=
    field_shr insn 20 5 20 (by decide)
  unfold get_rs2
  rw [e]
  omega

theorem get_funct7_eq (insn : Nat) : get_funct7 insn = insn / 33554432 % 128 := by
  have e : (insn &&& 0xfe000000) >>> 25 = insn / 33554432 % 128 * 2 ^ 0 :=
    field_shr insn 25 7 25 (by decide)
  unfold get_funct7
  rw [e]
  omega

/-- C8: the six field extractors return the bit fields `insn[6:0]`, `insn[11:7]`,
`insn[14:12]`, `insn[19:15]`, `insn[24:20]`, `insn[31:25]`, each within its width, and a
32-bit word is the OR of its fields shifted back into place. -/
theorem C8_fields_partition (insn : Nat) (h : insn < 4294967296) :
    get_opcode insn = bitfield insn 6 0 ∧ get_rd insn = bitfield insn 11 7 ∧
    get_funct3 insn = bitfield insn 14 12 ∧ get_rs1 insn = bitfield insn 19 15 ∧
    get_rs2 insn = bitfield insn 24 20 ∧ get_funct7 insn = bitfield insn 31 25 ∧
    get_opcode insn < 128 ∧ get_rd insn < 32 ∧ get_funct3 insn < 8 ∧ get_rs1 insn < 32 ∧
    get_rs2 insn < 32 ∧ get_funct7 insn < 128 ∧
    insn = (get_funct7 insn <<< 25 ||| get_rs2 insn <<< 20 ||| get_rs1 insn <<< 15
      ||| get_funct3 insn <<< 12 ||| get_rd insn <<< 7 ||| get_opcode insn) := by
  have h0 := get_opcode_eq insn
  have h1 := get_rd_eq insn
  have h2 := get_funct3_eq insn
  have h3 := get_rs1_eq insn
  have h4 := get_rs2_eq insn
  have h5 := get_funct7_eq insn
  refine ⟨?_, h1, h2, h3, h4, h5, by omega, by omega, by omega, by omega, by omega, by omega, ?_⟩
  · rw [h0]; unfold bitfield; omega
  have hsum : insn = insn / 33554432 % 128 * 2 ^ 25 + insn / 1048576 % 32 * 2 ^ 20
      + insn / 32768 % 32 * 2 ^ 15 + insn / 4096 % 8 * 2 ^ 12 + insn / 128 % 32 * 2 ^ 7
      + insn % 128 := by omega
  rw [h0, h1, h2, h3, h4, h5]
  simp only [Nat.shiftLeft_eq]
  have b7 : insn / 33554432 % 128 < 128 := Nat.mod_lt _ (by decide)
  have b5 : insn / 1048576 % 32 < 32 := Nat.mod_lt _ (by decide)
  have b4 : insn / 32768 % 32 < 32 := Nat.mod_lt _ (by decide)
  have b3 : insn / 4096 % 8 < 8 := Nat.mod_lt _ (by decide)
  have b2 : insn / 128 % 32 < 32 := Nat.mod_lt _ (by decide)
  have b1 : insn % 128 < 128 := Nat.mod_lt _ (by decide)
  generalize insn / 33554432 % 128 = f7 at *
  generalize insn / 1048576 % 32 = rs2 at *
  generalize insn / 32768 % 32 = rs1 at *
  generalize insn / 4096 % 8 = f3 at *
  generalize insn / 128 % 32 = rd at *
  generalize insn % 128 = op at *
  have e1 : f7 * 2 ^ 25 ||| rs2 * 2 ^ 20 = f7 * 2 ^ 25 + rs2 * 2 ^ 20 :=
    lor_add _ _ 25 (by omega) (by omega)
  have e2 : f7 * 2 ^ 25 + rs2 * 2 ^ 20 ||| rs1 * 2 ^ 15
      = f7 * 2 ^ 25 + rs2 * 2 ^ 20 + rs1 * 2 ^ 15 := lor_add _ _ 20 (by omega) (by omega)
  have e3 : f7 * 2 ^ 25 + rs2 * 2 ^ 20 + rs1 * 2 ^ 15 ||| f3 * 2 ^ 12
      = f7 * 2 ^ 25 + rs2 * 2 ^ 20 + rs1 * 2 ^ 15 + f3 * 2 ^ 12 :=
    lor_add _ _ 15 (by omega) (by omega)
  have e4 : f7 * 2 ^ 25 + rs2 * 2 ^ 20 + rs1 * 2 ^ 15 + f3 * 2 ^ 12 ||| rd * 2 ^ 7
      = f7 * 2 ^ 25 + rs2 * 2 ^ 20 + rs1 * 2 ^ 15 + f3 * 2 ^ 12 + rd * 2 ^ 7 :=
    lor_add _ _ 12 (by omega) (by omega)
  have e5 : f7 * 2 ^ 25 + rs2 * 2 ^ 20 + rs1 * 2 ^ 15 + f3 * 2 ^ 12 + rd * 2 ^ 7 ||| op
      = f7 * 2 ^ 25 + rs2 * 2 ^ 20 + rs1 * 2 ^ 15 + f3 * 2 ^ 12 + rd * 2 ^ 7 + op :=
    lor_add _ _ 7 (by omega) (by omega)
  rw [e1, e2, e3, e4, e5]
  exact hsum

theorem C8_fields_partition_witness :
    get_opcode 0x00208463 = bitfield 0x00208463 6 0 ∧
    get_rd 0x00208463 = bitfield 0x00208463 11 7 ∧
    get_funct3 0x00208463 = bitfield 0x00208463 14 12 ∧
    get_rs1 0x00208463 = bitfield 0x00208463 19 15 ∧
    get_rs2 0x00208463 = bitfield 0x00208463 24 20 ∧
    get_funct7 0x00208463 = bitfield 0x00208463 31 25 ∧
    get_opcode 0x00208463 < 128 ∧ get_rd 0x00208463 < 32 ∧ get_funct3 0x00208463 < 8 ∧
    get_rs1 0x00208463 < 32 ∧ get_rs2 0x00208463 < 32 ∧ get_funct7 0x00208463 < 128 ∧
    0x00208463 = (get_funct7 0x00208463 <<< 25 ||| get_rs2 0x00208463 <<< 20
      ||| get_rs1 0x00208463 <<< 15 ||| get_funct3 0x00208463 <<< 12
      ||| get_rd 0x00208463 <<< 7 ||| get_opcode 0x00208463) :=
  C8_fields_partition 0x00208463 (by decide)

/-! ## Dispatch -/

/-- C9 (the code at the failing input): the word `0x022091B3` has the R-type opcode
`0x33`, funct3 = 1 and funct7 = `0x01` (the encoding of `mulh x3,x1,x2`), yet `exec`
runs `exec_sll` on it: the hart does not halt, its reason stays unchanged and the PC
advances by 4; `decode` renders it as `sll`.  The sibling word `0x022081B3` (funct3 = 0,
`mul x3,x1,x2`) is rejected by both. -/
theorem C9_rtype_funct7_unchecked :
    get_opcode 0x022091B3 = 0x33 ∧ get_funct3 0x022091B3 = 1 ∧ get_funct7 0x022091B3 = 0x01 ∧
    (∀ h : rv32i_hart, exec h 0x022091B3 = exec_sll h 0x022091B3) ∧
    (∀ h : rv32i_hart, ∃ h', exec h 0x022091B3 = some h' ∧ h'.halt = h.halt ∧
      h'.halt_reason = h.halt_reason ∧ h'.pc = (h.pc + 4) % 4294967296) ∧
    decode 0 0x022091B3 = "sll     x3,x1,x2" ∧
    decode 0 0x022091B3 ≠ render_illegal_insn 0x022091B3 ∧
    (∀ h : rv32i_hart, exec h 0x022081B3 = some (exec_illegal_insn h 0x022081B3)) ∧
    decode 0 0x022081B3 = render_illegal_insn 0x022081B3 := by
  have hd : ∀ h : rv32i_hart, exec h 0x022091B3 = exec_sll h 0x022091B3 := fun h => by
    unfold exec
    simp only
    rw [if_neg (by decide), if_neg (by decide), if_pos (by decide), if_neg (by decide),
      if_pos (by decide)]
  refine ⟨by decide, by decide, by decide, hd, ?_, by decide, by decide, ?_, by decide⟩
  · intro h
    rw [hd]
    unfold exec_sll shl32
    have hb : reg_shift h 0x022091B3 < 32 := by
      unfold reg_shift
      have : toU32 (h.regs.get (get_rs2 0x022091B3)) &&& 0x01f ≤ 0x01f := Nat.and_le_right
      omega
    have hb0 : 0 ≤ reg_shift h 0x022091B3 := by
      unfold reg_shift
      omega
    rw [if_pos ⟨hb0, hb⟩]
    exact ⟨_, rfl, rfl, rfl, rfl⟩
  · intro h
    unfold exec
    simp only
    rw [if_neg (by decide), if_neg (by decide), if_pos (by decide), if_pos (by decide),
      if_neg (by decide), if_neg (by decide)]

/-! ## Shift counts -/

/-- The count of the register shifts (`SLL`, `SRL`, `SRA`) is the low five bits of
`regs[rs2]`, a value in `0..31`. -/
theorem reg_shift_masked (h : rv32i_hart) (insn : Nat) :
    reg_shift h insn = ((toU32 (h.regs.get (get_rs2 insn)) % 32 : Nat) : Int) ∧
    0 ≤ reg_shift h insn ∧ reg_shift h insn < 32 := by
  unfold reg_shift
  have e : toU32 (h.regs.get (get_rs2 insn)) &&& 0x01f
      = toU32 (h.regs.get (get_rs2 insn)) / 2 ^ 0 % 2 ^ 5 * 2 ^ 0 := and_mask _ 0 5
  rw [e]
  omega

/-- The count of the immediate shifts (`SLLI`, `SRLI`, `SRAI`) is the field `insn[24:20]`,
the low five bits of the I-immediate, whatever the upper bits of the word are. -/
theorem imm_shift_masked (insn : Nat) :
    imm_shift insn = ((bitfield insn 24 20 : Nat) : Int) ∧
    imm_shift insn = ((toU32 (get_imm_i insn) &&& 31 : Nat) : Int) ∧
    0 ≤ imm_shift insn ∧ imm_shift insn < 32 := by
  have e : bitfield insn 24 20 = insn / 1048576 % 32 := rfl
  have k : insn / 2147483648 = insn / 1048576 / 2048 := by
    rw [Nat.div_div_eq_div_mul]
  have m : toU32 (get_imm_i insn) &&& 31
      = toU32 (get_imm_i insn) / 2 ^ 0 % 2 ^ 5 * 2 ^ 0 := and_mask _ 0 5
  have hu : toU32 (get_imm_i insn) % 32 = insn / 1048576 % 32 := by
    rw [get_imm_i_eq, k]
    unfold toU32
    generalize insn / 1048576 = x
    omega
  unfold imm_shift XLEN
  rw [m, e, hu, toS32_small _ (by omega)]
  omega

theorem exec_dispatch_sll (h : rv32i_hart) (insn : Nat) (ho : get_opcode insn = opcode_rtype)
    (hf : get_funct3 insn = funct3_sll) : exec h insn = exec_sll h insn := by
  unfold exec
  simp only
  rw [if_neg (by rw [ho]; decide), if_neg (by rw [ho]; decide), if_pos ho,
    if_neg (by rw [hf]; decide), if_pos hf]

theorem exec_dispatch_srl (h : rv32i_hart) (insn : Nat) (ho : get_opcode insn = opcode_rtype)
    (hf : get_funct3 insn = funct3_srx) (h7 : get_funct7 insn = funct7_srl) :
    exec h insn = exec_srl h insn := by
  unfold exec
  simp only
  rw [if_neg (by rw [ho]; decide), if_neg (by rw [ho]; decide), if_pos ho,
    if_neg (by rw [hf]; decide), if_neg (by rw [hf]; decide), if_neg (by rw [hf]; decide),
    if_neg (by rw [hf]; decide), if_neg (by rw [hf]; decide), if_pos hf, if_pos h7]

theorem exec_dispatch_sra (h : rv32i_hart) (insn : Nat) (ho : get_opcode insn = opcode_rtype)
    (hf : get_funct3 insn = funct3_srx) (h7 : get_funct7 insn = funct7_sra) :
    exec h insn = exec_sra h insn := by
  unfold exec
  simp only
  rw [if_neg (by rw [ho]; decide), if_neg (by rw [ho]; decide), if_pos ho,
    if_neg (by rw [hf]; decide), if_neg (by rw [hf]; decide), if_neg (by rw [hf]; decide),
    if_neg (by rw [hf]; decide), if_neg (by rw [hf]; decide), if_pos hf,
    if_neg (by rw [h7]; decide), if_pos h7]

theorem exec_dispatch_slli (h : rv32i_hart) (insn : Nat)
    (ho : get_opcode insn = opcode_alu_imm) (hf : get_funct3 insn = funct3_sll) :
    exec h insn = exec_slli h insn := by
  unfold exec
  simp only
  rw [if_neg (by rw [ho]; decide), if_neg (by rw [ho]; decide), if_neg (by rw [ho]; decide),
    if_neg (by rw [ho]; decide), if_pos ho, if_pos hf]

theorem exec_dispatch_srli (h : rv32i_hart) (insn : Nat)
    (ho : get_opcode insn = opcode_alu_imm) (hf : get_funct3 insn = funct3_srx)
    (h7 : get_funct7 insn = funct7_srl) : exec h insn = exec_srli h insn := by
  unfold exec
  simp only
  rw [if_neg (by rw [ho]; decide), if_neg (by rw [ho]; decide), if_neg (by rw [ho]; decide),
    if_neg (by rw [ho]; decide), if_pos ho,
    if_neg (by rw [hf]; decide), if_neg (by rw [hf]; decide), if_neg (by rw [hf]; decide),
    if_neg (by rw [hf]; decide), if_neg (by rw [hf]; decide), if_neg (by rw [hf]; decide),
    if_neg (by rw [hf]; decide), if_pos hf, if_pos h7]

theorem exec_dispatch_srai (h : rv32i_hart) (insn : Nat)
    (ho : get_opcode insn = opcode_alu_imm) (hf : get_funct3 insn = funct3_srx)
    (h7 : get_funct7 insn = funct7_sra) : exec h insn = exec_srai h insn := by
  unfold exec
  simp only
  rw [if_neg (by rw [ho]; decide), if_neg (by rw [ho]; decide), if_neg (by rw [ho]; decide),
    if_neg (by rw [ho]; decide), if_pos ho,
    if_neg (by rw [hf]; decide), if_neg (by rw [hf]; decide), if_neg (by rw [hf]; decide),
    if_neg (by rw [hf]; decide), if_neg (by rw [hf]; decide), if_neg (by rw [hf]; decide),
    if_neg (by rw [hf]; decide), if_pos hf, if_neg (by rw [h7]; decide), if_pos h7]

/-- C10: every word that `exec` dispatches to a shift instruction is shifted by exactly
the low five bits of the shift source, a value in `0..31`: `regs[rs2] & 31` for
`SLL`/`SRL`/`SRA` and `imm_i & 31`, the field `insn[24:20]`, for `SLLI`/`SRLI`/`SRAI`,
whatever the upper bits of the register or of the immediate are. -/
theorem C10_shift_amount_masking (h : rv32i_hart) (insn : Nat) :
    (imm_shift insn = ((bitfield insn 24 20 : Nat) : Int) ∧
      imm_shift insn = ((toU32 (get_imm_i insn) &&& 31 : Nat) : Int) ∧
      0 ≤ imm_shift insn ∧ imm_shift insn < 32) ∧
    (reg_shift h insn = ((toU32 (h.regs.get (get_rs2 insn)) % 32 : Nat) : Int) ∧
      0 ≤ reg_shift h insn ∧ reg_shift h insn < 32) ∧
    (get_opcode insn = opcode_alu_imm → get_funct3 insn = funct3_sll →
      exec h insn = some (write_rd h insn
        (toS32 ((toU32 (h.regs.get (get_rs1 insn)) <<< bitfield insn 24 20) % 4294967296)))) ∧
    (get_opcode insn = opcode_alu_imm → get_funct3 insn = funct3_srx →
      get_funct7 insn = funct7_srl →
      exec h insn = some (write_rd h insn
        (toS32 (toU32 (h.regs.get (get_rs1 insn)) >>> bitfield insn 24 20)))) ∧
    (get_opcode insn = opcode_alu_imm → get_funct3 insn = funct3_srx →
      get_funct7 insn = funct7_sra →
      exec h insn = some (write_rd h insn
        (h.regs.get (get_rs1 insn) / ((2 ^ bitfield insn 24 20 : Nat) : Int)))) ∧
    (get_opcode insn = opcode_rtype → get_funct3 insn = funct3_sll →
      exec h insn = some (write_rd h insn
        (toS32 ((toU32 (h.regs.get (get_rs1 insn))
          <<< (toU32 (h.regs.get (get_rs2 insn)) % 32)) % 4294967296)))) ∧
    (get_opcode insn = opcode_rtype → get_funct3 insn = funct3_srx →
      get_funct7 insn = funct7_srl →
      exec h insn = some (write_rd h insn
        (toS32 (toU32 (h.regs.get (get_rs1 insn))
          >>> (toU32 (h.regs.get (get_rs2 insn)) % 32))))) ∧
    (get_opcode insn = opcode_rtype → get_funct3 insn = funct3_srx →
      get_funct7 insn = funct7_sra →
      exec h insn = some (write_rd h insn
        (h.regs.get (get_rs1 insn)
          / ((2 ^ (toU32 (h.regs.get (get_rs2 insn)) % 32) : Nat) : Int)))) := by
  have hi := imm_shift_masked insn
  have hr := reg_shift_masked h insn
  have bi : bitfield insn 24 20 < 32 := by
    have : (0 : Int) ≤ ((bitfield insn 24 20 : Nat) : Int) := Int.ofNat_nonneg _
    omega
  have br : toU32 (h.regs.get (get_rs2 insn)) % 32 < 32 := Nat.mod_lt _ (by decide)
  refine ⟨hi, hr, ?_, ?_, ?_, ?_, ?_, ?_⟩
  · intro ho hf
    rw [exec_dispatch_slli h insn ho hf]
    unfold exec_slli shl32
    rw [hi.1, if_pos ⟨by omega, by omega⟩]
    rfl
  · intro ho hf h7
    rw [exec_dispatch_srli h insn ho hf h7]
    unfold exec_srli shr32
    rw [hi.1, if_pos ⟨by omega, by omega⟩]
    rfl
  · intro ho hf h7
    rw [exec_dispatch_srai h insn ho hf h7]
    unfold exec_srai sra32
    rw [hi.1, if_pos ⟨by omega, by omega⟩]
    rfl
  · intro ho hf
    rw [exec_dispatch_sll h insn ho hf]
    unfold exec_sll shl32
    rw [hr.1, if_pos ⟨by omega, by omega⟩]
    rfl
  · intro ho hf h7
    rw [exec_dispatch_srl h insn ho hf h7]
    unfold exec_srl shr32
    rw [hr.1, if_pos ⟨by omega, by omega⟩]
    rfl
  · intro ho hf h7
    rw [exec_dispatch_sra h insn ho hf h7]
    unfold exec_sra sra32
    rw [hr.1, if_pos ⟨by omega, by omega⟩]
    rfl

/-- C10 at the word `0x80109093` (`SLLI` with `insn[24:20] = 1` and bit 31 set) on a fresh
hart: the count is 1 and `x1` is shifted left by one place. -/
theorem C10_shift_amount_masking_witness :
    imm_shift 0x80109093 = 1 ∧
    exec (rv32i_hart.new (memory.new 16)) 0x80109093
      = some (write_rd (rv32i_hart.new (memory.new 16)) 0x80109093 (-505290272)) :=
  ⟨(C10_shift_amount_masking (rv32i_hart.new (memory.new 16)) 0x80109093).1.1,
   (C10_shift_amount_masking (rv32i_hart.new (memory.new 16)) 0x80109093).2.2.1
     (by decide) (by decide)⟩

/-! ## Dispatch of the other instructions -/

theorem exec_dispatch_lui (h : rv32i_hart) (insn : Nat)
    (ho : get_opcode insn = opcode_lui) :
    exec h insn = some (exec_lui h insn) := by
  unfold exec
  simp only
  rw [if_pos ho]

theorem exec_dispatch_auipc (h : rv32i_hart) (insn : Nat)
    (ho : get_opcode insn = opcode_auipc) :
    exec h insn = some (exec_auipc h insn) := by
  unfold exec
  simp only
  rw [if_neg (by rw [ho]; decide),
    if_pos ho]

theorem exec_dispatch_add (h : rv32i_hart) (insn : Nat)
    (ho : get_opcode insn = opcode_rtype) (hf : get_funct3 insn = funct3_add) (h7 : get_funct7 insn = funct7_add) :
    exec h insn = some (exec_add h insn) := by
  unfold exec
  simp only
  rw [if_neg (by rw [ho]; decide),
    if_neg (by rw [ho]; decide),
    if_pos ho,
    if_pos hf,
    if_pos h7]

theorem exec_dispatch_sub (h : rv32i_hart) (insn : Nat)
    (ho : get_opcode insn = opcode_rtype) (hf : get_funct3 insn = funct3_add) (h7 : get_funct7 insn = funct7_sub) :
    exec h insn = some (exec_sub h insn) := by
  unfold exec
  simp only
  rw [if_neg (by rw [ho]; decide),
    if_neg (by rw [ho]; decide),
    if_pos ho,
    if_pos hf,
    if_neg (by rw [h7]; decide),
    if_pos h7]

theorem exec_dispatch_slt (h : rv32i_hart) (insn : Nat)
    (ho : get_opcode insn = opcode_rtype) (hf : get_funct3 insn = funct3_slt) :
    exec h insn = some (exec_slt h insn) := by
  unfold exec
  simp only
  rw [if_neg (by rw [ho]; decide),
    if_neg (by rw [ho]; decide),
    if_pos ho,
    if_neg (by rw [hf]; decide),
    if_neg (by rw [hf]; decide),
    if_pos hf]

theorem exec_dispatch_sltu (h : rv32i_hart) (insn : Nat)
    (ho : get_opcode insn = opcode_rtype) (hf : get_funct3 insn = funct3_sltu) :
    exec h insn = some (exec_sltu h insn) := by
  unfold exec
  simp only
  rw [if_neg (by rw [ho]; decide),
    if_neg (by rw [ho]; decide),
    if_pos ho,
    if_neg (by rw [hf]; decide),
    if_neg (by rw [hf]; decide),
    if_neg (by rw [hf]; decide),
    if_pos hf]

theorem exec_dispatch_xor (h : rv32i_hart) (insn : Nat)
    (ho : get_opcode insn = opcode_rtype) (hf : get_funct3 insn = funct3_xor) :
    exec h insn = some (exec_xor h insn) := by
  unfold exec
  simp only
  rw [if_neg (by rw [ho]; decide),
    if_neg (by rw [ho]; decide),
    if_pos ho,
    if_neg (by rw [hf]; decide),
    if_neg (by rw [hf]; decide),
    if_neg (by rw [hf]; decide),
    if_neg (by rw [hf]; decide),
    if_pos hf]

theorem exec_dispatch_or (h : rv32i_hart) (insn : Nat)
    (ho : get_opcode insn = opcode_rtype) (hf : get_funct3 insn = funct3_or) :
    exec h insn = some (exec_or h insn) := by
  unfold exec
  simp only
  rw [if_neg (by rw [ho]; decide),
    if_neg (by rw [ho]; decide),
    if_pos ho,
    if_neg (by rw [hf]; decide),
    if_neg (by rw [hf]; decide),
    if_neg (by rw [hf]; decide),
    if_neg (by rw [hf]; decide),
    if_neg (by rw [hf]; decide),
    if_neg (by rw [hf]; decide),
    if_pos hf]

theorem exec_dispatch_and (h : rv32i_hart) (insn : Nat)
    (ho : get_opcode insn = opcode_rtype) (hf : get_funct3 insn = funct3_and) :
    exec h insn = some (exec_and h insn) := by
  unfold exec
  simp only
  rw [if_neg (by rw [ho]; decide),
    if_neg (by rw [ho]; decide),
    if_pos ho,
    if_neg (by rw [hf]; decide),
    if_neg (by rw [hf]; decide),
    if_neg (by rw [hf]; decide),
    if_neg (by rw [hf]; decide),
    if_neg (by rw [hf]; decide),
    if_neg (by rw [hf]; decide),
    if_neg (by rw [hf]; decide),
    if_pos hf]

theorem exec_dispatch_sb (h : rv32i_hart) (insn : Nat)
    (ho : get_opcode insn = opcode_stype) (hf : get_funct3 insn = funct3_sb) :
    exec h insn = some (exec_sb h insn) := by
  unfold exec
  simp only
  rw [if_neg (by rw [ho]; decide),
    if_neg (by rw [ho]; decide),
    if_neg (by rw [ho]; decide),
    if_pos ho,
    if_pos hf]

theorem exec_dispatch_sh (h : rv32i_hart) (insn : Nat)
    (ho : get_opcode insn = opcode_stype) (hf : get_funct3 insn = funct3_sh) :
    exec h insn = exec_sh h insn := by
  unfold exec
  simp only
  rw [if_neg (by rw [ho]; decide),
    if_neg (by rw [ho]; decide),
    if_neg (by rw [ho]; decide),
    if_pos ho,
    if_neg (by rw [hf]; decide),
    if_pos hf]

theorem exec_dispatch_sw (h : rv32i_hart) (insn : Nat)
    (ho : get_opcode insn = opcode_stype) (hf : get_funct3 insn = funct3_sw) :
    exec h insn = exec_sw h insn := by
  unfold exec
  simp only
  rw [if_neg (by rw [ho]; decide),
    if_neg (by rw [ho]; decide),
    if_neg (by rw [ho]; decide),
    if_pos ho,
    if_neg (by rw [hf]; decide),
    if_neg (by rw [hf]; decide),
    if_pos hf]

theorem exec_dispatch_addi (h : rv32i_hart) (insn : Nat)
    (ho : get_opcode insn = opcode_alu_imm) (hf : get_funct3 insn = funct3_add) :
    exec h insn = some (exec_addi h insn) := by
  unfold exec
  simp only
  rw [if_neg (by rw [ho]; decide),
    if_neg (by rw [ho]; decide),
    if_neg (by rw [ho]; decide),
    if_neg (by rw [ho]; decide),
    if_pos ho,
    if_neg (by rw [hf]; decide),
    if_pos hf]

theorem exec_dispatch_slti (h : rv32i_hart) (insn : Nat)
    (ho : get_opcode insn = opcode_alu_imm) (hf : get_funct3 insn = funct3_slt) :
    exec h insn = some (exec_slti h insn) := by
  unfold exec
  simp only
  rw [if_neg (by rw [ho]; decide),
    if_neg (by rw [ho]; decide),
    if_neg (by rw [ho]; decide),
    if_neg (by rw [ho]; decide),
    if_pos ho,
    if_neg (by rw [hf]; decide),
    if_neg (by rw [hf]; decide),
    if_pos hf]

theorem exec_dispatch_sltiu (h : rv32i_hart) (insn : Nat)
    (ho : get_opcode insn = opcode_alu_imm) (hf : get_funct3 insn = funct3_sltu) :
    exec h insn = some (exec_sltiu h insn) := by
  unfold exec
  simp only
  rw [if_neg (by rw [ho]; decide),
    if_neg (by rw [ho]; decide),
    if_neg (by rw [ho]; decide),
    if_neg (by rw [ho]; decide),
    if_pos ho,
    if_neg (by rw [hf]; decide),
    if_neg (by rw [hf]; decide),
    if_neg (by rw [hf]; decide),
    if_pos hf]

theorem exec_dispatch_xori (h : rv32i_hart) (insn : Nat)
    (ho : get_opcode insn = opcode_alu_imm) (hf : get_funct3 insn = funct3_xor) :
    exec h insn = some (exec_xori h insn) := by
  unfold exec
  simp only
  rw [if_neg (by rw [ho]; decide),
    if_neg (by rw [ho]; decide),
    if_neg (by rw [ho]; decide),
    if_neg (by rw [ho]; decide),
    if_pos ho,
    if_neg (by rw [hf]; decide),
    if_neg (by rw [hf]; decide),
    if_neg (by rw [hf]; decide),
    if_neg (by rw [hf]; decide),
    if_pos hf]

theorem exec_dispatch_ori (h : rv32i_hart) (insn : Nat)
    (ho : get_opcode insn = opcode_alu_imm) (hf : get_funct3 insn = funct3_or) :
    exec h insn = some (exec_ori h insn) := by
  unfold exec
  simp only
  rw [if_neg (by rw [ho]; decide),
    if_neg (by rw [ho]; decide),
    if_neg (by rw [ho]; decide),
    if_neg (by rw [ho]; decide),
    if_pos ho,
    if_neg (by rw [hf]; decide),
    if_neg (by rw [hf]; decide),
    if_neg (by rw [hf]; decide),
    if_neg (by rw [hf]; decide),
    if_neg (by rw [hf]; decide),
    if_pos hf]

theorem exec_dispatch_andi (h : rv32i_hart) (insn : Nat)
    (ho : get_opcode insn = opcode_alu_imm) (hf : get_funct3 insn = funct3_and) :
    exec h insn = some (exec_andi h insn) := by
  unfold exec
  simp only
  rw [if_neg (by rw [ho]; decide),
    if_neg (by rw [ho]; decide),
    if_neg (by rw [ho]; decide),
    if_neg (by rw [ho]; decide),
    if_pos ho,
    if_neg (by rw [hf]; decide),
    if_neg (by rw [hf]; decide),
    if_neg (by rw [hf]; decide),
    if_neg (by rw [hf]; decide),
    if_neg (by rw [hf]; decide),
    if_neg (by rw [hf]; decide),
    if_pos hf]

theorem exec_dispatch_lb (h : rv32i_hart) (insn : Nat)
    (ho : get_opcode insn = opcode_load_imm) (hf : get_funct3 insn = funct3_lb) :
    exec h insn = some (exec_lb h insn) := by
  unfold exec
  simp only
  rw [if_neg (by rw [ho]; decide),
    if_neg (by rw [ho]; decide),
    if_neg (by rw [ho]; decide),
    if_neg (by rw [ho]; decide),
    if_neg (by rw [ho]; decide),
    if_pos ho,
    if_pos hf]

theorem exec_dispatch_lh (h : rv32i_hart) (insn : Nat)
    (ho : get_opcode insn = opcode_load_imm) (hf : get_funct3 insn = funct3_lh) :
    exec h insn = some (exec_lh h insn) := by
  unfold exec
  simp only
  rw [if_neg (by rw [ho]; decide),
    if_neg (by rw [ho]; decide),
    if_neg (by rw [ho]; decide),
    if_neg (by rw [ho]; decide),
    if_neg (by rw [ho]; decide),
    if_pos ho,
    if_neg (by rw [hf]; decide),
    if_pos hf]

theorem exec_dispatch_lw (h : rv32i_hart) (insn : Nat)
    (ho : get_opcode insn = opcode_load_imm) (hf : get_funct3 insn = funct3_lw) :
    exec h insn = some (exec_lw h insn) := by
  unfold exec
  simp only
  rw [if_neg (by rw [ho]; decide),
    if_neg (by rw [ho]; decide),
    if_neg (by rw [ho]; decide),
    if_neg (by rw [ho]; decide),
    if_neg (by rw [ho]; decide),
    if_pos ho,
    if_neg (by rw [hf]; decide),
    if_neg (by rw [hf]; decide),
    if_pos hf]

theorem exec_dispatch_lbu (h : rv32i_hart) (insn : Nat)
    (ho : get_opcode insn = opcode_load_imm) (hf : get_funct3 insn = funct3_lbu) :
    exec h insn = some (exec_lbu h insn) := by
  unfold exec
  simp only
  rw [if_neg (by rw [ho]; decide),
    if_neg (by rw [ho]; decide),
    if_neg (by rw [ho]; decide),
    if_neg (by rw [ho]; decide),
    if_neg (by rw [ho]; decide),
    if_pos ho,
    if_neg (by rw [hf]; decide),
    if_neg (by rw [hf]; decide),
    if_neg (by rw [hf]; decide),
    if_pos hf]

theorem exec_dispatch_lhu (h : rv32i_hart) (insn : Nat)
    (ho : get_opcode insn = opcode_load_imm) (hf : get_funct3 insn = funct3_lhu) :
    exec h insn = some (exec_lhu h insn) := by
  unfold exec
  simp only
  rw [if_neg (by rw [ho]; decide),
    if_neg (by rw [ho]; decide),
    if_neg (by rw [ho]; decide),
    if_neg (by rw [ho]; decide),
    if_neg (by rw [ho]; decide),
    if_pos ho,
    if_neg (by rw [hf]; decide),
    if_neg (by rw [hf]; decide),
    if_neg (by rw [hf]; decide),
    if_neg (by rw [hf]; decide),
    if_pos hf]

theorem exec_dispatch_beq (h : rv32i_hart) (insn : Nat)
    (ho : get_opcode insn = opcode_btype) (hf : get_funct3 insn = funct3_beq) :
    exec h insn = some (exec_beq h insn) := by
  unfold exec
  simp only
  rw [if_neg (by rw [ho]; decide),
    if_neg (by rw [ho]; decide),
    if_neg (by rw [ho]; decide),
    if_neg (by rw [ho]; decide),
    if_neg (by rw [ho]; decide),
    if_neg (by rw [ho]; decide),
    if_pos ho,
    if_pos hf]

theorem exec_dispatch_bne (h : rv32i_hart) (insn : Nat)
    (ho : get_opcode insn = opcode_btype) (hf : get_funct3 insn = funct3_bne) :
    exec h insn = some (exec_bne h insn) := by
  unfold exec
  simp only
  rw [if_neg (by rw [ho]; decide),
    if_neg (by rw [ho]; decide),
    if_neg (by rw [ho]; decide),
    if_neg (by rw [ho]; decide),
    if_neg (by rw [ho]; decide),
    if_neg (by rw [ho]; decide),
    if_pos ho,
    if_neg (by rw [hf]; decide),
    if_pos hf]

theorem exec_dispatch_blt (h : rv32i_hart) (insn : Nat)
    (ho : get_opcode insn = opcode_btype) (hf : get_funct3 insn = funct3_blt) :
    exec h insn = some (exec_blt h insn) := by
  unfold exec
  simp only
  rw [if_neg (by rw [ho]; decide),
    if_neg (by rw [ho]; decide),
    if_neg (by rw [ho]; decide),
    if_neg (by rw [ho]; decide),
    if_neg (by rw [ho]; decide),
    if_neg (by rw [ho]; decide),
    if_pos ho,
    if_neg (by rw [hf]; decide),
    if_neg (by rw [hf]; decide),
    if_pos hf]

theorem exec_dispatch_bge (h : rv32i_hart) (insn : Nat)
    (ho : get_opcode insn = opcode_btype) (hf : get_funct3 insn = funct3_bge) :
    exec h insn = some (exec_bge h insn) := by
  unfold exec
  simp only
  rw [if_neg (by rw [ho]; decide),
    if_neg (by rw [ho]; decide),
    if_neg (by rw [ho]; decide),
    if_neg (by rw [ho]; decide),
    if_neg (by rw [ho]; decide),
    if_neg (by rw [ho]; decide),
    if_pos ho,
    if_neg (by rw [hf]; decide),
    if_neg (by rw [hf]; decide),
    if_neg (by rw [hf]; decide),
    if_pos hf]

theorem exec_dispatch_bltu (h : rv32i_hart) (insn : Nat)
    (ho : get_opcode insn = opcode_btype) (hf : get_funct3 insn = funct3_bltu) :
    exec h insn = some (exec_bltu h insn) := by
  unfold exec
  simp only
  rw [if_neg (by rw [ho]; decide),
    if_neg (by rw [ho]; decide),
    if_neg (by rw [ho]; decide),
    if_neg (by rw [ho]; decide),
    if_neg (by rw [ho]; decide),
    if_neg (by rw [ho]; decide),
    if_pos ho,
    if_neg (by rw [hf]; decide),
    if_neg (by rw [hf]; decide),
    if_neg (by rw [hf]; decide),
    if_neg (by rw [hf]; decide),
    if_pos hf]

theorem exec_dispatch_bgeu (h : rv32i_hart) (insn : Nat)
    (ho : get_opcode insn = opcode_btype) (hf : get_funct3 insn = funct3_bgeu) :
    exec h insn = some (exec_bgeu h insn) := by
  unfold exec
  simp only
  rw [if_neg (by rw [ho]; decide),
    if_neg (by rw [ho]; decide),
    if_neg (by rw [ho]; decide),
    if_neg (by rw [ho]; decide),
    if_neg (by rw [ho]; decide),
    if_neg (by rw [ho]; decide),
    if_pos ho,
    if_neg (by rw [hf]; decide),
    if_neg (by rw [hf]; decide),
    if_neg (by rw [hf]; decide),
    if_neg (by rw [hf]; decide),
    if_neg (by rw [hf]; decide),
    if_pos hf]

theorem exec_dispatch_jal (h : rv32i_hart) (insn : Nat)
    (ho : get_opcode insn = opcode_jal) :
    exec h insn = some (exec_jal h insn) := by
  unfold exec
  simp only
  rw [if_neg (by rw [ho]; decide),
    if_neg (by rw [ho]; decide),
    if_neg (by rw [ho]; decide),
    if_neg (by rw [ho]; decide),
    if_neg (by rw [ho]; decide),
    if_neg (by rw [ho]; decide),
    if_neg (by rw [ho]; decide),
    if_pos ho]

theorem exec_dispatch_jalr (h : rv32i_hart) (insn : Nat)
    (ho : get_opcode insn = opcode_jalr) :
    exec h insn = some (exec_jalr h insn) := by
  unfold exec
  simp only
  rw [if_neg (by rw [ho]; decide),
    if_neg (by rw [ho]; decide),
    if_neg (by rw [ho]; decide),
    if_neg (by rw [ho]; decide),
    if_neg (by rw [ho]; decide),
    if_neg (by rw [ho]; decide),
    if_neg (by rw [ho]; decide),
    if_neg (by rw [ho]; decide),
    if_pos ho]

theorem exec_dispatch_ebreak (h : rv32i_hart) (insn : Nat)
    (he : insn = insn_ebreak) :
    exec h insn = some (exec_ebreak h insn) := by
  subst he
  unfold exec
  simp only
  rw [if_neg (by decide),
    if_neg (by decide),
    if_neg (by decide),
    if_neg (by decide),
    if_neg (by decide),
    if_neg (by decide),
    if_neg (by decide),
    if_neg (by decide),
    if_neg (by decide),
    if_pos (by decide),
    if_pos (by decide)]

theorem exec_dispatch_csrrs (h : rv32i_hart) (insn : Nat)
    (ho : get_opcode insn = opcode_system) (hf : get_funct3 insn = funct3_csrrs) :
    exec h insn = some (exec_csrrs h insn) := by
  unfold exec
  simp only
  rw [if_neg (by rw [ho]; decide),
    if_neg (by rw [ho]; decide),
    if_neg (by rw [ho]; decide),
    if_neg (by rw [ho]; decide),
    if_neg (by rw [ho]; decide),
    if_neg (by rw [ho]; decide),
    if_neg (by rw [ho]; decide),
    if_neg (by rw [ho]; decide),
    if_neg (by rw [ho]; decide),
    if_pos ho,
    if_neg (fun e => by rw [e] at hf; exact absurd hf (by decide)),
    if_pos hf]

/-! ## Words and the register file -/

theorem toU32_lt (v : Int) : toU32 v < 4294967296 := by
  unfold toU32
  omega

theorem toU32_cast (v : Int) : ((toU32 v : Nat) : Int) = v % 4294967296 := by
  unfold toU32
  omega

theorem toU32_toS32 (n : Nat) : toU32 (toS32 n) = n % 4294967296 := by
  unfold toU32 toS32
  split <;> omega

theorem toS32_toU32 (v : Int) (h1 : -2147483648 ≤ v) (h2 : v < 2147483648) :
    toS32 (toU32 v) = v := by
  unfold toU32 toS32
  split <;> omega

theorem toS32_range (n : Nat) : -2147483648 ≤ toS32 n ∧ toS32 n < 2147483648 := by
  unfold toS32
  split <;> omega

theorem wf_length (rf : registerfile) (h : rf.wf = true) : rf.reg.length = 32 := by
  unfold registerfile.wf at h
  simp only [Bool.and_eq_true, decide_eq_true_eq] at h
  exact h.1

theorem wf_get (rf : registerfile) (h : rf.wf = true) (r : Nat) :
    -2147483648 ≤ rf.get r ∧ rf.get r < 2147483648 := by
  unfold registerfile.wf at h
  simp only [Bool.and_eq_true, decide_eq_true_eq, List.all_eq_true] at h
  unfold registerfile.get
  split
  · omega
  · by_cases hr : r < rf.reg.length
    · rw [List.getD_eq_getElem _ _ hr]
      exact h.2 _ (List.getElem_mem hr)
    · rw [List.getD_eq_default _ _ (by omega)]
      omega

theorem get_set_same (rf : registerfile) (r : Nat) (v : Int) (h0 : r ≠ 0)
    (hl : r < rf.reg.length) : (rf.set r v).get r = v := by
  unfold registerfile.set registerfile.get
  rw [if_neg h0, if_neg h0]
  simp [List.getD_eq_getElem?_getD, List.getElem?_set, hl]

theorem get_set_other (rf : registerfile) (r r' : Nat) (v : Int) (hne : r' ≠ r) :
    (rf.set r v).get r' = rf.get r' := by
  unfold registerfile.set registerfile.get
  by_cases h0 : r = 0
  · rw [if_pos h0]
  · rw [if_neg h0]
    by_cases h1 : r' = 0
    · rw [if_pos h1, if_pos h1]
    · have hne' : r ≠ r' := fun e => hne e.symm
      simp [h1, List.getD_eq_getElem?_getD, List.getElem?_set, hne']

theorem set_zero (rf : registerfile) (v : Int) : rf.set 0 v = rf := rfl

/-! ## Branches and jumps -/

theorem toU32_inj (a b : Int) (ha1 : -2147483648 ≤ a) (ha2 : a < 2147483648)
    (hb1 : -2147483648 ≤ b) (hb2 : b < 2147483648) : toU32 a = toU32 b ↔ a = b := by
  unfold toU32
  constructor
  · intro h; omega
  · intro h; rw [h]

theorem branch_step (h : rv32i_hart) (insn : Nat) (c : Bool) (taken : Prop) [Decidable taken]
    (hc : c = true ↔ taken) : BranchStep h insn taken (some (exec_branch h insn c)) := by
  refine ⟨_, rfl, ?_, rfl, rfl, rfl, rfl⟩
  unfold exec_branch
  simp only
  by_cases ht : taken
  · rw [if_pos ht, if_pos (hc.mpr ht), toU32_toS32]
    have h1 := toU32_lt (((h.pc : Nat) : Int) + get_imm_b insn)
    have h2 := toU32_cast (((h.pc : Nat) : Int) + get_imm_b insn)
    omega
  · have hcf : ¬ (c = true) := fun e => ht (hc.mp e)
    rw [if_neg ht, if_neg hcf, toU32_toS32]
    omega

set_option maxRecDepth 100000 in
/-- Scenario S3 of the specification (`addi x1,x0,5; addi x2,x0,5; beq x1,x2,+8; ebreak;
ebreak`): the run halts on the second `ebreak` after 4 instructions with PC = 0x10. -/
theorem scenario_S3 :
    (run 10 0 (scenario [0x00500093, 0x00500113, 0x00208463, 0x00100073, 0x00100073])).map
      outcome = some (true, "EBREAK instruction", 4, 0x10) := by
  decide

/-- C11: a word dispatched to `BEQ`, `BNE`, `BLT`, `BGE`, `BLTU` or `BGEU` sets the PC to
`(pc + imm_b) mod 2^32` when its predicate holds on `regs[rs1]`, `regs[rs2]` (equality,
inequality, signed `<`, signed `>=`, unsigned `<`, unsigned `>=`) and to `(pc + 4) mod 2^32`
otherwise, and changes no register and no memory byte; scenario S3 halts with PC = 0x10. -/
theorem C11_branch_semantics (h : rv32i_hart) (insn : Nat)
    (ho : get_opcode insn = opcode_btype) (hwf : h.regs.wf = true) :
    (get_funct3 insn = funct3_beq →
      BranchStep h insn (h.regs.get (get_rs1 insn) = h.regs.get (get_rs2 insn))
        (exec h insn)) ∧
    (get_funct3 insn = funct3_bne →
      BranchStep h insn (h.regs.get (get_rs1 insn) ≠ h.regs.get (get_rs2 insn))
        (exec h insn)) ∧
    (get_funct3 insn = funct3_blt →
      BranchStep h insn (h.regs.get (get_rs1 insn) < h.regs.get (get_rs2 insn))
        (exec h insn)) ∧
    (get_funct3 insn = funct3_bge →
      BranchStep h insn (h.regs.get (get_rs1 insn) ≥ h.regs.get (get_rs2 insn))
        (exec h insn)) ∧
    (get_funct3 insn = funct3_bltu →
      BranchStep h insn (toU32 (h.regs.get (get_rs1 insn)) < toU32 (h.regs.get (get_rs2 insn)))
        (exec h insn)) ∧
    (get_funct3 insn = funct3_bgeu →
      BranchStep h insn (toU32 (h.regs.get (get_rs1 insn)) ≥ toU32 (h.regs.get (get_rs2 insn)))
        (exec h insn)) ∧
    (run 10 0 (scenario [0x00500093, 0x00500113, 0x00208463, 0x00100073, 0x00100073])).map
      outcome = some (true, "EBREAK instruction", 4, 0x10) := by
  have r1 := wf_get h.regs hwf (get_rs1 insn)
  have r2 := wf_get h.regs hwf (get_rs2 insn)
  refine ⟨?_, ?_, ?_, ?_, ?_, ?_, scenario_S3⟩
  · intro hf
    rw [exec_dispatch_beq h insn ho hf]
    exact branch_step h insn _ _
      (by rw [decide_eq_true_eq]; exact toU32_inj _ _ r1.1 r1.2 r2.1 r2.2)
  · intro hf
    rw [exec_dispatch_bne h insn ho hf]
    exact branch_step h insn _ _ (by rw [decide_eq_true_eq])
  · intro hf
    rw [exec_dispatch_blt h insn ho hf]
    exact branch_step h insn _ _ (by rw [decide_eq_true_eq])
  · intro hf
    rw [exec_dispatch_bge h insn ho hf]
    exact branch_step h insn _ _ (by rw [decide_eq_true_eq])
  · intro hf
    rw [exec_dispatch_bltu h insn ho hf]
    exact branch_step h insn _ _ (by rw [decide_eq_true_eq])
  · intro hf
    rw [exec_dispatch_bgeu h insn ho hf]
    exact branch_step h insn _ _ (by rw [decide_eq_true_eq])

/-- C11 at `beq x1,x2,+8` (`0x00208463`) on a fresh hart, where `x1 = x2`: the branch is
taken. -/
theorem C11_branch_semantics_witness :
    BranchStep (rv32i_hart.new (memory.new 16)) 0x00208463
      ((rv32i_hart.new (memory.new 16)).regs.get (get_rs1 0x00208463)
        = (rv32i_hart.new (memory.new 16)).regs.get (get_rs2 0x00208463))
      (exec (rv32i_hart.new (memory.new 16)) 0x00208463) :=
  (C11_branch_semantics (rv32i_hart.new (memory.new 16)) 0x00208463 (by decide)
    (by decide)).1 (by decide)

set_option maxRecDepth 100000 in
/-- Scenario S4 of the specification (`jal x1,+8; ebreak; ebreak`): the run halts on the
second `ebreak` with `x1 = 4` and PC = 8. -/
theorem scenario_S4 :
    (run 10 0 (scenario [0x008000EF, 0x00100073, 0x00100073])).map
      (fun h => (outcome h, h.regs.get 1)) = some ((true, "EBREAK instruction", 2, 8), 4) := by
  decide

/-- C12: a word with the `JAL` opcode writes `(pc + 4) mod 2^32` to `rd` (nothing when
`rd = 0`), sets the PC to `(pc + imm_j) mod 2^32` computed from the old PC, and changes no
other register and no memory byte; scenario S4 ends with `x1 = 4` and PC = 8. -/
theorem C12_jal (h : rv32i_hart) (insn : Nat) (ho : get_opcode insn = opcode_jal)
    (hwf : h.regs.wf = true) :
    (∃ h', exec h insn = some h' ∧
      ((h'.pc : Nat) : Int) = (((h.pc : Nat) : Int) + get_imm_j insn) % 4294967296 ∧
      (get_rd insn ≠ 0 → toU32 (h'.regs.get (get_rd insn)) = (h.pc + 4) % 4294967296) ∧
      (get_rd insn = 0 → h'.regs = h.regs) ∧
      (∀ r, r ≠ get_rd insn → h'.regs.get r = h.regs.get r) ∧
      h'.mem = h.mem ∧ h'.halt = h.halt ∧ h'.halt_reason = h.halt_reason) ∧
    (run 10 0 (scenario [0x008000EF, 0x00100073, 0x00100073])).map
      (fun h => (outcome h, h.regs.get 1)) = some ((true, "EBREAK instruction", 2, 8), 4) := by
  refine ⟨?_, scenario_S4⟩
  rw [exec_dispatch_jal h insn ho]
  refine ⟨_, rfl, ?_, ?_, ?_, ?_, rfl, rfl, rfl⟩
  · unfold exec_jal
    simp only
    rw [toU32_toS32]
    have h1 := toU32_lt (((h.pc : Nat) : Int) + get_imm_j insn)
    have h2 := toU32_cast (((h.pc : Nat) : Int) + get_imm_j insn)
    omega
  · intro hrd
    unfold exec_jal
    simp only
    rw [get_set_same _ _ _ hrd (by rw [wf_length _ hwf]; exact get_rd_lt insn), toU32_toS32]
    omega
  · intro hrd
    unfold exec_jal
    simp only
    rw [hrd]
    rfl
  · intro r hr
    unfold exec_jal
    simp only
    rw [get_set_other _ _ _ _ hr]

/-- C12 at `jal x1,+8` (`0x008000EF`) on a fresh hart. -/
theorem C12_jal_witness :
    (∃ h', exec (rv32i_hart.new (memory.new 16)) 0x008000EF = some h' ∧
      ((h'.pc : Nat) : Int)
        = ((((rv32i_hart.new (memory.new 16)).pc : Nat) : Int) + get_imm_j 0x008000EF)
          % 4294967296 ∧
      (get_rd 0x008000EF ≠ 0 → toU32 (h'.regs.get (get_rd 0x008000EF))
        = ((rv32i_hart.new (memory.new 16)).pc + 4) % 4294967296) ∧
      (get_rd 0x008000EF = 0 → h'.regs = (rv32i_hart.new (memory.new 16)).regs) ∧
      (∀ r, r ≠ get_rd 0x008000EF →
        h'.regs.get r = (rv32i_hart.new (memory.new 16)).regs.get r) ∧
      h'.mem = (rv32i_hart.new (memory.new 16)).mem ∧
      h'.halt = (rv32i_hart.new (memory.new 16)).halt ∧
      h'.halt_reason = (rv32i_hart.new (memory.new 16)).halt_reason) :=
  (C12_jal (rv32i_hart.new (memory.new 16)) 0x008000EF (by decide) (by decide)).1

/-- C13: a word with the `JALR` opcode sets the PC to `(regs[rs1] + imm_i) mod 2^32` with
bit 0 cleared and writes `(pc + 4) mod 2^32` to `rd`; the target is computed from the value
`rs1` had before the instruction, also when `rd = rs1`. -/
theorem C13_jalr (h : rv32i_hart) (insn : Nat) (ho : get_opcode insn = opcode_jalr)
    (hwf : h.regs.wf = true) :
    ∃ h', exec h insn = some h' ∧
      h'.pc = toU32 (h.regs.get (get_rs1 insn) + get_imm_i insn) &&& 0xfffffffe ∧
      h'.pc % 2 = 0 ∧
      h'.pc / 2 = toU32 (h.regs.get (get_rs1 insn) + get_imm_i insn) / 2 ∧
      ((toU32 (h.regs.get (get_rs1 insn) + get_imm_i insn) : Nat) : Int)
        = (h.regs.get (get_rs1 insn) + get_imm_i insn) % 4294967296 ∧
      h'.regs = h.regs.set (get_rd insn) (toS32 ((h.pc + 4) % 4294967296)) ∧
      (get_rd insn ≠ 0 → toU32 (h'.regs.get (get_rd insn)) = (h.pc + 4) % 4294967296) ∧
      (∀ r, r ≠ get_rd insn → h'.regs.get r = h.regs.get r) ∧
      h'.mem = h.mem ∧ h'.halt = h.halt := by
  rw [exec_dispatch_jalr h insn ho]
  have hl := toU32_lt (h.regs.get (get_rs1 insn) + get_imm_i insn)
  have hm : toU32 (h.regs.get (get_rs1 insn) + get_imm_i insn) &&& 0xfffffffe
      = toU32 (h.regs.get (get_rs1 insn) + get_imm_i insn) / 2 ^ 1 % 2 ^ 31 * 2 ^ 1 :=
    and_mask _ 1 31
  have hpc : (exec_jalr h insn).pc
      = toU32 (h.regs.get (get_rs1 insn) + get_imm_i insn) &&& 0xfffffffe := by
    unfold exec_jalr
    simp only
    rw [toU32_toS32, hm]
    omega
  refine ⟨_, rfl, hpc, ?_, ?_, toU32_cast _, rfl, ?_, ?_, rfl, rfl⟩
  · rw [hpc, hm]; omega
  · rw [hpc, hm]; omega
  · intro hrd
    unfold exec_jalr
    simp only
    rw [get_set_same _ _ _ hrd (by rw [wf_length _ hwf]; exact get_rd_lt insn), toU32_toS32]
    omega
  · intro r hr
    unfold exec_jalr
    simp only
    rw [get_set_other _ _ _ _ hr]

/-- C13 at `jalr x1,5(x1)` (`0x005080E7`, `rd = rs1 = x1`) on a fresh hart, where
`x1 = 0xf0f0f0f0`: the PC becomes `0xf0f0f0f4` (bit 0 of `0xf0f0f0f5` cleared) and `x1`
becomes 4. -/
theorem C13_jalr_witness :
    ∃ h', exec (rv32i_hart.new (memory.new 16)) 0x005080E7 = some h' ∧
      h'.pc = 0xf0f0f0f4 ∧ h'.regs.get 1 = 4 := by
  obtain ⟨h', he, hpc, _, _, _, hregs, _⟩ :=
    C13_jalr (rv32i_hart.new (memory.new 16)) 0x005080E7 (by decide) (by decide)
  refine ⟨h', he, ?_, ?_⟩
  · rw [hpc]; decide
  · rw [hregs]; decide

/-- C20: executing the word `0x00100073` sets `halt = true` and
`halt_reason = "EBREAK instruction"` and leaves the PC, the registers, the memory and the
instruction counter unchanged. -/
theorem C20_ebreak (h : rv32i_hart) :
    ∃ h', exec h 0x00100073 = some h' ∧ h'.halt = true ∧
      h'.halt_reason = "EBREAK instruction" ∧ h'.pc = h.pc ∧ h'.regs = h.regs ∧
      h'.mem = h.mem ∧ h'.insn_counter = h.insn_counter ∧ h'.mhartid = h.mhartid :=
  ⟨_, exec_dispatch_ebreak h 0x00100073 rfl, rfl, rfl, rfl, rfl, rfl, rfl, rfl⟩

/-! ## Loads -/

theorem get16_lt (m : memory) (a : Nat) : m.get16 a < 65536 := by
  unfold memory.get16
  exact Nat.mod_lt _ (by decide)

theorem get32_lt (m : memory) (a : Nat) : m.get32 a < 4294967296 := by
  unfold memory.get32
  exact Nat.mod_lt _ (by decide)

theorem lb_value (x : Nat) (hx : x < 256) :
    toS32 (if 0x80 &&& (0xff &&& x) ≠ 0 then ((0xff &&& x) + 0xffffff00) % 4294967296
      else 0xff &&& x) = signExtend 8 x := by
  have e1 : 0xff &&& x = x / 2 ^ 0 % 2 ^ 8 * 2 ^ 0 := by
    rw [Nat.land_comm]; exact and_mask x 0 8
  have e1' : 0xff &&& x = x := by omega
  have e2 : 0x80 &&& x = x / 2 ^ 7 % 2 ^ 1 * 2 ^ 7 := by
    rw [Nat.land_comm]; exact and_mask x 7 1
  have p8 : (2 : Nat) ^ 8 = 256 := by decide
  have p7 : (2 : Nat) ^ (8 - 1) = 128 := by decide
  rw [e1', e2]
  unfold signExtend toS32
  rw [p8, p7]
  split <;> split <;> split <;> omega

theorem lh_value (x : Nat) (hx : x < 65536) :
    toS32 (if 0x8000 &&& (0xffff &&& x) ≠ 0 then ((0xffff &&& x) + 0xffff0000) % 4294967296
      else 0xffff &&& x) = signExtend 16 x := by
  have e1 : 0xffff &&& x = x / 2 ^ 0 % 2 ^ 16 * 2 ^ 0 := by
    rw [Nat.land_comm]; exact and_mask x 0 16
  have e1' : 0xffff &&& x = x := by omega
  have e2 : 0x8000 &&& x = x / 2 ^ 15 % 2 ^ 1 * 2 ^ 15 := by
    rw [Nat.land_comm]; exact and_mask x 15 1
  have p16 : (2 : Nat) ^ 16 = 65536 := by decide
  have p15 : (2 : Nat) ^ (16 - 1) = 32768 := by decide
  rw [e1', e2]
  unfold signExtend toS32
  rw [p16, p15]
  split <;> split <;> split <;> omega

theorem lbu_value (x : Nat) (hx : x < 256) : toS32 (x &&& 0x000000ff) = ((x : Nat) : Int) := by
  have e1 : x &&& 0x000000ff = x / 2 ^ 0 % 2 ^ 8 * 2 ^ 0 := and_mask x 0 8
  have e1' : x &&& 0x000000ff = x := by omega
  rw [e1', toS32_small _ (by omega)]

theorem lhu_value (x : Nat) (hx : x < 65536) :
    toS32 (x &&& 0x0000ffff) = ((x : Nat) : Int) := by
  have e1 : x &&& 0x0000ffff = x / 2 ^ 0 % 2 ^ 16 * 2 ^ 0 := and_mask x 0 16
  have e1' : x &&& 0x0000ffff = x := by omega
  rw [e1', toS32_small _ (by omega)]

/-- C14: a word dispatched to a load reads at the effective address
`ea = (regs[rs1] + imm_i) mod 2^32` and writes to `rd` the byte sign-extended from bit 7
(`LB`), the half-word sign-extended from bit 15 (`LH`), the byte or half-word zero-extended
(`LBU`, `LHU`) or the word (`LW`); the PC advances by 4. -/
theorem C14_load_extension (h : rv32i_hart) (insn : Nat)
    (ho : get_opcode insn = opcode_load_imm) :
    ((eff_addr h insn (get_imm_i insn) : Nat) : Int)
      = (h.regs.get (get_rs1 insn) + get_imm_i insn) % 4294967296 ∧
    (get_funct3 insn = funct3_lb →
      WritesRd h insn (signExtend 8 (h.mem.get8 (eff_addr h insn (get_imm_i insn))))
        (exec h insn)) ∧
    (get_funct3 insn = funct3_lh →
      WritesRd h insn (signExtend 16 (h.mem.get16 (eff_addr h insn (get_imm_i insn))))
        (exec h insn)) ∧
    (get_funct3 insn = funct3_lw →
      WritesRd h insn (toS32 (h.mem.get32 (eff_addr h insn (get_imm_i insn))))
        (exec h insn)) ∧
    (get_funct3 insn = funct3_lbu →
      WritesRd h insn ((h.mem.get8 (eff_addr h insn (get_imm_i insn)) : Nat) : Int)
        (exec h insn) ∧ h.mem.get8 (eff_addr h insn (get_imm_i insn)) < 256) ∧
    (get_funct3 insn = funct3_lhu →
      WritesRd h insn ((h.mem.get16 (eff_addr h insn (get_imm_i insn)) : Nat) : Int)
        (exec h insn) ∧ h.mem.get16 (eff_addr h insn (get_imm_i insn)) < 65536) := by
  refine ⟨toU32_cast _, ?_, ?_, ?_, ?_, ?_⟩
  · intro hf
    rw [exec_dispatch_lb h insn ho hf]
    refine ⟨_, rfl, ?_, rfl, rfl, rfl, rfl⟩
    unfold exec_lb
    simp only
    rw [lb_value _ (get8_lt _ _)]
    rfl
  · intro hf
    rw [exec_dispatch_lh h insn ho hf]
    refine ⟨_, rfl, ?_, rfl, rfl, rfl, rfl⟩
    unfold exec_lh
    simp only
    rw [lh_value _ (get16_lt _ _)]
    rfl
  · intro hf
    rw [exec_dispatch_lw h insn ho hf]
    exact ⟨_, rfl, rfl, rfl, rfl, rfl, rfl⟩
  · intro hf
    rw [exec_dispatch_lbu h insn ho hf]
    refine ⟨⟨_, rfl, ?_, rfl, rfl, rfl, rfl⟩, get8_lt _ _⟩
    unfold exec_lbu
    simp only
    rw [lbu_value _ (get8_lt _ _)]
    rfl
  · intro hf
    rw [exec_dispatch_lhu h insn ho hf]
    refine ⟨⟨_, rfl, ?_, rfl, rfl, rfl, rfl⟩, get16_lt _ _⟩
    unfold exec_lhu
    simp only
    rw [lhu_value _ (get16_lt _ _)]
    rfl

/-- C14 at `lb x3,0(x0)` (`0x00000183`) on a fresh hart over a fresh memory, whose byte 0
is `0xa5`: `x3` receives `0xa5` sign-extended, `-91`. -/
theorem C14_load_extension_witness :
    WritesRd (rv32i_hart.new (memory.new 16)) 0x00000183 (-91)
      (exec (rv32i_hart.new (memory.new 16)) 0x00000183) :=
  (C14_load_extension (rv32i_hart.new (memory.new 16)) 0x00000183 (by decide)).2.1
    (by decide)

/-! ## Stores -/

theorem set16_get8 (m : memory) (a v : Nat) (ha : a + 1 < m.mem.length)
    (hN : m.mem.length ≤ 4294967296) :
    ∃ m', m.set16 a v = some m' ∧ m'.mem.length = m.mem.length ∧
      ∀ b, m'.get8 b =
        if b = a then v % 256 else if b = a + 1 then v / 256 % 256 else m.get8 b := by
  have e1 : (a + 1) % 4294967296 = a + 1 := by omega
  rw [set16_eq _ _ _ (by omega), e1]
  refine ⟨_, rfl, by simp only [set8_length], ?_⟩
  intro b
  simp only [get8_set8, set8_length, Nat.shiftRight_eq_div_pow]
  split_ifs <;> omega

theorem set32_get32 (m : memory) (a v : Nat) (ha : a + 3 < m.mem.length)
    (hN : m.mem.length ≤ 4294967296) :
    ∃ m', m.set32 a v = some m' ∧ m'.mem.length = m.mem.length ∧
      m'.get32 a = v % 4294967296 := by
  obtain ⟨m', hm', hl, hb⟩ := set32_eq m a v ha hN
  refine ⟨m', hm', hl, ?_⟩
  have e1 : (a + 1) % 4294967296 = a + 1 := by omega
  have e2 : (a + 2) % 4294967296 = a + 2 := by omega
  have e3 : (a + 3) % 4294967296 = a + 3 := by omega
  rw [get32_eq, e1, e2, e3, hb, hb, hb, hb]
  simp only [if_true, Nat.add_right_eq_self, Nat.add_right_cancel_iff]
  norm_num
  omega

set_option maxRecDepth 100000 in
/-- Scenario S5 of the specification (`lui x1,0xdeadc; addi x1,x1,-273;
sw x1,0x80(x0); lw x3,0x80(x0); ebreak`): `x3` ends as `0xDEADBEEF`. -/
theorem scenario_S5 :
    (run 10 0 (scenario [0xdeadc0b7, 0xeef08093, 0x08102023, 0x08002183, 0x00100073])).map
      (fun h => (outcome h, toU32 (h.regs.get 3)))
      = some ((true, "EBREAK instruction", 5, 0x10), 0xDEADBEEF) := by
  decide

/-- C15: `SW` followed by `LW` at the same effective address `ea` with `ea + 3` inside the
memory and `rd != 0` leaves in `rd` the value `regs[rs2]` had when the store executed
(scenario S5: `0xDEADBEEF` at `0x80`); `SB` stores the low 8 bits of `regs[rs2]` at `ea`
and `SH` the low 16 bits at `ea`, `ea + 1`, every other byte being unchanged. -/
theorem C15_store_load_round_trip (h : rv32i_hart) (insn1 insn2 : Nat)
    (ho1 : get_opcode insn1 = opcode_stype) (hf1 : get_funct3 insn1 = funct3_sw)
    (ho2 : get_opcode insn2 = opcode_load_imm) (hf2 : get_funct3 insn2 = funct3_lw)
    (hwf : h.regs.wf = true) (hN : h.mem.mem.length ≤ 4294967296)
    (hea : eff_addr h insn1 (get_imm_s insn1) + 3 < h.mem.mem.length)
    (hsame : eff_addr h insn2 (get_imm_i insn2) = eff_addr h insn1 (get_imm_s insn1))
    (hrd : get_rd insn2 ≠ 0) :
    (∃ h1 h2, exec h insn1 = some h1 ∧ exec h1 insn2 = some h2 ∧ h1.regs = h.regs ∧
      h2.regs.get (get_rd insn2) = h.regs.get (get_rs2 insn1)) ∧
    (∀ insn, get_opcode insn = opcode_stype → get_funct3 insn = funct3_sb →
      ∃ h', exec h insn = some h' ∧ h'.mem.mem.length = h.mem.mem.length ∧
        ∀ b, h'.mem.get8 b =
          if b = eff_addr h insn (get_imm_s insn) ∧
              eff_addr h insn (get_imm_s insn) < h.mem.mem.length
          then toU32 (h.regs.get (get_rs2 insn)) % 256 else h.mem.get8 b) ∧
    (∀ insn, get_opcode insn = opcode_stype → get_funct3 insn = funct3_sh →
      eff_addr h insn (get_imm_s insn) + 1 < h.mem.mem.length →
      ∃ h', exec h insn = some h' ∧ h'.mem.mem.length = h.mem.mem.length ∧
        ∀ b, h'.mem.get8 b =
          if b = eff_addr h insn (get_imm_s insn)
          then toU32 (h.regs.get (get_rs2 insn)) % 256
          else if b = eff_addr h insn (get_imm_s insn) + 1
          then toU32 (h.regs.get (get_rs2 insn)) / 256 % 256 else h.mem.get8 b) ∧
    (run 10 0 (scenario [0xdeadc0b7, 0xeef08093, 0x08102023, 0x08002183, 0x00100073])).map
      (fun h => (outcome h, toU32 (h.regs.get 3)))
      = some ((true, "EBREAK instruction", 5, 0x10), 0xDEADBEEF) := by
  refine ⟨?_, ?_, ?_, scenario_S5⟩
  · obtain ⟨m', hm', _, hg⟩ :=
      set32_get32 h.mem (eff_addr h insn1 (get_imm_s insn1))
        (toU32 (h.regs.get (get_rs2 insn1))) hea hN
    have hs : exec h insn1 = some ({ h with mem := m' }).advance := by
      rw [exec_dispatch_sw h insn1 ho1 hf1]
      unfold exec_sw
      simp only
      rw [hm']
      rfl
    refine ⟨_, _, hs, exec_dispatch_lw _ insn2 ho2 hf2, rfl, ?_⟩
    have hea2 : eff_addr ({ h with mem := m' }).advance insn2 (get_imm_i insn2)
        = eff_addr h insn1 (get_imm_s insn1) := hsame
    have hr := wf_get h.regs hwf (get_rs2 insn1)
    unfold exec_lw
    simp only
    rw [hea2]
    show (registerfile.set h.regs (get_rd insn2) (toS32 (m'.get32 _))).get (get_rd insn2) = _
    rw [get_set_same _ _ _ hrd (by rw [wf_length _ hwf]; exact get_rd_lt insn2), hg,
      Nat.mod_eq_of_lt (toU32_lt _), toS32_toU32 _ hr.1 hr.2]
  · intro insn ho hf
    rw [exec_dispatch_sb h insn ho hf]
    refine ⟨_, rfl, ?_, ?_⟩
    · unfold exec_sb
      simp only [rv32i_hart.advance, set8_length]
    · intro b
      have e : (toU32 (h.regs.get (get_rs2 insn)) &&& 0x000000ff) % 256
          = toU32 (h.regs.get (get_rs2 insn)) % 256 := by
        have m8 : toU32 (h.regs.get (get_rs2 insn)) &&& 0x000000ff
            = toU32 (h.regs.get (get_rs2 insn)) / 2 ^ 0 % 2 ^ 8 * 2 ^ 0 := and_mask _ 0 8
        rw [m8]
        omega
      unfold exec_sb
      simp only [rv32i_hart.advance, get8_set8, e]
  · intro insn ho hf hin
    obtain ⟨m', hm', hl, hg⟩ :=
      set16_get8 h.mem (eff_addr h insn (get_imm_s insn))
        (toU32 (h.regs.get (get_rs2 insn)) &&& 0x0000ffff) hin hN
    refine ⟨({ h with mem := m' }).advance, ?_, hl, ?_⟩
    · rw [exec_dispatch_sh h insn ho hf]
      unfold exec_sh
      simp only
      rw [hm']
      rfl
    · intro b
      have m16 : toU32 (h.regs.get (get_rs2 insn)) &&& 0x0000ffff
          = toU32 (h.regs.get (get_rs2 insn)) / 2 ^ 0 % 2 ^ 16 * 2 ^ 0 := and_mask _ 0 16
      show m'.get8 b = _
      rw [hg b, m16]
      split_ifs <;> omega

/-- C15 at `sw x1,0(x0)` (`0x00102023`) followed by `lw x3,0(x0)` (`0x00002183`) on a
fresh hart over a memory of 16 bytes: `x3` ends with the value of `x1`. -/
theorem C15_store_load_round_trip_witness :
    ∃ h1 h2, exec (rv32i_hart.new (memory.new 16)) 0x00102023 = some h1 ∧
      exec h1 0x00002183 = some h2 ∧ h1.regs = (rv32i_hart.new (memory.new 16)).regs ∧
      h2.regs.get (get_rd 0x00002183)
        = (rv32i_hart.new (memory.new 16)).regs.get (get_rs2 0x00102023) :=
  (C15_store_load_round_trip (rv32i_hart.new (memory.new 16)) 0x00102023 0x00002183
    (by decide) (by decide) (by decide) (by decide) (by decide) (by decide) (by decide)
    (by decide) (by decide)).1

/-! ## ALU instructions -/

theorem writesRd_write_rd (h : rv32i_hart) (insn : Nat) (v : Int) :
    WritesRd h insn v (some (write_rd h insn v)) :=
  ⟨_, rfl, rfl, rfl, rfl, rfl, rfl⟩

/-- C16: `SLT` and `SLTI` write 1 to `rd` when `regs[rs1]` is less than the other operand as
signed 32-bit integers, `SLTU` when `regs[rs1] < regs[rs2]` as unsigned 32-bit integers and
`SLTIU` when `regs[rs1]` as unsigned is less than the sign-extended immediate taken as an
unsigned 32-bit integer; otherwise they write 0. -/
theorem C16_set_less_than (h : rv32i_hart) (insn : Nat) :
    (get_opcode insn = opcode_rtype → get_funct3 insn = funct3_slt →
      WritesRd h insn
        (if h.regs.get (get_rs1 insn) < h.regs.get (get_rs2 insn) then 1 else 0)
        (exec h insn)) ∧
    (get_opcode insn = opcode_alu_imm → get_funct3 insn = funct3_slt →
      WritesRd h insn (if h.regs.get (get_rs1 insn) < get_imm_i insn then 1 else 0)
        (exec h insn)) ∧
    (get_opcode insn = opcode_rtype → get_funct3 insn = funct3_sltu →
      WritesRd h insn
        (if toU32 (h.regs.get (get_rs1 insn)) < toU32 (h.regs.get (get_rs2 insn)) then 1
          else 0)
        (exec h insn)) ∧
    (get_opcode insn = opcode_alu_imm → get_funct3 insn = funct3_sltu →
      WritesRd h insn
        (if toU32 (h.regs.get (get_rs1 insn)) < toU32 (get_imm_i insn) then 1 else 0)
        (exec h insn)) ∧
    ((toU32 (get_imm_i insn) : Nat) : Int) = get_imm_i insn % 4294967296 ∧
    ((toU32 (h.regs.get (get_rs1 insn)) : Nat) : Int)
      = h.regs.get (get_rs1 insn) % 4294967296 := by
  refine ⟨?_, ?_, ?_, ?_, toU32_cast _, toU32_cast _⟩
  · intro ho hf
    rw [exec_dispatch_slt h insn ho hf]
    exact writesRd_write_rd _ _ _
  · intro ho hf
    rw [exec_dispatch_slti h insn ho hf]
    exact writesRd_write_rd _ _ _
  · intro ho hf
    rw [exec_dispatch_sltu h insn ho hf]
    exact writesRd_write_rd _ _ _
  · intro ho hf
    rw [exec_dispatch_sltiu h insn ho hf]
    exact writesRd_write_rd _ _ _

/-- C16 at `sltiu x3,x1,-1` (`0xfff0b193`) on a fresh hart, where `x1 = 0xf0f0f0f0`:
the immediate is `0xffffffff` as unsigned, so 1 is written; at `slti x3,x1,-1`
(`0xfff0a193`) the signed comparison `-252645136 < -1` also gives 1. -/
theorem C16_set_less_than_witness :
    WritesRd (rv32i_hart.new (memory.new 16)) 0xfff0b193 1
      (exec (rv32i_hart.new (memory.new 16)) 0xfff0b193) ∧
    WritesRd (rv32i_hart.new (memory.new 16)) 0xfff0a193 1
      (exec (rv32i_hart.new (memory.new 16)) 0xfff0a193) :=
  ⟨(C16_set_less_than (rv32i_hart.new (memory.new 16)) 0xfff0b193).2.2.2.1
      (by decide) (by decide),
   (C16_set_less_than (rv32i_hart.new (memory.new 16)) 0xfff0a193).2.1
      (by decide) (by decide)⟩

theorem sra_floor (x : Int) (s : Nat) : IsSra x s (x / ((2 ^ s : Nat) : Int)) := by
  have e : ((2 ^ s : Nat) : Int) = (2 : Int) ^ s := by push_cast; rfl
  rw [e]
  have hd : (0 : Int) < (2 : Int) ^ s := by
    rw [← e]
    exact_mod_cast Nat.pow_pos (by decide : 0 < 2)
  have h1 := Int.ediv_mul_le x (Int.ne_of_gt hd)
  have h2 := Int.lt_ediv_add_one_mul_self x hd
  refine ⟨h1, h2, ?_⟩
  constructor
  · intro hv
    by_contra hx
    have := Int.ediv_nonneg (Int.not_lt.mp hx) (Int.le_of_lt hd)
    omega
  · intro hx
    by_contra hv
    have h3 : 0 ≤ x / (2 : Int) ^ s * (2 : Int) ^ s :=
      Int.mul_nonneg (Int.not_lt.mp hv) (Int.le_of_lt hd)
    omega

theorem srl_floor (x : Int) (s : Nat) : IsSrl x s (toS32 (toU32 x >>> s)) := by
  unfold IsSrl
  rw [toU32_toS32, Nat.shiftRight_eq_div_pow]
  apply Nat.mod_eq_of_lt
  exact Nat.lt_of_le_of_lt (Nat.div_le_self _ _) (toU32_lt x)

/-- C17: for the shift count `s` in `0..31`, `SRAI` and `SRA` (funct7 = `0x20`) write
`floor(signed(regs[rs1]) / 2^s)` to `rd`, the sign being kept, and `SRLI` and `SRL`
(funct7 = `0x00`) write `floor(unsigned(regs[rs1]) / 2^s)`. -/
theorem C17_right_shifts (h : rv32i_hart) (insn : Nat) :
    bitfield insn 24 20 < 32 ∧ toU32 (h.regs.get (get_rs2 insn)) % 32 < 32 ∧
    (get_opcode insn = opcode_alu_imm → get_funct3 insn = funct3_srx →
      get_funct7 insn = funct7_sra →
      ∃ v, WritesRd h insn v (exec h insn) ∧
        IsSra (h.regs.get (get_rs1 insn)) (bitfield insn 24 20) v) ∧
    (get_opcode insn = opcode_alu_imm → get_funct3 insn = funct3_srx →
      get_funct7 insn = funct7_srl →
      ∃ v, WritesRd h insn v (exec h insn) ∧
        IsSrl (h.regs.get (get_rs1 insn)) (bitfield insn 24 20) v) ∧
    (get_opcode insn = opcode_rtype → get_funct3 insn = funct3_srx →
      get_funct7 insn = funct7_sra →
      ∃ v, WritesRd h insn v (exec h insn) ∧
        IsSra (h.regs.get (get_rs1 insn)) (toU32 (h.regs.get (get_rs2 insn)) % 32) v) ∧
    (get_opcode insn = opcode_rtype → get_funct3 insn = funct3_srx →
      get_funct7 insn = funct7_srl →
      ∃ v, WritesRd h insn v (exec h insn) ∧
        IsSrl (h.regs.get (get_rs1 insn)) (toU32 (h.regs.get (get_rs2 insn)) % 32) v) := by
  have hi := imm_shift_masked insn
  have hr := reg_shift_masked h insn
  have bi : bitfield insn 24 20 < 32 := by
    have : (0 : Int) ≤ ((bitfield insn 24 20 : Nat) : Int) := Int.ofNat_nonneg _
    omega
  have br : toU32 (h.regs.get (get_rs2 insn)) % 32 < 32 := Nat.mod_lt _ (by decide)
  refine ⟨bi, br, ?_, ?_, ?_, ?_⟩
  · intro ho hf h7
    refine ⟨_, ?_, sra_floor _ _⟩
    rw [exec_dispatch_srai h insn ho hf h7]
    unfold exec_srai sra32
    rw [hi.1, if_pos ⟨by omega, by omega⟩]
    exact writesRd_write_rd _ _ _
  · intro ho hf h7
    refine ⟨_, ?_, srl_floor _ _⟩
    rw [exec_dispatch_srli h insn ho hf h7]
    unfold exec_srli shr32
    rw [hi.1, if_pos ⟨by omega, by omega⟩]
    exact writesRd_write_rd _ _ _
  · intro ho hf h7
    refine ⟨_, ?_, sra_floor _ _⟩
    rw [exec_dispatch_sra h insn ho hf h7]
    unfold exec_sra sra32
    rw [hr.1, if_pos ⟨by omega, by omega⟩]
    exact writesRd_write_rd _ _ _
  · intro ho hf h7
    refine ⟨_, ?_, srl_floor _ _⟩
    rw [exec_dispatch_srl h insn ho hf h7]
    unfold exec_srl shr32
    rw [hr.1, if_pos ⟨by omega, by omega⟩]
    exact writesRd_write_rd _ _ _

/-- C17 at `srai x3,x1,4` (`0x4040d193`) and `srli x3,x1,4` (`0x0040d193`) on a fresh hart,
where `x1 = 0xf0f0f0f0`: the arithmetic shift writes `0xff0f0f0f` (`-15790321`), the
logical one `0x0f0f0f0f`. -/
theorem C17_right_shifts_witness :
    (∃ v, WritesRd (rv32i_hart.new (memory.new 16)) 0x4040d193 v
        (exec (rv32i_hart.new (memory.new 16)) 0x4040d193) ∧
      IsSra ((rv32i_hart.new (memory.new 16)).regs.get (get_rs1 0x4040d193))
        (bitfield 0x4040d193 24 20) v) ∧
    (∃ v, WritesRd (rv32i_hart.new (memory.new 16)) 0x0040d193 v
        (exec (rv32i_hart.new (memory.new 16)) 0x0040d193) ∧
      IsSrl ((rv32i_hart.new (memory.new 16)).regs.get (get_rs1 0x0040d193))
        (bitfield 0x0040d193 24 20) v) :=
  ⟨(C17_right_shifts (rv32i_hart.new (memory.new 16)) 0x4040d193).2.2.1
      (by decide) (by decide) (by decide),
   (C17_right_shifts (rv32i_hart.new (memory.new 16)) 0x0040d193).2.2.2.1
      (by decide) (by decide) (by decide)⟩

theorem toU32_toS32_toU32 (x : Int) : ((toU32 (toS32 (toU32 x)) : Nat) : Int) = x % 4294967296 := by
  rw [toU32_toS32, Nat.mod_eq_of_lt (toU32_lt x), toU32_cast]

set_option maxRecDepth 100000 in
/-- Scenario S2 of the specification (`lui x1,0x1; addi x1,x1,1; ebreak`): the run halts
after 3 instructions with `x1 = 0x1001`. -/
theorem scenario_S2 :
    (run 10 0 (scenario [0x000010B7, 0x00108093, 0x00100073])).map
      (fun h => (outcome h, h.regs.get 1)) = some ((true, "EBREAK instruction", 3, 8), 0x1001) := by
  decide

/-- C18: the value written to `rd` is exact modulo `2^32`: `LUI` writes
`insn & 0xFFFFF000`, `AUIPC` writes `(pc + (insn & 0xFFFFF000)) mod 2^32`, `ADD`, `SUB` and
`ADDI` write `(regs[rs1] + regs[rs2]) mod 2^32`, `(regs[rs1] - regs[rs2]) mod 2^32` and
`(regs[rs1] + imm_i) mod 2^32`; scenario S2 ends with `x1 = 0x1001`. -/
theorem C18_wrap_arithmetic (h : rv32i_hart) (insn : Nat) :
    (get_opcode insn = opcode_lui →
      ∃ v, WritesRd h insn v (exec h insn) ∧ toU32 v = insn &&& 0xfffff000) ∧
    (get_opcode insn = opcode_auipc →
      ∃ v, WritesRd h insn v (exec h insn) ∧
        toU32 v = (h.pc + (insn &&& 0xfffff000)) % 4294967296) ∧
    (get_opcode insn = opcode_rtype → get_funct3 insn = funct3_add →
      get_funct7 insn = funct7_add →
      ∃ v, WritesRd h insn v (exec h insn) ∧ ((toU32 v : Nat) : Int)
        = (h.regs.get (get_rs1 insn) + h.regs.get (get_rs2 insn)) % 4294967296) ∧
    (get_opcode insn = opcode_rtype → get_funct3 insn = funct3_add →
      get_funct7 insn = funct7_sub →
      ∃ v, WritesRd h insn v (exec h insn) ∧ ((toU32 v : Nat) : Int)
        = (h.regs.get (get_rs1 insn) - h.regs.get (get_rs2 insn)) % 4294967296) ∧
    (get_opcode insn = opcode_alu_imm → get_funct3 insn = funct3_add →
      ∃ v, WritesRd h insn v (exec h insn) ∧ ((toU32 v : Nat) : Int)
        = (h.regs.get (get_rs1 insn) + get_imm_i insn) % 4294967296) ∧
    (run 10 0 (scenario [0x000010B7, 0x00108093, 0x00100073])).map
      (fun h => (outcome h, h.regs.get 1))
      = some ((true, "EBREAK instruction", 3, 8), 0x1001) := by
  have hm : insn &&& 0xfffff000 ≤ 0xfffff000 := Nat.and_le_right
  refine ⟨?_, ?_, ?_, ?_, ?_, scenario_S2⟩
  · intro ho
    rw [exec_dispatch_lui h insn ho]
    refine ⟨_, writesRd_write_rd h insn (get_imm_u insn), ?_⟩
    unfold get_imm_u
    rw [toU32_toS32]
    omega
  · intro ho
    rw [exec_dispatch_auipc h insn ho]
    refine ⟨_, writesRd_write_rd h insn (toS32 (toU32 (get_imm_u insn + h.pc))), ?_⟩
    have h1 := toU32_toS32_toU32 (get_imm_u insn + h.pc)
    have h2 := toU32_cast (get_imm_u insn)
    have h3 : toU32 (get_imm_u insn) = insn &&& 0xfffff000 := by
      unfold get_imm_u
      rw [toU32_toS32]
      omega
    rw [h3] at h2
    omega
  · intro ho hf h7
    rw [exec_dispatch_add h insn ho hf h7]
    exact ⟨_, writesRd_write_rd h insn _, toU32_toS32_toU32 _⟩
  · intro ho hf h7
    rw [exec_dispatch_sub h insn ho hf h7]
    exact ⟨_, writesRd_write_rd h insn _, toU32_toS32_toU32 _⟩
  · intro ho hf
    rw [exec_dispatch_addi h insn ho hf]
    exact ⟨_, writesRd_write_rd h insn _, toU32_toS32_toU32 _⟩

/-- C18 at `add x3,x1,x1` (`0x001081b3`) on a fresh hart, where `x1 = 0xf0f0f0f0`: the sum
wraps to `0xe1e1e1e0`. -/
theorem C18_wrap_arithmetic_witness :
    ∃ v, WritesRd (rv32i_hart.new (memory.new 16)) 0x001081b3 v
        (exec (rv32i_hart.new (memory.new 16)) 0x001081b3) ∧
      ((toU32 v : Nat) : Int)
        = ((rv32i_hart.new (memory.new 16)).regs.get (get_rs1 0x001081b3)
          + (rv32i_hart.new (memory.new 16)).regs.get (get_rs2 0x001081b3)) % 4294967296 :=
  (C18_wrap_arithmetic (rv32i_hart.new (memory.new 16)) 0x001081b3).2.2.1
    (by decide) (by decide) (by decide)

/-! ## Linear code -/

theorem advances_write_rd (h : rv32i_hart) (insn : Nat) (v : Int) :
    Advances h (some (write_rd h insn v)) :=
  ⟨_, rfl, rfl, rfl⟩

theorem advances_map (h : rv32i_hart) (insn : Nat) (o : Option Int) (ho : o.isSome = true) :
    Advances h (o.map (write_rd h insn)) := by
  cases o with
  | none => exact absurd ho (by simp)
  | some v => exact ⟨_, rfl, rfl, rfl⟩

theorem set32_defined (m : memory) (a v : Nat) (ha : a + 2 < m.mem.length)
    (hN : m.mem.length ≤ 4294967296) : ∃ m', m.set32 a v = some m' := by
  have e1 : (a + 1) % 4294967296 = a + 1 := by omega
  have e2 : (a + 2) % 4294967296 = a + 2 := by omega
  unfold memory.set32
  rw [e1, e2, set16_eq _ _ _ (by omega)]
  simp only
  rw [set16_eq _ _ _ (by simp only [set8_length]; omega)]
  simp only
  rw [store_eq _ _ _ (by simp only [set8_length]; omega)]
  exact ⟨_, rfl⟩

/-- The part of the PC-advance property that holds: every instruction function of linear
code other than the two multi-byte stores is defined and advances the PC by 4 without
touching the halt flag; `exec_sh` and `exec_sw` do so when the address of their unchecked
store lies inside the memory, and `exec_csrrs` on a running hart for the CSR `0xf14` with
`rs1 = 0`. -/
theorem linear_functions_advance (h : rv32i_hart) (insn : Nat) :
    Advances h (some (exec_lui h insn)) ∧ Advances h (some (exec_auipc h insn)) ∧
    Advances h (some (exec_lb h insn)) ∧ Advances h (some (exec_lh h insn)) ∧
    Advances h (some (exec_lw h insn)) ∧ Advances h (some (exec_lbu h insn)) ∧
    Advances h (some (exec_lhu h insn)) ∧ Advances h (some (exec_sb h insn)) ∧
    Advances h (some (exec_addi h insn)) ∧ Advances h (some (exec_slti h insn)) ∧
    Advances h (some (exec_sltiu h insn)) ∧ Advances h (some (exec_xori h insn)) ∧
    Advances h (some (exec_ori h insn)) ∧ Advances h (some (exec_andi h insn)) ∧
    Advances h (exec_slli h insn) ∧ Advances h (exec_srli h insn) ∧
    Advances h (exec_srai h insn) ∧
    Advances h (some (exec_add h insn)) ∧ Advances h (some (exec_sub h insn)) ∧
    Advances h (exec_sll h insn) ∧ Advances h (some (exec_slt h insn)) ∧
    Advances h (some (exec_sltu h insn)) ∧ Advances h (some (exec_xor h insn)) ∧
    Advances h (exec_srl h insn) ∧ Advances h (exec_sra h insn) ∧
    Advances h (some (exec_or h insn)) ∧ Advances h (some (exec_and h insn)) ∧
    (eff_addr h insn (get_imm_s insn) < h.mem.mem.length → Advances h (exec_sh h insn)) ∧
    (eff_addr h insn (get_imm_s insn) + 2 < h.mem.mem.length →
      h.mem.mem.length ≤ 4294967296 → Advances h (exec_sw h insn)) ∧
    (h.halt = false → toU32 (get_imm_i insn) &&& 0x00000fff = 0xf14 → get_rs1 insn = 0 →
      Advances h (some (exec_csrrs h insn))) := by
  have hi := imm_shift_masked insn
  have hr := reg_shift_masked h insn
  refine ⟨⟨_, rfl, rfl, rfl⟩, ⟨_, rfl, rfl, rfl⟩, ⟨_, rfl, rfl, rfl⟩, ⟨_, rfl, rfl, rfl⟩,
    ⟨_, rfl, rfl, rfl⟩, ⟨_, rfl, rfl, rfl⟩, ⟨_, rfl, rfl, rfl⟩, ⟨_, rfl, rfl, rfl⟩,
    advances_write_rd _ _ _, advances_write_rd _ _ _, advances_write_rd _ _ _,
    advances_write_rd _ _ _, advances_write_rd _ _ _, advances_write_rd _ _ _,
    ?_, ?_, ?_, advances_write_rd _ _ _, advances_write_rd _ _ _, ?_,
    advances_write_rd _ _ _, advances_write_rd _ _ _, advances_write_rd _ _ _, ?_, ?_,
    advances_write_rd _ _ _, advances_write_rd _ _ _, ?_, ?_, ?_⟩
  · apply advances_map
    unfold shl32
    rw [if_pos ⟨hi.2.2.1, hi.2.2.2⟩]
    rfl
  · apply advances_map
    unfold shr32
    rw [if_pos ⟨hi.2.2.1, hi.2.2.2⟩]
    rfl
  · apply advances_map
    unfold sra32
    rw [if_pos ⟨hi.2.2.1, hi.2.2.2⟩]
    rfl
  · apply advances_map
    unfold shl32
    rw [if_pos ⟨hr.2.1, hr.2.2⟩]
    rfl
  · apply advances_map
    unfold shr32
    rw [if_pos ⟨hr.2.1, hr.2.2⟩]
    rfl
  · apply advances_map
    unfold sra32
    rw [if_pos ⟨hr.2.1, hr.2.2⟩]
    rfl
  · intro hin
    unfold exec_sh
    simp only
    rw [set16_eq _ _ _ hin]
    exact ⟨_, rfl, rfl, rfl⟩
  · intro hin hN
    obtain ⟨m', hm'⟩ := set32_defined h.mem (eff_addr h insn (get_imm_s insn))
      (toU32 (h.regs.get (get_rs2 insn))) hin hN
    unfold exec_sw
    simp only
    rw [hm']
    exact ⟨_, rfl, rfl, rfl⟩
  · intro hh hcsr hrs
    have hc : ¬ (toU32 (get_imm_i insn) &&& 0x00000fff ≠ 0xf14 ∨ get_rs1 insn ≠ 0) :=
      fun hc => hc.elim (fun h1 => h1 hcsr) (fun h1 => h1 hrs)
    unfold exec_csrrs
    simp only [if_neg hc]
    rw [if_pos (by rw [hh]; rfl)]
    exact ⟨_, rfl, rfl, rfl⟩

set_option maxRecDepth 100000 in
/-- C19 (the code at the failing input): `sh x1,0(x2)` (`0x00111023`) and `sw x1,0(x2)`
(`0x00112023`) are dispatched to `exec_sh` and `exec_sw`; as the first instruction of a
run, where `x2` is the memory size, their store lands on the first byte past the buffer,
through the unchecked `mem[addr] = val` of `set16` / `set32`, so the step has no defined
result and no PC; the byte store `sb x1,0(x2)` (`0x00110023`) at the same address is
dropped and the run goes on to the `ebreak` at PC = 4. -/
theorem C19_store_past_end_undefined :
    get_opcode 0x00111023 = opcode_stype ∧ get_funct3 0x00111023 = funct3_sh ∧
    get_opcode 0x00112023 = opcode_stype ∧ get_funct3 0x00112023 = funct3_sw ∧
    (∀ h : rv32i_hart, h.mem.mem.length ≤ eff_addr h 0x00111023 (get_imm_s 0x00111023) →
      exec h 0x00111023 = none) ∧
    (∀ h : rv32i_hart, h.mem.mem.length ≤ eff_addr h 0x00112023 (get_imm_s 0x00112023) →
      exec h 0x00112023 = none) ∧
    run 10 0 (scenario [0x00111023, 0x00100073]) = none ∧
    run 10 0 (scenario [0x00112023, 0x00100073]) = none ∧
    (run 10 0 (scenario [0x00110023, 0x00100073])).map outcome
      = some (true, "EBREAK instruction", 2, 4) := by
  refine ⟨by decide, by decide, by decide, by decide, ?_, ?_, by decide, by decide,
    by decide⟩
  · intro h hout
    rw [exec_dispatch_sh h 0x00111023 (by decide) (by decide)]
    unfold exec_sh
    simp only
    rw [set16_none _ _ _ hout]
    rfl
  · intro h hout
    rw [exec_dispatch_sw h 0x00112023 (by decide) (by decide)]
    unfold exec_sw
    simp only
    rw [set32_none _ _ _ hout]
    rfl

/-! ## Case analysis with the conditions of the labels -/

/-- Case analysis on the function `exec` dispatches to, with the conditions of the `case`
labels on the way: a property of the result of each instruction function, under those
conditions, is a property of the result of `exec`. -/
theorem exec_cases_at (P : Option rv32i_hart → Prop) (h : rv32i_hart) (insn : Nat)
    (h_lui : get_opcode insn = opcode_lui →
      P (some (exec_lui h insn)))
    (h_auipc : get_opcode insn = opcode_auipc →
      P (some (exec_auipc h insn)))
    (h_add : get_opcode insn = opcode_rtype → get_funct3 insn = funct3_add →
      get_funct7 insn = funct7_add →
      P (some (exec_add h insn)))
    (h_sub : get_opcode insn = opcode_rtype → get_funct3 insn = funct3_add →
      get_funct7 insn = funct7_sub →
      P (some (exec_sub h insn)))
    (h_sll : get_opcode insn = opcode_rtype → get_funct3 insn = funct3_sll →
      P (exec_sll h insn))
    (h_slt : get_opcode insn = opcode_rtype → get_funct3 insn = funct3_slt →
      P (some (exec_slt h insn)))
    (h_sltu : get_opcode insn = opcode_rtype → get_funct3 insn = funct3_sltu →
      P (some (exec_sltu h insn)))
    (h_xor : get_opcode insn = opcode_rtype → get_funct3 insn = funct3_xor →
      P (some (exec_xor h insn)))
    (h_srl : get_opcode insn = opcode_rtype → get_funct3 insn = funct3_srx →
      get_funct7 insn = funct7_srl →
      P (exec_srl h insn))
    (h_sra : get_opcode insn = opcode_rtype → get_funct3 insn = funct3_srx →
      get_funct7 insn = funct7_sra →
      P (exec_sra h insn))
    (h_or : get_opcode insn = opcode_rtype → get_funct3 insn = funct3_or →
      P (some (exec_or h insn)))
    (h_and : get_opcode insn = opcode_rtype → get_funct3 insn = funct3_and →
      P (some (exec_and h insn)))
    (h_sb : get_opcode insn = opcode_stype → get_funct3 insn = funct3_sb →
      P (some (exec_sb h insn)))
    (h_sh : get_opcode insn = opcode_stype → get_funct3 insn = funct3_sh →
      P (exec_sh h insn))
    (h_sw : get_opcode insn = opcode_stype → get_funct3 insn = funct3_sw →
      P (exec_sw h insn))
    (h_slli : get_opcode insn = opcode_alu_imm → get_funct3 insn = funct3_sll →
      P (exec_slli h insn))
    (h_addi : get_opcode insn = opcode_alu_imm → get_funct3 insn = funct3_add →
      P (some (exec_addi h insn)))
    (h_slti : get_opcode insn = opcode_alu_imm → get_funct3 insn = funct3_slt →
      P (some (exec_slti h insn)))
    (h_sltiu : get_opcode insn = opcode_alu_imm → get_funct3 insn = funct3_sltu →
      P (some (exec_sltiu h insn)))
    (h_xori : get_opcode insn = opcode_alu_imm → get_funct3 insn = funct3_xor →
      P (some (exec_xori h insn)))
    (h_ori : get_opcode insn = opcode_alu_imm → get_funct3 insn = funct3_or →
      P (some (exec_ori h insn)))
    (h_andi : get_opcode insn = opcode_alu_imm → get_funct3 insn = funct3_and →
      P (some (exec_andi h insn)))
    (h_srli : get_opcode insn = opcode_alu_imm → get_funct3 insn = funct3_srx →
      get_funct7 insn = funct7_srl →
      P (exec_srli h insn))
    (h_srai : get_opcode insn = opcode_alu_imm → get_funct3 insn = funct3_srx →
      get_funct7 insn = funct7_sra →
      P (exec_srai h insn))
    (h_lb : get_opcode insn = opcode_load_imm → get_funct3 insn = funct3_lb →
      P (some (exec_lb h insn)))
    (h_lh : get_opcode insn = opcode_load_imm → get_funct3 insn = funct3_lh →
      P (some (exec_lh h insn)))
    (h_lw : get_opcode insn = opcode_load_imm → get_funct3 insn = funct3_lw →
      P (some (exec_lw h insn)))
    (h_lbu : get_opcode insn = opcode_load_imm → get_funct3 insn = funct3_lbu →
      P (some (exec_lbu h insn)))
    (h_lhu : get_opcode insn = opcode_load_imm → get_funct3 insn = funct3_lhu →
      P (some (exec_lhu h insn)))
    (h_beq : get_opcode insn = opcode_btype → get_funct3 insn = funct3_beq →
      P (some (exec_beq h insn)))
    (h_bne : get_opcode insn = opcode_btype → get_funct3 insn = funct3_bne →
      P (some (exec_bne h insn)))
    (h_blt : get_opcode insn = opcode_btype → get_funct3 insn = funct3_blt →
      P (some (exec_blt h insn)))
    (h_bge : get_opcode insn = opcode_btype → get_funct3 insn = funct3_bge →
      P (some (exec_bge h insn)))
    (h_bltu : get_opcode insn = opcode_btype → get_funct3 insn = funct3_bltu →
      P (some (exec_bltu h insn)))
    (h_bgeu : get_opcode insn = opcode_btype → get_funct3 insn = funct3_bgeu →
      P (some (exec_bgeu h insn)))
    (h_jal : get_opcode insn = opcode_jal →
      P (some (exec_jal h insn)))
    (h_jalr : get_opcode insn = opcode_jalr →
      P (some (exec_jalr h insn)))
    (h_ebreak : get_opcode insn = opcode_system → insn = insn_ebreak →
      P (some (exec_ebreak h insn)))
    (h_csrrs : get_opcode insn = opcode_system → get_funct3 insn = funct3_csrrs →
      P (some (exec_csrrs h insn)))
    (h_illegal_insn : P (some (exec_illegal_insn h insn))) :
    P (exec h insn) := by
  unfold exec
  dsimp only
  by_cases c1 : get_opcode insn = opcode_lui
  · rw [if_pos c1]; exact h_lui c1
  rw [if_neg c1]
  by_cases c2 : get_opcode insn = opcode_auipc
  · rw [if_pos c2]; exact h_auipc c2
  rw [if_neg c2]
  by_cases c3 : get_opcode insn = opcode_rtype
  · rw [if_pos c3]
    by_cases c4 : get_funct3 insn = funct3_add
    · rw [if_pos c4]
      by_cases c5 : get_funct7 insn = funct7_add
      · rw [if_pos c5]; exact h_add c3 c4 c5
      rw [if_neg c5]
      by_cases c6 : get_funct7 insn = funct7_sub
      · rw [if_pos c6]; exact h_sub c3 c4 c6
      rw [if_neg c6]
      exact h_illegal_insn
    rw [if_neg c4]
    by_cases c7 : get_funct3 insn = funct3_sll
    · rw [if_pos c7]; exact h_sll c3 c7
    rw [if_neg c7]
    by_cases c8 : get_funct3 insn = funct3_slt
    · rw [if_pos c8]; exact h_slt c3 c8
    rw [if_neg c8]
    by_cases c9 : get_funct3 insn = funct3_sltu
    · rw [if_pos c9]; exact h_sltu c3 c9
    rw [if_neg c9]
    by_cases c10 : get_funct3 insn = funct3_xor
    · rw [if_pos c10]; exact h_xor c3 c10
    rw [if_neg c10]
    by_cases c11 : get_funct3 insn = funct3_srx
    · rw [if_pos c11]
      by_cases c12 : get_funct7 insn = funct7_srl
      · rw [if_pos c12]; exact h_srl c3 c11 c12
      rw [if_neg c12]
      by_cases c13 : get_funct7 insn = funct7_sra
      · rw [if_pos c13]; exact h_sra c3 c11 c13
      rw [if_neg c13]
      exact h_illegal_insn
    rw [if_neg c11]
    by_cases c14 : get_funct3 insn = funct3_or
    · rw [if_pos c14]; exact h_or c3 c14
    rw [if_neg c14]
    by_cases c15 : get_funct3 insn = funct3_and
    · rw [if_pos c15]; exact h_and c3 c15
    rw [if_neg c15]
    exact h_illegal_insn
  rw [if_neg c3]
  by_cases c16 : get_opcode insn = opcode_stype
  · rw [if_pos c16]
    by_cases c17 : get_funct3 insn = funct3_sb
    · rw [if_pos c17]; exact h_sb c16 c17
    rw [if_neg c17]
    by_cases c18 : get_funct3 insn = funct3_sh
    · rw [if_pos c18]; exact h_sh c16 c18
    rw [if_neg c18]
    by_cases c19 : get_funct3 insn = funct3_sw
    · rw [if_pos c19]; exact h_sw c16 c19
    rw [if_neg c19]
    exact h_illegal_insn
  rw [if_neg c16]
  by_cases c20 : get_opcode insn = opcode_alu_imm
  · rw [if_pos c20]
    by_cases c21 : get_funct3 insn = funct3_sll
    · rw [if_pos c21]; exact h_slli c20 c21
    rw [if_neg c21]
    by_cases c22 : get_funct3 insn = funct3_add
    · rw [if_pos c22]; exact h_addi c20 c22
    rw [if_neg c22]
    by_cases c23 : get_funct3 insn = funct3_slt
    · rw [if_pos c23]; exact h_slti c20 c23
    rw [if_neg c23]
    by_cases c24 : get_funct3 insn = funct3_sltu
    · rw [if_pos c24]; exact h_sltiu c20 c24
    rw [if_neg c24]
    by_cases c25 : get_funct3 insn = funct3_xor
    · rw [if_pos c25]; exact h_xori c20 c25
    rw [if_neg c25]
    by_cases c26 : get_funct3 insn = funct3_or
    · rw [if_pos c26]; exact h_ori c20 c26
    rw [if_neg c26]
    by_cases c27 : get_funct3 insn = funct3_and
    · rw [if_pos c27]; exact h_andi c20 c27
    rw [if_neg c27]
    by_cases c28 : get_funct3 insn = funct3_srx
    · rw [if_pos c28]
      by_cases c29 : get_funct7 insn = funct7_srl
      · rw [if_pos c29]; exact h_srli c20 c28 c29
      rw [if_neg c29]
      by_cases c30 : get_funct7 insn = funct7_sra
      · rw [if_pos c30]; exact h_srai c20 c28 c30
      rw [if_neg c30]
      exact h_illegal_insn
    rw [if_neg c28]
    exact h_illegal_insn
  rw [if_neg c20]
  by_cases c31 : get_opcode insn = opcode_load_imm
  · rw [if_pos c31]
    by_cases c32 : get_funct3 insn = funct3_lb
    · rw [if_pos c32]; exact h_lb c31 c32
    rw [if_neg c32]
    by_cases c33 : get_funct3 insn = funct3_lh
    · rw [if_pos c33]; exact h_lh c31 c33
    rw [if_neg c33]
    by_cases c34 : get_funct3 insn = funct3_lw
    · rw [if_pos c34]; exact h_lw c31 c34
    rw [if_neg c34]
    by_cases c35 : get_funct3 insn = funct3_lbu
    · rw [if_pos c35]; exact h_lbu c31 c35
    rw [if_neg c35]
    by_cases c36 : get_funct3 insn = funct3_lhu
    · rw [if_pos c36]; exact h_lhu c31 c36
    rw [if_neg c36]
    exact h_illegal_insn
  rw [if_neg c31]
  by_cases c37 : get_opcode insn = opcode_btype
  · rw [if_pos c37]
    by_cases c38 : get_funct3 insn = funct3_beq
    · rw [if_pos c38]; exact h_beq c37 c38
    rw [if_neg c38]
    by_cases c39 : get_funct3 insn = funct3_bne
    · rw [if_pos c39]; exact h_bne c37 c39
    rw [if_neg c39]
    by_cases c40 : get_funct3 insn = funct3_blt
    · rw [if_pos c40]; exact h_blt c37 c40
    rw [if_neg c40]
    by_cases c41 : get_funct3 insn = funct3_bge
    · rw [if_pos c41]; exact h_bge c37 c41
    rw [if_neg c41]
    by_cases c42 : get_funct3 insn = funct3_bltu
    · rw [if_pos c42]; exact h_bltu c37 c42
    rw [if_neg c42]
    by_cases c43 : get_funct3 insn = funct3_bgeu
    · rw [if_pos c43]; exact h_bgeu c37 c43
    rw [if_neg c43]
    exact h_illegal_insn
  rw [if_neg c37]
  by_cases c44 : get_opcode insn = opcode_jal
  · rw [if_pos c44]; exact h_jal c44
  rw [if_neg c44]
  by_cases c45 : get_opcode insn = opcode_jalr
  · rw [if_pos c45]; exact h_jalr c45
  rw [if_neg c45]
  by_cases c46 : get_opcode insn = opcode_system
  · rw [if_pos c46]
    by_cases c47 : insn = insn_ebreak
    · rw [if_pos c47]; exact h_ebreak c46 c47
    rw [if_neg c47]
    by_cases c48 : get_funct3 insn = funct3_csrrs
    · rw [if_pos c48]; exact h_csrrs c46 c48
    rw [if_neg c48]
    exact h_illegal_insn
  rw [if_neg c46]
  exact h_illegal_insn

/-- Case analysis on the text `decode` returns: a property of each rendering, under the
conditions of its `case` labels, and of the illegal-instruction text is a property of the
result of `decode`. -/
theorem decode_cases (P : String → Prop) (addr insn : Nat)
    (h_lui : get_opcode insn = opcode_lui →
      P (render_lui insn))
    (h_auipc : get_opcode insn = opcode_auipc →
      P (render_auipc insn))
    (h_add : get_opcode insn = opcode_rtype → get_funct3 insn = funct3_add →
      get_funct7 insn = funct7_add →
      P (render_rtype insn "add"))
    (h_sub : get_opcode insn = opcode_rtype → get_funct3 insn = funct3_add →
      get_funct7 insn = funct7_sub →
      P (render_rtype insn "sub"))
    (h_sll : get_opcode insn = opcode_rtype → get_funct3 insn = funct3_sll →
      P (render_rtype insn "sll"))
    (h_slt : get_opcode insn = opcode_rtype → get_funct3 insn = funct3_slt →
      P (render_rtype insn "slt"))
    (h_sltu : get_opcode insn = opcode_rtype → get_funct3 insn = funct3_sltu →
      P (render_rtype insn "sltu"))
    (h_xor : get_opcode insn = opcode_rtype → get_funct3 insn = funct3_xor →
      P (render_rtype insn "xor"))
    (h_srl : get_opcode insn = opcode_rtype → get_funct3 insn = funct3_srx →
      get_funct7 insn = funct7_srl →
      P (render_rtype insn "srl"))
    (h_sra : get_opcode insn = opcode_rtype → get_funct3 insn = funct3_srx →
      get_funct7 insn = funct7_sra →
      P (render_rtype insn "sra"))
    (h_or : get_opcode insn = opcode_rtype → get_funct3 insn = funct3_or →
      P (render_rtype insn "or"))
    (h_and : get_opcode insn = opcode_rtype → get_funct3 insn = funct3_and →
      P (render_rtype insn "and"))
    (h_sb : get_opcode insn = opcode_stype → get_funct3 insn = funct3_sb →
      P (render_stype insn "sb"))
    (h_sh : get_opcode insn = opcode_stype → get_funct3 insn = funct3_sh →
      P (render_stype insn "sh"))
    (h_sw : get_opcode insn = opcode_stype → get_funct3 insn = funct3_sw →
      P (render_stype insn "sw"))
    (h_slli : get_opcode insn = opcode_alu_imm → get_funct3 insn = funct3_sll →
      P (render_itype_alu insn "slli" (get_imm_i insn)))
    (h_addi : get_opcode insn = opcode_alu_imm → get_funct3 insn = funct3_add →
      P (render_itype_alu insn "addi" (get_imm_i insn)))
    (h_slti : get_opcode insn = opcode_alu_imm → get_funct3 insn = funct3_slt →
      P (render_itype_alu insn "slti" (get_imm_i insn)))
    (h_sltiu : get_opcode insn = opcode_alu_imm → get_funct3 insn = funct3_sltu →
      P (render_itype_alu insn "sltiu" (get_imm_i insn)))
    (h_xori : get_opcode insn = opcode_alu_imm → get_funct3 insn = funct3_xor →
      P (render_itype_alu insn "xori" (get_imm_i insn)))
    (h_ori : get_opcode insn = opcode_alu_imm → get_funct3 insn = funct3_or →
      P (render_itype_alu insn "ori" (get_imm_i insn)))
    (h_andi : get_opcode insn = opcode_alu_imm → get_funct3 insn = funct3_and →
      P (render_itype_alu insn "andi" (get_imm_i insn)))
    (h_srli : get_opcode insn = opcode_alu_imm → get_funct3 insn = funct3_srx →
      get_funct7 insn = funct7_srl →
      P (render_itype_alu insn "srli" (get_imm_i insn)))
    (h_srai : get_opcode insn = opcode_alu_imm → get_funct3 insn = funct3_srx →
      get_funct7 insn = funct7_sra →
      P (render_itype_alu insn "srai" (toS32 (toU32 (get_imm_i insn) % XLEN))))
    (h_lb : get_opcode insn = opcode_load_imm → get_funct3 insn = funct3_lb →
      P (render_itype_load insn "lb"))
    (h_lh : get_opcode insn = opcode_load_imm → get_funct3 insn = funct3_lh →
      P (render_itype_load insn "lh"))
    (h_lw : get_opcode insn = opcode_load_imm → get_funct3 insn = funct3_lw →
      P (render_itype_load insn "lw"))
    (h_lbu : get_opcode insn = opcode_load_imm → get_funct3 insn = funct3_lbu →
      P (render_itype_load insn "lbu"))
    (h_lhu : get_opcode insn = opcode_load_imm → get_funct3 insn = funct3_lhu →
      P (render_itype_load insn "lhu"))
    (h_beq : get_opcode insn = opcode_btype → get_funct3 insn = funct3_beq →
      P (render_btype addr insn "beq"))
    (h_bne : get_opcode insn = opcode_btype → get_funct3 insn = funct3_bne →
      P (render_btype addr insn "bne"))
    (h_blt : get_opcode insn = opcode_btype → get_funct3 insn = funct3_blt →
      P (render_btype addr insn "blt"))
    (h_bge : get_opcode insn = opcode_btype → get_funct3 insn = funct3_bge →
      P (render_btype addr insn "bge"))
    (h_bltu : get_opcode insn = opcode_btype → get_funct3 insn = funct3_bltu →
      P (render_btype addr insn "bltu"))
    (h_bgeu : get_opcode insn = opcode_btype → get_funct3 insn = funct3_bgeu →
      P (render_btype addr insn "bgeu"))
    (h_jal : get_opcode insn = opcode_jal →
      P (render_jal addr insn))
    (h_jalr : get_opcode insn = opcode_jalr →
      P (render_jalr insn))
    (h_ecall : get_opcode insn = opcode_system → insn = insn_ecall →
      P (render_ecall insn))
    (h_ebreak : get_opcode insn = opcode_system → insn = insn_ebreak →
      P (render_ebreak insn))
    (h_csrrw : get_opcode insn = opcode_system → get_funct3 insn = funct3_csrrw →
      P (render_csrrx insn "csrrw"))
    (h_csrrs : get_opcode insn = opcode_system → get_funct3 insn = funct3_csrrs →
      P (render_csrrx insn "csrrs"))
    (h_csrrc : get_opcode insn = opcode_system → get_funct3 insn = funct3_csrrc →
      P (render_csrrx insn "csrrc"))
    (h_csrrwi : get_opcode insn = opcode_system → get_funct3 insn = funct3_csrrwi →
      P (render_csrrxi insn "csrrwi"))
    (h_csrrsi : get_opcode insn = opcode_system → get_funct3 insn = funct3_csrrsi →
      P (render_csrrxi insn "csrrsi"))
    (h_csrrci : get_opcode insn = opcode_system → get_funct3 insn = funct3_csrrci →
      P (render_csrrxi insn "csrrci"))
    (h_illegal : P (render_illegal_insn insn)) :
    P (decode addr insn) := by
  unfold decode
  dsimp only
  by_cases c1 : get_opcode insn = opcode_lui
  · rw [if_pos c1]; exact h_lui c1
  rw [if_neg c1]
  by_cases c2 : get_opcode insn = opcode_auipc
  · rw [if_pos c2]; exact h_auipc c2
  rw [if_neg c2]
  by_cases c3 : get_opcode insn = opcode_rtype
  · rw [if_pos c3]
    by_cases c4 : get_funct3 insn = funct3_add
    · rw [if_pos c4]
      by_cases c5 : get_funct7 insn = funct7_add
      · rw [if_pos c5]; exact h_add c3 c4 c5
      rw [if_neg c5]
      by_cases c6 : get_funct7 insn = funct7_sub
      · rw [if_pos c6]; exact h_sub c3 c4 c6
      rw [if_neg c6]
      exact h_illegal
    rw [if_neg c4]
    by_cases c7 : get_funct3 insn = funct3_sll
    · rw [if_pos c7]; exact h_sll c3 c7
    rw [if_neg c7]
    by_cases c8 : get_funct3 insn = funct3_slt
    · rw [if_pos c8]; exact h_slt c3 c8
    rw [if_neg c8]
    by_cases c9 : get_funct3 insn = funct3_sltu
    · rw [if_pos c9]; exact h_sltu c3 c9
    rw [if_neg c9]
    by_cases c10 : get_funct3 insn = funct3_xor
    · rw [if_pos c10]; exact h_xor c3 c10
    rw [if_neg c10]
    by_cases c11 : get_funct3 insn = funct3_srx
    · rw [if_pos c11]
      by_cases c12 : get_funct7 insn = funct7_srl
      · rw [if_pos c12]; exact h_srl c3 c11 c12
      rw [if_neg c12]
      by_cases c13 : get_funct7 insn = funct7_sra
      · rw [if_pos c13]; exact h_sra c3 c11 c13
      rw [if_neg c13]
      exact h_illegal
    rw [if_neg c11]
    by_cases c14 : get_funct3 insn = funct3_or
    · rw [if_pos c14]; exact h_or c3 c14
    rw [if_neg c14]
    by_cases c15 : get_funct3 insn = funct3_and
    · rw [if_pos c15]; exact h_and c3 c15
    rw [if_neg c15]
    exact h_illegal
  rw [if_neg c3]
  by_cases c16 : get_opcode insn = opcode_stype
  · rw [if_pos c16]
    by_cases c17 : get_funct3 insn = funct3_sb
    · rw [if_pos c17]; exact h_sb c16 c17
    rw [if_neg c17]
    by_cases c18 : get_funct3 insn = funct3_sh
    · rw [if_pos c18]; exact h_sh c16 c18
    rw [if_neg c18]
    by_cases c19 : get_funct3 insn = funct3_sw
    · rw [if_pos c19]; exact h_sw c16 c19
    rw [if_neg c19]
    exact h_illegal
  rw [if_neg c16]
  by_cases c20 : get_opcode insn = opcode_alu_imm
  · rw [if_pos c20]
    by_cases c21 : get_funct3 insn = funct3_sll
    · rw [if_pos c21]; exact h_slli c20 c21
    rw [if_neg c21]
    by_cases c22 : get_funct3 insn = funct3_add
    · rw [if_pos c22]; exact h_addi c20 c22
    rw [if_neg c22]
    by_cases c23 : get_funct3 insn = funct3_slt
    · rw [if_pos c23]; exact h_slti c20 c23
    rw [if_neg c23]
    by_cases c24 : get_funct3 insn = funct3_sltu
    · rw [if_pos c24]; exact h_sltiu c20 c24
    rw [if_neg c24]
    by_cases c25 : get_funct3 insn = funct3_xor
    · rw [if_pos c25]; exact h_xori c20 c25
    rw [if_neg c25]
    by_cases c26 : get_funct3 insn = funct3_or
    · rw [if_pos c26]; exact h_ori c20 c26
    rw [if_neg c26]
    by_cases c27 : get_funct3 insn = funct3_and
    · rw [if_pos c27]; exact h_andi c20 c27
    rw [if_neg c27]
    by_cases c28 : get_funct3 insn = funct3_srx
    · rw [if_pos c28]
      by_cases c29 : get_funct7 insn = funct7_srl
      · rw [if_pos c29]; exact h_srli c20 c28 c29
      rw [if_neg c29]
      by_cases c30 : get_funct7 insn = funct7_sra
      · rw [if_pos c30]; exact h_srai c20 c28 c30
      rw [if_neg c30]
      exact h_illegal
    rw [if_neg c28]
    exact h_illegal
  rw [if_neg c20]
  by_cases c31 : get_opcode insn = opcode_load_imm
  · rw [if_pos c31]
    by_cases c32 : get_funct3 insn = funct3_lb
    · rw [if_pos c32]; exact h_lb c31 c32
    rw [if_neg c32]
    by_cases c33 : get_funct3 insn = funct3_lh
    · rw [if_pos c33]; exact h_lh c31 c33
    rw [if_neg c33]
    by_cases c34 : get_funct3 insn = funct3_lw
    · rw [if_pos c34]; exact h_lw c31 c34
    rw [if_neg c34]
    by_cases c35 : get_funct3 insn = funct3_lbu
    · rw [if_pos c35]; exact h_lbu c31 c35
    rw [if_neg c35]
    by_cases c36 : get_funct3 insn = funct3_lhu
    · rw [if_pos c36]; exact h_lhu c31 c36
    rw [if_neg c36]
    exact h_illegal
  rw [if_neg c31]
  by_cases c37 : get_opcode insn = opcode_btype
  · rw [if_pos c37]
    by_cases c38 : get_funct3 insn = funct3_beq
    · rw [if_pos c38]; exact h_beq c37 c38
    rw [if_neg c38]
    by_cases c39 : get_funct3 insn = funct3_bne
    · rw [if_pos c39]; exact h_bne c37 c39
    rw [if_neg c39]
    by_cases c40 : get_funct3 insn = funct3_blt
    · rw [if_pos c40]; exact h_blt c37 c40
    rw [if_neg c40]
    by_cases c41 : get_funct3 insn = funct3_bge
    · rw [if_pos c41]; exact h_bge c37 c41
    rw [if_neg c41]
    by_cases c42 : get_funct3 insn = funct3_bltu
    · rw [if_pos c42]; exact h_bltu c37 c42
    rw [if_neg c42]
    by_cases c43 : get_funct3 insn = funct3_bgeu
    · rw [if_pos c43]; exact h_bgeu c37 c43
    rw [if_neg c43]
    exact h_illegal
  rw [if_neg c37]
  by_cases c44 : get_opcode insn = opcode_jal
  · rw [if_pos c44]; exact h_jal c44
  rw [if_neg c44]
  by_cases c45 : get_opcode insn = opcode_jalr
  · rw [if_pos c45]; exact h_jalr c45
  rw [if_neg c45]
  by_cases c46 : get_opcode insn = opcode_system
  · rw [if_pos c46]
    by_cases c47 : insn = insn_ecall
    · rw [if_pos c47]; exact h_ecall c46 c47
    rw [if_neg c47]
    by_cases c48 : insn = insn_ebreak
    · rw [if_pos c48]; exact h_ebreak c46 c48
    rw [if_neg c48]
    by_cases c49 : get_funct3 insn = funct3_csrrw
    · rw [if_pos c49]; exact h_csrrw c46 c49
    rw [if_neg c49]
    by_cases c50 : get_funct3 insn = funct3_csrrs
    · rw [if_pos c50]; exact h_csrrs c46 c50
    rw [if_neg c50]
    by_cases c51 : get_funct3 insn = funct3_csrrc
    · rw [if_pos c51]; exact h_csrrc c46 c51
    rw [if_neg c51]
    by_cases c52 : get_funct3 insn = funct3_csrrwi
    · rw [if_pos c52]; exact h_csrrwi c46 c52
    rw [if_neg c52]
    by_cases c53 : get_funct3 insn = funct3_csrrsi
    · rw [if_pos c53]; exact h_csrrsi c46 c53
    rw [if_neg c53]
    by_cases c54 : get_funct3 insn = funct3_csrrci
    · rw [if_pos c54]; exact h_csrrci c46 c54
    rw [if_neg c54]
    exact h_illegal
  rw [if_neg c46]
  exact h_illegal

/-- Every word for which `exec` ends in a `default:` label is executed by
`exec_illegal_insn`. -/
theorem exec_of_dispatches_illegal (h : rv32i_hart) (insn : Nat)
    (hd : dispatches_illegal insn = true) : exec h insn = some (exec_illegal_insn h insn) := by
  unfold dispatches_illegal at hd
  unfold exec
  dsimp only
  by_cases c1 : get_opcode insn = opcode_lui
  · rw [if_pos c1] at hd; exact absurd hd (by decide)
  rw [if_neg c1] at hd ⊢
  by_cases c2 : get_opcode insn = opcode_auipc
  · rw [if_pos c2] at hd; exact absurd hd (by decide)
  rw [if_neg c2] at hd ⊢
  by_cases c3 : get_opcode insn = opcode_rtype
  · rw [if_pos c3] at hd ⊢
    by_cases c4 : get_funct3 insn = funct3_add
    · rw [if_pos c4] at hd ⊢
      by_cases c5 : get_funct7 insn = funct7_add
      · rw [if_pos c5] at hd; exact absurd hd (by decide)
      rw [if_neg c5] at hd ⊢
      by_cases c6 : get_funct7 insn = funct7_sub
      · rw [if_pos c6] at hd; exact absurd hd (by decide)
      rw [if_neg c6] at hd ⊢
    rw [if_neg c4] at hd ⊢
    by_cases c7 : get_funct3 insn = funct3_sll
    · rw [if_pos c7] at hd; exact absurd hd (by decide)
    rw [if_neg c7] at hd ⊢
    by_cases c8 : get_funct3 insn = funct3_slt
    · rw [if_pos c8] at hd; exact absurd hd (by decide)
    rw [if_neg c8] at hd ⊢
    by_cases c9 : get_funct3 insn = funct3_sltu
    · rw [if_pos c9] at hd; exact absurd hd (by decide)
    rw [if_neg c9] at hd ⊢
    by_cases c10 : get_funct3 insn = funct3_xor
    · rw [if_pos c10] at hd; exact absurd hd (by decide)
    rw [if_neg c10] at hd ⊢
    by_cases c11 : get_funct3 insn = funct3_srx
    · rw [if_pos c11] at hd ⊢
      by_cases c12 : get_funct7 insn = funct7_srl
      · rw [if_pos c12] at hd; exact absurd hd (by decide)
      rw [if_neg c12] at hd ⊢
      by_cases c13 : get_funct7 insn = funct7_sra
      · rw [if_pos c13] at hd; exact absurd hd (by decide)
      rw [if_neg c13] at hd ⊢
    rw [if_neg c11] at hd ⊢
    by_cases c14 : get_funct3 insn = funct3_or
    · rw [if_pos c14] at hd; exact absurd hd (by decide)
    rw [if_neg c14] at hd ⊢
    by_cases c15 : get_funct3 insn = funct3_and
    · rw [if_pos c15] at hd; exact absurd hd (by decide)
    rw [if_neg c15] at hd ⊢
  rw [if_neg c3] at hd ⊢
  by_cases c16 : get_opcode insn = opcode_stype
  · rw [if_pos c16] at hd ⊢
    by_cases c17 : get_funct3 insn = funct3_sb
    · rw [if_pos c17] at hd; exact absurd hd (by decide)
    rw [if_neg c17] at hd ⊢
    by_cases c18 : get_funct3 insn = funct3_sh
    · rw [if_pos c18] at hd; exact absurd hd (by decide)
    rw [if_neg c18] at hd ⊢
    by_cases c19 : get_funct3 insn = funct3_sw
    · rw [if_pos c19] at hd; exact absurd hd (by decide)
    rw [if_neg c19] at hd ⊢
  rw [if_neg c16] at hd ⊢
  by_cases c20 : get_opcode insn = opcode_alu_imm
  · rw [if_pos c20] at hd ⊢
    by_cases c21 : get_funct3 insn = funct3_sll
    · rw [if_pos c21] at hd; exact absurd hd (by decide)
    rw [if_neg c21] at hd ⊢
    by_cases c22 : get_funct3 insn = funct3_add
    · rw [if_pos c22] at hd; exact absurd hd (by decide)
    rw [if_neg c22] at hd ⊢
    by_cases c23 : get_funct3 insn = funct3_slt
    · rw [if_pos c23] at hd; exact absurd hd (by decide)
    rw [if_neg c23] at hd ⊢
    by_cases c24 : get_funct3 insn = funct3_sltu
    · rw [if_pos c24] at hd; exact absurd hd (by decide)
    rw [if_neg c24] at hd ⊢
    by_cases c25 : get_funct3 insn = funct3_xor
    · rw [if_pos c25] at hd; exact absurd hd (by decide)
    rw [if_neg c25] at hd ⊢
    by_cases c26 : get_funct3 insn = funct3_or
    · rw [if_pos c26] at hd; exact absurd hd (by decide)
    rw [if_neg c26] at hd ⊢
    by_cases c27 : get_funct3 insn = funct3_and
    · rw [if_pos c27] at hd; exact absurd hd (by decide)
    rw [if_neg c27] at hd ⊢
    by_cases c28 : get_funct3 insn = funct3_srx
    · rw [if_pos c28] at hd ⊢
      by_cases c29 : get_funct7 insn = funct7_srl
      · rw [if_pos c29] at hd; exact absurd hd (by decide)
      rw [if_neg c29] at hd ⊢
      by_cases c30 : get_funct7 insn = funct7_sra
      · rw [if_pos c30] at hd; exact absurd hd (by decide)
      rw [if_neg c30] at hd ⊢
    rw [if_neg c28] at hd ⊢
  rw [if_neg c20] at hd ⊢
  by_cases c31 : get_opcode insn = opcode_load_imm
  · rw [if_pos c31] at hd ⊢
    by_cases c32 : get_funct3 insn = funct3_lb
    · rw [if_pos c32] at hd; exact absurd hd (by decide)
    rw [if_neg c32] at hd ⊢
    by_cases c33 : get_funct3 insn = funct3_lh
    · rw [if_pos c33] at hd; exact absurd hd (by decide)
    rw [if_neg c33] at hd ⊢
    by_cases c34 : get_funct3 insn = funct3_lw
    · rw [if_pos c34] at hd; exact absurd hd (by decide)
    rw [if_neg c34] at hd ⊢
    by_cases c35 : get_funct3 insn = funct3_lbu
    · rw [if_pos c35] at hd; exact absurd hd (by decide)
    rw [if_neg c35] at hd ⊢
    by_cases c36 : get_funct3 insn = funct3_lhu
    · rw [if_pos c36] at hd; exact absurd hd (by decide)
    rw [if_neg c36] at hd ⊢
  rw [if_neg c31] at hd ⊢
  by_cases c37 : get_opcode insn = opcode_btype
  · rw [if_pos c37] at hd ⊢
    by_cases c38 : get_funct3 insn = funct3_beq
    · rw [if_pos c38] at hd; exact absurd hd (by decide)
    rw [if_neg c38] at hd ⊢
    by_cases c39 : get_funct3 insn = funct3_bne
    · rw [if_pos c39] at hd; exact absurd hd (by decide)
    rw [if_neg c39] at hd ⊢
    by_cases c40 : get_funct3 insn = funct3_blt
    · rw [if_pos c40] at hd; exact absurd hd (by decide)
    rw [if_neg c40] at hd ⊢
    by_cases c41 : get_funct3 insn = funct3_bge
    · rw [if_pos c41] at hd; exact absurd hd (by decide)
    rw [if_neg c41] at hd ⊢
    by_cases c42 : get_funct3 insn = funct3_bltu
    · rw [if_pos c42] at hd; exact absurd hd (by decide)
    rw [if_neg c42] at hd ⊢
    by_cases c43 : get_funct3 insn = funct3_bgeu
    · rw [if_pos c43] at hd; exact absurd hd (by decide)
    rw [if_neg c43] at hd ⊢
  rw [if_neg c37] at hd ⊢
  by_cases c44 : get_opcode insn = opcode_jal
  · rw [if_pos c44] at hd; exact absurd hd (by decide)
  rw [if_neg c44] at hd ⊢
  by_cases c45 : get_opcode insn = opcode_jalr
  · rw [if_pos c45] at hd; exact absurd hd (by decide)
  rw [if_neg c45] at hd ⊢
  by_cases c46 : get_opcode insn = opcode_system
  · rw [if_pos c46] at hd ⊢
    by_cases c47 : insn = insn_ebreak
    · rw [if_pos c47] at hd; exact absurd hd (by decide)
    rw [if_neg c47] at hd ⊢
    by_cases c48 : get_funct3 insn = funct3_csrrs
    · rw [if_pos c48] at hd; exact absurd hd (by decide)
    rw [if_neg c48] at hd ⊢
  rw [if_neg c46] at hd ⊢

/-! ## The run loop -/

theorem run_eq (fuel exec_limit : Nat) (h : rv32i_hart) :
    run fuel exec_limit h = run_loop fuel exec_limit (run_start h) := rfl

/-- A loop whose condition is false returns at once, whatever the fuel. -/
theorem run_loop_stop (fuel exec_limit : Nat) (h : rv32i_hart)
    (hc : run_continues exec_limit h = false) : run_loop fuel exec_limit h = some h := by
  cases fuel with
  | zero => unfold run_loop; rw [hc]; rfl
  | succ n => unfold run_loop; rw [hc]; rfl

/-- One iteration of the loop. -/
theorem run_loop_step (fuel exec_limit : Nat) (h h1 : rv32i_hart)
    (hc : run_continues exec_limit h = true) (ht : tick h = some h1) :
    run_loop (fuel + 1) exec_limit h = run_loop fuel exec_limit h1 := by
  rw [run_loop, if_pos hc, ht]

/-- A result of the loop does not depend on the fuel left over. -/
theorem run_loop_mono (fuel : Nat) : ∀ (exec_limit : Nat) (h h' : rv32i_hart),
    run_loop fuel exec_limit h = some h' →
    ∀ fuel', fuel ≤ fuel' → run_loop fuel' exec_limit h = some h' := by
  induction fuel with
  | zero =>
    intro L h h' hr fuel' _
    unfold run_loop at hr
    by_cases hc : run_continues L h = true
    · rw [if_pos hc] at hr; exact absurd hr (by simp)
    · rw [if_neg hc] at hr
      rw [run_loop_stop fuel' L h (by simpa using hc)]
      exact hr
  | succ n ih =>
    intro L h h' hr fuel' hle
    by_cases hc : run_continues L h = true
    · obtain ⟨k, rfl⟩ : ∃ k, fuel' = k + 1 := ⟨fuel' - 1, by omega⟩
      cases ht : tick h with
      | none =>
        rw [run_loop, if_pos hc, ht] at hr
        exact absurd hr (by simp)
      | some h1 =>
        rw [run_loop_step n L h h1 hc ht] at hr
        rw [run_loop_step k L h h1 hc ht]
        exact ih L h1 h' hr k (by omega)
    · have hc' : run_continues L h = false := by simpa using hc
      rw [run_loop_stop (n + 1) L h hc'] at hr
      rw [run_loop_stop fuel' L h hc']
      exact hr

/-- The loop returns only states on which its condition is false. -/
theorem run_loop_result (fuel : Nat) : ∀ (exec_limit : Nat) (h h' : rv32i_hart),
    run_loop fuel exec_limit h = some h' → run_continues exec_limit h' = false := by
  induction fuel with
  | zero =>
    intro L h h' hr
    unfold run_loop at hr
    by_cases hc : run_continues L h = true
    · rw [if_pos hc] at hr; exact absurd hr (by simp)
    · rw [if_neg hc] at hr
      simp only [Option.some.injEq] at hr
      subst hr
      simpa using hc
  | succ n ih =>
    intro L h h' hr
    by_cases hc : run_continues L h = true
    · cases ht : tick h with
      | none =>
        rw [run_loop, if_pos hc, ht] at hr
        exact absurd hr (by simp)
      | some h1 =>
        rw [run_loop_step n L h h1 hc ht] at hr
        exact ih L h1 h' hr
    · have hc' : run_continues L h = false := by simpa using hc
      rw [run_loop_stop (n + 1) L h hc'] at hr
      simp only [Option.some.injEq] at hr
      subst hr
      exact hc'

theorem run_continues_zero (h : rv32i_hart) : run_continues 0 h = !h.halt := by
  unfold run_continues
  cases h.halt <;> rfl

theorem run_continues_false (exec_limit : Nat) (h : rv32i_hart) (hp : 0 < exec_limit)
    (hc : run_continues exec_limit h = false) :
    h.halt = true ∨ exec_limit ≤ h.insn_counter := by
  unfold run_continues at hc
  cases hh : h.halt with
  | true => exact Or.inl rfl
  | false =>
    right
    rw [hh] at hc
    have e : (exec_limit == 0) = false := by
      rw [beq_eq_false_iff_ne]; omega
    rw [e] at hc
    simpa using hc

theorem run_continues_true (exec_limit : Nat) (h : rv32i_hart) (hh : h.halt = false)
    (hc : h.insn_counter < exec_limit) : run_continues exec_limit h = true := by
  unfold run_continues
  rw [hh]
  simp [hc]

/-! ## The instruction counter -/

theorem keepsCounter_some (h h1 : rv32i_hart) (e : h1.insn_counter = h.insn_counter)
    (e2 : h1.mhartid = h.mhartid) : KeepsCounter h (some h1) := by
  intro h' he
  simp only [Option.some.injEq] at he
  subst he
  exact ⟨e, e2⟩

theorem keepsCounter_map (h : rv32i_hart) (insn : Nat) (o : Option Int) :
    KeepsCounter h (o.map (write_rd h insn)) := by
  intro h' he
  simp only [Option.map_eq_some'] at he
  obtain ⟨a, _, rfl⟩ := he
  exact ⟨rfl, rfl⟩

theorem keepsCounter_mem (h : rv32i_hart) (o : Option memory) :
    KeepsCounter h (o.map (fun m => ({ h with mem := m }).advance)) := by
  intro h' he
  simp only [Option.map_eq_some'] at he
  obtain ⟨a, _, rfl⟩ := he
  exact ⟨rfl, rfl⟩

/-- No instruction function writes the instruction counter. -/
theorem exec_counter (h h' : rv32i_hart) (insn : Nat) (he : exec h insn = some h') :
    h'.insn_counter = h.insn_counter ∧ h'.mhartid = h.mhartid := by
  refine exec_cases (KeepsCounter h) h insn ?_ ?_ ?_ ?_ ?_ ?_ ?_ ?_ ?_ ?_ ?_ ?_ ?_ ?_ ?_ ?_
    ?_ ?_ ?_ ?_ ?_ ?_ ?_ ?_ ?_ ?_ ?_ ?_ ?_ ?_ ?_ ?_ ?_ ?_ ?_ ?_ ?_ ?_ ?_ ?_ h' he
  all_goals
    first
    | exact keepsCounter_some _ _ rfl rfl
    | exact keepsCounter_map _ _ _
    | exact keepsCounter_mem _ _
    | (unfold exec_csrrs; simp only; split_ifs <;> exact keepsCounter_some _ _ rfl rfl)

theorem tick_running (h : rv32i_hart) (hh : h.halt = false) :
    tick h = exec (counted h) (h.mem.get32 h.pc) := by
  unfold tick
  rw [if_neg (by rw [hh]; simp)]
  rfl

theorem tick_halted (h : rv32i_hart) (hh : h.halt = true) : tick h = some h := by
  unfold tick
  rw [if_pos hh]

theorem ticks_halted (n : Nat) (h : rv32i_hart) (hh : h.halt = true) : ticks n h = some h := by
  induction n with
  | zero => rfl
  | succ k ih => rw [ticks, tick_halted h hh]; exact ih

theorem tick_counter (h h' : rv32i_hart) (hh : h.halt = false) (ht : tick h = some h') :
    h'.insn_counter = (h.insn_counter + 1) % 18446744073709551616 := by
  rw [tick_running h hh] at ht
  exact (exec_counter _ _ _ ht).1

theorem shl32_ne_none (x s : Int) (h0 : 0 ≤ s) (h1 : s < 32) : shl32 x s ≠ none := by
  unfold shl32; rw [if_pos ⟨h0, h1⟩]; simp

theorem shr32_ne_none (x s : Int) (h0 : 0 ≤ s) (h1 : s < 32) : shr32 x s ≠ none := by
  unfold shr32; rw [if_pos ⟨h0, h1⟩]; simp

theorem sra32_ne_none (x s : Int) (h0 : 0 ≤ s) (h1 : s < 32) : sra32 x s ≠ none := by
  unfold sra32; rw [if_pos ⟨h0, h1⟩]; simp

/-- The result of `exec` is defined unless the word is an `SH` or `SW` whose unchecked
store lies at or above the end of the memory. -/
theorem exec_defined (h : rv32i_hart) (insn : Nat) : DefinedUnlessStore h insn (exec h insn) := by
  have hi := imm_shift_masked insn
  have hr := reg_shift_masked h insn
  apply exec_cases_at (DefinedUnlessStore h insn) h insn
  case h_sh =>
    intro ho hf hn
    refine ⟨ho, Or.inl ⟨hf, ?_⟩⟩
    by_contra hlt
    unfold exec_sh at hn
    simp only at hn
    rw [set16_eq _ _ _ (by omega)] at hn
    exact absurd hn (by simp)
  case h_sw =>
    intro ho hf hn
    refine ⟨ho, Or.inr ⟨hf, ?_⟩⟩
    intro hN
    by_contra hlt
    obtain ⟨m', hm⟩ := set32_defined h.mem (eff_addr h insn (get_imm_s insn))
      (toU32 (h.regs.get (get_rs2 insn))) (by omega) hN
    unfold exec_sw at hn
    simp only at hn
    rw [hm] at hn
    exact absurd hn (by simp)
  all_goals
    first
    | (intros; intro hn; exact absurd hn (by simp))
    | (intros; intro hn; unfold exec_sll at hn; simp only [Option.map_eq_none'] at hn
       exact absurd hn (shl32_ne_none _ _ hr.2.1 hr.2.2))
    | (intros; intro hn; unfold exec_srl at hn; simp only [Option.map_eq_none'] at hn
       exact absurd hn (shr32_ne_none _ _ hr.2.1 hr.2.2))
    | (intros; intro hn; unfold exec_sra at hn; simp only [Option.map_eq_none'] at hn
       exact absurd hn (sra32_ne_none _ _ hr.2.1 hr.2.2))
    | (intros; intro hn; unfold exec_slli at hn; simp only [Option.map_eq_none'] at hn
       exact absurd hn (shl32_ne_none _ _ hi.2.2.1 hi.2.2.2))
    | (intros; intro hn; unfold exec_srli at hn; simp only [Option.map_eq_none'] at hn
       exact absurd hn (shr32_ne_none _ _ hi.2.2.1 hi.2.2.2))
    | (intros; intro hn; unfold exec_srai at hn; simp only [Option.map_eq_none'] at hn
       exact absurd hn (sra32_ne_none _ _ hi.2.2.1 hi.2.2.2))

/-- A result of `run`, seen through any observation, does not depend on the fuel left over. -/
theorem run_map_mono {α : Type} (f : rv32i_hart → α) (n exec_limit : Nat) (h : rv32i_hart)
    (v : α) (hr : (run n exec_limit h).map f = some v) (fuel : Nat) (hle : n ≤ fuel) :
    (run fuel exec_limit h).map f = some v := by
  simp only [Option.map_eq_some'] at hr
  obtain ⟨h', e, rfl⟩ := hr
  rw [run_eq] at e
  rw [run_eq, run_loop_mono n exec_limit _ h' e fuel hle]
  rfl

set_option maxRecDepth 100000 in
/-- Scenario S6 of the specification (the single word `0x00000000`): the run halts after
one instruction with the PC still 0. -/
theorem scenario_S6 :
    (run 1 0 (scenario [0x00000000])).map outcome
      = some (true, "Illegal instruction", 1, 0) := by
  decide

/-- C21: for every hart state (halted or not) and every word for which the `switch` of
`exec` ends in a `default:` label, `exec` is defined and ends with `halt = true` and
`halt_reason = "Illegal instruction"`, the PC, the registers, the memory and the counter
being unchanged; the word `0x00000000` is such a word, and scenario S6 ends with counter 1
and PC 0 for every fuel of at least one tick. -/
theorem C21_illegal_instruction_halt (h : rv32i_hart) (insn : Nat)
    (hd : dispatches_illegal insn = true) :
    (∃ h', exec h insn = some h' ∧ h'.halt = true ∧
      h'.halt_reason = "Illegal instruction" ∧ h'.pc = h.pc ∧ h'.regs = h.regs ∧
      h'.mem = h.mem ∧ h'.insn_counter = h.insn_counter) ∧
    dispatches_illegal 0x00000000 = true ∧
    ∀ fuel, (run (fuel + 1) 0 (scenario [0x00000000])).map outcome
      = some (true, "Illegal instruction", 1, 0) :=
  ⟨⟨_, exec_of_dispatches_illegal h insn hd, rfl, rfl, rfl, rfl, rfl, rfl⟩, by decide,
    fun fuel => run_map_mono outcome 1 0 _ _ scenario_S6 (fuel + 1) (by omega)⟩

theorem C21_illegal_instruction_halt_witness :
    dispatches_illegal 0xffffffff = true ∧
    ∃ h', exec (rv32i_hart.new (memory.new 16)) 0xffffffff = some h' ∧ h'.halt = true ∧
      h'.halt_reason = "Illegal instruction" ∧ h'.pc = 0 :=
  ⟨by decide,
    match (C21_illegal_instruction_halt (rv32i_hart.new (memory.new 16)) 0xffffffff
      (by decide)).1 with
    | ⟨h', e, a, b, c, _⟩ => ⟨h', e, a, b, c⟩⟩

/-- The CSR number tested by `exec_csrrs`, `get_imm_i(insn) & 0xfff`, is the field
`insn[31:20]`. -/
theorem csr_field (insn : Nat) : toU32 (get_imm_i insn) &&& 0x00000fff = bitfield insn 31 20 := by
  have m : toU32 (get_imm_i insn) &&& 0x00000fff
      = toU32 (get_imm_i insn) / 2 ^ 0 % 2 ^ 12 * 2 ^ 0 := and_mask _ 0 12
  have e : bitfield insn 31 20 = insn / 1048576 % 4096 := rfl
  rw [m, e, Nat.pow_zero, Nat.div_one, Nat.mul_one]
  have h1 : ((toU32 (get_imm_i insn) : Nat) : Int)
      = (((insn / 1048576 % 4096 : Nat) : Int)
          - 4096 * ((insn / 2147483648 % 2 : Nat) : Int)) % 4294967296 := by
    rw [toU32_cast, get_imm_i_eq]
  have h2 := toU32_lt (get_imm_i insn)
  have hs : insn / 2147483648 % 2 < 2 := Nat.mod_lt _ (by decide)
  have h12 : insn / 1048576 % 4096 < 4096 := Nat.mod_lt _ (by decide)
  generalize insn / 2147483648 % 2 = s at *
  generalize insn / 1048576 % 4096 = f12 at *
  generalize toU32 (get_imm_i insn) = u at *
  omega

/-- C22: for every running hart and every word with the `SYSTEM` opcode and
`funct3 = CSRRS` (never the `EBREAK` word), `exec` is defined; when `insn[31:20] = 0xF14`
and `rs1 = 0` the register file becomes `regs.set(rd, mhartid)`, the PC advances by 4 and
the hart stays running; otherwise the hart halts with
`halt_reason = "Illegal CSR in CRSS instruction"` and the registers and the PC are
unchanged.  The memory and the counter are unchanged in both cases. -/
theorem C22_csrrs (h : rv32i_hart) (insn : Nat) (hh : h.halt = false)
    (ho : get_opcode insn = opcode_system) (hf : get_funct3 insn = funct3_csrrs) :
    insn ≠ insn_ebreak ∧
    (bitfield insn 31 20 = 0xf14 ∧ get_rs1 insn = 0 →
      ∃ h', exec h insn = some h' ∧ h'.regs = h.regs.set (get_rd insn) (toS32 h.mhartid) ∧
        h'.pc = (h.pc + 4) % 4294967296 ∧ h'.halt = false ∧
        h'.halt_reason = h.halt_reason ∧ h'.mem = h.mem ∧
        h'.insn_counter = h.insn_counter) ∧
    (¬ (bitfield insn 31 20 = 0xf14 ∧ get_rs1 insn = 0) →
      ∃ h', exec h insn = some h' ∧ h'.halt = true ∧
        h'.halt_reason = "Illegal CSR in CRSS instruction" ∧ h'.regs = h.regs ∧
        h'.pc = h.pc ∧ h'.mem = h.mem ∧ h'.insn_counter = h.insn_counter) := by
  refine ⟨fun e => ?_, ?_, ?_⟩
  · rw [e] at hf; exact absurd hf (by decide)
  · intro hc
    refine ⟨_, exec_dispatch_csrrs h insn ho hf, ?_⟩
    have hn : ¬ (toU32 (get_imm_i insn) &&& 0x00000fff ≠ 0xf14 ∨ get_rs1 insn ≠ 0) := by
      rw [csr_field]
      intro k
      rcases k with k | k
      · exact k hc.1
      · exact k hc.2
    unfold exec_csrrs
    simp only [if_neg hn]
    rw [if_pos (by rw [hh]; rfl)]
    exact ⟨rfl, rfl, hh, rfl, rfl, rfl⟩
  · intro hc
    refine ⟨_, exec_dispatch_csrrs h insn ho hf, ?_⟩
    have hp : toU32 (get_imm_i insn) &&& 0x00000fff ≠ 0xf14 ∨ get_rs1 insn ≠ 0 := by
      rw [csr_field]
      by_cases k : bitfield insn 31 20 = 0xf14
      · exact Or.inr (fun k2 => hc ⟨k, k2⟩)
      · exact Or.inl k
    unfold exec_csrrs
    simp only [if_pos hp]
    exact ⟨rfl, rfl, rfl, rfl, rfl, rfl⟩

set_option maxRecDepth 100000 in
theorem C22_csrrs_witness :
    (rv32i_hart.new (memory.new 16)).halt = false ∧
    get_opcode 0xf14022f3 = opcode_system ∧ get_funct3 0xf14022f3 = funct3_csrrs ∧
    bitfield 0xf14022f3 31 20 = 0xf14 ∧ get_rs1 0xf14022f3 = 0 ∧ get_rd 0xf14022f3 = 5 ∧
    ∃ h', exec (rv32i_hart.new (memory.new 16)) 0xf14022f3 = some h' ∧
      h'.regs = (rv32i_hart.new (memory.new 16)).regs.set 5 0 ∧ h'.pc = 4 ∧
      h'.halt = false :=
  ⟨rfl, by decide, by decide, by decide, by decide, by decide,
    match (C22_csrrs (rv32i_hart.new (memory.new 16)) 0xf14022f3 rfl (by decide)
      (by decide)).2.1 ⟨by decide, by decide⟩ with
    | ⟨h', e, a, b, c, _⟩ => ⟨h', e, a, b, c⟩⟩

/-- C24: on a halted hart `tick` returns the state it was given (PC, registers, memory,
counter, halt flag and reason all unchanged) and its text is empty, whatever a running
hart would print; hence any number of ticks returns the same state, with the same
counter. -/
theorem C24_halt_sticky (h : rv32i_hart) (hh : h.halt = true) :
    tick h = some h ∧
    (∀ (running_text : rv32i_hart → String → String) (hdr : String),
      tick_text running_text h hdr = "") ∧
    (∀ n, ticks n h = some h) ∧
    (∀ n h', ticks n h = some h' → h'.insn_counter = h.insn_counter) := by
  refine ⟨tick_halted h hh, ?_, fun n => ticks_halted n h hh, ?_⟩
  · intro rt hdr
    unfold tick_text
    rw [if_pos hh]
  · intro n h' e
    rw [ticks_halted n h hh] at e
    simp only [Option.some.injEq] at e
    rw [← e]

theorem C24_halt_sticky_witness :
    (exec_ebreak (rv32i_hart.new (memory.new 16)) 0x00100073).halt = true ∧
    tick (exec_ebreak (rv32i_hart.new (memory.new 16)) 0x00100073)
      = some (exec_ebreak (rv32i_hart.new (memory.new 16)) 0x00100073) :=
  ⟨rfl, (C24_halt_sticky (exec_ebreak (rv32i_hart.new (memory.new 16)) 0x00100073) rfl).1⟩

/-- C25: from every hart state `reset()` gives `pc = 0`, `insn_counter = 0`,
`halt = false`, `halt_reason = "none"`, 32 registers of which register 0 is 0 and each of
the registers 1..31 holds the pattern `0xF0F0F0F0`, so that `tick` executes again; the
memory and the hart id are kept. -/
theorem C25_reset (h : rv32i_hart) :
    h.reset.pc = 0 ∧ h.reset.insn_counter = 0 ∧ h.reset.halt = false ∧
    h.reset.halt_reason = "none" ∧ h.reset.regs.reg.length = 32 ∧
    h.reset.regs.get 0 = 0 ∧ h.reset.regs.reg[0]? = some 0 ∧
    (∀ r : Fin 31, h.reset.regs.get (r.val + 1) = toS32 0xf0f0f0f0 ∧
      h.reset.regs.reg[r.val + 1]? = some (toS32 0xf0f0f0f0) ∧
      toU32 (h.reset.regs.get (r.val + 1)) = 0xf0f0f0f0) ∧
    h.reset.mem = h.mem ∧ h.reset.mhartid = h.mhartid ∧
    tick h.reset = exec (counted h.reset) (h.mem.get32 0) := by
  refine ⟨rfl, rfl, rfl, rfl, rfl, rfl, rfl, ?_, rfl, rfl, tick_running _ rfl⟩
  intro r
  have e : h.reset.regs = registerfile.new := rfl
  rw [e]
  revert r
  decide

/-! ## The bound of the run loop -/

theorem run_loop_none (exec_limit : Nat) (h : rv32i_hart)
    (hc : run_continues exec_limit h = true) (ht : tick h = none) :
    ∀ fuel, run_loop fuel exec_limit h = none := by
  intro fuel
  cases fuel with
  | zero => rw [run_loop, if_pos hc]
  | succ k => rw [run_loop, if_pos hc, ht]

/-- The loop under a positive limit, started `d` ticks below it: either it returns after at
most `d` ticks, each of them executed on a running hart, or one of these ticks is
undefined. -/
theorem run_loop_bound (d : Nat) : ∀ (exec_limit : Nat) (h : rv32i_hart), 0 < exec_limit →
    exec_limit < 18446744073709551616 → h.insn_counter + d = exec_limit →
    (∃ n h', n ≤ d ∧ ticks n h = some h' ∧
      (∀ fuel, n ≤ fuel → run_loop fuel exec_limit h = some h') ∧
      h'.insn_counter = h.insn_counter + n ∧
      (h'.halt = true ∨ h'.insn_counter = exec_limit)) ∨
    (∃ n hn, n < d ∧ ticks n h = some hn ∧ hn.halt = false ∧ tick hn = none ∧
      ∀ fuel, run_loop fuel exec_limit h = none) := by
  induction d with
  | zero =>
    intro L h hp _ hc
    left
    have hs : run_continues L h = false := by
      unfold run_continues
      have e : (L == 0) = false := by rw [beq_eq_false_iff_ne]; omega
      have e2 : decide (h.insn_counter < L) = false := by
        rw [decide_eq_false_iff_not]; omega
      rw [e, e2]
      simp
    exact ⟨0, h, Nat.le_refl 0, rfl, fun fuel _ => run_loop_stop fuel L h hs, rfl,
      Or.inr (by omega)⟩
  | succ d ih =>
    intro L h hp hlt hc
    cases hh : h.halt with
    | true =>
      left
      have hs : run_continues L h = false := by
        unfold run_continues
        rw [hh]
        rfl
      exact ⟨0, h, Nat.zero_le _, rfl, fun fuel _ => run_loop_stop fuel L h hs, rfl,
        Or.inl hh⟩
    | false =>
      have hs : run_continues L h = true := run_continues_true L h hh (by omega)
      cases ht : tick h with
      | none =>
        right
        exact ⟨0, h, Nat.succ_pos d, rfl, hh, ht, run_loop_none L h hs ht⟩
      | some h1 =>
        have c1 : h1.insn_counter = h.insn_counter + 1 := by
          rw [tick_counter h h1 hh ht]
          exact Nat.mod_eq_of_lt (by omega)
        rcases ih L h1 hp hlt (by omega) with ⟨n, h', hn, e, hr, hcnt, hfin⟩ |
            ⟨n, hn', hn, e, hrun, hnone, hr⟩
        · left
          refine ⟨n + 1, h', by omega, ?_, ?_, by omega, hfin⟩
          · rw [ticks, ht]; exact e
          · intro fuel hf
            obtain ⟨k, rfl⟩ : ∃ k, fuel = k + 1 := ⟨fuel - 1, by omega⟩
            rw [run_loop_step k L h h1 hs ht]
            exact hr k (by omega)
        · right
          refine ⟨n + 1, hn', by omega, ?_, hrun, hnone, ?_⟩
          · rw [ticks, ht]; exact e
          · intro fuel
            cases fuel with
            | zero => rw [run_loop, if_pos hs]
            | succ k => rw [run_loop_step k L h h1 hs ht]; exact hr k

/-- Without a limit the loop returns as soon as some number of ticks has halted the hart. -/
theorem run_loop_unbounded (n : Nat) : ∀ (h h' : rv32i_hart), ticks n h = some h' →
    h'.halt = true → ∃ h'', run_loop n 0 h = some h'' ∧ h''.halt = true := by
  induction n with
  | zero =>
    intro h h' e hh
    rw [ticks] at e
    simp only [Option.some.injEq] at e
    subst e
    exact ⟨h, run_loop_stop 0 0 h (by rw [run_continues_zero, hh]; rfl), hh⟩
  | succ k ih =>
    intro h h' e hh
    cases hc : h.halt with
    | true => exact ⟨h, run_loop_stop _ 0 h (by rw [run_continues_zero, hc]; rfl), hc⟩
    | false =>
      have hs : run_continues 0 h = true := by rw [run_continues_zero, hc]; rfl
      cases ht : tick h with
      | none =>
        rw [ticks, ht] at e
        exact absurd e (by simp)
      | some h1 =>
        rw [ticks, ht] at e
        obtain ⟨h'', r, hh''⟩ := ih h1 h' e hh
        exact ⟨h'', by rw [run_loop_step k 0 h h1 hs ht]; exact r, hh''⟩

/-! ## The stack pointer -/

/-- C27: `run` is its loop started on the state `run_start`, in which `x2` holds the
memory size as a 32-bit value while the PC, the counter, the halt state, the memory and
every other register are as before the call; when the loop condition holds the first tick
is executed on that state, and when it does not `run` returns that state. -/
theorem C27_stack_pointer_init (h : rv32i_hart) (exec_limit : Nat)
    (hl : h.regs.reg.length = 32) :
    (∀ fuel, run fuel exec_limit h = run_loop fuel exec_limit (run_start h)) ∧
    (run_start h).regs.get 2 = toS32 h.mem.get_size ∧
    toU32 ((run_start h).regs.get 2) = h.mem.get_size ∧
    (∀ r, r ≠ 2 → (run_start h).regs.get r = h.regs.get r) ∧
    (run_start h).pc = h.pc ∧ (run_start h).insn_counter = h.insn_counter ∧
    (run_start h).halt = h.halt ∧ (run_start h).halt_reason = h.halt_reason ∧
    (run_start h).mem = h.mem ∧
    (run_continues exec_limit (run_start h) = true → ∀ fuel,
      run (fuel + 1) exec_limit h = (tick (run_start h)).bind (run_loop fuel exec_limit)) ∧
    (run_continues exec_limit (run_start h) = false → ∀ fuel,
      run fuel exec_limit h = some (run_start h)) := by
  have g : (run_start h).regs.get 2 = toS32 h.mem.get_size :=
    get_set_same h.regs 2 _ (by decide) (by omega)
  refine ⟨fun _ => rfl, g, ?_, ?_, rfl, rfl, rfl, rfl, rfl, ?_, ?_⟩
  · rw [g, toU32_toS32]
    unfold memory.get_size
    exact Nat.mod_mod _ _
  · intro r hr
    exact get_set_other h.regs 2 r _ hr
  · intro hc fuel
    rw [run_eq, run_loop, if_pos hc]
    cases tick (run_start h) <;> rfl
  · intro hc fuel
    rw [run_eq]
    exact run_loop_stop fuel exec_limit _ hc

set_option maxRecDepth 100000 in
theorem C27_stack_pointer_init_witness :
    (rv32i_hart.new (memory.new 0x100)).regs.reg.length = 32 ∧
    (run_start (rv32i_hart.new (memory.new 0x100))).regs.get 2 = 0x100 :=
  ⟨by decide,
    (C27_stack_pointer_init (rv32i_hart.new (memory.new 0x100)) 0 (by decide)).2.1.trans
      (by decide)⟩

/-! ## Scenario S1 -/

set_option maxRecDepth 100000 in
/-- Scenario S1 of the specification (`addi x1,x0,5; ebreak`) with fuel for two ticks. -/
theorem scenario_S1 :
    (run 2 0 (scenario [0x00500093, 0x00100073])).map
      (fun h => (h.regs.get 1, outcome h)) = some (5, true, "EBREAK instruction", 2, 4) := by
  decide

set_option maxRecDepth 100000 in
/-- The memory of scenario S1: size `0x100`, the eight image bytes first. -/
theorem scenario_S1_memory :
    image_of_words [0x00500093, 0x00100073] = [0x93, 0x00, 0x50, 0x00, 0x73, 0x00, 0x10, 0x00] ∧
    (scenario [0x00500093, 0x00100073]).mem.get_size = 0x100 ∧
    (List.range 8).map (scenario [0x00500093, 0x00100073]).mem.get8
      = [0x93, 0x00, 0x50, 0x00, 0x73, 0x00, 0x10, 0x00] ∧
    (scenario [0x00500093, 0x00100073]).mem.get32 0 = 0x00500093 ∧
    (scenario [0x00500093, 0x00100073]).mem.get32 4 = 0x00100073 := by
  decide

/-- C28: the memory of the default size `0x100` loaded with the image
`93 00 50 00 73 00 10 00` holds the words `0x00500093` and `0x00100073` at the addresses
0 and 4, and on a fresh hart over it `run(0)` returns, for every fuel of at least two
ticks, with `x1 = 5`, `halt = true`, `halt_reason = "EBREAK instruction"`,
`insn_counter = 2` and `pc = 4`. -/
theorem C28_scenario_S1 :
    image_of_words [0x00500093, 0x00100073] = [0x93, 0x00, 0x50, 0x00, 0x73, 0x00, 0x10, 0x00] ∧
    (scenario [0x00500093, 0x00100073]).mem.get_size = 0x100 ∧
    (List.range 8).map (scenario [0x00500093, 0x00100073]).mem.get8
      = [0x93, 0x00, 0x50, 0x00, 0x73, 0x00, 0x10, 0x00] ∧
    (scenario [0x00500093, 0x00100073]).mem.get32 0 = 0x00500093 ∧
    (scenario [0x00500093, 0x00100073]).mem.get32 4 = 0x00100073 ∧
    ∀ fuel, (run (fuel + 2) 0 (scenario [0x00500093, 0x00100073])).map
      (fun h => (h.regs.get 1, outcome h)) = some (5, true, "EBREAK instruction", 2, 4) :=
  ⟨scenario_S1_memory.1, scenario_S1_memory.2.1, scenario_S1_memory.2.2.1,
    scenario_S1_memory.2.2.2.1, scenario_S1_memory.2.2.2.2,
    fun fuel => run_map_mono _ 2 0 _ _ scenario_S1 (fuel + 2) (by omega)⟩

/-! ## The size of the memory -/

theorem new_length (s : Nat) :
    (memory.new s).mem.length = (s + 15) % 4294967296 / 16 % 268435456 * 16 := by
  have e : ((s + 15) % 4294967296) &&& 0xfffffff0
      = (s + 15) % 4294967296 / 2 ^ 4 % 2 ^ 28 * 2 ^ 4 := and_mask _ 4 28
  unfold memory.new
  simp only [List.length_replicate]
  rw [e]
  norm_num

theorem new_get8 (s a : Nat) (ha : a < (memory.new s).mem.length) :
    (memory.new s).get8 a = 0xa5 := by
  unfold memory.get8 memory.check_illegal
  rw [if_pos (by simpa using ha)]
  unfold memory.new at ha ⊢
  simp only [List.length_replicate] at ha
  simp only [List.getD_eq_getElem?_getD, List.getElem?_replicate, if_pos ha]
  rfl

/-- C29 (counterexample): the requested size `0xFFFFFFFF` gives a memory of size 0, which is
not the least multiple of 16 at or above it: `siz + 15` wraps in 32 bits. -/
theorem C29_size_wraps :
    (memory.new 0xffffffff).get_size = 0 ∧
    ¬ IsLeastMultiple16 0xffffffff (memory.new 0xffffffff).get_size := by
  have e : (memory.new 0xffffffff).get_size = 0 := by decide
  refine ⟨e, ?_⟩
  rw [e]
  intro k
  have := k.2.1
  omega

/-- C29 (amended): for every requested 32-bit size `s ≤ 0xFFFFFFF0` the constructed
memory has `get_size()` equal to the least multiple of 16 that is at least `s`; for a
larger `s` the size is 0; in both cases every byte of the memory reads `0xA5`. -/
theorem C29_memory_size_rounding (s : Nat) (hs : s < 4294967296) :
    (s ≤ 0xfffffff0 → IsLeastMultiple16 s (memory.new s).get_size) ∧
    (0xfffffff0 < s → (memory.new s).get_size = 0) ∧
    (∀ a, a < (memory.new s).get_size → (memory.new s).get8 a = 0xa5) := by
  have hl := new_length s
  have hg : (memory.new s).get_size = (memory.new s).mem.length := by
    unfold memory.get_size
    rw [hl]
    omega
  refine ⟨?_, ?_, ?_⟩
  · intro h1
    rw [hg, hl]
    refine ⟨by omega, by omega, ?_⟩
    intro k hk hsk
    omega
  · intro h1
    rw [hg, hl]
    omega
  · intro a ha
    rw [hg] at ha
    exact new_get8 s a ha

theorem C29_memory_size_rounding_witness :
    (20 : Nat) < 4294967296 ∧ IsLeastMultiple16 20 (memory.new 20).get_size ∧
    (memory.new 20).get_size = 32 :=
  ⟨by decide, (C29_memory_size_rounding 20 (by decide)).1 (by decide), by decide⟩

/-! ## The rendering contract -/

theorem pad_length (n : Nat) : (String.mk (List.replicate n ' ')).length = n :=
  List.length_replicate n ' '

/-- The field `render_mnemonic` produces has at least 8 characters, and exactly 8 for a
mnemonic that fits. -/
theorem render_mnemonic_length (m : String) :
    8 ≤ (render_mnemonic m).length ∧ (m.length ≤ 8 → (render_mnemonic m).length = 8) := by
  unfold render_mnemonic mnemonic_width
  rw [String.length_append, pad_length]
  omega

/-! ## Case analysis on a word -/

/-- Case analysis on a word along the `switch` of `exec`: the conditions of the `case`
labels for each instruction function, and `dispatches_illegal` for the `default:` labels. -/
theorem insn_cases (Q : Prop) (insn : Nat)
    (h_lui : get_opcode insn = opcode_lui → Q)
    (h_auipc : get_opcode insn = opcode_auipc → Q)
    (h_add : get_opcode insn = opcode_rtype → get_funct3 insn = funct3_add →
      get_funct7 insn = funct7_add → Q)
    (h_sub : get_opcode insn = opcode_rtype → get_funct3 insn = funct3_add →
      get_funct7 insn = funct7_sub → Q)
    (h_sll : get_opcode insn = opcode_rtype → get_funct3 insn = funct3_sll → Q)
    (h_slt : get_opcode insn = opcode_rtype → get_funct3 insn = funct3_slt → Q)
    (h_sltu : get_opcode insn = opcode_rtype → get_funct3 insn = funct3_sltu → Q)
    (h_xor : get_opcode insn = opcode_rtype → get_funct3 insn = funct3_xor → Q)
    (h_srl : get_opcode insn = opcode_rtype → get_funct3 insn = funct3_srx →
      get_funct7 insn = funct7_srl → Q)
    (h_sra : get_opcode insn = opcode_rtype → get_funct3 insn = funct3_srx →
      get_funct7 insn = funct7_sra → Q)
    (h_or : get_opcode insn = opcode_rtype → get_funct3 insn = funct3_or → Q)
    (h_and : get_opcode insn = opcode_rtype → get_funct3 insn = funct3_and → Q)
    (h_sb : get_opcode insn = opcode_stype → get_funct3 insn = funct3_sb → Q)
    (h_sh : get_opcode insn = opcode_stype → get_funct3 insn = funct3_sh → Q)
    (h_sw : get_opcode insn = opcode_stype → get_funct3 insn = funct3_sw → Q)
    (h_slli : get_opcode insn = opcode_alu_imm → get_funct3 insn = funct3_sll → Q)
    (h_addi : get_opcode insn = opcode_alu_imm → get_funct3 insn = funct3_add → Q)
    (h_slti : get_opcode insn = opcode_alu_imm → get_funct3 insn = funct3_slt → Q)
    (h_sltiu : get_opcode insn = opcode_alu_imm → get_funct3 insn = funct3_sltu → Q)
    (h_xori : get_opcode insn = opcode_alu_imm → get_funct3 insn = funct3_xor → Q)
    (h_ori : get_opcode insn = opcode_alu_imm → get_funct3 insn = funct3_or → Q)
    (h_andi : get_opcode insn = opcode_alu_imm → get_funct3 insn = funct3_and → Q)
    (h_srli : get_opcode insn = opcode_alu_imm → get_funct3 insn = funct3_srx →
      get_funct7 insn = funct7_srl → Q)
    (h_srai : get_opcode insn = opcode_alu_imm → get_funct3 insn = funct3_srx →
      get_funct7 insn = funct7_sra → Q)
    (h_lb : get_opcode insn = opcode_load_imm → get_funct3 insn = funct3_lb → Q)
    (h_lh : get_opcode insn = opcode_load_imm → get_funct3 insn = funct3_lh → Q)
    (h_lw : get_opcode insn = opcode_load_imm → get_funct3 insn = funct3_lw → Q)
    (h_lbu : get_opcode insn = opcode_load_imm → get_funct3 insn = funct3_lbu → Q)
    (h_lhu : get_opcode insn = opcode_load_imm → get_funct3 insn = funct3_lhu → Q)
    (h_beq : get_opcode insn = opcode_btype → get_funct3 insn = funct3_beq → Q)
    (h_bne : get_opcode insn = opcode_btype → get_funct3 insn = funct3_bne → Q)
    (h_blt : get_opcode insn = opcode_btype → get_funct3 insn = funct3_blt → Q)
    (h_bge : get_opcode insn = opcode_btype → get_funct3 insn = funct3_bge → Q)
    (h_bltu : get_opcode insn = opcode_btype → get_funct3 insn = funct3_bltu → Q)
    (h_bgeu : get_opcode insn = opcode_btype → get_funct3 insn = funct3_bgeu → Q)
    (h_jal : get_opcode insn = opcode_jal → Q)
    (h_jalr : get_opcode insn = opcode_jalr → Q)
    (h_ebreak : get_opcode insn = opcode_system → insn = insn_ebreak → Q)
    (h_csrrs : get_opcode insn = opcode_system → get_funct3 insn = funct3_csrrs → Q)
    (h_illegal_insn : dispatches_illegal insn = true → Q) : Q := by
  by_cases c1 : get_opcode insn = opcode_lui
  · exact h_lui c1
  by_cases c2 : get_opcode insn = opcode_auipc
  · exact h_auipc c2
  by_cases c3 : get_opcode insn = opcode_rtype
  · by_cases c4 : get_funct3 insn = funct3_add
    · by_cases c5 : get_funct7 insn = funct7_add
      · exact h_add c3 c4 c5
      by_cases c6 : get_funct7 insn = funct7_sub
      · exact h_sub c3 c4 c6
      exact h_illegal_insn (by
        unfold dispatches_illegal
        rw [if_neg c1, if_neg c2, if_pos c3, if_pos c4, if_neg c5, if_neg c6])
    by_cases c7 : get_funct3 insn = funct3_sll
    · exact h_sll c3 c7
    by_cases c8 : get_funct3 insn = funct3_slt
    · exact h_slt c3 c8
    by_cases c9 : get_funct3 insn = funct3_sltu
    · exact h_sltu c3 c9
    by_cases c10 : get_funct3 insn = funct3_xor
    · exact h_xor c3 c10
    by_cases c11 : get_funct3 insn = funct3_srx
    · by_cases c12 : get_funct7 insn = funct7_srl
      · exact h_srl c3 c11 c12
      by_cases c13 : get_funct7 insn = funct7_sra
      · exact h_sra c3 c11 c13
      exact h_illegal_insn (by
        unfold dispatches_illegal
        rw [if_neg c1, if_neg c2, if_pos c3, if_neg c4, if_neg c7, if_neg c8, if_neg c9,
          if_neg c10, if_pos c11, if_neg c12, if_neg c13])
    by_cases c14 : get_funct3 insn = funct3_or
    · exact h_or c3 c14
    by_cases c15 : get_funct3 insn = funct3_and
    · exact h_and c3 c15
    exact h_illegal_insn (by
      unfold dispatches_illegal
      rw [if_neg c1, if_neg c2, if_pos c3, if_neg c4, if_neg c7, if_neg c8, if_neg c9,
        if_neg c10, if_neg c11, if_neg c14, if_neg c15])
  by_cases c16 : get_opcode insn = opcode_stype
  · by_cases c17 : get_funct3 insn = funct3_sb
    · exact h_sb c16 c17
    by_cases c18 : get_funct3 insn = funct3_sh
    · exact h_sh c16 c18
    by_cases c19 : get_funct3 insn = funct3_sw
    · exact h_sw c16 c19
    exact h_illegal_insn (by
      unfold dispatches_illegal
      rw [if_neg c1, if_neg c2, if_neg c3, if_pos c16, if_neg c17, if_neg c18, if_neg c19])
  by_cases c20 : get_opcode insn = opcode_alu_imm
  · by_cases c21 : get_funct3 insn = funct3_sll
    · exact h_slli c20 c21
    by_cases c22 : get_funct3 insn = funct3_add
    · exact h_addi c20 c22
    by_cases c23 : get_funct3 insn = funct3_slt
    · exact h_slti c20 c23
    by_cases c24 : get_funct3 insn = funct3_sltu
    · exact h_sltiu c20 c24
    by_cases c25 : get_funct3 insn = funct3_xor
    · exact h_xori c20 c25
    by_cases c26 : get_funct3 insn = funct3_or
    · exact h_ori c20 c26
    by_cases c27 : get_funct3 insn = funct3_and
    · exact h_andi c20 c27
    by_cases c28 : get_funct3 insn = funct3_srx
    · by_cases c29 : get_funct7 insn = funct7_srl
      · exact h_srli c20 c28 c29
      by_cases c30 : get_funct7 insn = funct7_sra
      · exact h_srai c20 c28 c30
      exact h_illegal_insn (by
        unfold dispatches_illegal
        rw [if_neg c1, if_neg c2, if_neg c3, if_neg c16, if_pos c20, if_neg c21, if_neg c22,
          if_neg c23, if_neg c24, if_neg c25, if_neg c26, if_neg c27, if_pos c28, if_neg c29,
          if_neg c30])
    exact h_illegal_insn (by
      unfold dispatches_illegal
      rw [if_neg c1, if_neg c2, if_neg c3, if_neg c16, if_pos c20, if_neg c21, if_neg c22,
        if_neg c23, if_neg c24, if_neg c25, if_neg c26, if_neg c27, if_neg c28])
  by_cases c31 : get_opcode insn = opcode_load_imm
  · by_cases c32 : get_funct3 insn = funct3_lb
    · exact h_lb c31 c32
    by_cases c33 : get_funct3 insn = funct3_lh
    · exact h_lh c31 c33
    by_cases c34 : get_funct3 insn = funct3_lw
    · exact h_lw c31 c34
    by_cases c35 : get_funct3 insn = funct3_lbu
    · exact h_lbu c31 c35
    by_cases c36 : get_funct3 insn = funct3_lhu
    · exact h_lhu c31 c36
    exact h_illegal_insn (by
      unfold dispatches_illegal
      rw [if_neg c1, if_neg c2, if_neg c3, if_neg c16, if_neg c20, if_pos c31, if_neg c32,
        if_neg c33, if_neg c34, if_neg c35, if_neg c36])
  by_cases c37 : get_opcode insn = opcode_btype
  · by_cases c38 : get_funct3 insn = funct3_beq
    · exact h_beq c37 c38
    by_cases c39 : get_funct3 insn = funct3_bne
    · exact h_bne c37 c39
    by_cases c40 : get_funct3 insn = funct3_blt
    · exact h_blt c37 c40
    by_cases c41 : get_funct3 insn = funct3_bge
    · exact h_bge c37 c41
    by_cases c42 : get_funct3 insn = funct3_bltu
    · exact h_bltu c37 c42
    by_cases c43 : get_funct3 insn = funct3_bgeu
    · exact h_bgeu c37 c43
    exact h_illegal_insn (by
      unfold dispatches_illegal
      rw [if_neg c1, if_neg c2, if_neg c3, if_neg c16, if_neg c20, if_neg c31, if_pos c37,
        if_neg c38, if_neg c39, if_neg c40, if_neg c41, if_neg c42, if_neg c43])
  by_cases c44 : get_opcode insn = opcode_jal
  · exact h_jal c44
  by_cases c45 : get_opcode insn = opcode_jalr
  · exact h_jalr c45
  by_cases c46 : get_opcode insn = opcode_system
  · by_cases c47 : insn = insn_ebreak
    · exact h_ebreak c46 c47
    by_cases c48 : get_funct3 insn = funct3_csrrs
    · exact h_csrrs c46 c48
    exact h_illegal_insn (by
      unfold dispatches_illegal
      rw [if_neg c1, if_neg c2, if_neg c3, if_neg c16, if_neg c20, if_neg c31, if_neg c37,
        if_neg c44, if_neg c45, if_pos c46, if_neg c47, if_neg c48])
  exact h_illegal_insn (by
    unfold dispatches_illegal
    rw [if_neg c1, if_neg c2, if_neg c3, if_neg c16, if_neg c20, if_neg c31, if_neg c37,
      if_neg c44, if_neg c45, if_neg c46])

/-! ## Register file: read after write -/

/-- C40: for every register file of 32 registers, every `r` in `1..31` and every value
`v`, after `set(r, v)` the call `get(r)` returns `v`, `get(r')` is unchanged for every
other register number `r'`, and the file still has 32 registers. -/
theorem C40_register_read_after_write (rf : registerfile) (r : Nat) (v : Int)
    (hl : rf.reg.length = 32) (h1 : 1 ≤ r) (h2 : r ≤ 31) :
    (rf.set r v).get r = v ∧ (∀ r', r' ≠ r → (rf.set r v).get r' = rf.get r') ∧
    (rf.set r v).reg.length = 32 := by
  refine ⟨get_set_same rf r v (by omega) (by omega), fun r' hr => get_set_other rf r r' v hr, ?_⟩
  unfold registerfile.set
  rw [if_neg (by omega)]
  simp [hl]

theorem C40_register_read_after_write_witness :
    (registerfile.new.set 5 (-7)).get 5 = -7 ∧
    (∀ r', r' ≠ 5 → (registerfile.new.set 5 (-7)).get r' = registerfile.new.get r') ∧
    (registerfile.new.set 5 (-7)).reg.length = 32 :=
  C40_register_read_after_write registerfile.new 5 (-7) (by decide) (by decide) (by decide)

/-! ## Fetching beyond the memory -/

theorem get8_beyond (m : memory) (a : Nat) (ha : m.mem.length ≤ a) : m.get8 a = 0 := by
  rw [get8_eq, if_neg (by omega)]

/-- A word read wholly at or above the size is 0. -/
theorem get32_beyond (m : memory) (a : Nat) (ha : m.mem.length ≤ a) (hb : a ≤ 0xFFFFFFFC) :
    m.get32 a = 0 := by
  have e1 : (a + 1) % 4294967296 = a + 1 := by omega
  have e2 : (a + 2) % 4294967296 = a + 2 := by omega
  have e3 : (a + 3) % 4294967296 = a + 3 := by omega
  rw [get32_eq, e1, e2, e3, get8_beyond m a ha, get8_beyond m (a + 1) (by omega),
    get8_beyond m (a + 2) (by omega), get8_beyond m (a + 3) (by omega)]

/-- C37: on a running hart whose PC is at or above the memory size and at most
`0xFFFFFFFC`, `tick` fetches the word 0 and returns with `halt = true` and
`halt_reason = "Illegal instruction"`, the PC, the registers and the memory unchanged and
the counter incremented. -/
theorem C37_running_off_memory (h : rv32i_hart) (hh : h.halt = false)
    (hN : h.mem.mem.length ≤ h.pc) (hpc : h.pc ≤ 0xFFFFFFFC) :
    h.mem.get_size = h.mem.mem.length ∧ h.mem.get32 h.pc = 0 ∧
    ∃ h', tick h = some h' ∧ h'.halt = true ∧ h'.halt_reason = "Illegal instruction" ∧
      h'.pc = h.pc ∧ h'.regs = h.regs ∧ h'.mem = h.mem ∧
      h'.insn_counter = (h.insn_counter + 1) % 18446744073709551616 ∧
      (h.insn_counter + 1 < 18446744073709551616 → h'.insn_counter = h.insn_counter + 1) := by
  have e := get32_beyond h.mem h.pc hN hpc
  refine ⟨?_, e, ?_⟩
  · unfold memory.get_size
    omega
  · rw [tick_running h hh, e]
    refine ⟨_, exec_of_dispatches_illegal _ 0 (by decide), rfl, rfl, rfl, rfl, rfl, rfl, ?_⟩
    intro hc
    exact Nat.mod_eq_of_lt hc

set_option maxRecDepth 100000 in
theorem C37_running_off_memory_witness :
    ∃ h', tick ({ rv32i_hart.new (memory.new 16) with pc := 16 }) = some h' ∧
      h'.halt = true ∧ h'.halt_reason = "Illegal instruction" ∧ h'.pc = 16 ∧
      h'.insn_counter = 1 :=
  match (C37_running_off_memory ({ rv32i_hart.new (memory.new 16) with pc := 16 }) rfl
    (by decide) (by decide)).2.2 with
  | ⟨h', e, a, b, c, _, _, d, _⟩ => ⟨h', e, a, b, c, d⟩

/-! ## Stores as byte stores -/

/-- Two memories of the same size whose bytes read the same are equal. -/
theorem memory_ext (m1 m2 : memory) (hl : m1.mem.length = m2.mem.length)
    (hb : ∀ b, m1.get8 b = m2.get8 b) : m1 = m2 := by
  cases m1 with
  | mk l1 =>
    cases m2 with
    | mk l2 =>
      simp only at hl
      congr 1
      apply List.ext_getElem hl
      intro n h1 h2
      have e := hb n
      rw [get8_eq, get8_eq] at e
      simp only at e
      rw [if_pos h1, if_pos h2, List.getD_eq_getElem _ _ h1, List.getD_eq_getElem _ _ h2] at e
      exact Fin.ext e

theorem store_word_bytes_get8 (m : memory) (a v b : Nat) (ha : a + 3 < m.mem.length) :
    (store_word_bytes m a v).get8 b =
      if b = a then v % 256
      else if b = a + 1 then v / 256 % 256
      else if b = a + 2 then v / 65536 % 256
      else if b = a + 3 then v / 16777216 % 256
      else m.get8 b := by
  unfold store_word_bytes
  simp only [get8_set8, set8_length, Nat.shiftRight_eq_div_pow]
  by_cases h0 : b = a
  · subst h0
    simp
    omega
  · by_cases h1 : b = a + 1
    · subst h1
      simp
      omega
    · by_cases h2 : b = a + 2
      · subst h2
        simp
        omega
      · by_cases h3 : b = a + 3
        · subst h3
          simp
          omega
        · simp [h0, h1, h2, h3]

theorem store_half_bytes_get8 (m : memory) (a v b : Nat) (ha : a + 1 < m.mem.length) :
    (store_half_bytes m a v).get8 b =
      if b = a then v % 256 else if b = a + 1 then v / 256 % 256 else m.get8 b := by
  unfold store_half_bytes
  simp only [get8_set8, set8_length, Nat.shiftRight_eq_div_pow]
  by_cases h0 : b = a
  · subst h0
    simp
    omega
  · by_cases h1 : b = a + 1
    · subst h1
      simp
      omega
    · simp [h0, h1]

theorem store_word_bytes_length (m : memory) (a v : Nat) :
    (store_word_bytes m a v).mem.length = m.mem.length := by
  unfold store_word_bytes
  simp only [set8_length]

theorem store_half_bytes_length (m : memory) (a v : Nat) :
    (store_half_bytes m a v).mem.length = m.mem.length := by
  unfold store_half_bytes
  simp only [set8_length]

theorem set32_clean (m : memory) (a v : Nat) (ha : a + 3 < m.mem.length)
    (hN : m.mem.length ≤ 4294967296) : m.set32 a v = some (store_word_bytes m a v) := by
  obtain ⟨m', e, hl, hb⟩ := set32_eq m a v ha hN
  rw [e]
  congr 1
  apply memory_ext
  · rw [hl, store_word_bytes_length]
  · intro b
    rw [hb b, store_word_bytes_get8 m a v b ha]

theorem set16_clean (m : memory) (a v : Nat) (ha : a + 1 < m.mem.length)
    (hN : m.mem.length ≤ 4294967296) : m.set16 a v = some (store_half_bytes m a v) := by
  obtain ⟨m', e, hl, hb⟩ := set16_get8 m a v ha hN
  rw [e]
  congr 1
  apply memory_ext
  · rw [hl, store_half_bytes_length]
  · intro b
    rw [hb b, store_half_bytes_get8 m a v b ha]

theorem byte_mask (x : Nat) : x &&& 0xFF = x % 256 := by
  have e : x &&& 0xFF = x / 2 ^ 0 % 2 ^ 8 * 2 ^ 0 := and_mask x 0 8
  rw [e]
  omega

/-- C32: with `a + 3` below the size (a size of at most `2^32`), `set32(a, v)` is defined
and the memory it leaves is the one left by `set8(a, v)`, `set8(a+1, v>>8)`,
`set8(a+2, v>>16)`, `set8(a+3, v>>24)`: byte `a+i` is `(v >> 8i) & 0xFF`, every other byte
and the size are unchanged; likewise `set16(a, v)` with `a + 1` below the size leaves the
memory of `set8(a, v)`, `set8(a+1, v>>8)`. -/
theorem C32_multi_byte_store (m : memory) (a v : Nat) (hN : m.mem.length ≤ 4294967296) :
    (a + 3 < m.mem.length →
      m.set32 a v = some (store_word_bytes m a v) ∧
      (store_word_bytes m a v).mem.length = m.mem.length ∧
      (store_word_bytes m a v).get8 a = v &&& 0xFF ∧
      (store_word_bytes m a v).get8 (a + 1) = (v >>> 8) &&& 0xFF ∧
      (store_word_bytes m a v).get8 (a + 2) = (v >>> 16) &&& 0xFF ∧
      (store_word_bytes m a v).get8 (a + 3) = (v >>> 24) &&& 0xFF ∧
      ∀ b, (b < a ∨ a + 4 ≤ b) → (store_word_bytes m a v).get8 b = m.get8 b) ∧
    (a + 1 < m.mem.length →
      m.set16 a v = some (store_half_bytes m a v) ∧
      (store_half_bytes m a v).mem.length = m.mem.length ∧
      (store_half_bytes m a v).get8 a = v &&& 0xFF ∧
      (store_half_bytes m a v).get8 (a + 1) = (v >>> 8) &&& 0xFF ∧
      ∀ b, (b < a ∨ a + 2 ≤ b) → (store_half_bytes m a v).get8 b = m.get8 b) := by
  constructor
  · intro ha
    refine ⟨set32_clean m a v ha hN, store_word_bytes_length m a v, ?_, ?_, ?_, ?_, ?_⟩
    · rw [store_word_bytes_get8 m a v a ha, if_pos rfl, byte_mask]
    · rw [store_word_bytes_get8 m a v _ ha, if_neg (by omega), if_pos rfl, byte_mask,
        Nat.shiftRight_eq_div_pow]
    · rw [store_word_bytes_get8 m a v _ ha, if_neg (by omega), if_neg (by omega), if_pos rfl,
        byte_mask, Nat.shiftRight_eq_div_pow]
    · rw [store_word_bytes_get8 m a v _ ha, if_neg (by omega), if_neg (by omega),
        if_neg (by omega), if_pos rfl, byte_mask, Nat.shiftRight_eq_div_pow]
    · intro b hb
      rw [store_word_bytes_get8 m a v b ha, if_neg (by omega), if_neg (by omega),
        if_neg (by omega), if_neg (by omega)]
  · intro ha
    refine ⟨set16_clean m a v ha hN, store_half_bytes_length m a v, ?_, ?_, ?_⟩
    · rw [store_half_bytes_get8 m a v a ha, if_pos rfl, byte_mask]
    · rw [store_half_bytes_get8 m a v _ ha, if_neg (by omega), if_pos rfl, byte_mask,
        Nat.shiftRight_eq_div_pow]
    · intro b hb
      rw [store_half_bytes_get8 m a v b ha, if_neg (by omega), if_neg (by omega)]

set_option maxRecDepth 100000 in
theorem C32_multi_byte_store_witness :
    (memory.new 16).mem.length ≤ 4294967296 ∧ 4 + 3 < (memory.new 16).mem.length ∧
    (memory.new 16).set32 4 0x12345678 = some (store_word_bytes (memory.new 16) 4 0x12345678) ∧
    (store_word_bytes (memory.new 16) 4 0x12345678).get8 5 = 0x56 :=
  ⟨by decide, by decide,
    ((C32_multi_byte_store (memory.new 16) 4 0x12345678 (by decide)).1 (by decide)).1,
    by decide⟩

/-! ## The frame of the stores -/

theorem store_some (m m' : memory) (a v : Nat) (h : m.store a v = some m') :
    a < m.mem.length ∧ m' = m.set8 a v := by
  by_cases ha : a < m.mem.length
  · rw [store_eq m a v ha] at h
    simp only [Option.some.injEq] at h
    exact ⟨ha, h.symm⟩
  · rw [store_none m a v (by omega)] at h
    exact absurd h (by simp)

/-- A defined `set16` stores below the size and changes no byte other than those at
`a` and `a + 1` (modulo `2^32`). -/
theorem set16_frame (m m' : memory) (a v : Nat) (h : m.set16 a v = some m') :
    a < m.mem.length ∧ m'.mem.length = m.mem.length ∧
    ∀ b, b ≠ a → b ≠ (a + 1) % 4294967296 → m'.get8 b = m.get8 b := by
  by_cases ha : a < m.mem.length
  · refine ⟨ha, set16_length m m' a v h, ?_⟩
    rw [set16_eq m a v ha] at h
    simp only [Option.some.injEq] at h
    intro b h0 h1
    rw [← h]
    simp only [get8_set8, set8_length]
    simp [h0, h1]
  · rw [set16_none m a v (by omega)] at h
    exact absurd h (by simp)

/-- A defined `set32` stores below the size and changes no byte other than those at
`a`, `a + 1`, `a + 2` and `a + 3` (modulo `2^32`). -/
theorem set32_frame (m m' : memory) (a v : Nat) (h : m.set32 a v = some m') :
    a < m.mem.length ∧ (a + 1) % 4294967296 < m.mem.length ∧
    (a + 2) % 4294967296 < m.mem.length ∧ m'.mem.length = m.mem.length ∧
    ∀ b, b ≠ a → b ≠ (a + 1) % 4294967296 → b ≠ (a + 2) % 4294967296 →
      b ≠ (a + 3) % 4294967296 → m'.get8 b = m.get8 b := by
  unfold memory.set32 at h
  cases h1 : m.set16 ((a + 1) % 4294967296) (v >>> 8) with
  | none => rw [h1] at h; exact absurd h (by simp)
  | some m1 =>
    rw [h1] at h
    simp only at h
    cases h2 : m1.set16 ((a + 2) % 4294967296) (v >>> 16) with
    | none => rw [h2] at h; exact absurd h (by simp)
    | some m2 =>
      rw [h2] at h
      simp only at h
      obtain ⟨a1, l1, f1⟩ := set16_frame m m1 _ _ h1
      obtain ⟨a2, l2, f2⟩ := set16_frame m1 m2 _ _ h2
      obtain ⟨a3, e3⟩ := store_some m2 m' a v h
      have k2 : (a + 1) % 4294967296 % 4294967296 = (a + 1) % 4294967296 := Nat.mod_mod _ _
      have k3 : ((a + 1) % 4294967296 + 1) % 4294967296 = (a + 2) % 4294967296 := by omega
      have k4 : ((a + 2) % 4294967296 + 1) % 4294967296 = (a + 3) % 4294967296 := by omega
      rw [k3] at f1
      rw [k4] at f2
      refine ⟨by omega, a1, by omega, ?_, ?_⟩
      · rw [e3, set8_length, l2, l1]
      · intro b b0 b1 b2 b3
        rw [e3, get8_set8, if_neg (fun k => b0 k.1), f2 b b2 b3, f1 b b1 b2]

/-! ## Invariants of the reachable states -/

/-- A property kept by `tick` is kept by the loop of `run`. -/
theorem run_loop_invariant (I : rv32i_hart → Prop)
    (ht : ∀ h h', I h → tick h = some h' → I h') (fuel : Nat) :
    ∀ (exec_limit : Nat) (h h' : rv32i_hart), I h →
      run_loop fuel exec_limit h = some h' → I h' := by
  induction fuel with
  | zero =>
    intro L h h' hi hr
    unfold run_loop at hr
    by_cases hc : run_continues L h = true
    · rw [if_pos hc] at hr; exact absurd hr (by simp)
    · rw [if_neg hc] at hr
      simp only [Option.some.injEq] at hr
      rw [← hr]; exact hi
  | succ n ih =>
    intro L h h' hi hr
    by_cases hc : run_continues L h = true
    · cases hk : tick h with
      | none =>
        rw [run_loop, if_pos hc, hk] at hr
        exact absurd hr (by simp)
      | some h1 =>
        rw [run_loop_step n L h h1 hc hk] at hr
        exact ih L h1 h' (ht h h1 hi hk) hr
    · rw [run_loop_stop (n + 1) L h (by simpa using hc)] at hr
      simp only [Option.some.injEq] at hr
      rw [← hr]; exact hi

/-- Induction over the reachable states. -/
theorem reached_invariant (I : rv32i_hart → Prop) (h_fresh : ∀ m, I (rv32i_hart.new m))
    (h_tick : ∀ h h', I h → tick h = some h' → I h') (h_reset : ∀ h, I h → I h.reset)
    (h_start : ∀ h, I h → I (run_start h)) : ∀ h, rv32i_hart.Reached h → I h := by
  intro h hr
  induction hr with
  | fresh m => exact h_fresh m
  | by_tick h h' _ ht ih => exact h_tick h h' ih ht
  | by_reset h _ ih => exact h_reset h ih
  | by_run h h' fuel L _ hrun ih =>
    exact run_loop_invariant I h_tick fuel L (run_start h) h' (h_start h ih) hrun

/-! ### The parity of the PC -/

theorem pcEven_same (h h1 : rv32i_hart) (e : h1.pc = h.pc) : PcEvenStep h (some h1) := by
  intro he h' hs
  simp only [Option.some.injEq] at hs
  rw [← hs, e]; exact he

theorem pcEven_advance (h h1 : rv32i_hart) (e : h1.pc = (h.pc + 4) % 4294967296) :
    PcEvenStep h (some h1) := by
  intro he h' hs
  simp only [Option.some.injEq] at hs
  rw [← hs, e]
  omega

theorem pcEven_map (h : rv32i_hart) (insn : Nat) (o : Option Int) :
    PcEvenStep h (o.map (write_rd h insn)) := by
  intro he h' hs
  simp only [Option.map_eq_some'] at hs
  obtain ⟨a, _, rfl⟩ := hs
  show (h.pc + 4) % 4294967296 % 2 = 0
  omega

theorem pcEven_mem (h : rv32i_hart) (o : Option memory) :
    PcEvenStep h (o.map (fun m => ({ h with mem := m }).advance)) := by
  intro he h' hs
  simp only [Option.map_eq_some'] at hs
  obtain ⟨a, _, rfl⟩ := hs
  show (h.pc + 4) % 4294967296 % 2 = 0
  omega

theorem toU32_even (v : Int) (hv : v % 2 = 0) : toU32 v % 2 = 0 := by
  have h1 := toU32_cast v
  omega

theorem get_imm_b_even (insn : Nat) : get_imm_b insn % 2 = 0 := by
  rw [get_imm_b_eq]
  omega

theorem get_imm_j_even (insn : Nat) : get_imm_j insn % 2 = 0 := by
  rw [get_imm_j_eq]
  omega

theorem pcEven_branch (h : rv32i_hart) (insn : Nat) (taken : Bool) :
    PcEvenStep h (some (exec_branch h insn taken)) := by
  intro he h' hs
  simp only [Option.some.injEq] at hs
  rw [← hs]
  unfold exec_branch
  simp only
  have hb := get_imm_b_even insn
  cases taken with
  | true =>
    simp only [if_true]
    rw [toU32_toS32, Nat.mod_eq_of_lt (toU32_lt _)]
    apply toU32_even
    omega
  | false =>
    simp only [Bool.false_eq_true, if_false]
    rw [toU32_toS32]
    omega

theorem pcEven_jal (h : rv32i_hart) (insn : Nat) : PcEvenStep h (some (exec_jal h insn)) := by
  intro he h' hs
  simp only [Option.some.injEq] at hs
  rw [← hs]
  unfold exec_jal
  simp only
  have hb := get_imm_j_even insn
  rw [toU32_toS32, Nat.mod_eq_of_lt (toU32_lt _)]
  apply toU32_even
  omega

theorem pcEven_jalr (h : rv32i_hart) (insn : Nat) :
    PcEvenStep h (some (exec_jalr h insn)) := by
  intro _ h' hs
  simp only [Option.some.injEq] at hs
  rw [← hs]
  unfold exec_jalr
  simp only
  have e : toU32 (h.regs.get (get_rs1 insn) + get_imm_i insn) &&& 0xfffffffe
      = toU32 (h.regs.get (get_rs1 insn) + get_imm_i insn) / 2 ^ 1 % 2 ^ 31 * 2 ^ 1 :=
    and_mask _ 1 31
  rw [toU32_toS32, e]
  omega

/-- No instruction function makes an even PC odd. -/
theorem exec_pc_even (h h' : rv32i_hart) (insn : Nat) (hp : h.pc % 2 = 0)
    (he : exec h insn = some h') : h'.pc % 2 = 0 := by
  have key : PcEvenStep h (exec h insn) := by
    apply exec_cases (PcEvenStep h) h insn
    case h_lui => exact pcEven_advance _ _ rfl
    case h_auipc => exact pcEven_advance _ _ rfl
    case h_add => exact pcEven_advance _ _ rfl
    case h_sub => exact pcEven_advance _ _ rfl
    case h_sll => exact pcEven_map _ _ _
    case h_slt => exact pcEven_advance _ _ rfl
    case h_sltu => exact pcEven_advance _ _ rfl
    case h_xor => exact pcEven_advance _ _ rfl
    case h_srl => exact pcEven_map _ _ _
    case h_sra => exact pcEven_map _ _ _
    case h_or => exact pcEven_advance _ _ rfl
    case h_and => exact pcEven_advance _ _ rfl
    case h_sb => exact pcEven_advance _ _ rfl
    case h_sh => exact pcEven_mem _ _
    case h_sw => exact pcEven_mem _ _
    case h_slli => exact pcEven_map _ _ _
    case h_addi => exact pcEven_advance _ _ rfl
    case h_slti => exact pcEven_advance _ _ rfl
    case h_sltiu => exact pcEven_advance _ _ rfl
    case h_xori => exact pcEven_advance _ _ rfl
    case h_ori => exact pcEven_advance _ _ rfl
    case h_andi => exact pcEven_advance _ _ rfl
    case h_srli => exact pcEven_map _ _ _
    case h_srai => exact pcEven_map _ _ _
    case h_lb => exact pcEven_advance _ _ rfl
    case h_lh => exact pcEven_advance _ _ rfl
    case h_lw => exact pcEven_advance _ _ rfl
    case h_lbu => exact pcEven_advance _ _ rfl
    case h_lhu => exact pcEven_advance _ _ rfl
    case h_beq => exact pcEven_branch _ _ _
    case h_bne => exact pcEven_branch _ _ _
    case h_blt => exact pcEven_branch _ _ _
    case h_bge => exact pcEven_branch _ _ _
    case h_bltu => exact pcEven_branch _ _ _
    case h_bgeu => exact pcEven_branch _ _ _
    case h_jal => exact pcEven_jal _ _
    case h_jalr => exact pcEven_jalr _ _
    case h_ebreak => exact pcEven_same _ _ rfl
    case h_csrrs =>
      unfold exec_csrrs
      simp only
      split_ifs
      · exact pcEven_advance _ _ rfl
      · exact pcEven_same _ _ rfl
      · exact pcEven_advance _ _ rfl
      · exact pcEven_same _ _ rfl
    case h_illegal_insn => exact pcEven_same _ _ rfl
  exact key hp h' he

theorem tick_pc_even (h h' : rv32i_hart) (hp : h.pc % 2 = 0) (ht : tick h = some h') :
    h'.pc % 2 = 0 := by
  cases hh : h.halt with
  | true =>
    rw [tick_halted h hh] at ht
    simp only [Option.some.injEq] at ht
    rw [← ht]; exact hp
  | false =>
    rw [tick_running h hh] at ht
    exact exec_pc_even (counted h) h' _ hp ht

/-- C38: in every hart state reachable from a freshly constructed hart by ticks, resets
and runs, over any memory, the PC is even (bit 0 is 0), and so it is after any number of
ticks from such a state and from the reset of any hart state. -/
theorem C38_pc_parity (h : rv32i_hart) (hr : rv32i_hart.Reached h) :
    h.pc % 2 = 0 ∧ h.pc.testBit 0 = false ∧
    (∀ n h', ticks n h = some h' → h'.pc % 2 = 0) ∧
    (∀ (h0 : rv32i_hart) n h', ticks n h0.reset = some h' → h'.pc % 2 = 0) := by
  have key : ∀ n (h0 h' : rv32i_hart), h0.pc % 2 = 0 → ticks n h0 = some h' →
      h'.pc % 2 = 0 := by
    intro n
    induction n with
    | zero =>
      intro h0 h' hp e
      rw [ticks] at e
      simp only [Option.some.injEq] at e
      rw [← e]; exact hp
    | succ k ih =>
      intro h0 h' hp e
      cases ht : tick h0 with
      | none => rw [ticks, ht] at e; exact absurd e (by simp)
      | some h1 =>
        rw [ticks, ht] at e
        exact ih h1 h' (tick_pc_even h0 h1 hp ht) e
  have e : h.pc % 2 = 0 :=
    reached_invariant (fun s => s.pc % 2 = 0) (fun _ => rfl) tick_pc_even (fun _ _ => rfl)
      (fun _ k => k) h hr
  refine ⟨e, ?_, fun n h' => key n h h' e, fun h0 n h' => key n h0.reset h' rfl⟩
  rw [Nat.testBit_zero]
  simp [e]

set_option maxRecDepth 100000 in
theorem C38_pc_parity_witness :
    rv32i_hart.Reached (scenario [0x008000EF]) ∧
    ∀ n h', ticks n (scenario [0x008000EF]) = some h' → h'.pc % 2 = 0 :=
  ⟨rv32i_hart.Reached.fresh _,
    (C38_pc_parity (scenario [0x008000EF]) (rv32i_hart.Reached.fresh _)).2.2.1⟩

/-! ### The halt flag and its reason -/

theorem haltStep_same (h h1 : rv32i_hart) (e1 : h1.halt = h.halt)
    (e2 : h1.halt_reason = h.halt_reason) : HaltStep h (some h1) := by
  intro hc h' hs
  simp only [Option.some.injEq] at hs
  unfold halt_consistent at hc ⊢
  rw [← hs, e1, e2]
  exact hc

theorem haltStep_halt (h h1 : rv32i_hart) (e1 : h1.halt = true)
    (e2 : h1.halt_reason = "EBREAK instruction" ∨ h1.halt_reason = "Illegal instruction" ∨
      h1.halt_reason = "Illegal CSR in CRSS instruction") : HaltStep h (some h1) := by
  intro _ h' hs
  simp only [Option.some.injEq] at hs
  unfold halt_consistent
  rw [← hs, e1]
  refine ⟨⟨fun k => absurd k (by decide), fun k => ?_⟩, fun _ => e2⟩
  rw [k] at e2
  rcases e2 with e | e | e <;> exact absurd e (by decide)

theorem haltStep_map (h : rv32i_hart) (insn : Nat) (o : Option Int) :
    HaltStep h (o.map (write_rd h insn)) := by
  intro hc h' hs
  simp only [Option.map_eq_some'] at hs
  obtain ⟨a, _, rfl⟩ := hs
  exact hc

theorem haltStep_mem (h : rv32i_hart) (o : Option memory) :
    HaltStep h (o.map (fun m => ({ h with mem := m }).advance)) := by
  intro hc h' hs
  simp only [Option.map_eq_some'] at hs
  obtain ⟨a, _, rfl⟩ := hs
  exact hc

/-- Every instruction function keeps the halt flag and the reason consistent. -/
theorem exec_halt_consistent (h h' : rv32i_hart) (insn : Nat) (hc : halt_consistent h)
    (he : exec h insn = some h') : halt_consistent h' := by
  have key : HaltStep h (exec h insn) := by
    apply exec_cases (HaltStep h) h insn
    case h_lui => exact haltStep_same _ _ rfl rfl
    case h_auipc => exact haltStep_same _ _ rfl rfl
    case h_add => exact haltStep_same _ _ rfl rfl
    case h_sub => exact haltStep_same _ _ rfl rfl
    case h_sll => exact haltStep_map _ _ _
    case h_slt => exact haltStep_same _ _ rfl rfl
    case h_sltu => exact haltStep_same _ _ rfl rfl
    case h_xor => exact haltStep_same _ _ rfl rfl
    case h_srl => exact haltStep_map _ _ _
    case h_sra => exact haltStep_map _ _ _
    case h_or => exact haltStep_same _ _ rfl rfl
    case h_and => exact haltStep_same _ _ rfl rfl
    case h_sb => exact haltStep_same _ _ rfl rfl
    case h_sh => exact haltStep_mem _ _
    case h_sw => exact haltStep_mem _ _
    case h_slli => exact haltStep_map _ _ _
    case h_addi => exact haltStep_same _ _ rfl rfl
    case h_slti => exact haltStep_same _ _ rfl rfl
    case h_sltiu => exact haltStep_same _ _ rfl rfl
    case h_xori => exact haltStep_same _ _ rfl rfl
    case h_ori => exact haltStep_same _ _ rfl rfl
    case h_andi => exact haltStep_same _ _ rfl rfl
    case h_srli => exact haltStep_map _ _ _
    case h_srai => exact haltStep_map _ _ _
    case h_lb => exact haltStep_same _ _ rfl rfl
    case h_lh => exact haltStep_same _ _ rfl rfl
    case h_lw => exact haltStep_same _ _ rfl rfl
    case h_lbu => exact haltStep_same _ _ rfl rfl
    case h_lhu => exact haltStep_same _ _ rfl rfl
    case h_beq => exact haltStep_same _ _ rfl rfl
    case h_bne => exact haltStep_same _ _ rfl rfl
    case h_blt => exact haltStep_same _ _ rfl rfl
    case h_bge => exact haltStep_same _ _ rfl rfl
    case h_bltu => exact haltStep_same _ _ rfl rfl
    case h_bgeu => exact haltStep_same _ _ rfl rfl
    case h_jal => exact haltStep_same _ _ rfl rfl
    case h_jalr => exact haltStep_same _ _ rfl rfl
    case h_ebreak => exact haltStep_halt _ _ rfl (Or.inl rfl)
    case h_csrrs =>
      unfold exec_csrrs
      simp only
      split_ifs
      · exact haltStep_halt _ _ rfl (Or.inr (Or.inr rfl))
      · exact haltStep_halt _ _ rfl (Or.inr (Or.inr rfl))
      · exact haltStep_same _ _ rfl rfl
      · exact haltStep_same _ _ rfl rfl
    case h_illegal_insn => exact haltStep_halt _ _ rfl (Or.inr (Or.inl rfl))
  exact key hc h' he

theorem tick_halt_consistent (h h' : rv32i_hart) (hc : halt_consistent h)
    (ht : tick h = some h') : halt_consistent h' := by
  cases hh : h.halt with
  | true =>
    rw [tick_halted h hh] at ht
    simp only [Option.some.injEq] at ht
    rw [← ht]; exact hc
  | false =>
    rw [tick_running h hh] at ht
    exact exec_halt_consistent (counted h) h' _ hc ht

theorem halt_consistent_fresh (m : memory) : halt_consistent (rv32i_hart.new m) :=
  ⟨⟨fun _ => rfl, fun _ => rfl⟩, fun k => absurd k Bool.false_ne_true⟩

theorem halt_consistent_reset (h : rv32i_hart) : halt_consistent h.reset :=
  ⟨⟨fun _ => rfl, fun _ => rfl⟩, fun k => absurd k Bool.false_ne_true⟩

/-- C39: in every hart state reachable from a freshly constructed hart by ticks, runs and
resets, `halt = false` exactly when `halt_reason = "none"`, and a halted hart has one of the
reasons `"EBREAK instruction"`, `"Illegal instruction"` and
`"Illegal CSR in CRSS instruction"`. -/
theorem C39_halt_reason_consistent (h : rv32i_hart) (hr : rv32i_hart.Reached h) :
    (h.halt = false ↔ h.halt_reason = "none") ∧
    (h.halt = true → h.halt_reason = "EBREAK instruction" ∨
      h.halt_reason = "Illegal instruction" ∨
      h.halt_reason = "Illegal CSR in CRSS instruction") :=
  reached_invariant halt_consistent halt_consistent_fresh tick_halt_consistent
    (fun h _ => halt_consistent_reset h) (fun _ k => k) h hr

set_option maxRecDepth 100000 in
theorem C39_halt_reason_consistent_witness :
    rv32i_hart.Reached (exec_ebreak (counted (scenario [0x00100073])) 0x00100073) ∧
    ((exec_ebreak (counted (scenario [0x00100073])) 0x00100073).halt = true →
      (exec_ebreak (counted (scenario [0x00100073])) 0x00100073).halt_reason
          = "EBREAK instruction" ∨
      (exec_ebreak (counted (scenario [0x00100073])) 0x00100073).halt_reason
          = "Illegal instruction" ∨
      (exec_ebreak (counted (scenario [0x00100073])) 0x00100073).halt_reason
          = "Illegal CSR in CRSS instruction") :=
  ⟨rv32i_hart.Reached.by_tick (scenario [0x00100073]) _ (rv32i_hart.Reached.fresh _)
      (by decide),
    (C39_halt_reason_consistent _
      (rv32i_hart.Reached.by_tick (scenario [0x00100073]) _ (rv32i_hart.Reached.fresh _)
        (by decide))).2⟩

/-! ## The memory frame of a tick -/

theorem store_width_zero (insn : Nat) (ho : get_opcode insn ≠ opcode_stype) :
    store_width insn = 0 := by
  unfold store_width
  rw [if_neg ho]

theorem frameStep_same (h : rv32i_hart) (insn : Nat) (h1 : rv32i_hart) (e : h1.mem = h.mem)
    (er : h1.regs = h.regs) : FrameStep h insn (some h1) := by
  intro _ h' hs
  simp only [Option.some.injEq] at hs
  rw [← hs, e]
  exact ⟨rfl, fun _ _ => rfl, fun _ => er⟩

theorem frameStep_regs (h : rv32i_hart) (insn : Nat) (h1 : rv32i_hart)
    (hw : store_width insn = 0) (e : h1.mem = h.mem) : FrameStep h insn (some h1) := by
  intro _ h' hs
  simp only [Option.some.injEq] at hs
  rw [← hs, e]
  exact ⟨rfl, fun _ _ => rfl, fun k => absurd hw k⟩

theorem frameStep_map (h : rv32i_hart) (insn : Nat) (o : Option Int)
    (hw : store_width insn = 0) : FrameStep h insn (o.map (write_rd h insn)) := by
  intro _ h' hs
  simp only [Option.map_eq_some'] at hs
  obtain ⟨a, _, rfl⟩ := hs
  exact ⟨rfl, fun _ _ => rfl, fun k => absurd hw k⟩

theorem frameStep_sb (h : rv32i_hart) (insn : Nat) (ho : get_opcode insn = opcode_stype)
    (hf : get_funct3 insn = funct3_sb) : FrameStep h insn (some (exec_sb h insn)) := by
  intro _ h' hs
  simp only [Option.some.injEq] at hs
  have hw : store_width insn = 1 := by
    unfold store_width
    rw [if_pos ho, if_pos hf]
  rw [← hs, hw]
  refine ⟨set8_length _ _ _, ?_, fun _ => rfl⟩
  intro b hb
  show (h.mem.set8 _ _).get8 b = h.mem.get8 b
  rw [get8_set8, if_neg (fun k => hb ⟨by omega, by omega⟩)]

theorem frameStep_sh (h : rv32i_hart) (insn : Nat) (ho : get_opcode insn = opcode_stype)
    (hf : get_funct3 insn = funct3_sh) : FrameStep h insn (exec_sh h insn) := by
  intro hN h' hs
  have hw : store_width insn = 2 := by
    unfold store_width
    rw [if_pos ho, if_neg (by rw [hf]; decide), if_pos hf]
  unfold exec_sh at hs
  simp only [Option.map_eq_some'] at hs
  obtain ⟨m', hm, rfl⟩ := hs
  obtain ⟨ha, hl, hfr⟩ := set16_frame h.mem m' _ _ hm
  rw [hw]
  refine ⟨hl, ?_, fun _ => rfl⟩
  intro b hb
  have e1 : (eff_addr h insn (get_imm_s insn) + 1) % 4294967296
      = eff_addr h insn (get_imm_s insn) + 1 := by omega
  rw [e1] at hfr
  exact hfr b (by omega) (by omega)

theorem frameStep_sw (h : rv32i_hart) (insn : Nat) (ho : get_opcode insn = opcode_stype)
    (hf : get_funct3 insn = funct3_sw) : FrameStep h insn (exec_sw h insn) := by
  intro hN h' hs
  have hw : store_width insn = 4 := by
    unfold store_width
    rw [if_pos ho, if_neg (by rw [hf]; decide), if_neg (by rw [hf]; decide), if_pos hf]
  unfold exec_sw at hs
  simp only [Option.map_eq_some'] at hs
  obtain ⟨m', hm, rfl⟩ := hs
  obtain ⟨ha, _, _, hl, hfr⟩ := set32_frame h.mem m' _ _ hm
  rw [hw]
  refine ⟨hl, ?_, fun _ => rfl⟩
  intro b hb
  have e1 : (eff_addr h insn (get_imm_s insn) + 1) % 4294967296
      = eff_addr h insn (get_imm_s insn) + 1 := by omega
  have e2 : (eff_addr h insn (get_imm_s insn) + 2) % 4294967296
      = eff_addr h insn (get_imm_s insn) + 2 := by omega
  have e3 : (eff_addr h insn (get_imm_s insn) + 3) % 4294967296
      = eff_addr h insn (get_imm_s insn) + 3 := by omega
  rw [e1, e2, e3] at hfr
  exact hfr b (by omega) (by omega) (by omega) (by omega)

/-- Every defined result of `exec` respects the memory frame of the word. -/
theorem exec_frame (h : rv32i_hart) (insn : Nat) : FrameStep h insn (exec h insn) := by
  apply exec_cases_at (FrameStep h insn) h insn
  case h_lui =>
    intro ho
    exact frameStep_regs h insn _ (store_width_zero insn (by rw [ho]; decide)) rfl
  case h_auipc =>
    intro ho
    exact frameStep_regs h insn _ (store_width_zero insn (by rw [ho]; decide)) rfl
  case h_add =>
    intro ho hf h7
    exact frameStep_regs h insn _ (store_width_zero insn (by rw [ho]; decide)) rfl
  case h_sub =>
    intro ho hf h7
    exact frameStep_regs h insn _ (store_width_zero insn (by rw [ho]; decide)) rfl
  case h_sll =>
    intro ho hf
    exact frameStep_map h insn _ (store_width_zero insn (by rw [ho]; decide))
  case h_slt =>
    intro ho hf
    exact frameStep_regs h insn _ (store_width_zero insn (by rw [ho]; decide)) rfl
  case h_sltu =>
    intro ho hf
    exact frameStep_regs h insn _ (store_width_zero insn (by rw [ho]; decide)) rfl
  case h_xor =>
    intro ho hf
    exact frameStep_regs h insn _ (store_width_zero insn (by rw [ho]; decide)) rfl
  case h_srl =>
    intro ho hf h7
    exact frameStep_map h insn _ (store_width_zero insn (by rw [ho]; decide))
  case h_sra =>
    intro ho hf h7
    exact frameStep_map h insn _ (store_width_zero insn (by rw [ho]; decide))
  case h_or =>
    intro ho hf
    exact frameStep_regs h insn _ (store_width_zero insn (by rw [ho]; decide)) rfl
  case h_and =>
    intro ho hf
    exact frameStep_regs h insn _ (store_width_zero insn (by rw [ho]; decide)) rfl
  case h_sb => intro ho hf; exact frameStep_sb h insn ho hf
  case h_sh => intro ho hf; exact frameStep_sh h insn ho hf
  case h_sw => intro ho hf; exact frameStep_sw h insn ho hf
  case h_slli =>
    intro ho hf
    exact frameStep_map h insn _ (store_width_zero insn (by rw [ho]; decide))
  case h_addi =>
    intro ho hf
    exact frameStep_regs h insn _ (store_width_zero insn (by rw [ho]; decide)) rfl
  case h_slti =>
    intro ho hf
    exact frameStep_regs h insn _ (store_width_zero insn (by rw [ho]; decide)) rfl
  case h_sltiu =>
    intro ho hf
    exact frameStep_regs h insn _ (store_width_zero insn (by rw [ho]; decide)) rfl
  case h_xori =>
    intro ho hf
    exact frameStep_regs h insn _ (store_width_zero insn (by rw [ho]; decide)) rfl
  case h_ori =>
    intro ho hf
    exact frameStep_regs h insn _ (store_width_zero insn (by rw [ho]; decide)) rfl
  case h_andi =>
    intro ho hf
    exact frameStep_regs h insn _ (store_width_zero insn (by rw [ho]; decide)) rfl
  case h_srli =>
    intro ho hf h7
    exact frameStep_map h insn _ (store_width_zero insn (by rw [ho]; decide))
  case h_srai =>
    intro ho hf h7
    exact frameStep_map h insn _ (store_width_zero insn (by rw [ho]; decide))
  case h_lb =>
    intro ho hf
    exact frameStep_regs h insn _ (store_width_zero insn (by rw [ho]; decide)) rfl
  case h_lh =>
    intro ho hf
    exact frameStep_regs h insn _ (store_width_zero insn (by rw [ho]; decide)) rfl
  case h_lw =>
    intro ho hf
    exact frameStep_regs h insn _ (store_width_zero insn (by rw [ho]; decide)) rfl
  case h_lbu =>
    intro ho hf
    exact frameStep_regs h insn _ (store_width_zero insn (by rw [ho]; decide)) rfl
  case h_lhu =>
    intro ho hf
    exact frameStep_regs h insn _ (store_width_zero insn (by rw [ho]; decide)) rfl
  case h_beq =>
    intro ho hf
    exact frameStep_regs h insn _ (store_width_zero insn (by rw [ho]; decide)) rfl
  case h_bne =>
    intro ho hf
    exact frameStep_regs h insn _ (store_width_zero insn (by rw [ho]; decide)) rfl
  case h_blt =>
    intro ho hf
    exact frameStep_regs h insn _ (store_width_zero insn (by rw [ho]; decide)) rfl
  case h_bge =>
    intro ho hf
    exact frameStep_regs h insn _ (store_width_zero insn (by rw [ho]; decide)) rfl
  case h_bltu =>
    intro ho hf
    exact frameStep_regs h insn _ (store_width_zero insn (by rw [ho]; decide)) rfl
  case h_bgeu =>
    intro ho hf
    exact frameStep_regs h insn _ (store_width_zero insn (by rw [ho]; decide)) rfl
  case h_jal =>
    intro ho
    exact frameStep_regs h insn _ (store_width_zero insn (by rw [ho]; decide)) rfl
  case h_jalr =>
    intro ho
    exact frameStep_regs h insn _ (store_width_zero insn (by rw [ho]; decide)) rfl
  case h_ebreak =>
    intro ho he
    exact frameStep_regs h insn _ (store_width_zero insn (by rw [ho]; decide)) rfl
  case h_csrrs =>
    intro ho hf
    unfold exec_csrrs
    simp only
    split_ifs <;>
      exact frameStep_regs h insn _ (store_width_zero insn (by rw [ho]; decide)) rfl
  case h_illegal_insn => exact frameStep_same h insn _ rfl rfl

/-! ## The trace toggles -/

theorem flags_map (h : rv32i_hart) (a b : Bool) (insn : Nat) (o : Option Int) :
    o.map (write_rd (h.with_flags a b) insn)
      = (o.map (write_rd h insn)).map (fun h' => h'.with_flags a b) := by
  cases o <;> rfl

theorem flags_mem (h : rv32i_hart) (a b : Bool) (o : Option memory) :
    o.map (fun m => ({ h.with_flags a b with mem := m }).advance)
      = (o.map (fun m => ({ h with mem := m }).advance)).map
          (fun h' => h'.with_flags a b) := by
  cases o <;> rfl

/-- The instruction functions do not read the two toggles and do not write them. -/
theorem exec_flags (h : rv32i_hart) (a b : Bool) (insn : Nat) :
    exec (h.with_flags a b) insn = (exec h insn).map (fun h' => h'.with_flags a b) := by
  apply insn_cases _ insn
  case h_lui =>
    intro ho
    rw [exec_dispatch_lui (h.with_flags a b) insn ho, exec_dispatch_lui h insn ho]
    rfl
  case h_auipc =>
    intro ho
    rw [exec_dispatch_auipc (h.with_flags a b) insn ho, exec_dispatch_auipc h insn ho]
    rfl
  case h_add =>
    intro ho hf h7
    rw [exec_dispatch_add (h.with_flags a b) insn ho hf h7, exec_dispatch_add h insn ho hf h7]
    rfl
  case h_sub =>
    intro ho hf h7
    rw [exec_dispatch_sub (h.with_flags a b) insn ho hf h7, exec_dispatch_sub h insn ho hf h7]
    rfl
  case h_sll =>
    intro ho hf
    rw [exec_dispatch_sll (h.with_flags a b) insn ho hf, exec_dispatch_sll h insn ho hf]
    exact flags_map h a b insn _
  case h_slt =>
    intro ho hf
    rw [exec_dispatch_slt (h.with_flags a b) insn ho hf, exec_dispatch_slt h insn ho hf]
    rfl
  case h_sltu =>
    intro ho hf
    rw [exec_dispatch_sltu (h.with_flags a b) insn ho hf, exec_dispatch_sltu h insn ho hf]
    rfl
  case h_xor =>
    intro ho hf
    rw [exec_dispatch_xor (h.with_flags a b) insn ho hf, exec_dispatch_xor h insn ho hf]
    rfl
  case h_srl =>
    intro ho hf h7
    rw [exec_dispatch_srl (h.with_flags a b) insn ho hf h7, exec_dispatch_srl h insn ho hf h7]
    exact flags_map h a b insn _
  case h_sra =>
    intro ho hf h7
    rw [exec_dispatch_sra (h.with_flags a b) insn ho hf h7, exec_dispatch_sra h insn ho hf h7]
    exact flags_map h a b insn _
  case h_or =>
    intro ho hf
    rw [exec_dispatch_or (h.with_flags a b) insn ho hf, exec_dispatch_or h insn ho hf]
    rfl
  case h_and =>
    intro ho hf
    rw [exec_dispatch_and (h.with_flags a b) insn ho hf, exec_dispatch_and h insn ho hf]
    rfl
  case h_sb =>
    intro ho hf
    rw [exec_dispatch_sb (h.with_flags a b) insn ho hf, exec_dispatch_sb h insn ho hf]
    rfl
  case h_sh =>
    intro ho hf
    rw [exec_dispatch_sh (h.with_flags a b) insn ho hf, exec_dispatch_sh h insn ho hf]
    exact flags_mem h a b _
  case h_sw =>
    intro ho hf
    rw [exec_dispatch_sw (h.with_flags a b) insn ho hf, exec_dispatch_sw h insn ho hf]
    exact flags_mem h a b _
  case h_slli =>
    intro ho hf
    rw [exec_dispatch_slli (h.with_flags a b) insn ho hf, exec_dispatch_slli h insn ho hf]
    exact flags_map h a b insn _
  case h_addi =>
    intro ho hf
    rw [exec_dispatch_addi (h.with_flags a b) insn ho hf, exec_dispatch_addi h insn ho hf]
    rfl
  case h_slti =>
    intro ho hf
    rw [exec_dispatch_slti (h.with_flags a b) insn ho hf, exec_dispatch_slti h insn ho hf]
    rfl
  case h_sltiu =>
    intro ho hf
    rw [exec_dispatch_sltiu (h.with_flags a b) insn ho hf, exec_dispatch_sltiu h insn ho hf]
    rfl
  case h_xori =>
    intro ho hf
    rw [exec_dispatch_xori (h.with_flags a b) insn ho hf, exec_dispatch_xori h insn ho hf]
    rfl
  case h_ori =>
    intro ho hf
    rw [exec_dispatch_ori (h.with_flags a b) insn ho hf, exec_dispatch_ori h insn ho hf]
    rfl
  case h_andi =>
    intro ho hf
    rw [exec_dispatch_andi (h.with_flags a b) insn ho hf, exec_dispatch_andi h insn ho hf]
    rfl
  case h_srli =>
    intro ho hf h7
    rw [exec_dispatch_srli (h.with_flags a b) insn ho hf h7, exec_dispatch_srli h insn ho hf h7]
    exact flags_map h a b insn _
  case h_srai =>
    intro ho hf h7
    rw [exec_dispatch_srai (h.with_flags a b) insn ho hf h7, exec_dispatch_srai h insn ho hf h7]
    exact flags_map h a b insn _
  case h_lb =>
    intro ho hf
    rw [exec_dispatch_lb (h.with_flags a b) insn ho hf, exec_dispatch_lb h insn ho hf]
    rfl
  case h_lh =>
    intro ho hf
    rw [exec_dispatch_lh (h.with_flags a b) insn ho hf, exec_dispatch_lh h insn ho hf]
    rfl
  case h_lw =>
    intro ho hf
    rw [exec_dispatch_lw (h.with_flags a b) insn ho hf, exec_dispatch_lw h insn ho hf]
    rfl
  case h_lbu =>
    intro ho hf
    rw [exec_dispatch_lbu (h.with_flags a b) insn ho hf, exec_dispatch_lbu h insn ho hf]
    rfl
  case h_lhu =>
    intro ho hf
    rw [exec_dispatch_lhu (h.with_flags a b) insn ho hf, exec_dispatch_lhu h insn ho hf]
    rfl
  case h_beq =>
    intro ho hf
    rw [exec_dispatch_beq (h.with_flags a b) insn ho hf, exec_dispatch_beq h insn ho hf]
    rfl
  case h_bne =>
    intro ho hf
    rw [exec_dispatch_bne (h.with_flags a b) insn ho hf, exec_dispatch_bne h insn ho hf]
    rfl
  case h_blt =>
    intro ho hf
    rw [exec_dispatch_blt (h.with_flags a b) insn ho hf, exec_dispatch_blt h insn ho hf]
    rfl
  case h_bge =>
    intro ho hf
    rw [exec_dispatch_bge (h.with_flags a b) insn ho hf, exec_dispatch_bge h insn ho hf]
    rfl
  case h_bltu =>
    intro ho hf
    rw [exec_dispatch_bltu (h.with_flags a b) insn ho hf, exec_dispatch_bltu h insn ho hf]
    rfl
  case h_bgeu =>
    intro ho hf
    rw [exec_dispatch_bgeu (h.with_flags a b) insn ho hf, exec_dispatch_bgeu h insn ho hf]
    rfl
  case h_jal =>
    intro ho
    rw [exec_dispatch_jal (h.with_flags a b) insn ho, exec_dispatch_jal h insn ho]
    rfl
  case h_jalr =>
    intro ho
    rw [exec_dispatch_jalr (h.with_flags a b) insn ho, exec_dispatch_jalr h insn ho]
    rfl
  case h_ebreak =>
    intro ho he
    rw [exec_dispatch_ebreak (h.with_flags a b) insn he, exec_dispatch_ebreak h insn he]
    rfl
  case h_csrrs =>
    intro ho hf
    rw [exec_dispatch_csrrs (h.with_flags a b) insn ho hf, exec_dispatch_csrrs h insn ho hf]
    show some _ = some _
    congr 1
    unfold exec_csrrs
    simp only
    by_cases hc : toU32 (get_imm_i insn) &&& 0x00000fff ≠ 0xf14 ∨ get_rs1 insn ≠ 0
    · simp only [if_pos hc]
      rfl
    · simp only [if_neg hc]
      cases hh : h.halt with
      | true =>
        have e : (h.with_flags a b).halt = true := hh
        rw [e]
        rfl
      | false =>
        have e : (h.with_flags a b).halt = false := hh
        rw [e]
        rfl
  case h_illegal_insn =>
    intro hd
    rw [exec_of_dispatches_illegal (h.with_flags a b) insn hd,
      exec_of_dispatches_illegal h insn hd]
    rfl

set_option maxRecDepth 100000 in
/-- C36: every defined tick over a memory of at most `0xfffffff0` bytes keeps the size
and every byte outside `[ea, ea + w)`, where `w` is 1, 2, 4 for a fetched `SB`, `SH`, `SW`
and 0 otherwise, and a store changes no register; but the tick is not defined for every
state: the first tick of a run on `sh x1,0(x2)` stores at `ea = 0x100`, the memory size,
through the unchecked `mem[addr] = val`. -/
theorem C36_memory_frame :
    (∀ h h' : rv32i_hart, h.mem.mem.length ≤ 0xfffffff0 → tick h = some h' →
      h'.mem.mem.length = h.mem.mem.length ∧
      (∀ b, ¬ (h.halt = false ∧
          eff_addr h (h.mem.get32 h.pc) (get_imm_s (h.mem.get32 h.pc)) ≤ b ∧
          b < eff_addr h (h.mem.get32 h.pc) (get_imm_s (h.mem.get32 h.pc))
            + store_width (h.mem.get32 h.pc)) →
        h'.mem.get8 b = h.mem.get8 b) ∧
      (store_width (h.mem.get32 h.pc) ≠ 0 → h'.regs = h.regs)) ∧
    (run_start (scenario [0x00111023, 0x00100073])).halt = false ∧
    (run_start (scenario [0x00111023, 0x00100073])).mem.get32 0 = 0x00111023 ∧
    store_width 0x00111023 = 2 ∧
    eff_addr (run_start (scenario [0x00111023, 0x00100073])) 0x00111023
      (get_imm_s 0x00111023) = 0x100 ∧
    (run_start (scenario [0x00111023, 0x00100073])).mem.mem.length = 0x100 ∧
    tick (run_start (scenario [0x00111023, 0x00100073])) = none := by
  refine ⟨?_, by decide, by decide, by decide, by decide, by decide, by decide⟩
  intro h h' hN ht
  cases hh : h.halt with
  | true =>
    rw [tick_halted h hh] at ht
    simp only [Option.some.injEq] at ht
    rw [← ht]
    exact ⟨rfl, fun _ _ => rfl, fun _ => rfl⟩
  | false =>
    rw [tick_running h hh] at ht
    obtain ⟨e1, e2, e3⟩ := exec_frame (counted h) (h.mem.get32 h.pc) hN h' ht
    refine ⟨e1, fun b hb => e2 b (fun k => hb ⟨rfl, k⟩), e3⟩

/-! ## The shift amount in the disassembly -/

theorem decode_dispatch_slli (addr insn : Nat) (ho : get_opcode insn = opcode_alu_imm)
    (hf : get_funct3 insn = funct3_sll) :
    decode addr insn = render_itype_alu insn "slli" (get_imm_i insn) := by
  unfold decode
  simp only
  rw [if_neg (by rw [ho]; decide),
    if_neg (by rw [ho]; decide),
    if_neg (by rw [ho]; decide),
    if_neg (by rw [ho]; decide),
    if_pos ho,
    if_pos hf]

theorem decode_dispatch_srli (addr insn : Nat) (ho : get_opcode insn = opcode_alu_imm)
    (hf : get_funct3 insn = funct3_srx) (h7 : get_funct7 insn = funct7_srl) :
    decode addr insn = render_itype_alu insn "srli" (get_imm_i insn) := by
  unfold decode
  simp only
  rw [if_neg (by rw [ho]; decide),
    if_neg (by rw [ho]; decide),
    if_neg (by rw [ho]; decide),
    if_neg (by rw [ho]; decide),
    if_pos ho,
    if_neg (by rw [hf]; decide),
    if_neg (by rw [hf]; decide),
    if_neg (by rw [hf]; decide),
    if_neg (by rw [hf]; decide),
    if_neg (by rw [hf]; decide),
    if_neg (by rw [hf]; decide),
    if_neg (by rw [hf]; decide),
    if_pos hf,
    if_pos h7]

theorem decode_dispatch_srai (addr insn : Nat) (ho : get_opcode insn = opcode_alu_imm)
    (hf : get_funct3 insn = funct3_srx) (h7 : get_funct7 insn = funct7_sra) :
    decode addr insn = render_itype_alu insn "srai" (imm_shift insn) := by
  unfold decode
  simp only
  rw [if_neg (by rw [ho]; decide),
    if_neg (by rw [ho]; decide),
    if_neg (by rw [ho]; decide),
    if_neg (by rw [ho]; decide),
    if_pos ho,
    if_neg (by rw [hf]; decide),
    if_neg (by rw [hf]; decide),
    if_neg (by rw [hf]; decide),
    if_neg (by rw [hf]; decide),
    if_neg (by rw [hf]; decide),
    if_neg (by rw [hf]; decide),
    if_neg (by rw [hf]; decide),
    if_pos hf,
    if_neg (by rw [h7]; decide),
    if_pos h7]
  rfl

/-- With `insn[31:25] = 0` the I-immediate is the field `insn[24:20]`. -/
theorem imm_i_low (insn : Nat) (h7 : get_funct7 insn = 0) :
    get_imm_i insn = ((bitfield insn 24 20 : Nat) : Int) := by
  have e : bitfield insn 24 20 = insn / 1048576 % 32 := rfl
  have k1 : insn / 2147483648 = insn / 1048576 / 2048 := by rw [Nat.div_div_eq_div_mul]
  have k2 : insn / 33554432 = insn / 1048576 / 32 := by rw [Nat.div_div_eq_div_mul]
  rw [get_funct7_eq, k2] at h7
  rw [get_imm_i_eq, e, k1]
  generalize insn / 1048576 = x at *
  omega

set_option maxRecDepth 100000 in
/-- C31: `decode` prints the field `insn[24:20]` as the last operand of every `srli` and
`srai`, but for `slli` it prints the whole I-immediate, which is that field only when
`insn[31:25] = 0`: `0x02109093` is rendered `slli x1,x1,33` and `0x80109093` as
`slli x1,x1,-2047`, while their field `insn[24:20]`, the amount `exec_slli` shifts by,
is 1. -/
theorem C31_shift_immediate_rendering :
    (∀ addr insn, get_opcode insn = opcode_alu_imm → get_funct3 insn = funct3_srx →
      get_funct7 insn = funct7_srl →
      decode addr insn = render_itype_alu insn "srli" ((bitfield insn 24 20 : Nat) : Int)) ∧
    (∀ addr insn, get_opcode insn = opcode_alu_imm → get_funct3 insn = funct3_srx →
      get_funct7 insn = funct7_sra →
      decode addr insn = render_itype_alu insn "srai" ((bitfield insn 24 20 : Nat) : Int)) ∧
    (∀ addr insn, get_opcode insn = opcode_alu_imm → get_funct3 insn = funct3_sll →
      decode addr insn = render_itype_alu insn "slli" (get_imm_i insn) ∧
      (get_funct7 insn = 0 → get_imm_i insn = ((bitfield insn 24 20 : Nat) : Int))) ∧
    bitfield 0x02109093 24 20 = 1 ∧ imm_shift 0x02109093 = 1 ∧
    decode 0 0x02109093 = "slli    x1,x1,33" ∧
    bitfield 0x80109093 24 20 = 1 ∧ imm_shift 0x80109093 = 1 ∧
    decode 0 0x80109093 = "slli    x1,x1,-2047" ∧
    decode 0 0x00109093 = "slli    x1,x1,1" ∧ decode 0 0x4010d093 = "srai    x1,x1,1" := by
  refine ⟨?_, ?_, ?_, by decide, by decide, by decide, by decide, by decide, by decide,
    by decide, by decide⟩
  · intro addr insn ho hf h7
    rw [decode_dispatch_srli addr insn ho hf h7, imm_i_low insn h7]
  · intro addr insn ho hf h7
    rw [decode_dispatch_srai addr insn ho hf h7, (imm_shift_masked insn).1]
  · intro addr insn ho hf
    exact ⟨decode_dispatch_slli addr insn ho hf, imm_i_low insn⟩

/-! ## The trace line -/

theorem foldl_append_acc (l : List String) : ∀ acc : String,
    l.foldl (fun r s => r ++ s) acc = acc ++ l.foldl (fun r s => r ++ s) "" := by
  induction l with
  | nil => intro acc; simp
  | cons a t ih =>
    intro acc
    simp only [List.foldl_cons]
    rw [ih (acc ++ a), ih ("" ++ a), String.empty_append, String.append_assoc]

theorem join_cons (a : String) (l : List String) : String.join (a :: l) = a ++ String.join l := by
  unfold String.join
  simp only [List.foldl_cons]
  rw [foldl_append_acc l ("" ++ a), String.empty_append]

set_option maxRecDepth 100000 in
theorem mnemonics_lower : ∀ m ∈ padded_mnemonics, m.data ≠ [] ∧ m.data.head? ≠ some 'E' := by
  decide

theorem legal_leaf (insn : Nat) (s : String) (h1 : s ≠ render_illegal_insn insn)
    (h2 : ¬ decode_only insn) :
    false = true ↔ (s = render_illegal_insn insn ∨ decode_only insn) := by
  constructor
  · intro k; exact absurd k (by decide)
  · intro k
    rcases k with k | k
    · exact absurd k h1
    · exact absurd k h2

theorem decode_dispatch_ecall (addr insn : Nat) (he : insn = insn_ecall) :
    decode addr insn = render_ecall insn := by
  have ho : get_opcode insn = opcode_system := by rw [he]; decide
  unfold decode
  simp only
  rw [
    if_neg (by rw [ho]; decide),
    if_neg (by rw [ho]; decide),
    if_neg (by rw [ho]; decide),
    if_neg (by rw [ho]; decide),
    if_neg (by rw [ho]; decide),
    if_neg (by rw [ho]; decide),
    if_neg (by rw [ho]; decide),
    if_neg (by rw [ho]; decide),
    if_neg (by rw [ho]; decide),
    if_pos ho,
    if_pos he]

theorem decode_dispatch_csrrw (addr insn : Nat) (ho : get_opcode insn = opcode_system)
    (hf : get_funct3 insn = funct3_csrrw) : decode addr insn = render_csrrx insn "csrrw" := by
  unfold decode
  simp only
  rw [
    if_neg (by rw [ho]; decide),
    if_neg (by rw [ho]; decide),
    if_neg (by rw [ho]; decide),
    if_neg (by rw [ho]; decide),
    if_neg (by rw [ho]; decide),
    if_neg (by rw [ho]; decide),
    if_neg (by rw [ho]; decide),
    if_neg (by rw [ho]; decide),
    if_neg (by rw [ho]; decide),
    if_pos ho,
    if_neg (fun e => by rw [e] at hf; exact absurd hf (by decide)),
    if_neg (fun e => by rw [e] at hf; exact absurd hf (by decide)),
    if_pos hf]

theorem decode_dispatch_csrrc (addr insn : Nat) (ho : get_opcode insn = opcode_system)
    (hf : get_funct3 insn = funct3_csrrc) : decode addr insn = render_csrrx insn "csrrc" := by
  unfold decode
  simp only
  rw [
    if_neg (by rw [ho]; decide),
    if_neg (by rw [ho]; decide),
    if_neg (by rw [ho]; decide),
    if_neg (by rw [ho]; decide),
    if_neg (by rw [ho]; decide),
    if_neg (by rw [ho]; decide),
    if_neg (by rw [ho]; decide),
    if_neg (by rw [ho]; decide),
    if_neg (by rw [ho]; decide),
    if_pos ho,
    if_neg (fun e => by rw [e] at hf; exact absurd hf (by decide)),
    if_neg (fun e => by rw [e] at hf; exact absurd hf (by decide)),
    if_neg (by rw [hf]; decide),
    if_neg (by rw [hf]; decide),
    if_pos hf]

theorem decode_dispatch_csrrwi (addr insn : Nat) (ho : get_opcode insn = opcode_system)
    (hf : get_funct3 insn = funct3_csrrwi) : decode addr insn = render_csrrxi insn "csrrwi" := by
  unfold decode
  simp only
  rw [
    if_neg (by rw [ho]; decide),
    if_neg (by rw [ho]; decide),
    if_neg (by rw [ho]; decide),
    if_neg (by rw [ho]; decide),
    if_neg (by rw [ho]; decide),
    if_neg (by rw [ho]; decide),
    if_neg (by rw [ho]; decide),
    if_neg (by rw [ho]; decide),
    if_neg (by rw [ho]; decide),
    if_pos ho,
    if_neg (fun e => by rw [e] at hf; exact absurd hf (by decide)),
    if_neg (fun e => by rw [e] at hf; exact absurd hf (by decide)),
    if_neg (by rw [hf]; decide),
    if_neg (by rw [hf]; decide),
    if_neg (by rw [hf]; decide),
    if_pos hf]

theorem decode_dispatch_csrrsi (addr insn : Nat) (ho : get_opcode insn = opcode_system)
    (hf : get_funct3 insn = funct3_csrrsi) : decode addr insn = render_csrrxi insn "csrrsi" := by
  unfold decode
  simp only
  rw [
    if_neg (by rw [ho]; decide),
    if_neg (by rw [ho]; decide),
    if_neg (by rw [ho]; decide),
    if_neg (by rw [ho]; decide),
    if_neg (by rw [ho]; decide),
    if_neg (by rw [ho]; decide),
    if_neg (by rw [ho]; decide),
    if_neg (by rw [ho]; decide),
    if_neg (by rw [ho]; decide),
    if_pos ho,
    if_neg (fun e => by rw [e] at hf; exact absurd hf (by decide)),
    if_neg (fun e => by rw [e] at hf; exact absurd hf (by decide)),
    if_neg (by rw [hf]; decide),
    if_neg (by rw [hf]; decide),
    if_neg (by rw [hf]; decide),
    if_neg (by rw [hf]; decide),
    if_pos hf]

theorem decode_dispatch_csrrci (addr insn : Nat) (ho : get_opcode insn = opcode_system)
    (hf : get_funct3 insn = funct3_csrrci) : decode addr insn = render_csrrxi insn "csrrci" := by
  unfold decode
  simp only
  rw [
    if_neg (by rw [ho]; decide),
    if_neg (by rw [ho]; decide),
    if_neg (by rw [ho]; decide),
    if_neg (by rw [ho]; decide),
    if_neg (by rw [ho]; decide),
    if_neg (by rw [ho]; decide),
    if_neg (by rw [ho]; decide),
    if_neg (by rw [ho]; decide),
    if_neg (by rw [ho]; decide),
    if_pos ho,
    if_neg (fun e => by rw [e] at hf; exact absurd hf (by decide)),
    if_neg (fun e => by rw [e] at hf; exact absurd hf (by decide)),
    if_neg (by rw [hf]; decide),
    if_neg (by rw [hf]; decide),
    if_neg (by rw [hf]; decide),
    if_neg (by rw [hf]; decide),
    if_neg (by rw [hf]; decide),
    if_pos hf]

/-! ## The form of the trace line -/

set_option maxRecDepth 100000 in
/-- C23: one call of `tick` on a running hart is `exec`, on the fetched word, of the state
whose counter has been incremented; whenever the result is defined its counter is the old
one plus 1 (modulo `2^64`, hence exactly one more below `2^64 - 1`), and it is defined,
with the counter incremented, for a word that turns out to be illegal, for `EBREAK` and for
every `CSRRS`, legal or not; but the tick is not defined for every running state: the
first tick of a run on `sh x1,0(x2)` (`0x00111023`) stores at `0x100`, the memory size,
through the unchecked `mem[addr] = val` of `set16`, so that tick has no result and no
counter. -/
theorem C23_instruction_counter :
    (∀ h : rv32i_hart, h.halt = false →
      tick h = exec (counted h) (h.mem.get32 h.pc) ∧
      (∀ h', tick h = some h' →
        h'.insn_counter = (h.insn_counter + 1) % 18446744073709551616 ∧
        (h.insn_counter + 1 < 18446744073709551616 →
          h'.insn_counter = h.insn_counter + 1)) ∧
      DefinedUnlessStore (counted h) (h.mem.get32 h.pc) (tick h) ∧
      (dispatches_illegal (h.mem.get32 h.pc) = true →
        ∃ h', tick h = some h' ∧ h'.halt = true ∧ h'.halt_reason = "Illegal instruction" ∧
          h'.insn_counter = (h.insn_counter + 1) % 18446744073709551616) ∧
      (h.mem.get32 h.pc = insn_ebreak →
        ∃ h', tick h = some h' ∧ h'.halt = true ∧ h'.halt_reason = "EBREAK instruction" ∧
          h'.insn_counter = (h.insn_counter + 1) % 18446744073709551616) ∧
      (get_opcode (h.mem.get32 h.pc) = opcode_system →
        get_funct3 (h.mem.get32 h.pc) = funct3_csrrs →
        ∃ h', tick h = some h' ∧
          h'.insn_counter = (h.insn_counter + 1) % 18446744073709551616)) ∧
    (run_start (scenario [0x00111023, 0x00100073])).halt = false ∧
    (run_start (scenario [0x00111023, 0x00100073])).pc = 0 ∧
    (run_start (scenario [0x00111023, 0x00100073])).mem.get32 0 = 0x00111023 ∧
    (run_start (scenario [0x00111023, 0x00100073])).insn_counter = 0 ∧
    get_opcode 0x00111023 = opcode_stype ∧ get_funct3 0x00111023 = funct3_sh ∧
    eff_addr (counted (run_start (scenario [0x00111023, 0x00100073]))) 0x00111023
      (get_imm_s 0x00111023) = 0x100 ∧
    (run_start (scenario [0x00111023, 0x00100073])).mem.mem.length = 0x100 ∧
    tick (run_start (scenario [0x00111023, 0x00100073])) = none ∧
    ¬ ∃ h', tick (run_start (scenario [0x00111023, 0x00100073])) = some h' ∧
      h'.insn_counter = 1 := by
  refine ⟨?_, by decide, by decide, by decide, by decide, by decide, by decide, by decide,
    by decide, by decide, ?_⟩
  · intro h hh
    have e := tick_running h hh
    refine ⟨e, ?_, ?_, ?_, ?_, ?_⟩
    · intro h' ht
      have c := tick_counter h h' hh ht
      refine ⟨c, fun hlt => ?_⟩
      rw [c, Nat.mod_eq_of_lt hlt]
    · rw [e]; exact exec_defined _ _
    · intro hd
      rw [e]
      exact ⟨_, exec_of_dispatches_illegal _ _ hd, rfl, rfl, rfl⟩
    · intro hb
      rw [e]
      exact ⟨_, exec_dispatch_ebreak _ _ hb, rfl, rfl, rfl⟩
    · intro ho hf
      rw [e]
      exact ⟨_, exec_dispatch_csrrs _ _ ho hf,
        (exec_counter _ _ _ (exec_dispatch_csrrs _ _ ho hf)).1⟩
  · have t : tick (run_start (scenario [0x00111023, 0x00100073])) = none := by decide
    rintro ⟨h', e, _⟩
    rw [t] at e
    exact absurd e (by simp)

set_option maxRecDepth 100000 in
/-- C26: for a freshly constructed or reset hart and a limit `0 < exec_limit < 2^64`,
either `run(exec_limit)` returns after `n ≤ exec_limit` ticks (the loop needs no more
iterations than `n`), with `insn_counter = n ≤ exec_limit` and the hart halted or
`insn_counter = exec_limit`, or one of fewer than `exec_limit` ticks is undefined (an `SH`
or `SW` past the end of the memory) and so is the run; every result of `run(exec_limit)`
has `insn_counter ≤ exec_limit` and is halted or at the limit; with `exec_limit = 0` every
result of the run is a halted hart, and the run does return once some number of ticks has
halted the hart.  But the run does not return for every memory: on the fresh hart over the
image `sh x1,0(x2); ebreak` the first tick of `run(1)` stores at `0x100`, the memory size,
through the unchecked `mem[addr] = val` of `set16`, and the run has no result whatever the
number of iterations allowed. -/
theorem C26_run_loop_bound :
    (∀ (h : rv32i_hart) (exec_limit : Nat),
      ((∃ m, h = rv32i_hart.new m) ∨ (∃ h0 : rv32i_hart, h = h0.reset)) →
      0 < exec_limit → exec_limit < 18446744073709551616 →
      ((∃ n h', n ≤ exec_limit ∧ ticks n (run_start h) = some h' ∧
          (∀ fuel, n ≤ fuel → run fuel exec_limit h = some h') ∧ h'.insn_counter = n ∧
          h'.insn_counter ≤ exec_limit ∧ (h'.halt = true ∨ h'.insn_counter = exec_limit)) ∨
        (∃ n hn, n < exec_limit ∧ ticks n (run_start h) = some hn ∧ hn.halt = false ∧
          tick hn = none ∧ DefinedUnlessStore (counted hn) (hn.mem.get32 hn.pc) none ∧
          ∀ fuel, run fuel exec_limit h = none)) ∧
      (∀ fuel h', run fuel exec_limit h = some h' →
        h'.insn_counter ≤ exec_limit ∧ (h'.halt = true ∨ h'.insn_counter = exec_limit)) ∧
      (∀ fuel h', run fuel 0 h = some h' → h'.halt = true) ∧
      (∀ n h', ticks n (run_start h) = some h' → h'.halt = true →
        ∃ h'', run n 0 h = some h'' ∧ h''.halt = true)) ∧
    scenario [0x00111023, 0x00100073]
      = rv32i_hart.new ((memory.new 0x100).load_file
          (image_of_words [0x00111023, 0x00100073])).2 ∧
    run_continues 1 (run_start (scenario [0x00111023, 0x00100073])) = true ∧
    tick (run_start (scenario [0x00111023, 0x00100073])) = none ∧
    (∀ fuel, run fuel 1 (scenario [0x00111023, 0x00100073]) = none) ∧
    (∀ fuel, run fuel 0 (scenario [0x00111023, 0x00100073]) = none) := by
  refine ⟨?_, rfl, by decide, by decide, ?_, ?_⟩
  · intro h exec_limit hfresh hpos hlt
    have hc : (run_start h).insn_counter = 0 := by
      rcases hfresh with ⟨m, rfl⟩ | ⟨h0, rfl⟩ <;> rfl
    have key := run_loop_bound exec_limit exec_limit (run_start h) hpos hlt (by omega)
    have first : (∃ n h', n ≤ exec_limit ∧ ticks n (run_start h) = some h' ∧
          (∀ fuel, n ≤ fuel → run fuel exec_limit h = some h') ∧ h'.insn_counter = n ∧
          h'.insn_counter ≤ exec_limit ∧ (h'.halt = true ∨ h'.insn_counter = exec_limit)) ∨
        (∃ n hn, n < exec_limit ∧ ticks n (run_start h) = some hn ∧ hn.halt = false ∧
          tick hn = none ∧ DefinedUnlessStore (counted hn) (hn.mem.get32 hn.pc) none ∧
          ∀ fuel, run fuel exec_limit h = none) := by
      rcases key with ⟨n, h', hn, e, hr, hcnt, hfin⟩ | ⟨n, hn', hn, e, hrun, hnone, hr⟩
      · left
        exact ⟨n, h', hn, e, hr, by omega, by omega, hfin⟩
      · right
        refine ⟨n, hn', hn, e, hrun, hnone, ?_, hr⟩
        have d := exec_defined (counted hn') (hn'.mem.get32 hn'.pc)
        rw [← tick_running hn' hrun, hnone] at d
        exact d
    refine ⟨first, ?_, ?_, ?_⟩
    · intro fuel h' e
      rcases first with ⟨n, h'', _, _, hr, _, hle, hfin⟩ | ⟨_, _, _, _, _, _, _, hr⟩
      · have e1 : run_loop (max fuel n) exec_limit (run_start h) = some h' :=
          run_loop_mono fuel exec_limit (run_start h) h' e (max fuel n) (Nat.le_max_left _ _)
        have e2 : run_loop (max fuel n) exec_limit (run_start h) = some h'' :=
          hr (max fuel n) (Nat.le_max_right _ _)
        have e3 : some h' = some h'' := e1.symm.trans e2
        simp only [Option.some.injEq] at e3
        subst e3
        exact ⟨hle, hfin⟩
      · rw [hr fuel] at e
        exact absurd e (by simp)
    · intro fuel h' e
      have r := run_loop_result fuel 0 _ h' e
      rw [run_continues_zero] at r
      simpa using r
    · intro n h' e hh
      exact run_loop_unbounded n _ h' e hh
  · exact run_loop_none 1 (run_start (scenario [0x00111023, 0x00100073])) (by decide)
      (by decide)
  · exact run_loop_none 0 (run_start (scenario [0x00111023, 0x00100073])) (by decide)
      (by decide)

/-! ## The illegal-instruction path -/

/-- A text that starts with the field of one of the mnemonics is not the
illegal-instruction text. -/
theorem mnemonic_ne_illegal (insn : Nat) (m rest : String) (hm : m ∈ padded_mnemonics) :
    render_mnemonic m ++ rest ≠ render_illegal_insn insn := by
  obtain ⟨h1, h2⟩ := mnemonics_lower m hm
  intro k
  have d := congrArg String.data k
  unfold render_mnemonic at d
  simp only [String.data_append] at d
  have hd := congrArg List.head? d
  rw [List.append_assoc, List.head?_append_of_ne_nil _ h1] at hd
  exact h2 hd

theorem render_lui_ne_illegal (insn : Nat) : render_lui insn ≠ render_illegal_insn insn := by
  unfold render_lui
  simp only [String.append_assoc]
  exact mnemonic_ne_illegal insn "lui" _ (by decide)

theorem render_auipc_ne_illegal (insn : Nat) :
    render_auipc insn ≠ render_illegal_insn insn := by
  unfold render_auipc
  simp only [String.append_assoc]
  exact mnemonic_ne_illegal insn "auipc" _ (by decide)

theorem render_jal_ne_illegal (addr insn : Nat) :
    render_jal addr insn ≠ render_illegal_insn insn := by
  unfold render_jal
  simp only [String.append_assoc]
  exact mnemonic_ne_illegal insn "jal" _ (by decide)

theorem render_jalr_ne_illegal (insn : Nat) :
    render_jalr insn ≠ render_illegal_insn insn := by
  unfold render_jalr
  simp only [String.append_assoc]
  exact mnemonic_ne_illegal insn "jalr" _ (by decide)

theorem render_rtype_ne_illegal (insn : Nat) (m : String) (hm : m ∈ padded_mnemonics) :
    render_rtype insn m ≠ render_illegal_insn insn := by
  unfold render_rtype
  simp only [String.append_assoc]
  exact mnemonic_ne_illegal insn m _ hm

theorem render_stype_ne_illegal (insn : Nat) (m : String) (hm : m ∈ padded_mnemonics) :
    render_stype insn m ≠ render_illegal_insn insn := by
  unfold render_stype
  simp only [String.append_assoc]
  exact mnemonic_ne_illegal insn m _ hm

theorem render_itype_alu_ne_illegal (insn : Nat) (m : String) (imm : Int)
    (hm : m ∈ padded_mnemonics) : render_itype_alu insn m imm ≠ render_illegal_insn insn := by
  unfold render_itype_alu
  simp only [String.append_assoc]
  exact mnemonic_ne_illegal insn m _ hm

theorem render_itype_load_ne_illegal (insn : Nat) (m : String) (hm : m ∈ padded_mnemonics) :
    render_itype_load insn m ≠ render_illegal_insn insn := by
  unfold render_itype_load
  simp only [String.append_assoc]
  exact mnemonic_ne_illegal insn m _ hm

theorem render_btype_ne_illegal (addr insn : Nat) (m : String) (hm : m ∈ padded_mnemonics) :
    render_btype addr insn m ≠ render_illegal_insn insn := by
  unfold render_btype
  simp only [String.append_assoc]
  exact mnemonic_ne_illegal insn m _ hm

theorem render_csrrx_ne_illegal (insn : Nat) (m : String) (hm : m ∈ padded_mnemonics) :
    render_csrrx insn m ≠ render_illegal_insn insn := by
  unfold render_csrrx
  simp only [String.append_assoc]
  exact mnemonic_ne_illegal insn m _ hm

theorem render_csrrxi_ne_illegal (insn : Nat) (m : String) (hm : m ∈ padded_mnemonics) :
    render_csrrxi insn m ≠ render_illegal_insn insn := by
  unfold render_csrrxi
  simp only [String.append_assoc]
  exact mnemonic_ne_illegal insn m _ hm

/-- The words for which `exec` ends in a `default:` label are those `decode` renders as
illegal and those it renders as `ecall`, `csrrw`, `csrrc`, `csrrwi`, `csrrsi` or `csrrci`. -/
theorem dispatches_illegal_iff (addr insn : Nat) :
    dispatches_illegal insn = true ↔
      (decode addr insn = render_illegal_insn insn ∨ decode_only insn) := by
  unfold dispatches_illegal decode
  dsimp only
  by_cases c1 : get_opcode insn = opcode_lui
  · rw [if_pos c1, if_pos c1]
    exact legal_leaf insn _ (render_lui_ne_illegal _)
      (fun k => absurd (c1.symm.trans k.1) (by decide))
  rw [if_neg c1, if_neg c1]
  by_cases c2 : get_opcode insn = opcode_auipc
  · rw [if_pos c2, if_pos c2]
    exact legal_leaf insn _ (render_auipc_ne_illegal _)
      (fun k => absurd (c2.symm.trans k.1) (by decide))
  rw [if_neg c2, if_neg c2]
  by_cases c3 : get_opcode insn = opcode_rtype
  · rw [if_pos c3, if_pos c3]
    by_cases c4 : get_funct3 insn = funct3_add
    · rw [if_pos c4, if_pos c4]
      by_cases c5 : get_funct7 insn = funct7_add
      · rw [if_pos c5, if_pos c5]
        exact legal_leaf insn _ (render_rtype_ne_illegal _ _ (by decide))
          (fun k => absurd (c3.symm.trans k.1) (by decide))
      rw [if_neg c5, if_neg c5]
      by_cases c6 : get_funct7 insn = funct7_sub
      · rw [if_pos c6, if_pos c6]
        exact legal_leaf insn _ (render_rtype_ne_illegal _ _ (by decide))
          (fun k => absurd (c3.symm.trans k.1) (by decide))
      rw [if_neg c6, if_neg c6]
      exact ⟨fun _ => Or.inl rfl, fun _ => rfl⟩
    rw [if_neg c4, if_neg c4]
    by_cases c7 : get_funct3 insn = funct3_sll
    · rw [if_pos c7, if_pos c7]
      exact legal_leaf insn _ (render_rtype_ne_illegal _ _ (by decide))
        (fun k => absurd (c3.symm.trans k.1) (by decide))
    rw [if_neg c7, if_neg c7]
    by_cases c8 : get_funct3 insn = funct3_slt
    · rw [if_pos c8, if_pos c8]
      exact legal_leaf insn _ (render_rtype_ne_illegal _ _ (by decide))
        (fun k => absurd (c3.symm.trans k.1) (by decide))
    rw [if_neg c8, if_neg c8]
    by_cases c9 : get_funct3 insn = funct3_sltu
    · rw [if_pos c9, if_pos c9]
      exact legal_leaf insn _ (render_rtype_ne_illegal _ _ (by decide))
        (fun k => absurd (c3.symm.trans k.1) (by decide))
    rw [if_neg c9, if_neg c9]
    by_cases c10 : get_funct3 insn = funct3_xor
    · rw [if_pos c10, if_pos c10]
      exact legal_leaf insn _ (render_rtype_ne_illegal _ _ (by decide))
        (fun k => absurd (c3.symm.trans k.1) (by decide))
    rw [if_neg c10, if_neg c10]
    by_cases c11 : get_funct3 insn = funct3_srx
    · rw [if_pos c11, if_pos c11]
      by_cases c12 : get_funct7 insn = funct7_srl
      · rw [if_pos c12, if_pos c12]
        exact legal_leaf insn _ (render_rtype_ne_illegal _ _ (by decide))
          (fun k => absurd (c3.symm.trans k.1) (by decide))
      rw [if_neg c12, if_neg c12]
      by_cases c13 : get_funct7 insn = funct7_sra
      · rw [if_pos c13, if_pos c13]
        exact legal_leaf insn _ (render_rtype_ne_illegal _ _ (by decide))
          (fun k => absurd (c3.symm.trans k.1) (by decide))
      rw [if_neg c13, if_neg c13]
      exact ⟨fun _ => Or.inl rfl, fun _ => rfl⟩
    rw [if_neg c11, if_neg c11]
    by_cases c14 : get_funct3 insn = funct3_or
    · rw [if_pos c14, if_pos c14]
      exact legal_leaf insn _ (render_rtype_ne_illegal _ _ (by decide))
        (fun k => absurd (c3.symm.trans k.1) (by decide))
    rw [if_neg c14, if_neg c14]
    by_cases c15 : get_funct3 insn = funct3_and
    · rw [if_pos c15, if_pos c15]
      exact legal_leaf insn _ (render_rtype_ne_illegal _ _ (by decide))
        (fun k => absurd (c3.symm.trans k.1) (by decide))
    rw [if_neg c15, if_neg c15]
    exact ⟨fun _ => Or.inl rfl, fun _ => rfl⟩
  rw [if_neg c3, if_neg c3]
  by_cases c16 : get_opcode insn = opcode_stype
  · rw [if_pos c16, if_pos c16]
    by_cases c17 : get_funct3 insn = funct3_sb
    · rw [if_pos c17, if_pos c17]
      exact legal_leaf insn _ (render_stype_ne_illegal _ _ (by decide))
        (fun k => absurd (c16.symm.trans k.1) (by decide))
    rw [if_neg c17, if_neg c17]
    by_cases c18 : get_funct3 insn = funct3_sh
    · rw [if_pos c18, if_pos c18]
      exact legal_leaf insn _ (render_stype_ne_illegal _ _ (by decide))
        (fun k => absurd (c16.symm.trans k.1) (by decide))
    rw [if_neg c18, if_neg c18]
    by_cases c19 : get_funct3 insn = funct3_sw
    · rw [if_pos c19, if_pos c19]
      exact legal_leaf insn _ (render_stype_ne_illegal _ _ (by decide))
        (fun k => absurd (c16.symm.trans k.1) (by decide))
    rw [if_neg c19, if_neg c19]
    exact ⟨fun _ => Or.inl rfl, fun _ => rfl⟩
  rw [if_neg c16, if_neg c16]
  by_cases c20 : get_opcode insn = opcode_alu_imm
  · rw [if_pos c20, if_pos c20]
    by_cases c21 : get_funct3 insn = funct3_sll
    · rw [if_pos c21, if_pos c21]
      exact legal_leaf insn _ (render_itype_alu_ne_illegal _ _ _ (by decide))
        (fun k => absurd (c20.symm.trans k.1) (by decide))
    rw [if_neg c21, if_neg c21]
    by_cases c22 : get_funct3 insn = funct3_add
    · rw [if_pos c22, if_pos c22]
      exact legal_leaf insn _ (render_itype_alu_ne_illegal _ _ _ (by decide))
        (fun k => absurd (c20.symm.trans k.1) (by decide))
    rw [if_neg c22, if_neg c22]
    by_cases c23 : get_funct3 insn = funct3_slt
    · rw [if_pos c23, if_pos c23]
      exact legal_leaf insn _ (render_itype_alu_ne_illegal _ _ _ (by decide))
        (fun k => absurd (c20.symm.trans k.1) (by decide))
    rw [if_neg c23, if_neg c23]
    by_cases c24 : get_funct3 insn = funct3_sltu
    · rw [if_pos c24, if_pos c24]
      exact legal_leaf insn _ (render_itype_alu_ne_illegal _ _ _ (by decide))
        (fun k => absurd (c20.symm.trans k.1) (by decide))
    rw [if_neg c24, if_neg c24]
    by_cases c25 : get_funct3 insn = funct3_xor
    · rw [if_pos c25, if_pos c25]
      exact legal_leaf insn _ (render_itype_alu_ne_illegal _ _ _ (by decide))
        (fun k => absurd (c20.symm.trans k.1) (by decide))
    rw [if_neg c25, if_neg c25]
    by_cases c26 : get_funct3 insn = funct3_or
    · rw [if_pos c26, if_pos c26]
      exact legal_leaf insn _ (render_itype_alu_ne_illegal _ _ _ (by decide))
        (fun k => absurd (c20.symm.trans k.1) (by decide))
    rw [if_neg c26, if_neg c26]
    by_cases c27 : get_funct3 insn = funct3_and
    · rw [if_pos c27, if_pos c27]
      exact legal_leaf insn _ (render_itype_alu_ne_illegal _ _ _ (by decide))
        (fun k => absurd (c20.symm.trans k.1) (by decide))
    rw [if_neg c27, if_neg c27]
    by_cases c28 : get_funct3 insn = funct3_srx
    · rw [if_pos c28, if_pos c28]
      by_cases c29 : get_funct7 insn = funct7_srl
      · rw [if_pos c29, if_pos c29]
        exact legal_leaf insn _ (render_itype_alu_ne_illegal _ _ _ (by decide))
          (fun k => absurd (c20.symm.trans k.1) (by decide))
      rw [if_neg c29, if_neg c29]
      by_cases c30 : get_funct7 insn = funct7_sra
      · rw [if_pos c30, if_pos c30]
        exact legal_leaf insn _ (render_itype_alu_ne_illegal _ _ _ (by decide))
          (fun k => absurd (c20.symm.trans k.1) (by decide))
      rw [if_neg c30, if_neg c30]
      exact ⟨fun _ => Or.inl rfl, fun _ => rfl⟩
    rw [if_neg c28, if_neg c28]
    exact ⟨fun _ => Or.inl rfl, fun _ => rfl⟩
  rw [if_neg c20, if_neg c20]
  by_cases c31 : get_opcode insn = opcode_load_imm
  · rw [if_pos c31, if_pos c31]
    by_cases c32 : get_funct3 insn = funct3_lb
    · rw [if_pos c32, if_pos c32]
      exact legal_leaf insn _ (render_itype_load_ne_illegal _ _ (by decide))
        (fun k => absurd (c31.symm.trans k.1) (by decide))
    rw [if_neg c32, if_neg c32]
    by_cases c33 : get_funct3 insn = funct3_lh
    · rw [if_pos c33, if_pos c33]
      exact legal_leaf insn _ (render_itype_load_ne_illegal _ _ (by decide))
        (fun k => absurd (c31.symm.trans k.1) (by decide))
    rw [if_neg c33, if_neg c33]
    by_cases c34 : get_funct3 insn = funct3_lw
    · rw [if_pos c34, if_pos c34]
      exact legal_leaf insn _ (render_itype_load_ne_illegal _ _ (by decide))
        (fun k => absurd (c31.symm.trans k.1) (by decide))
    rw [if_neg c34, if_neg c34]
    by_cases c35 : get_funct3 insn = funct3_lbu
    · rw [if_pos c35, if_pos c35]
      exact legal_leaf insn _ (render_itype_load_ne_illegal _ _ (by decide))
        (fun k => absurd (c31.symm.trans k.1) (by decide))
    rw [if_neg c35, if_neg c35]
    by_cases c36 : get_funct3 insn = funct3_lhu
    · rw [if_pos c36, if_pos c36]
      exact legal_leaf insn _ (render_itype_load_ne_illegal _ _ (by decide))
        (fun k => absurd (c31.symm.trans k.1) (by decide))
    rw [if_neg c36, if_neg c36]
    exact ⟨fun _ => Or.inl rfl, fun _ => rfl⟩
  rw [if_neg c31, if_neg c31]
  by_cases c37 : get_opcode insn = opcode_btype
  · rw [if_pos c37, if_pos c37]
    by_cases c38 : get_funct3 insn = funct3_beq
    · rw [if_pos c38, if_pos c38]
      exact legal_leaf insn _ (render_btype_ne_illegal _ _ _ (by decide))
        (fun k => absurd (c37.symm.trans k.1) (by decide))
    rw [if_neg c38, if_neg c38]
    by_cases c39 : get_funct3 insn = funct3_bne
    · rw [if_pos c39, if_pos c39]
      exact legal_leaf insn _ (render_btype_ne_illegal _ _ _ (by decide))
        (fun k => absurd (c37.symm.trans k.1) (by decide))
    rw [if_neg c39, if_neg c39]
    by_cases c40 : get_funct3 insn = funct3_blt
    · rw [if_pos c40, if_pos c40]
      exact legal_leaf insn _ (render_btype_ne_illegal _ _ _ (by decide))
        (fun k => absurd (c37.symm.trans k.1) (by decide))
    rw [if_neg c40, if_neg c40]
    by_cases c41 : get_funct3 insn = funct3_bge
    · rw [if_pos c41, if_pos c41]
      exact legal_leaf insn _ (render_btype_ne_illegal _ _ _ (by decide))
        (fun k => absurd (c37.symm.trans k.1) (by decide))
    rw [if_neg c41, if_neg c41]
    by_cases c42 : get_funct3 insn = funct3_bltu
    · rw [if_pos c42, if_pos c42]
      exact legal_leaf insn _ (render_btype_ne_illegal _ _ _ (by decide))
        (fun k => absurd (c37.symm.trans k.1) (by decide))
    rw [if_neg c42, if_neg c42]
    by_cases c43 : get_funct3 insn = funct3_bgeu
    · rw [if_pos c43, if_pos c43]
      exact legal_leaf insn _ (render_btype_ne_illegal _ _ _ (by decide))
        (fun k => absurd (c37.symm.trans k.1) (by decide))
    rw [if_neg c43, if_neg c43]
    exact ⟨fun _ => Or.inl rfl, fun _ => rfl⟩
  rw [if_neg c37, if_neg c37]
  by_cases c44 : get_opcode insn = opcode_jal
  · rw [if_pos c44, if_pos c44]
    exact legal_leaf insn _ (render_jal_ne_illegal _ _)
      (fun k => absurd (c44.symm.trans k.1) (by decide))
  rw [if_neg c44, if_neg c44]
  by_cases c45 : get_opcode insn = opcode_jalr
  · rw [if_pos c45, if_pos c45]
    exact legal_leaf insn _ (render_jalr_ne_illegal _)
      (fun k => absurd (c45.symm.trans k.1) (by decide))
  rw [if_neg c45, if_neg c45]
  by_cases c46 : get_opcode insn = opcode_system
  · rw [if_pos c46, if_pos c46]
    by_cases e0 : insn = insn_ecall
    · have n1 : ¬ insn = insn_ebreak := by rw [e0]; decide
      have n2 : ¬ get_funct3 insn = funct3_csrrs := by rw [e0]; decide
      rw [if_pos e0, if_neg n1, if_neg n2]
      exact ⟨fun _ => Or.inr ⟨c46, Or.inl e0⟩, fun _ => rfl⟩
    rw [if_neg e0]
    by_cases e1 : insn = insn_ebreak
    · rw [if_pos e1, if_pos e1]
      refine legal_leaf insn _ ?_ ?_
      · show "ebreak" ≠ "ERROR: UNIMPLEMENTED INSTRUCTION"
        decide
      · intro k
        rcases k.2 with k | k | k | k | k | k
        · exact e0 k
        all_goals (rw [e1] at k; exact absurd k (by decide))
    rw [if_neg e1, if_neg e1]
    by_cases w : get_funct3 insn = funct3_csrrw
    · have ns : ¬ get_funct3 insn = funct3_csrrs := by rw [w]; decide
      rw [if_pos w, if_neg ns]
      exact ⟨fun _ => Or.inr ⟨c46, Or.inr (Or.inl w)⟩, fun _ => rfl⟩
    rw [if_neg w]
    by_cases s : get_funct3 insn = funct3_csrrs
    · rw [if_pos s, if_pos s]
      refine legal_leaf insn _ (render_csrrx_ne_illegal _ _ (by decide)) ?_
      intro k
      rcases k.2 with k | k | k | k | k | k
      · exact e0 k
      all_goals (rw [s] at k; exact absurd k (by decide))
    rw [if_neg s, if_neg s]
    by_cases c : get_funct3 insn = funct3_csrrc
    · rw [if_pos c]
      exact ⟨fun _ => Or.inr ⟨c46, Or.inr (Or.inr (Or.inl c))⟩, fun _ => rfl⟩
    rw [if_neg c]
    by_cases wi : get_funct3 insn = funct3_csrrwi
    · rw [if_pos wi]
      exact ⟨fun _ => Or.inr ⟨c46, Or.inr (Or.inr (Or.inr (Or.inl wi)))⟩, fun _ => rfl⟩
    rw [if_neg wi]
    by_cases si : get_funct3 insn = funct3_csrrsi
    · rw [if_pos si]
      exact ⟨fun _ => Or.inr ⟨c46, Or.inr (Or.inr (Or.inr (Or.inr (Or.inl si))))⟩, fun _ => rfl⟩
    rw [if_neg si]
    by_cases ci : get_funct3 insn = funct3_csrrci
    · rw [if_pos ci]
      exact ⟨fun _ => Or.inr ⟨c46, Or.inr (Or.inr (Or.inr (Or.inr (Or.inr ci))))⟩, fun _ => rfl⟩
    rw [if_neg ci]
    exact ⟨fun _ => Or.inl rfl, fun _ => rfl⟩
  rw [if_neg c46, if_neg c46]
  exact ⟨fun _ => Or.inl rfl, fun _ => rfl⟩

/-- The words of `decode_only` are rendered by `decode` as the bare `ecall` or by
`render_csrrx` / `render_csrrxi` with one of the five mnemonics `csrrw`, `csrrc`, `csrrwi`,
`csrrsi`, `csrrci`. -/
theorem decode_only_rendered (addr insn : Nat) (h : decode_only insn) :
    decode addr insn = "ecall" ∨ decode addr insn = render_csrrx insn "csrrw" ∨
    decode addr insn = render_csrrx insn "csrrc" ∨
    decode addr insn = render_csrrxi insn "csrrwi" ∨
    decode addr insn = render_csrrxi insn "csrrsi" ∨
    decode addr insn = render_csrrxi insn "csrrci" := by
  obtain ⟨ho, k⟩ := h
  rcases k with k | k | k | k | k | k
  · exact Or.inl (decode_dispatch_ecall addr insn k)
  · exact Or.inr (Or.inl (decode_dispatch_csrrw addr insn ho k))
  · exact Or.inr (Or.inr (Or.inl (decode_dispatch_csrrc addr insn ho k)))
  · exact Or.inr (Or.inr (Or.inr (Or.inl (decode_dispatch_csrrwi addr insn ho k))))
  · exact Or.inr (Or.inr (Or.inr (Or.inr (Or.inl (decode_dispatch_csrrsi addr insn ho k)))))
  · exact Or.inr (Or.inr (Or.inr (Or.inr (Or.inr (decode_dispatch_csrrci addr insn ho k)))))

theorem legal_step_same (h h1 h' : rv32i_hart) (hh : h.halt = false)
    (e : some h1 = some h') (e1 : h1.halt = h.halt) : ¬ (h'.halt = true ∧ h'.halt_reason = "Illegal instruction") := by
  simp only [Option.some.injEq] at e
  rw [← e, e1, hh]
  exact fun k => absurd k.1 (by decide)

theorem legal_step_reason (h1 h' : rv32i_hart) (e : some h1 = some h')
    (e1 : h1.halt_reason ≠ "Illegal instruction") : ¬ (h'.halt = true ∧ h'.halt_reason = "Illegal instruction") := by
  simp only [Option.some.injEq] at e
  rw [← e]
  exact fun k => e1 k.2

theorem legal_step_map (h : rv32i_hart) (insn : Nat) (o : Option Int) (h' : rv32i_hart)
    (hh : h.halt = false) (e : o.map (write_rd h insn) = some h') :
    ¬ (h'.halt = true ∧ h'.halt_reason = "Illegal instruction") := by
  simp only [Option.map_eq_some'] at e
  obtain ⟨a, _, rfl⟩ := e
  exact legal_step_same h _ _ hh rfl rfl

theorem legal_step_mem (h : rv32i_hart) (o : Option memory) (h' : rv32i_hart)
    (hh : h.halt = false) (e : o.map (fun m => ({ h with mem := m }).advance) = some h') :
    ¬ (h'.halt = true ∧ h'.halt_reason = "Illegal instruction") := by
  simp only [Option.map_eq_some'] at e
  obtain ⟨a, _, rfl⟩ := e
  exact legal_step_same h _ _ hh rfl rfl

theorem legal_step_csrrs (h : rv32i_hart) (insn : Nat) (h' : rv32i_hart)
    (hh : h.halt = false) (e : some (exec_csrrs h insn) = some h') :
    ¬ (h'.halt = true ∧ h'.halt_reason = "Illegal instruction") := by
  by_cases hc : toU32 (get_imm_i insn) &&& 0x00000fff ≠ 0xf14 ∨ get_rs1 insn ≠ 0
  · refine legal_step_reason _ h' e ?_
    unfold exec_csrrs
    simp only [if_pos hc]
    rw [if_neg (by decide)]
    show "Illegal CSR in CRSS instruction" ≠ "Illegal instruction"
    decide
  · refine legal_step_same h _ h' hh e ?_
    unfold exec_csrrs
    simp only [if_neg hc]
    rw [if_pos (by rw [hh]; rfl)]
    rfl

/-- A word that `exec` sends to an instruction function does not leave a running hart halted
with the reason `"Illegal instruction"`. -/
theorem legal_not_illegal_halt (h : rv32i_hart) (insn : Nat) (h' : rv32i_hart)
    (hh : h.halt = false) (hd : dispatches_illegal insn = false)
    (e : exec h insn = some h') :
    ¬ (h'.halt = true ∧ h'.halt_reason = "Illegal instruction") := by
  revert e
  apply insn_cases (exec h insn = some h' →
    ¬ (h'.halt = true ∧ h'.halt_reason = "Illegal instruction")) insn
  case h_lui =>
    intro ho e
    rw [exec_dispatch_lui h insn ho] at e
    exact legal_step_same h _ h' hh e rfl
  case h_auipc =>
    intro ho e
    rw [exec_dispatch_auipc h insn ho] at e
    exact legal_step_same h _ h' hh e rfl
  case h_add =>
    intro ho hf h7 e
    rw [exec_dispatch_add h insn ho hf h7] at e
    exact legal_step_same h _ h' hh e rfl
  case h_sub =>
    intro ho hf h7 e
    rw [exec_dispatch_sub h insn ho hf h7] at e
    exact legal_step_same h _ h' hh e rfl
  case h_sll =>
    intro ho hf e
    rw [exec_dispatch_sll h insn ho hf] at e
    exact legal_step_map h insn _ h' hh e
  case h_slt =>
    intro ho hf e
    rw [exec_dispatch_slt h insn ho hf] at e
    exact legal_step_same h _ h' hh e rfl
  case h_sltu =>
    intro ho hf e
    rw [exec_dispatch_sltu h insn ho hf] at e
    exact legal_step_same h _ h' hh e rfl
  case h_xor =>
    intro ho hf e
    rw [exec_dispatch_xor h insn ho hf] at e
    exact legal_step_same h _ h' hh e rfl
  case h_srl =>
    intro ho hf h7 e
    rw [exec_dispatch_srl h insn ho hf h7] at e
    exact legal_step_map h insn _ h' hh e
  case h_sra =>
    intro ho hf h7 e
    rw [exec_dispatch_sra h insn ho hf h7] at e
    exact legal_step_map h insn _ h' hh e
  case h_or =>
    intro ho hf e
    rw [exec_dispatch_or h insn ho hf] at e
    exact legal_step_same h _ h' hh e rfl
  case h_and =>
    intro ho hf e
    rw [exec_dispatch_and h insn ho hf] at e
    exact legal_step_same h _ h' hh e rfl
  case h_sb =>
    intro ho hf e
    rw [exec_dispatch_sb h insn ho hf] at e
    exact legal_step_same h _ h' hh e rfl
  case h_sh =>
    intro ho hf e
    rw [exec_dispatch_sh h insn ho hf] at e
    exact legal_step_mem h _ h' hh e
  case h_sw =>
    intro ho hf e
    rw [exec_dispatch_sw h insn ho hf] at e
    exact legal_step_mem h _ h' hh e
  case h_slli =>
    intro ho hf e
    rw [exec_dispatch_slli h insn ho hf] at e
    exact legal_step_map h insn _ h' hh e
  case h_addi =>
    intro ho hf e
    rw [exec_dispatch_addi h insn ho hf] at e
    exact legal_step_same h _ h' hh e rfl
  case h_slti =>
    intro ho hf e
    rw [exec_dispatch_slti h insn ho hf] at e
    exact legal_step_same h _ h' hh e rfl
  case h_sltiu =>
    intro ho hf e
    rw [exec_dispatch_sltiu h insn ho hf] at e
    exact legal_step_same h _ h' hh e rfl
  case h_xori =>
    intro ho hf e
    rw [exec_dispatch_xori h insn ho hf] at e
    exact legal_step_same h _ h' hh e rfl
  case h_ori =>
    intro ho hf e
    rw [exec_dispatch_ori h insn ho hf] at e
    exact legal_step_same h _ h' hh e rfl
  case h_andi =>
    intro ho hf e
    rw [exec_dispatch_andi h insn ho hf] at e
    exact legal_step_same h _ h' hh e rfl
  case h_srli =>
    intro ho hf h7 e
    rw [exec_dispatch_srli h insn ho hf h7] at e
    exact legal_step_map h insn _ h' hh e
  case h_srai =>
    intro ho hf h7 e
    rw [exec_dispatch_srai h insn ho hf h7] at e
    exact legal_step_map h insn _ h' hh e
  case h_lb =>
    intro ho hf e
    rw [exec_dispatch_lb h insn ho hf] at e
    exact legal_step_same h _ h' hh e rfl
  case h_lh =>
    intro ho hf e
    rw [exec_dispatch_lh h insn ho hf] at e
    exact legal_step_same h _ h' hh e rfl
  case h_lw =>
    intro ho hf e
    rw [exec_dispatch_lw h insn ho hf] at e
    exact legal_step_same h _ h' hh e rfl
  case h_lbu =>
    intro ho hf e
    rw [exec_dispatch_lbu h insn ho hf] at e
    exact legal_step_same h _ h' hh e rfl
  case h_lhu =>
    intro ho hf e
    rw [exec_dispatch_lhu h insn ho hf] at e
    exact legal_step_same h _ h' hh e rfl
  case h_beq =>
    intro ho hf e
    rw [exec_dispatch_beq h insn ho hf] at e
    exact legal_step_same h _ h' hh e rfl
  case h_bne =>
    intro ho hf e
    rw [exec_dispatch_bne h insn ho hf] at e
    exact legal_step_same h _ h' hh e rfl
  case h_blt =>
    intro ho hf e
    rw [exec_dispatch_blt h insn ho hf] at e
    exact legal_step_same h _ h' hh e rfl
  case h_bge =>
    intro ho hf e
    rw [exec_dispatch_bge h insn ho hf] at e
    exact legal_step_same h _ h' hh e rfl
  case h_bltu =>
    intro ho hf e
    rw [exec_dispatch_bltu h insn ho hf] at e
    exact legal_step_same h _ h' hh e rfl
  case h_bgeu =>
    intro ho hf e
    rw [exec_dispatch_bgeu h insn ho hf] at e
    exact legal_step_same h _ h' hh e rfl
  case h_jal =>
    intro ho e
    rw [exec_dispatch_jal h insn ho] at e
    exact legal_step_same h _ h' hh e rfl
  case h_jalr =>
    intro ho e
    rw [exec_dispatch_jalr h insn ho] at e
    exact legal_step_same h _ h' hh e rfl
  case h_ebreak =>
    intro _ he e
    rw [exec_dispatch_ebreak h insn he] at e
    exact legal_step_reason _ h' e (by
      show "EBREAK instruction" ≠ "Illegal instruction"
      decide)
  case h_csrrs =>
    intro ho hf e
    rw [exec_dispatch_csrrs h insn ho hf] at e
    exact legal_step_csrrs h insn h' hh e
  case h_illegal_insn =>
    intro hd2
    rw [hd] at hd2
    exact absurd hd2 (by decide)

/-- On a running hart, `exec` halts with the reason `"Illegal instruction"` exactly for the
words that end in a `default:` label of its `switch`. -/
theorem illegal_halt_iff (h : rv32i_hart) (insn : Nat) (hh : h.halt = false) :
    (∃ h', exec h insn = some h' ∧ h'.halt = true ∧
      h'.halt_reason = "Illegal instruction") ↔ dispatches_illegal insn = true := by
  constructor
  · rintro ⟨h', e, a, b⟩
    cases hd : dispatches_illegal insn with
    | true => rfl
    | false => exact absurd ⟨a, b⟩ (legal_not_illegal_halt h insn h' hh hd e)
  · intro hd
    exact ⟨_, exec_of_dispatches_illegal h insn hd, rfl, rfl⟩

set_option maxRecDepth 100000 in
/-- C34 (counterexample): the words `0x00000073` and `0x00001073` are rendered by `decode`
as `ecall` and `csrrw x0,0x000,x0`, not as illegal, and yet `exec` sends them to
`exec_illegal_insn`, which halts with the reason `"Illegal instruction"`. -/
theorem C34_decoded_but_illegal :
    decode 0 0x00000073 = "ecall" ∧ decode 0 0x00000073 ≠ render_illegal_insn 0x00000073 ∧
    dispatches_illegal 0x00000073 = true ∧
    (∀ h : rv32i_hart, exec h 0x00000073 = some (exec_illegal_insn h 0x00000073)) ∧
    decode 0 0x00001073 = "csrrw   x0,0x000,x0" ∧
    decode 0 0x00001073 ≠ render_illegal_insn 0x00001073 ∧
    dispatches_illegal 0x00001073 = true ∧
    (∀ h : rv32i_hart, exec h 0x00001073 = some (exec_illegal_insn h 0x00001073)) ∧
    (∀ (h : rv32i_hart) (insn : Nat), (exec_illegal_insn h insn).halt = true ∧
      (exec_illegal_insn h insn).halt_reason = "Illegal instruction") :=
  ⟨by decide, by decide, by decide,
    fun h => exec_of_dispatches_illegal h _ (by decide), by decide, by decide, by decide,
    fun h => exec_of_dispatches_illegal h _ (by decide), fun _ _ => ⟨rfl, rfl⟩⟩

/-- C34 (amended): on a running hart, `exec` takes the illegal-instruction path, that is, it
returns a hart halted with the reason `"Illegal instruction"`, exactly for the words that
`decode` renders as illegal and for the `SYSTEM` words it renders as `ecall`, `csrrw`,
`csrrc`, `csrrwi`, `csrrsi` or `csrrci`; for these words, and only for them, the result of
`exec` is that of `exec_illegal_insn`; every word rendered as illegal is executed as
illegal, and a word that is not executed as illegal is not rendered as illegal. -/
theorem C34_legality_agreement (addr insn : Nat) (h : rv32i_hart) (hh : h.halt = false) :
    ((∃ h', exec h insn = some h' ∧ h'.halt = true ∧
        h'.halt_reason = "Illegal instruction") ↔
      (decode addr insn = render_illegal_insn insn ∨ decode_only insn)) ∧
    (exec h insn = some (exec_illegal_insn h insn) ↔
      (decode addr insn = render_illegal_insn insn ∨ decode_only insn)) ∧
    (decode addr insn = render_illegal_insn insn →
      ∃ h', exec h insn = some h' ∧ h'.halt = true ∧
        h'.halt_reason = "Illegal instruction") ∧
    ((¬ ∃ h', exec h insn = some h' ∧ h'.halt = true ∧
        h'.halt_reason = "Illegal instruction") →
      decode addr insn ≠ render_illegal_insn insn ∧ ¬ decode_only insn) ∧
    (decode_only insn →
      decode addr insn = "ecall" ∨ decode addr insn = render_csrrx insn "csrrw" ∨
      decode addr insn = render_csrrx insn "csrrc" ∨
      decode addr insn = render_csrrxi insn "csrrwi" ∨
      decode addr insn = render_csrrxi insn "csrrsi" ∨
      decode addr insn = render_csrrxi insn "csrrci") := by
  have k := dispatches_illegal_iff addr insn
  have s := illegal_halt_iff h insn hh
  have first := s.trans k
  refine ⟨first, ?_, fun e => first.mpr (Or.inl e), ?_, decode_only_rendered addr insn⟩
  · constructor
    · intro e
      exact first.mp ⟨_, e, rfl, rfl⟩
    · intro d
      exact exec_of_dispatches_illegal h insn (k.mpr d)
  · intro n
    exact ⟨fun e => n (first.mpr (Or.inl e)), fun e => n (first.mpr (Or.inr e))⟩

set_option maxRecDepth 100000 in
theorem C34_legality_agreement_witness :
    (rv32i_hart.new (memory.new 16)).halt = false ∧
    ((∃ h', exec (rv32i_hart.new (memory.new 16)) 0x00000073 = some h' ∧ h'.halt = true ∧
        h'.halt_reason = "Illegal instruction") ↔
      (decode 0 0x00000073 = render_illegal_insn 0x00000073 ∨ decode_only 0x00000073)) :=
  ⟨rfl, (C34_legality_agreement 0 0x00000073 (rv32i_hart.new (memory.new 16)) rfl).1⟩

/-! ## The instruction table and the rendering contract -/

theorem comma_x (s : String) : ",x" ++ s = "," ++ ("x" ++ s) := by
  rw [← String.append_assoc]; rfl

theorem comma_0x (s : String) : ",0x" ++ s = "," ++ ("0x" ++ s) := by
  rw [← String.append_assoc]; rfl

theorem paren_x (s : String) : "(x" ++ s = "(" ++ ("x" ++ s) := by
  rw [← String.append_assoc]; rfl

theorem hex20_field (insn : Nat) :
    to_hex0x20 (toU32 (get_imm_u insn)) = contract_hex 5 (bitfield insn 31 12) := by
  have h3 : toU32 (get_imm_u insn) = insn &&& 0xfffff000 := by
    unfold get_imm_u
    rw [toU32_toS32]
    have : insn &&& 0xfffff000 ≤ 0xfffff000 := Nat.and_le_right
    omega
  have e : (insn &&& 0xfffff000) >>> 12 = insn / 2 ^ 12 % 2 ^ 20 * 2 ^ (12 - 12) :=
    field_shr insn 12 20 12 (Nat.le_refl _)
  have l := toU32_lt (get_imm_u insn)
  unfold to_hex0x20 contract_hex bitfield
  rw [Nat.mod_eq_of_lt l, h3, e, Nat.sub_self, Nat.pow_zero, Nat.mul_one]

theorem hex_target (addr : Nat) (imm : Int) :
    to_hex32 (toU32 (toS32 (toU32 (imm + addr)))) = hexPad 8 (toU32 (addr + imm)) := by
  have h1 := toU32_toS32_toU32 (imm + addr)
  have h2 := toU32_cast (imm + addr)
  have l1 := toU32_lt (toS32 (toU32 (imm + addr)))
  have e : toU32 (toS32 (toU32 (imm + addr))) = toU32 (imm + addr) := by omega
  unfold to_hex32
  rw [Nat.mod_eq_of_lt l1, e, Int.add_comm]

theorem hex12_field (insn : Nat) :
    to_hex0x12 (toU32 (get_imm_i insn)) = contract_hex 3 (bitfield insn 31 20) := by
  have m1 : toU32 (get_imm_i insn) % 65536 &&& 0x0fff
      = toU32 (get_imm_i insn) % 65536 / 2 ^ 0 % 2 ^ 12 * 2 ^ 0 := and_mask _ 0 12
  have m2 : toU32 (get_imm_i insn) &&& 0x00000fff
      = toU32 (get_imm_i insn) / 2 ^ 0 % 2 ^ 12 * 2 ^ 0 := and_mask _ 0 12
  have k := csr_field insn
  have e : toU32 (get_imm_i insn) % 65536 &&& 0x0fff = bitfield insn 31 20 := by
    rw [← k, m1, m2]
    omega
  unfold to_hex0x12 contract_hex
  rw [e]

theorem text_upper (addr insn : Nat) (m : String) :
    render_mnemonic m ++ render_reg (get_rd insn) ++ "," ++ to_hex0x20 (toU32 (get_imm_u insn))
      = mnemonic_field m ++ contract_operands operand_form.upper addr insn := by
  rw [hex20_field]
  simp only [contract_operands, String.append_assoc]
  rfl

theorem text_jal (addr insn : Nat) :
    render_jal addr insn
      = mnemonic_field "jal" ++ contract_operands operand_form.jump addr insn := by
  unfold render_jal
  simp only [contract_operands, contract_target, contract_hex, comma_0x, hex_target,
    String.append_assoc]
  rfl

theorem text_jalr (addr insn : Nat) :
    render_jalr insn
      = mnemonic_field "jalr" ++ contract_operands operand_form.jump_reg addr insn := by
  unfold render_jalr render_base_disp
  simp only [contract_operands, contract_mem, paren_x, String.append_assoc]
  rfl

theorem text_btype (addr insn : Nat) (m : String) :
    render_btype addr insn m
      = mnemonic_field m ++ contract_operands operand_form.branch addr insn := by
  unfold render_btype
  simp only [contract_operands, contract_target, contract_hex, comma_0x, comma_x, hex_target,
    String.append_assoc]
  rfl

theorem text_load (addr insn : Nat) (m : String) :
    render_itype_load insn m
      = mnemonic_field m ++ contract_operands operand_form.load addr insn := by
  unfold render_itype_load render_base_disp
  simp only [contract_operands, contract_mem, paren_x, String.append_assoc]
  rfl

theorem text_store (addr insn : Nat) (m : String) :
    render_stype insn m
      = mnemonic_field m ++ contract_operands operand_form.store addr insn := by
  unfold render_stype render_base_disp
  simp only [contract_operands, contract_mem, paren_x, String.append_assoc]
  rfl

theorem text_alu_imm (addr insn : Nat) (m : String) :
    render_itype_alu insn m (get_imm_i insn)
      = mnemonic_field m ++ contract_operands operand_form.alu_imm addr insn := by
  unfold render_itype_alu
  simp only [contract_operands, comma_x, String.append_assoc]
  rfl

theorem text_shift_imm (addr insn : Nat) (m : String) :
    render_itype_alu insn m ((bitfield insn 24 20 : Nat) : Int)
      = mnemonic_field m ++ contract_operands operand_form.shift_imm addr insn := by
  unfold render_itype_alu
  simp only [contract_operands, comma_x, String.append_assoc]
  rfl

theorem text_rtype (addr insn : Nat) (m : String) :
    render_rtype insn m
      = mnemonic_field m ++ contract_operands operand_form.alu_reg addr insn := by
  unfold render_rtype
  simp only [contract_operands, comma_x, String.append_assoc]
  rfl

theorem text_csrrx (addr insn : Nat) (m : String) :
    render_csrrx insn m
      = mnemonic_field m ++ contract_operands operand_form.csr_reg addr insn := by
  unfold render_csrrx
  simp only [contract_operands, comma_x, hex12_field, String.append_assoc]
  rfl

theorem text_csrrxi (addr insn : Nat) (m : String) :
    render_csrrxi insn m
      = mnemonic_field m ++ contract_operands operand_form.csr_imm addr insn := by
  unfold render_csrrxi
  simp only [contract_operands, hex12_field, String.append_assoc]
  rfl

theorem matches_agree (insn : Nat) (e1 e2 : insn_entry) (m1 : entry_matches e1 insn = true)
    (m2 : entry_matches e2 insn = true) : keys_agree e1 e2 = true := by
  obtain ⟨n1, a1, b1, c1, d1, w1⟩ := e1
  obtain ⟨n2, a2, b2, c2, d2, w2⟩ := e2
  unfold entry_matches at m1 m2
  unfold keys_agree
  simp only [Bool.and_eq_true, decide_eq_true_eq] at m1 m2 ⊢
  obtain ⟨⟨⟨o1, f1⟩, g1⟩, k1⟩ := m1
  obtain ⟨⟨⟨o2, f2⟩, g2⟩, k2⟩ := m2
  refine ⟨⟨⟨o1.symm.trans o2, ?_⟩, ?_⟩, ?_⟩
  · cases c1 <;> cases c2 <;> simp_all [field_ok]
  · cases d1 <;> cases d2 <;> simp_all [field_ok]
  · cases w1 <;> cases w2 <;> simp_all [field_ok]

set_option maxRecDepth 1000000 in
theorem table_keys_disjoint :
    ∀ e1 ∈ instr_table, ∀ e2 ∈ instr_table, keys_agree e1 e2 = true → e1 = e2 := by
  decide

/-- Case analysis on a word along the `switch` of `decode`, with the entry of the
instruction table the word has the key of: a property of each rendering and its entry,
under the conditions of the `case` labels, and of the illegal-instruction text for a word
with no entry, is a property of the result of `decode` and of `lookup`.  The cases named
`loose` are those where `decode` does not look at `funct7`. -/
theorem decode_lookup (P : Option insn_entry → String → Prop) (addr insn : Nat)
    (h_lui : get_opcode insn = opcode_lui →
      P (some ⟨"lui", operand_form.upper, opcode_lui, none, none, none⟩)
        (render_lui insn))
    (h_auipc : get_opcode insn = opcode_auipc →
      P (some ⟨"auipc", operand_form.upper, opcode_auipc, none, none, none⟩)
        (render_auipc insn))
    (h_add : get_opcode insn = opcode_rtype → get_funct3 insn = funct3_add →
      get_funct7 insn = funct7_add →
      P (some ⟨"add", operand_form.alu_reg, opcode_rtype, some funct3_add, some funct7_add, none⟩)
        (render_rtype insn "add"))
    (h_sub : get_opcode insn = opcode_rtype → get_funct3 insn = funct3_add →
      get_funct7 insn = funct7_sub →
      P (some ⟨"sub", operand_form.alu_reg, opcode_rtype, some funct3_add, some funct7_sub, none⟩)
        (render_rtype insn "sub"))
    (h_sll : get_opcode insn = opcode_rtype → get_funct3 insn = funct3_sll →
      get_funct7 insn = 0 →
      P (some ⟨"sll", operand_form.alu_reg, opcode_rtype, some funct3_sll, some 0, none⟩)
        (render_rtype insn "sll"))
    (h_sll_loose : get_opcode insn = opcode_rtype → get_funct3 insn = funct3_sll →
      ¬ get_funct7 insn = 0 →
      P none (render_rtype insn "sll"))
    (h_slt : get_opcode insn = opcode_rtype → get_funct3 insn = funct3_slt →
      get_funct7 insn = 0 →
      P (some ⟨"slt", operand_form.alu_reg, opcode_rtype, some funct3_slt, some 0, none⟩)
        (render_rtype insn "slt"))
    (h_slt_loose : get_opcode insn = opcode_rtype → get_funct3 insn = funct3_slt →
      ¬ get_funct7 insn = 0 →
      P none (render_rtype insn "slt"))
    (h_sltu : get_opcode insn = opcode_rtype → get_funct3 insn = funct3_sltu →
      get_funct7 insn = 0 →
      P (some ⟨"sltu", operand_form.alu_reg, opcode_rtype, some funct3_sltu, some 0, none⟩)
        (render_rtype insn "sltu"))
    (h_sltu_loose : get_opcode insn = opcode_rtype → get_funct3 insn = funct3_sltu →
      ¬ get_funct7 insn = 0 →
      P none (render_rtype insn "sltu"))
    (h_xor : get_opcode insn = opcode_rtype → get_funct3 insn = funct3_xor →
      get_funct7 insn = 0 →
      P (some ⟨"xor", operand_form.alu_reg, opcode_rtype, some funct3_xor, some 0, none⟩)
        (render_rtype insn "xor"))
    (h_xor_loose : get_opcode insn = opcode_rtype → get_funct3 insn = funct3_xor →
      ¬ get_funct7 insn = 0 →
      P none (render_rtype insn "xor"))
    (h_srl : get_opcode insn = opcode_rtype → get_funct3 insn = funct3_srx →
      get_funct7 insn = funct7_srl →
      P (some ⟨"srl", operand_form.alu_reg, opcode_rtype, some funct3_srx, some funct7_srl, none⟩)
        (render_rtype insn "srl"))
    (h_sra : get_opcode insn = opcode_rtype → get_funct3 insn = funct3_srx →
      get_funct7 insn = funct7_sra →
      P (some ⟨"sra", operand_form.alu_reg, opcode_rtype, some funct3_srx, some funct7_sra, none⟩)
        (render_rtype insn "sra"))
    (h_or : get_opcode insn = opcode_rtype → get_funct3 insn = funct3_or →
      get_funct7 insn = 0 →
      P (some ⟨"or", operand_form.alu_reg, opcode_rtype, some funct3_or, some 0, none⟩)
        (render_rtype insn "or"))
    (h_or_loose : get_opcode insn = opcode_rtype → get_funct3 insn = funct3_or →
      ¬ get_funct7 insn = 0 →
      P none (render_rtype insn "or"))
    (h_and : get_opcode insn = opcode_rtype → get_funct3 insn = funct3_and →
      get_funct7 insn = 0 →
      P (some ⟨"and", operand_form.alu_reg, opcode_rtype, some funct3_and, some 0, none⟩)
        (render_rtype insn "and"))
    (h_and_loose : get_opcode insn = opcode_rtype → get_funct3 insn = funct3_and →
      ¬ get_funct7 insn = 0 →
      P none (render_rtype insn "and"))
    (h_sb : get_opcode insn = opcode_stype → get_funct3 insn = funct3_sb →
      P (some ⟨"sb", operand_form.store, opcode_stype, some funct3_sb, none, none⟩)
        (render_stype insn "sb"))
    (h_sh : get_opcode insn = opcode_stype → get_funct3 insn = funct3_sh →
      P (some ⟨"sh", operand_form.store, opcode_stype, some funct3_sh, none, none⟩)
        (render_stype insn "sh"))
    (h_sw : get_opcode insn = opcode_stype → get_funct3 insn = funct3_sw →
      P (some ⟨"sw", operand_form.store, opcode_stype, some funct3_sw, none, none⟩)
        (render_stype insn "sw"))
    (h_slli : get_opcode insn = opcode_alu_imm → get_funct3 insn = funct3_sll →
      get_funct7 insn = 0 →
      P (some ⟨"slli", operand_form.shift_imm, opcode_alu_imm, some funct3_sll, some 0, none⟩)
        (render_itype_alu insn "slli" (get_imm_i insn)))
    (h_slli_loose : get_opcode insn = opcode_alu_imm → get_funct3 insn = funct3_sll →
      ¬ get_funct7 insn = 0 →
      P none (render_itype_alu insn "slli" (get_imm_i insn)))
    (h_addi : get_opcode insn = opcode_alu_imm → get_funct3 insn = funct3_add →
      P (some ⟨"addi", operand_form.alu_imm, opcode_alu_imm, some funct3_add, none, none⟩)
        (render_itype_alu insn "addi" (get_imm_i insn)))
    (h_slti : get_opcode insn = opcode_alu_imm → get_funct3 insn = funct3_slt →
      P (some ⟨"slti", operand_form.alu_imm, opcode_alu_imm, some funct3_slt, none, none⟩)
        (render_itype_alu insn "slti" (get_imm_i insn)))
    (h_sltiu : get_opcode insn = opcode_alu_imm → get_funct3 insn = funct3_sltu →
      P (some ⟨"sltiu", operand_form.alu_imm, opcode_alu_imm, some funct3_sltu, none, none⟩)
        (render_itype_alu insn "sltiu" (get_imm_i insn)))
    (h_xori : get_opcode insn = opcode_alu_imm → get_funct3 insn = funct3_xor →
      P (some ⟨"xori", operand_form.alu_imm, opcode_alu_imm, some funct3_xor, none, none⟩)
        (render_itype_alu insn "xori" (get_imm_i insn)))
    (h_ori : get_opcode insn = opcode_alu_imm → get_funct3 insn = funct3_or →
      P (some ⟨"ori", operand_form.alu_imm, opcode_alu_imm, some funct3_or, none, none⟩)
        (render_itype_alu insn "ori" (get_imm_i insn)))
    (h_andi : get_opcode insn = opcode_alu_imm → get_funct3 insn = funct3_and →
      P (some ⟨"andi", operand_form.alu_imm, opcode_alu_imm, some funct3_and, none, none⟩)
        (render_itype_alu insn "andi" (get_imm_i insn)))
    (h_srli : get_opcode insn = opcode_alu_imm → get_funct3 insn = funct3_srx →
      get_funct7 insn = funct7_srl →
      P (some ⟨"srli", operand_form.shift_imm, opcode_alu_imm,
          some funct3_srx, some funct7_srl, none⟩)
        (render_itype_alu insn "srli" (get_imm_i insn)))
    (h_srai : get_opcode insn = opcode_alu_imm → get_funct3 insn = funct3_srx →
      get_funct7 insn = funct7_sra →
      P (some ⟨"srai", operand_form.shift_imm, opcode_alu_imm,
          some funct3_srx, some funct7_sra, none⟩)
        (render_itype_alu insn "srai" (toS32 (toU32 (get_imm_i insn) % XLEN))))
    (h_lb : get_opcode insn = opcode_load_imm → get_funct3 insn = funct3_lb →
      P (some ⟨"lb", operand_form.load, opcode_load_imm, some funct3_lb, none, none⟩)
        (render_itype_load insn "lb"))
    (h_lh : get_opcode insn = opcode_load_imm → get_funct3 insn = funct3_lh →
      P (some ⟨"lh", operand_form.load, opcode_load_imm, some funct3_lh, none, none⟩)
        (render_itype_load insn "lh"))
    (h_lw : get_opcode insn = opcode_load_imm → get_funct3 insn = funct3_lw →
      P (some ⟨"lw", operand_form.load, opcode_load_imm, some funct3_lw, none, none⟩)
        (render_itype_load insn "lw"))
    (h_lbu : get_opcode insn = opcode_load_imm → get_funct3 insn = funct3_lbu →
      P (some ⟨"lbu", operand_form.load, opcode_load_imm, some funct3_lbu, none, none⟩)
        (render_itype_load insn "lbu"))
    (h_lhu : get_opcode insn = opcode_load_imm → get_funct3 insn = funct3_lhu →
      P (some ⟨"lhu", operand_form.load, opcode_load_imm, some funct3_lhu, none, none⟩)
        (render_itype_load insn "lhu"))
    (h_beq : get_opcode insn = opcode_btype → get_funct3 insn = funct3_beq →
      P (some ⟨"beq", operand_form.branch, opcode_btype, some funct3_beq, none, none⟩)
        (render_btype addr insn "beq"))
    (h_bne : get_opcode insn = opcode_btype → get_funct3 insn = funct3_bne →
      P (some ⟨"bne", operand_form.branch, opcode_btype, some funct3_bne, none, none⟩)
        (render_btype addr insn "bne"))
    (h_blt : get_opcode insn = opcode_btype → get_funct3 insn = funct3_blt →
      P (some ⟨"blt", operand_form.branch, opcode_btype, some funct3_blt, none, none⟩)
        (render_btype addr insn "blt"))
    (h_bge : get_opcode insn = opcode_btype → get_funct3 insn = funct3_bge →
      P (some ⟨"bge", operand_form.branch, opcode_btype, some funct3_bge, none, none⟩)
        (render_btype addr insn "bge"))
    (h_bltu : get_opcode insn = opcode_btype → get_funct3 insn = funct3_bltu →
      P (some ⟨"bltu", operand_form.branch, opcode_btype, some funct3_bltu, none, none⟩)
        (render_btype addr insn "bltu"))
    (h_bgeu : get_opcode insn = opcode_btype → get_funct3 insn = funct3_bgeu →
      P (some ⟨"bgeu", operand_form.branch, opcode_btype, some funct3_bgeu, none, none⟩)
        (render_btype addr insn "bgeu"))
    (h_jal : get_opcode insn = opcode_jal →
      P (some ⟨"jal", operand_form.jump, opcode_jal, none, none, none⟩)
        (render_jal addr insn))
    (h_jalr : get_opcode insn = opcode_jalr →
      P (some ⟨"jalr", operand_form.jump_reg, opcode_jalr, none, none, none⟩)
        (render_jalr insn))
    (h_ecall : get_opcode insn = opcode_system → insn = insn_ecall →
      P (some ⟨"ecall", operand_form.bare, opcode_system, some 0, none, some insn_ecall⟩)
        (render_ecall insn))
    (h_ebreak : get_opcode insn = opcode_system → insn = insn_ebreak →
      P (some ⟨"ebreak", operand_form.bare, opcode_system, some 0, none, some insn_ebreak⟩)
        (render_ebreak insn))
    (h_csrrw : get_opcode insn = opcode_system → get_funct3 insn = funct3_csrrw →
      P (some ⟨"csrrw", operand_form.csr_reg, opcode_system, some funct3_csrrw, none, none⟩)
        (render_csrrx insn "csrrw"))
    (h_csrrs : get_opcode insn = opcode_system → get_funct3 insn = funct3_csrrs →
      P (some ⟨"csrrs", operand_form.csr_reg, opcode_system, some funct3_csrrs, none, none⟩)
        (render_csrrx insn "csrrs"))
    (h_csrrc : get_opcode insn = opcode_system → get_funct3 insn = funct3_csrrc →
      P (some ⟨"csrrc", operand_form.csr_reg, opcode_system, some funct3_csrrc, none, none⟩)
        (render_csrrx insn "csrrc"))
    (h_csrrwi : get_opcode insn = opcode_system → get_funct3 insn = funct3_csrrwi →
      P (some ⟨"csrrwi", operand_form.csr_imm, opcode_system, some funct3_csrrwi, none, none⟩)
        (render_csrrxi insn "csrrwi"))
    (h_csrrsi : get_opcode insn = opcode_system → get_funct3 insn = funct3_csrrsi →
      P (some ⟨"csrrsi", operand_form.csr_imm, opcode_system, some funct3_csrrsi, none, none⟩)
        (render_csrrxi insn "csrrsi"))
    (h_csrrci : get_opcode insn = opcode_system → get_funct3 insn = funct3_csrrci →
      P (some ⟨"csrrci", operand_form.csr_imm, opcode_system, some funct3_csrrci, none, none⟩)
        (render_csrrxi insn "csrrci"))
    (h_illegal : P none (render_illegal_insn insn)) :
    P (lookup insn) (decode addr insn) := by
  unfold decode
  dsimp only
  by_cases c1 : get_opcode insn = opcode_lui
  · rw [if_pos c1]
    have f1 : decide (get_opcode insn = opcode_lui) = true := decide_eq_true c1
    have e : lookup insn = some ⟨"lui", operand_form.upper, opcode_lui, none, none, none⟩ := by
      unfold lookup instr_table
      simp only [List.find?_cons, List.find?_nil, entry_matches, field_ok, f1, Bool.and_true,
        Bool.true_and, Bool.false_and, Bool.and_false]
    rw [e]
    exact h_lui c1
  rw [if_neg c1]
  by_cases c2 : get_opcode insn = opcode_auipc
  · rw [if_pos c2]
    have f1n : ¬ get_opcode insn = opcode_lui := by rw [c2]; decide
    have f1 : decide (get_opcode insn = opcode_lui) = false := decide_eq_false f1n
    have f2 : decide (get_opcode insn = opcode_auipc) = true := decide_eq_true c2
    have e : lookup insn
        = some ⟨"auipc", operand_form.upper, opcode_auipc, none, none, none⟩ := by
      unfold lookup instr_table
      simp only [List.find?_cons, List.find?_nil, entry_matches, field_ok, f1, f2, Bool.and_true,
        Bool.true_and, Bool.false_and, Bool.and_false]
    rw [e]
    exact h_auipc c2
  rw [if_neg c2]
  by_cases c3 : get_opcode insn = opcode_rtype
  · rw [if_pos c3]
    by_cases c4 : get_funct3 insn = funct3_add
    · rw [if_pos c4]
      by_cases c5 : get_funct7 insn = funct7_add
      · rw [if_pos c5]
        have f1n : ¬ get_opcode insn = opcode_lui := by rw [c3]; decide
        have f1 : decide (get_opcode insn = opcode_lui) = false := decide_eq_false f1n
        have f2n : ¬ get_opcode insn = opcode_auipc := by rw [c3]; decide
        have f2 : decide (get_opcode insn = opcode_auipc) = false := decide_eq_false f2n
        have f3 : decide (get_opcode insn = opcode_rtype) = true := decide_eq_true c3
        have f4 : decide (get_funct3 insn = funct3_add) = true := decide_eq_true c4
        have f5 : decide (get_funct7 insn = funct7_add) = true := decide_eq_true c5
        have e : lookup insn
            = some ⟨"add", operand_form.alu_reg, opcode_rtype,
                some funct3_add, some funct7_add, none⟩ := by
          unfold lookup instr_table
          simp only [List.find?_cons, List.find?_nil, entry_matches, field_ok, f1, f2, f3, f4,
            f5, Bool.and_true, Bool.true_and, Bool.false_and, Bool.and_false]
        rw [e]
        exact h_add c3 c4 c5
      rw [if_neg c5]
      by_cases c6 : get_funct7 insn = funct7_sub
      · rw [if_pos c6]
        have f1n : ¬ get_opcode insn = opcode_lui := by rw [c3]; decide
        have f1 : decide (get_opcode insn = opcode_lui) = false := decide_eq_false f1n
        have f2n : ¬ get_opcode insn = opcode_auipc := by rw [c3]; decide
        have f2 : decide (get_opcode insn = opcode_auipc) = false := decide_eq_false f2n
        have f3n : ¬ get_funct7 insn = funct7_add := by rw [c6]; decide
        have f3 : decide (get_funct7 insn = funct7_add) = false := decide_eq_false f3n
        have f4 : decide (get_opcode insn = opcode_rtype) = true := decide_eq_true c3
        have f5 : decide (get_funct3 insn = funct3_add) = true := decide_eq_true c4
        have f6 : decide (get_funct7 insn = funct7_sub) = true := decide_eq_true c6
        have e : lookup insn
            = some ⟨"sub", operand_form.alu_reg, opcode_rtype,
                some funct3_add, some funct7_sub, none⟩ := by
          unfold lookup instr_table
          simp only [List.find?_cons, List.find?_nil, entry_matches, field_ok, f1, f2, f3, f4,
            f5, f6, Bool.and_true, Bool.true_and, Bool.false_and, Bool.and_false]
        rw [e]
        exact h_sub c3 c4 c6
      rw [if_neg c6]
      have f1n : ¬ get_opcode insn = opcode_lui := by rw [c3]; decide
      have f1 : decide (get_opcode insn = opcode_lui) = false := decide_eq_false f1n
      have f2n : ¬ get_opcode insn = opcode_auipc := by rw [c3]; decide
      have f2 : decide (get_opcode insn = opcode_auipc) = false := decide_eq_false f2n
      have f3 : decide (get_funct7 insn = funct7_add) = false := decide_eq_false c5
      have f4 : decide (get_funct7 insn = funct7_sub) = false := decide_eq_false c6
      have f5n : ¬ get_funct3 insn = funct3_sll := by rw [c4]; decide
      have f5 : decide (get_funct3 insn = funct3_sll) = false := decide_eq_false f5n
      have f6n : ¬ get_funct3 insn = funct3_slt := by rw [c4]; decide
      have f6 : decide (get_funct3 insn = funct3_slt) = false := decide_eq_false f6n
      have f7n : ¬ get_funct3 insn = funct3_sltu := by rw [c4]; decide
      have f7 : decide (get_funct3 insn = funct3_sltu) = false := decide_eq_false f7n
      have f8n : ¬ get_funct3 insn = funct3_xor := by rw [c4]; decide
      have f8 : decide (get_funct3 insn = funct3_xor) = false := decide_eq_false f8n
      have f9n : ¬ get_funct3 insn = funct3_srx := by rw [c4]; decide
      have f9 : decide (get_funct3 insn = funct3_srx) = false := decide_eq_false f9n
      have f10n : ¬ get_funct3 insn = funct3_or := by rw [c4]; decide
      have f10 : decide (get_funct3 insn = funct3_or) = false := decide_eq_false f10n
      have f11n : ¬ get_funct3 insn = funct3_and := by rw [c4]; decide
      have f11 : decide (get_funct3 insn = funct3_and) = false := decide_eq_false f11n
      have f12n : ¬ get_opcode insn = opcode_stype := by rw [c3]; decide
      have f12 : decide (get_opcode insn = opcode_stype) = false := decide_eq_false f12n
      have f13n : ¬ get_opcode insn = opcode_alu_imm := by rw [c3]; decide
      have f13 : decide (get_opcode insn = opcode_alu_imm) = false := decide_eq_false f13n
      have f14n : ¬ get_opcode insn = opcode_load_imm := by rw [c3]; decide
      have f14 : decide (get_opcode insn = opcode_load_imm) = false := decide_eq_false f14n
      have f15n : ¬ get_opcode insn = opcode_btype := by rw [c3]; decide
      have f15 : decide (get_opcode insn = opcode_btype) = false := decide_eq_false f15n
      have f16n : ¬ get_opcode insn = opcode_jal := by rw [c3]; decide
      have f16 : decide (get_opcode insn = opcode_jal) = false := decide_eq_false f16n
      have f17n : ¬ get_opcode insn = opcode_jalr := by rw [c3]; decide
      have f17 : decide (get_opcode insn = opcode_jalr) = false := decide_eq_false f17n
      have f18n : ¬ get_opcode insn = opcode_system := by rw [c3]; decide
      have f18 : decide (get_opcode insn = opcode_system) = false := decide_eq_false f18n
      have e : lookup insn = none := by
        unfold lookup instr_table
        simp only [List.find?_cons, List.find?_nil, entry_matches, field_ok, f1, f2, f3, f4, f5,
          f6, f7, f8, f9, f10, f11, f12, f13, f14, f15, f16, f17, f18, Bool.and_true,
          Bool.true_and, Bool.false_and, Bool.and_false]
      rw [e]
      exact h_illegal
    rw [if_neg c4]
    by_cases c7 : get_funct3 insn = funct3_sll
    · rw [if_pos c7]
      by_cases z7 : get_funct7 insn = 0
      · have f1n : ¬ get_opcode insn = opcode_lui := by rw [c3]; decide
        have f1 : decide (get_opcode insn = opcode_lui) = false := decide_eq_false f1n
        have f2n : ¬ get_opcode insn = opcode_auipc := by rw [c3]; decide
        have f2 : decide (get_opcode insn = opcode_auipc) = false := decide_eq_false f2n
        have f3n : ¬ get_funct3 insn = funct3_add := by rw [c7]; decide
        have f3 : decide (get_funct3 insn = funct3_add) = false := decide_eq_false f3n
        have f4 : decide (get_opcode insn = opcode_rtype) = true := decide_eq_true c3
        have f5 : decide (get_funct3 insn = funct3_sll) = true := decide_eq_true c7
        have f6 : decide (get_funct7 insn = 0) = true := decide_eq_true z7
        have e : lookup insn
            = some ⟨"sll", operand_form.alu_reg, opcode_rtype,
                some funct3_sll, some 0, none⟩ := by
          unfold lookup instr_table
          simp only [List.find?_cons, List.find?_nil, entry_matches, field_ok, f1, f2, f3, f4,
            f5, f6, Bool.and_true, Bool.true_and, Bool.false_and, Bool.and_false]
        rw [e]
        exact h_sll c3 c7 z7
      have f1n : ¬ get_opcode insn = opcode_lui := by rw [c3]; decide
      have f1 : decide (get_opcode insn = opcode_lui) = false := decide_eq_false f1n
      have f2n : ¬ get_opcode insn = opcode_auipc := by rw [c3]; decide
      have f2 : decide (get_opcode insn = opcode_auipc) = false := decide_eq_false f2n
      have f3n : ¬ get_funct3 insn = funct3_add := by rw [c7]; decide
      have f3 : decide (get_funct3 insn = funct3_add) = false := decide_eq_false f3n
      have f4 : decide (get_funct7 insn = 0) = false := decide_eq_false z7
      have f5n : ¬ get_funct3 insn = funct3_slt := by rw [c7]; decide
      have f5 : decide (get_funct3 insn = funct3_slt) = false := decide_eq_false f5n
      have f6n : ¬ get_funct3 insn = funct3_sltu := by rw [c7]; decide
      have f6 : decide (get_funct3 insn = funct3_sltu) = false := decide_eq_false f6n
      have f7n : ¬ get_funct3 insn = funct3_xor := by rw [c7]; decide
      have f7 : decide (get_funct3 insn = funct3_xor) = false := decide_eq_false f7n
      have f8n : ¬ get_funct3 insn = funct3_srx := by rw [c7]; decide
      have f8 : decide (get_funct3 insn = funct3_srx) = false := decide_eq_false f8n
      have f9n : ¬ get_funct3 insn = funct3_or := by rw [c7]; decide
      have f9 : decide (get_funct3 insn = funct3_or) = false := decide_eq_false f9n
      have f10n : ¬ get_funct3 insn = funct3_and := by rw [c7]; decide
      have f10 : decide (get_funct3 insn = funct3_and) = false := decide_eq_false f10n
      have f11n : ¬ get_opcode insn = opcode_stype := by rw [c3]; decide
      have f11 : decide (get_opcode insn = opcode_stype) = false := decide_eq_false f11n
      have f12n : ¬ get_opcode insn = opcode_alu_imm := by rw [c3]; decide
      have f12 : decide (get_opcode insn = opcode_alu_imm) = false := decide_eq_false f12n
      have f13n : ¬ get_opcode insn = opcode_load_imm := by rw [c3]; decide
      have f13 : decide (get_opcode insn = opcode_load_imm) = false := decide_eq_false f13n
      have f14n : ¬ get_opcode insn = opcode_btype := by rw [c3]; decide
      have f14 : decide (get_opcode insn = opcode_btype) = false := decide_eq_false f14n
      have f15n : ¬ get_opcode insn = opcode_jal := by rw [c3]; decide
      have f15 : decide (get_opcode insn = opcode_jal) = false := decide_eq_false f15n
      have f16n : ¬ get_opcode insn = opcode_jalr := by rw [c3]; decide
      have f16 : decide (get_opcode insn = opcode_jalr) = false := decide_eq_false f16n
      have f17n : ¬ get_opcode insn = opcode_system := by rw [c3]; decide
      have f17 : decide (get_opcode insn = opcode_system) = false := decide_eq_false f17n
      have e : lookup insn = none := by
        unfold lookup instr_table
        simp only [List.find?_cons, List.find?_nil, entry_matches, field_ok, f1, f2, f3, f4, f5,
          f6, f7, f8, f9, f10, f11, f12, f13, f14, f15, f16, f17, Bool.and_true, Bool.true_and,
          Bool.false_and, Bool.and_false]
      rw [e]
      exact h_sll_loose c3 c7 z7
    rw [if_neg c7]
    by_cases c8 : get_funct3 insn = funct3_slt
    · rw [if_pos c8]
      by_cases z7 : get_funct7 insn = 0
      · have f1n : ¬ get_opcode insn = opcode_lui := by rw [c3]; decide
        have f1 : decide (get_opcode insn = opcode_lui) = false := decide_eq_false f1n
        have f2n : ¬ get_opcode insn = opcode_auipc := by rw [c3]; decide
        have f2 : decide (get_opcode insn = opcode_auipc) = false := decide_eq_false f2n
        have f3n : ¬ get_funct3 insn = funct3_add := by rw [c8]; decide
        have f3 : decide (get_funct3 insn = funct3_add) = false := decide_eq_false f3n
        have f4n : ¬ get_funct3 insn = funct3_sll := by rw [c8]; decide
        have f4 : decide (get_funct3 insn = funct3_sll) = false := decide_eq_false f4n
        have f5 : decide (get_opcode insn = opcode_rtype) = true := decide_eq_true c3
        have f6 : decide (get_funct3 insn = funct3_slt) = true := decide_eq_true c8
        have f7 : decide (get_funct7 insn = 0) = true := decide_eq_true z7
        have e : lookup insn
            = some ⟨"slt", operand_form.alu_reg, opcode_rtype,
                some funct3_slt, some 0, none⟩ := by
          unfold lookup instr_table
          simp only [List.find?_cons, List.find?_nil, entry_matches, field_ok, f1, f2, f3, f4,
            f5, f6, f7, Bool.and_true, Bool.true_and, Bool.false_and, Bool.and_false]
        rw [e]
        exact h_slt c3 c8 z7
      have f1n : ¬ get_opcode insn = opcode_lui := by rw [c3]; decide
      have f1 : decide (get_opcode insn = opcode_lui) = false := decide_eq_false f1n
      have f2n : ¬ get_opcode insn = opcode_auipc := by rw [c3]; decide
      have f2 : decide (get_opcode insn = opcode_auipc) = false := decide_eq_false f2n
      have f3n : ¬ get_funct3 insn = funct3_add := by rw [c8]; decide
      have f3 : decide (get_funct3 insn = funct3_add) = false := decide_eq_false f3n
      have f4n : ¬ get_funct3 insn = funct3_sll := by rw [c8]; decide
      have f4 : decide (get_funct3 insn = funct3_sll) = false := decide_eq_false f4n
      have f5 : decide (get_funct7 insn = 0) = false := decide_eq_false z7
      have f6n : ¬ get_funct3 insn = funct3_sltu := by rw [c8]; decide
      have f6 : decide (get_funct3 insn = funct3_sltu) = false := decide_eq_false f6n
      have f7n : ¬ get_funct3 insn = funct3_xor := by rw [c8]; decide
      have f7 : decide (get_funct3 insn = funct3_xor) = false := decide_eq_false f7n
      have f8n : ¬ get_funct3 insn = funct3_srx := by rw [c8]; decide
      have f8 : decide (get_funct3 insn = funct3_srx) = false := decide_eq_false f8n
      have f9n : ¬ get_funct3 insn = funct3_or := by rw [c8]; decide
      have f9 : decide (get_funct3 insn = funct3_or) = false := decide_eq_false f9n
      have f10n : ¬ get_funct3 insn = funct3_and := by rw [c8]; decide
      have f10 : decide (get_funct3 insn = funct3_and) = false := decide_eq_false f10n
      have f11n : ¬ get_opcode insn = opcode_stype := by rw [c3]; decide
      have f11 : decide (get_opcode insn = opcode_stype) = false := decide_eq_false f11n
      have f12n : ¬ get_opcode insn = opcode_alu_imm := by rw [c3]; decide
      have f12 : decide (get_opcode insn = opcode_alu_imm) = false := decide_eq_false f12n
      have f13n : ¬ get_opcode insn = opcode_load_imm := by rw [c3]; decide
      have f13 : decide (get_opcode insn = opcode_load_imm) = false := decide_eq_false f13n
      have f14n : ¬ get_opcode insn = opcode_btype := by rw [c3]; decide
      have f14 : decide (get_opcode insn = opcode_btype) = false := decide_eq_false f14n
      have f15n : ¬ get_opcode insn = opcode_jal := by rw [c3]; decide
      have f15 : decide (get_opcode insn = opcode_jal) = false := decide_eq_false f15n
      have f16n : ¬ get_opcode insn = opcode_jalr := by rw [c3]; decide
      have f16 : decide (get_opcode insn = opcode_jalr) = false := decide_eq_false f16n
      have f17n : ¬ get_opcode insn = opcode_system := by rw [c3]; decide
      have f17 : decide (get_opcode insn = opcode_system) = false := decide_eq_false f17n
      have e : lookup insn = none := by
        unfold lookup instr_table
        simp only [List.find?_cons, List.find?_nil, entry_matches, field_ok, f1, f2, f3, f4, f5,
          f6, f7, f8, f9, f10, f11, f12, f13, f14, f15, f16, f17, Bool.and_true, Bool.true_and,
          Bool.false_and, Bool.and_false]
      rw [e]
      exact h_slt_loose c3 c8 z7
    rw [if_neg c8]
    by_cases c9 : get_funct3 insn = funct3_sltu
    · rw [if_pos c9]
      by_cases z7 : get_funct7 insn = 0
      · have f1n : ¬ get_opcode insn = opcode_lui := by rw [c3]; decide
        have f1 : decide (get_opcode insn = opcode_lui) = false := decide_eq_false f1n
        have f2n : ¬ get_opcode insn = opcode_auipc := by rw [c3]; decide
        have f2 : decide (get_opcode insn = opcode_auipc) = false := decide_eq_false f2n
        have f3n : ¬ get_funct3 insn = funct3_add := by rw [c9]; decide
        have f3 : decide (get_funct3 insn = funct3_add) = false := decide_eq_false f3n
        have f4n : ¬ get_funct3 insn = funct3_sll := by rw [c9]; decide
        have f4 : decide (get_funct3 insn = funct3_sll) = false := decide_eq_false f4n
        have f5n : ¬ get_funct3 insn = funct3_slt := by rw [c9]; decide
        have f5 : decide (get_funct3 insn = funct3_slt) = false := decide_eq_false f5n
        have f6 : decide (get_opcode insn = opcode_rtype) = true := decide_eq_true c3
        have f7 : decide (get_funct3 insn = funct3_sltu) = true := decide_eq_true c9
        have f8 : decide (get_funct7 insn = 0) = true := decide_eq_true z7
        have e : lookup insn
            = some ⟨"sltu", operand_form.alu_reg, opcode_rtype,
                some funct3_sltu, some 0, none⟩ := by
          unfold lookup instr_table
          simp only [List.find?_cons, List.find?_nil, entry_matches, field_ok, f1, f2, f3, f4,
            f5, f6, f7, f8, Bool.and_true, Bool.true_and, Bool.false_and, Bool.and_false]
        rw [e]
        exact h_sltu c3 c9 z7
      have f1n : ¬ get_opcode insn = opcode_lui := by rw [c3]; decide
      have f1 : decide (get_opcode insn = opcode_lui) = false := decide_eq_false f1n
      have f2n : ¬ get_opcode insn = opcode_auipc := by rw [c3]; decide
      have f2 : decide (get_opcode insn = opcode_auipc) = false := decide_eq_false f2n
      have f3n : ¬ get_funct3 insn = funct3_add := by rw [c9]; decide
      have f3 : decide (get_funct3 insn = funct3_add) = false := decide_eq_false f3n
      have f4n : ¬ get_funct3 insn = funct3_sll := by rw [c9]; decide
      have f4 : decide (get_funct3 insn = funct3_sll) = false := decide_eq_false f4n
      have f5n : ¬ get_funct3 insn = funct3_slt := by rw [c9]; decide
      have f5 : decide (get_funct3 insn = funct3_slt) = false := decide_eq_false f5n
      have f6 : decide (get_funct7 insn = 0) = false := decide_eq_false z7
      have f7n : ¬ get_funct3 insn = funct3_xor := by rw [c9]; decide
      have f7 : decide (get_funct3 insn = funct3_xor) = false := decide_eq_false f7n
      have f8n : ¬ get_funct3 insn = funct3_srx := by rw [c9]; decide
      have f8 : decide (get_funct3 insn = funct3_srx) = false := decide_eq_false f8n
      have f9n : ¬ get_funct3 insn = funct3_or := by rw [c9]; decide
      have f9 : decide (get_funct3 insn = funct3_or) = false := decide_eq_false f9n
      have f10n : ¬ get_funct3 insn = funct3_and := by rw [c9]; decide
      have f10 : decide (get_funct3 insn = funct3_and) = false := decide_eq_false f10n
      have f11n : ¬ get_opcode insn = opcode_stype := by rw [c3]; decide
      have f11 : decide (get_opcode insn = opcode_stype) = false := decide_eq_false f11n
      have f12n : ¬ get_opcode insn = opcode_alu_imm := by rw [c3]; decide
      have f12 : decide (get_opcode insn = opcode_alu_imm) = false := decide_eq_false f12n
      have f13n : ¬ get_opcode insn = opcode_load_imm := by rw [c3]; decide
      have f13 : decide (get_opcode insn = opcode_load_imm) = false := decide_eq_false f13n
      have f14n : ¬ get_opcode insn = opcode_btype := by rw [c3]; decide
      have f14 : decide (get_opcode insn = opcode_btype) = false := decide_eq_false f14n
      have f15n : ¬ get_opcode insn = opcode_jal := by rw [c3]; decide
      have f15 : decide (get_opcode insn = opcode_jal) = false := decide_eq_false f15n
      have f16n : ¬ get_opcode insn = opcode_jalr := by rw [c3]; decide
      have f16 : decide (get_opcode insn = opcode_jalr) = false := decide_eq_false f16n
      have f17n : ¬ get_opcode insn = opcode_system := by rw [c3]; decide
      have f17 : decide (get_opcode insn = opcode_system) = false := decide_eq_false f17n
      have e : lookup insn = none := by
        unfold lookup instr_table
        simp only [List.find?_cons, List.find?_nil, entry_matches, field_ok, f1, f2, f3, f4, f5,
          f6, f7, f8, f9, f10, f11, f12, f13, f14, f15, f16, f17, Bool.and_true, Bool.true_and,
          Bool.false_and, Bool.and_false]
      rw [e]
      exact h_sltu_loose c3 c9 z7
    rw [if_neg c9]
    by_cases c10 : get_funct3 insn = funct3_xor
    · rw [if_pos c10]
      by_cases z7 : get_funct7 insn = 0
      · have f1n : ¬ get_opcode insn = opcode_lui := by rw [c3]; decide
        have f1 : decide (get_opcode insn = opcode_lui) = false := decide_eq_false f1n
        have f2n : ¬ get_opcode insn = opcode_auipc := by rw [c3]; decide
        have f2 : decide (get_opcode insn = opcode_auipc) = false := decide_eq_false f2n
        have f3n : ¬ get_funct3 insn = funct3_add := by rw [c10]; decide
        have f3 : decide (get_funct3 insn = funct3_add) = false := decide_eq_false f3n
        have f4n : ¬ get_funct3 insn = funct3_sll := by rw [c10]; decide
        have f4 : decide (get_funct3 insn = funct3_sll) = false := decide_eq_false f4n
        have f5n : ¬ get_funct3 insn = funct3_slt := by rw [c10]; decide
        have f5 : decide (get_funct3 insn = funct3_slt) = false := decide_eq_false f5n
        have f6n : ¬ get_funct3 insn = funct3_sltu := by rw [c10]; decide
        have f6 : decide (get_funct3 insn = funct3_sltu) = false := decide_eq_false f6n
        have f7 : decide (get_opcode insn = opcode_rtype) = true := decide_eq_true c3
        have f8 : decide (get_funct3 insn = funct3_xor) = true := decide_eq_true c10
        have f9 : decide (get_funct7 insn = 0) = true := decide_eq_true z7
        have e : lookup insn
            = some ⟨"xor", operand_form.alu_reg, opcode_rtype,
                some funct3_xor, some 0, none⟩ := by
          unfold lookup instr_table
          simp only [List.find?_cons, List.find?_nil, entry_matches, field_ok, f1, f2, f3, f4,
            f5, f6, f7, f8, f9, Bool.and_true, Bool.true_and, Bool.false_and, Bool.and_false]
        rw [e]
        exact h_xor c3 c10 z7
      have f1n : ¬ get_opcode insn = opcode_lui := by rw [c3]; decide
      have f1 : decide (get_opcode insn = opcode_lui) = false := decide_eq_false f1n
      have f2n : ¬ get_opcode insn = opcode_auipc := by rw [c3]; decide
      have f2 : decide (get_opcode insn = opcode_auipc) = false := decide_eq_false f2n
      have f3n : ¬ get_funct3 insn = funct3_add := by rw [c10]; decide
      have f3 : decide (get_funct3 insn = funct3_add) = false := decide_eq_false f3n
      have f4n : ¬ get_funct3 insn = funct3_sll := by rw [c10]; decide
      have f4 : decide (get_funct3 insn = funct3_sll) = false := decide_eq_false f4n
      have f5n : ¬ get_funct3 insn = funct3_slt := by rw [c10]; decide
      have f5 : decide (get_funct3 insn = funct3_slt) = false := decide_eq_false f5n
      have f6n : ¬ get_funct3 insn = funct3_sltu := by rw [c10]; decide
      have f6 : decide (get_funct3 insn = funct3_sltu) = false := decide_eq_false f6n
      have f7 : decide (get_funct7 insn = 0) = false := decide_eq_false z7
      have f8n : ¬ get_funct3 insn = funct3_srx := by rw [c10]; decide
      have f8 : decide (get_funct3 insn = funct3_srx) = false := decide_eq_false f8n
      have f9n : ¬ get_funct3 insn = funct3_or := by rw [c10]; decide
      have f9 : decide (get_funct3 insn = funct3_or) = false := decide_eq_false f9n
      have f10n : ¬ get_funct3 insn = funct3_and := by rw [c10]; decide
      have f10 : decide (get_funct3 insn = funct3_and) = false := decide_eq_false f10n
      have f11n : ¬ get_opcode insn = opcode_stype := by rw [c3]; decide
      have f11 : decide (get_opcode insn = opcode_stype) = false := decide_eq_false f11n
      have f12n : ¬ get_opcode insn = opcode_alu_imm := by rw [c3]; decide
      have f12 : decide (get_opcode insn = opcode_alu_imm) = false := decide_eq_false f12n
      have f13n : ¬ get_opcode insn = opcode_load_imm := by rw [c3]; decide
      have f13 : decide (get_opcode insn = opcode_load_imm) = false := decide_eq_false f13n
      have f14n : ¬ get_opcode insn = opcode_btype := by rw [c3]; decide
      have f14 : decide (get_opcode insn = opcode_btype) = false := decide_eq_false f14n
      have f15n : ¬ get_opcode insn = opcode_jal := by rw [c3]; decide
      have f15 : decide (get_opcode insn = opcode_jal) = false := decide_eq_false f15n
      have f16n : ¬ get_opcode insn = opcode_jalr := by rw [c3]; decide
      have f16 : decide (get_opcode insn = opcode_jalr) = false := decide_eq_false f16n
      have f17n : ¬ get_opcode insn = opcode_system := by rw [c3]; decide
      have f17 : decide (get_opcode insn = opcode_system) = false := decide_eq_false f17n
      have e : lookup insn = none := by
        unfold lookup instr_table
        simp only [List.find?_cons, List.find?_nil, entry_matches, field_ok, f1, f2, f3, f4, f5,
          f6, f7, f8, f9, f10, f11, f12, f13, f14, f15, f16, f17, Bool.and_true, Bool.true_and,
          Bool.false_and, Bool.and_false]
      rw [e]
      exact h_xor_loose c3 c10 z7
    rw [if_neg c10]
    by_cases c11 : get_funct3 insn = funct3_srx
    · rw [if_pos c11]
      by_cases c12 : get_funct7 insn = funct7_srl
      · rw [if_pos c12]
        have f1n : ¬ get_opcode insn = opcode_lui := by rw [c3]; decide
        have f1 : decide (get_opcode insn = opcode_lui) = false := decide_eq_false f1n
        have f2n : ¬ get_opcode insn = opcode_auipc := by rw [c3]; decide
        have f2 : decide (get_opcode insn = opcode_auipc) = false := decide_eq_false f2n
        have f3n : ¬ get_funct3 insn = funct3_add := by rw [c11]; decide
        have f3 : decide (get_funct3 insn = funct3_add) = false := decide_eq_false f3n
        have f4n : ¬ get_funct3 insn = funct3_sll := by rw [c11]; decide
        have f4 : decide (get_funct3 insn = funct3_sll) = false := decide_eq_false f4n
        have f5n : ¬ get_funct3 insn = funct3_slt := by rw [c11]; decide
        have f5 : decide (get_funct3 insn = funct3_slt) = false := decide_eq_false f5n
        have f6n : ¬ get_funct3 insn = funct3_sltu := by rw [c11]; decide
        have f6 : decide (get_funct3 insn = funct3_sltu) = false := decide_eq_false f6n
        have f7n : ¬ get_funct3 insn = funct3_xor := by rw [c11]; decide
        have f7 : decide (get_funct3 insn = funct3_xor) = false := decide_eq_false f7n
        have f8 : decide (get_opcode insn = opcode_rtype) = true := decide_eq_true c3
        have f9 : decide (get_funct3 insn = funct3_srx) = true := decide_eq_true c11
        have f10 : decide (get_funct7 insn = funct7_srl) = true := decide_eq_true c12
        have e : lookup insn
            = some ⟨"srl", operand_form.alu_reg, opcode_rtype,
                some funct3_srx, some funct7_srl, none⟩ := by
          unfold lookup instr_table
          simp only [List.find?_cons, List.find?_nil, entry_matches, field_ok, f1, f2, f3, f4,
            f5, f6, f7, f8, f9, f10, Bool.and_true, Bool.true_and, Bool.false_and,
            Bool.and_false]
        rw [e]
        exact h_srl c3 c11 c12
      rw [if_neg c12]
      by_cases c13 : get_funct7 insn = funct7_sra
      · rw [if_pos c13]
        have f1n : ¬ get_opcode insn = opcode_lui := by rw [c3]; decide
        have f1 : decide (get_opcode insn = opcode_lui) = false := decide_eq_false f1n
        have f2n : ¬ get_opcode insn = opcode_auipc := by rw [c3]; decide
        have f2 : decide (get_opcode insn = opcode_auipc) = false := decide_eq_false f2n
        have f3n : ¬ get_funct3 insn = funct3_add := by rw [c11]; decide
        have f3 : decide (get_funct3 insn = funct3_add) = false := decide_eq_false f3n
        have f4n : ¬ get_funct3 insn = funct3_sll := by rw [c11]; decide
        have f4 : decide (get_funct3 insn = funct3_sll) = false := decide_eq_false f4n
        have f5n : ¬ get_funct3 insn = funct3_slt := by rw [c11]; decide
        have f5 : decide (get_funct3 insn = funct3_slt) = false := decide_eq_false f5n
        have f6n : ¬ get_funct3 insn = funct3_sltu := by rw [c11]; decide
        have f6 : decide (get_funct3 insn = funct3_sltu) = false := decide_eq_false f6n
        have f7n : ¬ get_funct3 insn = funct3_xor := by rw [c11]; decide
        have f7 : decide (get_funct3 insn = funct3_xor) = false := decide_eq_false f7n
        have f8n : ¬ get_funct7 insn = funct7_srl := by rw [c13]; decide
        have f8 : decide (get_funct7 insn = funct7_srl) = false := decide_eq_false f8n
        have f9 : decide (get_opcode insn = opcode_rtype) = true := decide_eq_true c3
        have f10 : decide (get_funct3 insn = funct3_srx) = true := decide_eq_true c11
        have f11 : decide (get_funct7 insn = funct7_sra) = true := decide_eq_true c13
        have e : lookup insn
            = some ⟨"sra", operand_form.alu_reg, opcode_rtype,
                some funct3_srx, some funct7_sra, none⟩ := by
          unfold lookup instr_table
          simp only [List.find?_cons, List.find?_nil, entry_matches, field_ok, f1, f2, f3, f4,
            f5, f6, f7, f8, f9, f10, f11, Bool.and_true, Bool.true_and, Bool.false_and,
            Bool.and_false]
        rw [e]
        exact h_sra c3 c11 c13
      rw [if_neg c13]
      have f1n : ¬ get_opcode insn = opcode_lui := by rw [c3]; decide
      have f1 : decide (get_opcode insn = opcode_lui) = false := decide_eq_false f1n
      have f2n : ¬ get_opcode insn = opcode_auipc := by rw [c3]; decide
      have f2 : decide (get_opcode insn = opcode_auipc) = false := decide_eq_false f2n
      have f3n : ¬ get_funct3 insn = funct3_add := by rw [c11]; decide
      have f3 : decide (get_funct3 insn = funct3_add) = false := decide_eq_false f3n
      have f4n : ¬ get_funct3 insn = funct3_sll := by rw [c11]; decide
      have f4 : decide (get_funct3 insn = funct3_sll) = false := decide_eq_false f4n
      have f5n : ¬ get_funct3 insn = funct3_slt := by rw [c11]; decide
      have f5 : decide (get_funct3 insn = funct3_slt) = false := decide_eq_false f5n
      have f6n : ¬ get_funct3 insn = funct3_sltu := by rw [c11]; decide
      have f6 : decide (get_funct3 insn = funct3_sltu) = false := decide_eq_false f6n
      have f7n : ¬ get_funct3 insn = funct3_xor := by rw [c11]; decide
      have f7 : decide (get_funct3 insn = funct3_xor) = false := decide_eq_false f7n
      have f8 : decide (get_funct7 insn = funct7_srl) = false := decide_eq_false c12
      have f9 : decide (get_funct7 insn = funct7_sra) = false := decide_eq_false c13
      have f10n : ¬ get_funct3 insn = funct3_or := by rw [c11]; decide
      have f10 : decide (get_funct3 insn = funct3_or) = false := decide_eq_false f10n
      have f11n : ¬ get_funct3 insn = funct3_and := by rw [c11]; decide
      have f11 : decide (get_funct3 insn = funct3_and) = false := decide_eq_false f11n
      have f12n : ¬ get_opcode insn = opcode_stype := by rw [c3]; decide
      have f12 : decide (get_opcode insn = opcode_stype) = false := decide_eq_false f12n
      have f13n : ¬ get_opcode insn = opcode_alu_imm := by rw [c3]; decide
      have f13 : decide (get_opcode insn = opcode_alu_imm) = false := decide_eq_false f13n
      have f14n : ¬ get_opcode insn = opcode_load_imm := by rw [c3]; decide
      have f14 : decide (get_opcode insn = opcode_load_imm) = false := decide_eq_false f14n
      have f15n : ¬ get_opcode insn = opcode_btype := by rw [c3]; decide
      have f15 : decide (get_opcode insn = opcode_btype) = false := decide_eq_false f15n
      have f16n : ¬ get_opcode insn = opcode_jal := by rw [c3]; decide
      have f16 : decide (get_opcode insn = opcode_jal) = false := decide_eq_false f16n
      have f17n : ¬ get_opcode insn = opcode_jalr := by rw [c3]; decide
      have f17 : decide (get_opcode insn = opcode_jalr) = false := decide_eq_false f17n
      have f18n : ¬ get_opcode insn = opcode_system := by rw [c3]; decide
      have f18 : decide (get_opcode insn = opcode_system) = false := decide_eq_false f18n
      have e : lookup insn = none := by
        unfold lookup instr_table
        simp only [List.find?_cons, List.find?_nil, entry_matches, field_ok, f1, f2, f3, f4, f5,
          f6, f7, f8, f9, f10, f11, f12, f13, f14, f15, f16, f17, f18, Bool.and_true,
          Bool.true_and, Bool.false_and, Bool.and_false]
      rw [e]
      exact h_illegal
    rw [if_neg c11]
    by_cases c14 : get_funct3 insn = funct3_or
    · rw [if_pos c14]
      by_cases z7 : get_funct7 insn = 0
      · have f1n : ¬ get_opcode insn = opcode_lui := by rw [c3]; decide
        have f1 : decide (get_opcode insn = opcode_lui) = false := decide_eq_false f1n
        have f2n : ¬ get_opcode insn = opcode_auipc := by rw [c3]; decide
        have f2 : decide (get_opcode insn = opcode_auipc) = false := decide_eq_false f2n
        have f3n : ¬ get_funct3 insn = funct3_add := by rw [c14]; decide
        have f3 : decide (get_funct3 insn = funct3_add) = false := decide_eq_false f3n
        have f4n : ¬ get_funct3 insn = funct3_sll := by rw [c14]; decide
        have f4 : decide (get_funct3 insn = funct3_sll) = false := decide_eq_false f4n
        have f5n : ¬ get_funct3 insn = funct3_slt := by rw [c14]; decide
        have f5 : decide (get_funct3 insn = funct3_slt) = false := decide_eq_false f5n
        have f6n : ¬ get_funct3 insn = funct3_sltu := by rw [c14]; decide
        have f6 : decide (get_funct3 insn = funct3_sltu) = false := decide_eq_false f6n
        have f7n : ¬ get_funct3 insn = funct3_xor := by rw [c14]; decide
        have f7 : decide (get_funct3 insn = funct3_xor) = false := decide_eq_false f7n
        have f8n : ¬ get_funct3 insn = funct3_srx := by rw [c14]; decide
        have f8 : decide (get_funct3 insn = funct3_srx) = false := decide_eq_false f8n
        have f9 : decide (get_opcode insn = opcode_rtype) = true := decide_eq_true c3
        have f10 : decide (get_funct3 insn = funct3_or) = true := decide_eq_true c14
        have f11 : decide (get_funct7 insn = 0) = true := decide_eq_true z7
        have e : lookup insn
            = some ⟨"or", operand_form.alu_reg, opcode_rtype, some funct3_or, some 0, none⟩ := by
          unfold lookup instr_table
          simp only [List.find?_cons, List.find?_nil, entry_matches, field_ok, f1, f2, f3, f4,
            f5, f6, f7, f8, f9, f10, f11, Bool.and_true, Bool.true_and, Bool.false_and,
            Bool.and_false]
        rw [e]
        exact h_or c3 c14 z7
      have f1n : ¬ get_opcode insn = opcode_lui := by rw [c3]; decide
      have f1 : decide (get_opcode insn = opcode_lui) = false := decide_eq_false f1n
      have f2n : ¬ get_opcode insn = opcode_auipc := by rw [c3]; decide
      have f2 : decide (get_opcode insn = opcode_auipc) = false := decide_eq_false f2n
      have f3n : ¬ get_funct3 insn = funct3_add := by rw [c14]; decide
      have f3 : decide (get_funct3 insn = funct3_add) = false := decide_eq_false f3n
      have f4n : ¬ get_funct3 insn = funct3_sll := by rw [c14]; decide
      have f4 : decide (get_funct3 insn = funct3_sll) = false := decide_eq_false f4n
      have f5n : ¬ get_funct3 insn = funct3_slt := by rw [c14]; decide
      have f5 : decide (get_funct3 insn = funct3_slt) = false := decide_eq_false f5n
      have f6n : ¬ get_funct3 insn = funct3_sltu := by rw [c14]; decide
      have f6 : decide (get_funct3 insn = funct3_sltu) = false := decide_eq_false f6n
      have f7n : ¬ get_funct3 insn = funct3_xor := by rw [c14]; decide
      have f7 : decide (get_funct3 insn = funct3_xor) = false := decide_eq_false f7n
      have f8n : ¬ get_funct3 insn = funct3_srx := by rw [c14]; decide
      have f8 : decide (get_funct3 insn = funct3_srx) = false := decide_eq_false f8n
      have f9 : decide (get_funct7 insn = 0) = false := decide_eq_false z7
      have f10n : ¬ get_funct3 insn = funct3_and := by rw [c14]; decide
      have f10 : decide (get_funct3 insn = funct3_and) = false := decide_eq_false f10n
      have f11n : ¬ get_opcode insn = opcode_stype := by rw [c3]; decide
      have f11 : decide (get_opcode insn = opcode_stype) = false := decide_eq_false f11n
      have f12n : ¬ get_opcode insn = opcode_alu_imm := by rw [c3]; decide
      have f12 : decide (get_opcode insn = opcode_alu_imm) = false := decide_eq_false f12n
      have f13n : ¬ get_opcode insn = opcode_load_imm := by rw [c3]; decide
      have f13 : decide (get_opcode insn = opcode_load_imm) = false := decide_eq_false f13n
      have f14n : ¬ get_opcode insn = opcode_btype := by rw [c3]; decide
      have f14 : decide (get_opcode insn = opcode_btype) = false := decide_eq_false f14n
      have f15n : ¬ get_opcode insn = opcode_jal := by rw [c3]; decide
      have f15 : decide (get_opcode insn = opcode_jal) = false := decide_eq_false f15n
      have f16n : ¬ get_opcode insn = opcode_jalr := by rw [c3]; decide
      have f16 : decide (get_opcode insn = opcode_jalr) = false := decide_eq_false f16n
      have f17n : ¬ get_opcode insn = opcode_system := by rw [c3]; decide
      have f17 : decide (get_opcode insn = opcode_system) = false := decide_eq_false f17n
      have e : lookup insn = none := by
        unfold lookup instr_table
        simp only [List.find?_cons, List.find?_nil, entry_matches, field_ok, f1, f2, f3, f4, f5,
          f6, f7, f8, f9, f10, f11, f12, f13, f14, f15, f16, f17, Bool.and_true, Bool.true_and,
          Bool.false_and, Bool.and_false]
      rw [e]
      exact h_or_loose c3 c14 z7
    rw [if_neg c14]
    by_cases c15 : get_funct3 insn = funct3_and
    · rw [if_pos c15]
      by_cases z7 : get_funct7 insn = 0
      · have f1n : ¬ get_opcode insn = opcode_lui := by rw [c3]; decide
        have f1 : decide (get_opcode insn = opcode_lui) = false := decide_eq_false f1n
        have f2n : ¬ get_opcode insn = opcode_auipc := by rw [c3]; decide
        have f2 : decide (get_opcode insn = opcode_auipc) = false := decide_eq_false f2n
        have f3n : ¬ get_funct3 insn = funct3_add := by rw [c15]; decide
        have f3 : decide (get_funct3 insn = funct3_add) = false := decide_eq_false f3n
        have f4n : ¬ get_funct3 insn = funct3_sll := by rw [c15]; decide
        have f4 : decide (get_funct3 insn = funct3_sll) = false := decide_eq_false f4n
        have f5n : ¬ get_funct3 insn = funct3_slt := by rw [c15]; decide
        have f5 : decide (get_funct3 insn = funct3_slt) = false := decide_eq_false f5n
        have f6n : ¬ get_funct3 insn = funct3_sltu := by rw [c15]; decide
        have f6 : decide (get_funct3 insn = funct3_sltu) = false := decide_eq_false f6n
        have f7n : ¬ get_funct3 insn = funct3_xor := by rw [c15]; decide
        have f7 : decide (get_funct3 insn = funct3_xor) = false := decide_eq_false f7n
        have f8n : ¬ get_funct3 insn = funct3_srx := by rw [c15]; decide
        have f8 : decide (get_funct3 insn = funct3_srx) = false := decide_eq_false f8n
        have f9n : ¬ get_funct3 insn = funct3_or := by rw [c15]; decide
        have f9 : decide (get_funct3 insn = funct3_or) = false := decide_eq_false f9n
        have f10 : decide (get_opcode insn = opcode_rtype) = true := decide_eq_true c3
        have f11 : decide (get_funct3 insn = funct3_and) = true := decide_eq_true c15
        have f12 : decide (get_funct7 insn = 0) = true := decide_eq_true z7
        have e : lookup insn
            = some ⟨"and", operand_form.alu_reg, opcode_rtype,
                some funct3_and, some 0, none⟩ := by
          unfold lookup instr_table
          simp only [List.find?_cons, List.find?_nil, entry_matches, field_ok, f1, f2, f3, f4,
            f5, f6, f7, f8, f9, f10, f11, f12, Bool.and_true, Bool.true_and, Bool.false_and,
            Bool.and_false]
        rw [e]
        exact h_and c3 c15 z7
      have f1n : ¬ get_opcode insn = opcode_lui := by rw [c3]; decide
      have f1 : decide (get_opcode insn = opcode_lui) = false := decide_eq_false f1n
      have f2n : ¬ get_opcode insn = opcode_auipc := by rw [c3]; decide
      have f2 : decide (get_opcode insn = opcode_auipc) = false := decide_eq_false f2n
      have f3n : ¬ get_funct3 insn = funct3_add := by rw [c15]; decide
      have f3 : decide (get_funct3 insn = funct3_add) = false := decide_eq_false f3n
      have f4n : ¬ get_funct3 insn = funct3_sll := by rw [c15]; decide
      have f4 : decide (get_funct3 insn = funct3_sll) = false := decide_eq_false f4n
      have f5n : ¬ get_funct3 insn = funct3_slt := by rw [c15]; decide
      have f5 : decide (get_funct3 insn = funct3_slt) = false := decide_eq_false f5n
      have f6n : ¬ get_funct3 insn = funct3_sltu := by rw [c15]; decide
      have f6 : decide (get_funct3 insn = funct3_sltu) = false := decide_eq_false f6n
      have f7n : ¬ get_funct3 insn = funct3_xor := by rw [c15]; decide
      have f7 : decide (get_funct3 insn = funct3_xor) = false := decide_eq_false f7n
      have f8n : ¬ get_funct3 insn = funct3_srx := by rw [c15]; decide
      have f8 : decide (get_funct3 insn = funct3_srx) = false := decide_eq_false f8n
      have f9n : ¬ get_funct3 insn = funct3_or := by rw [c15]; decide
      have f9 : decide (get_funct3 insn = funct3_or) = false := decide_eq_false f9n
      have f10 : decide (get_funct7 insn = 0) = false := decide_eq_false z7
      have f11n : ¬ get_opcode insn = opcode_stype := by rw [c3]; decide
      have f11 : decide (get_opcode insn = opcode_stype) = false := decide_eq_false f11n
      have f12n : ¬ get_opcode insn = opcode_alu_imm := by rw [c3]; decide
      have f12 : decide (get_opcode insn = opcode_alu_imm) = false := decide_eq_false f12n
      have f13n : ¬ get_opcode insn = opcode_load_imm := by rw [c3]; decide
      have f13 : decide (get_opcode insn = opcode_load_imm) = false := decide_eq_false f13n
      have f14n : ¬ get_opcode insn = opcode_btype := by rw [c3]; decide
      have f14 : decide (get_opcode insn = opcode_btype) = false := decide_eq_false f14n
      have f15n : ¬ get_opcode insn = opcode_jal := by rw [c3]; decide
      have f15 : decide (get_opcode insn = opcode_jal) = false := decide_eq_false f15n
      have f16n : ¬ get_opcode insn = opcode_jalr := by rw [c3]; decide
      have f16 : decide (get_opcode insn = opcode_jalr) = false := decide_eq_false f16n
      have f17n : ¬ get_opcode insn = opcode_system := by rw [c3]; decide
      have f17 : decide (get_opcode insn = opcode_system) = false := decide_eq_false f17n
      have e : lookup insn = none := by
        unfold lookup instr_table
        simp only [List.find?_cons, List.find?_nil, entry_matches, field_ok, f1, f2, f3, f4, f5,
          f6, f7, f8, f9, f10, f11, f12, f13, f14, f15, f16, f17, Bool.and_true, Bool.true_and,
          Bool.false_and, Bool.and_false]
      rw [e]
      exact h_and_loose c3 c15 z7
    rw [if_neg c15]
    have f1n : ¬ get_opcode insn = opcode_lui := by rw [c3]; decide
    have f1 : decide (get_opcode insn = opcode_lui) = false := decide_eq_false f1n
    have f2n : ¬ get_opcode insn = opcode_auipc := by rw [c3]; decide
    have f2 : decide (get_opcode insn = opcode_auipc) = false := decide_eq_false f2n
    have f3 : decide (get_funct3 insn = funct3_add) = false := decide_eq_false c4
    have f4 : decide (get_funct3 insn = funct3_sll) = false := decide_eq_false c7
    have f5 : decide (get_funct3 insn = funct3_slt) = false := decide_eq_false c8
    have f6 : decide (get_funct3 insn = funct3_sltu) = false := decide_eq_false c9
    have f7 : decide (get_funct3 insn = funct3_xor) = false := decide_eq_false c10
    have f8 : decide (get_funct3 insn = funct3_srx) = false := decide_eq_false c11
    have f9 : decide (get_funct3 insn = funct3_or) = false := decide_eq_false c14
    have f10 : decide (get_funct3 insn = funct3_and) = false := decide_eq_false c15
    have f11n : ¬ get_opcode insn = opcode_stype := by rw [c3]; decide
    have f11 : decide (get_opcode insn = opcode_stype) = false := decide_eq_false f11n
    have f12n : ¬ get_opcode insn = opcode_alu_imm := by rw [c3]; decide
    have f12 : decide (get_opcode insn = opcode_alu_imm) = false := decide_eq_false f12n
    have f13n : ¬ get_opcode insn = opcode_load_imm := by rw [c3]; decide
    have f13 : decide (get_opcode insn = opcode_load_imm) = false := decide_eq_false f13n
    have f14n : ¬ get_opcode insn = opcode_btype := by rw [c3]; decide
    have f14 : decide (get_opcode insn = opcode_btype) = false := decide_eq_false f14n
    have f15n : ¬ get_opcode insn = opcode_jal := by rw [c3]; decide
    have f15 : decide (get_opcode insn = opcode_jal) = false := decide_eq_false f15n
    have f16n : ¬ get_opcode insn = opcode_jalr := by rw [c3]; decide
    have f16 : decide (get_opcode insn = opcode_jalr) = false := decide_eq_false f16n
    have f17n : ¬ get_opcode insn = opcode_system := by rw [c3]; decide
    have f17 : decide (get_opcode insn = opcode_system) = false := decide_eq_false f17n
    have e : lookup insn = none := by
      unfold lookup instr_table
      simp only [List.find?_cons, List.find?_nil, entry_matches, field_ok, f1, f2, f3, f4, f5,
        f6, f7, f8, f9, f10, f11, f12, f13, f14, f15, f16, f17, Bool.and_true, Bool.true_and,
        Bool.false_and, Bool.and_false]
    rw [e]
    exact h_illegal
  rw [if_neg c3]
  by_cases c16 : get_opcode insn = opcode_stype
  · rw [if_pos c16]
    by_cases c17 : get_funct3 insn = funct3_sb
    · rw [if_pos c17]
      have f1n : ¬ get_opcode insn = opcode_lui := by rw [c16]; decide
      have f1 : decide (get_opcode insn = opcode_lui) = false := decide_eq_false f1n
      have f2n : ¬ get_opcode insn = opcode_auipc := by rw [c16]; decide
      have f2 : decide (get_opcode insn = opcode_auipc) = false := decide_eq_false f2n
      have f3n : ¬ get_opcode insn = opcode_rtype := by rw [c16]; decide
      have f3 : decide (get_opcode insn = opcode_rtype) = false := decide_eq_false f3n
      have f4 : decide (get_opcode insn = opcode_stype) = true := decide_eq_true c16
      have f5 : decide (get_funct3 insn = funct3_sb) = true := decide_eq_true c17
      have e : lookup insn
          = some ⟨"sb", operand_form.store, opcode_stype, some funct3_sb, none, none⟩ := by
        unfold lookup instr_table
        simp only [List.find?_cons, List.find?_nil, entry_matches, field_ok, f1, f2, f3, f4, f5,
          Bool.and_true, Bool.true_and, Bool.false_and, Bool.and_false]
      rw [e]
      exact h_sb c16 c17
    rw [if_neg c17]
    by_cases c18 : get_funct3 insn = funct3_sh
    · rw [if_pos c18]
      have f1n : ¬ get_opcode insn = opcode_lui := by rw [c16]; decide
      have f1 : decide (get_opcode insn = opcode_lui) = false := decide_eq_false f1n
      have f2n : ¬ get_opcode insn = opcode_auipc := by rw [c16]; decide
      have f2 : decide (get_opcode insn = opcode_auipc) = false := decide_eq_false f2n
      have f3n : ¬ get_opcode insn = opcode_rtype := by rw [c16]; decide
      have f3 : decide (get_opcode insn = opcode_rtype) = false := decide_eq_false f3n
      have f4n : ¬ get_funct3 insn = funct3_sb := by rw [c18]; decide
      have f4 : decide (get_funct3 insn = funct3_sb) = false := decide_eq_false f4n
      have f5 : decide (get_opcode insn = opcode_stype) = true := decide_eq_true c16
      have f6 : decide (get_funct3 insn = funct3_sh) = true := decide_eq_true c18
      have e : lookup insn
          = some ⟨"sh", operand_form.store, opcode_stype, some funct3_sh, none, none⟩ := by
        unfold lookup instr_table
        simp only [List.find?_cons, List.find?_nil, entry_matches, field_ok, f1, f2, f3, f4, f5,
          f6, Bool.and_true, Bool.true_and, Bool.false_and, Bool.and_false]
      rw [e]
      exact h_sh c16 c18
    rw [if_neg c18]
    by_cases c19 : get_funct3 insn = funct3_sw
    · rw [if_pos c19]
      have f1n : ¬ get_opcode insn = opcode_lui := by rw [c16]; decide
      have f1 : decide (get_opcode insn = opcode_lui) = false := decide_eq_false f1n
      have f2n : ¬ get_opcode insn = opcode_auipc := by rw [c16]; decide
      have f2 : decide (get_opcode insn = opcode_auipc) = false := decide_eq_false f2n
      have f3n : ¬ get_opcode insn = opcode_rtype := by rw [c16]; decide
      have f3 : decide (get_opcode insn = opcode_rtype) = false := decide_eq_false f3n
      have f4n : ¬ get_funct3 insn = funct3_sb := by rw [c19]; decide
      have f4 : decide (get_funct3 insn = funct3_sb) = false := decide_eq_false f4n
      have f5n : ¬ get_funct3 insn = funct3_sh := by rw [c19]; decide
      have f5 : decide (get_funct3 insn = funct3_sh) = false := decide_eq_false f5n
      have f6 : decide (get_opcode insn = opcode_stype) = true := decide_eq_true c16
      have f7 : decide (get_funct3 insn = funct3_sw) = true := decide_eq_true c19
      have e : lookup insn
          = some ⟨"sw", operand_form.store, opcode_stype, some funct3_sw, none, none⟩ := by
        unfold lookup instr_table
        simp only [List.find?_cons, List.find?_nil, entry_matches, field_ok, f1, f2, f3, f4, f5,
          f6, f7, Bool.and_true, Bool.true_and, Bool.false_and, Bool.and_false]
      rw [e]
      exact h_sw c16 c19
    rw [if_neg c19]
    have f1n : ¬ get_opcode insn = opcode_lui := by rw [c16]; decide
    have f1 : decide (get_opcode insn = opcode_lui) = false := decide_eq_false f1n
    have f2n : ¬ get_opcode insn = opcode_auipc := by rw [c16]; decide
    have f2 : decide (get_opcode insn = opcode_auipc) = false := decide_eq_false f2n
    have f3n : ¬ get_opcode insn = opcode_rtype := by rw [c16]; decide
    have f3 : decide (get_opcode insn = opcode_rtype) = false := decide_eq_false f3n
    have f4 : decide (get_funct3 insn = funct3_sb) = false := decide_eq_false c17
    have f5 : decide (get_funct3 insn = funct3_sh) = false := decide_eq_false c18
    have f6 : decide (get_funct3 insn = funct3_sw) = false := decide_eq_false c19
    have f7n : ¬ get_opcode insn = opcode_alu_imm := by rw [c16]; decide
    have f7 : decide (get_opcode insn = opcode_alu_imm) = false := decide_eq_false f7n
    have f8n : ¬ get_opcode insn = opcode_load_imm := by rw [c16]; decide
    have f8 : decide (get_opcode insn = opcode_load_imm) = false := decide_eq_false f8n
    have f9n : ¬ get_opcode insn = opcode_btype := by rw [c16]; decide
    have f9 : decide (get_opcode insn = opcode_btype) = false := decide_eq_false f9n
    have f10n : ¬ get_opcode insn = opcode_jal := by rw [c16]; decide
    have f10 : decide (get_opcode insn = opcode_jal) = false := decide_eq_false f10n
    have f11n : ¬ get_opcode insn = opcode_jalr := by rw [c16]; decide
    have f11 : decide (get_opcode insn = opcode_jalr) = false := decide_eq_false f11n
    have f12n : ¬ get_opcode insn = opcode_system := by rw [c16]; decide
    have f12 : decide (get_opcode insn = opcode_system) = false := decide_eq_false f12n
    have e : lookup insn = none := by
      unfold lookup instr_table
      simp only [List.find?_cons, List.find?_nil, entry_matches, field_ok, f1, f2, f3, f4, f5,
        f6, f7, f8, f9, f10, f11, f12, Bool.and_true, Bool.true_and, Bool.false_and,
        Bool.and_false]
    rw [e]
    exact h_illegal
  rw [if_neg c16]
  by_cases c20 : get_opcode insn = opcode_alu_imm
  · rw [if_pos c20]
    by_cases c21 : get_funct3 insn = funct3_sll
    · rw [if_pos c21]
      by_cases z7 : get_funct7 insn = 0
      · have f1n : ¬ get_opcode insn = opcode_lui := by rw [c20]; decide
        have f1 : decide (get_opcode insn = opcode_lui) = false := decide_eq_false f1n
        have f2n : ¬ get_opcode insn = opcode_auipc := by rw [c20]; decide
        have f2 : decide (get_opcode insn = opcode_auipc) = false := decide_eq_false f2n
        have f3n : ¬ get_opcode insn = opcode_rtype := by rw [c20]; decide
        have f3 : decide (get_opcode insn = opcode_rtype) = false := decide_eq_false f3n
        have f4n : ¬ get_opcode insn = opcode_stype := by rw [c20]; decide
        have f4 : decide (get_opcode insn = opcode_stype) = false := decide_eq_false f4n
        have f5 : decide (get_opcode insn = opcode_alu_imm) = true := decide_eq_true c20
        have f6 : decide (get_funct3 insn = funct3_sll) = true := decide_eq_true c21
        have f7 : decide (get_funct7 insn = 0) = true := decide_eq_true z7
        have e : lookup insn
            = some ⟨"slli", operand_form.shift_imm, opcode_alu_imm,
                some funct3_sll, some 0, none⟩ := by
          unfold lookup instr_table
          simp only [List.find?_cons, List.find?_nil, entry_matches, field_ok, f1, f2, f3, f4,
            f5, f6, f7, Bool.and_true, Bool.true_and, Bool.false_and, Bool.and_false]
        rw [e]
        exact h_slli c20 c21 z7
      have f1n : ¬ get_opcode insn = opcode_lui := by rw [c20]; decide
      have f1 : decide (get_opcode insn = opcode_lui) = false := decide_eq_false f1n
      have f2n : ¬ get_opcode insn = opcode_auipc := by rw [c20]; decide
      have f2 : decide (get_opcode insn = opcode_auipc) = false := decide_eq_false f2n
      have f3n : ¬ get_opcode insn = opcode_rtype := by rw [c20]; decide
      have f3 : decide (get_opcode insn = opcode_rtype) = false := decide_eq_false f3n
      have f4n : ¬ get_opcode insn = opcode_stype := by rw [c20]; decide
      have f4 : decide (get_opcode insn = opcode_stype) = false := decide_eq_false f4n
      have f5 : decide (get_funct7 insn = 0) = false := decide_eq_false z7
      have f6n : ¬ get_funct3 insn = funct3_add := by rw [c21]; decide
      have f6 : decide (get_funct3 insn = funct3_add) = false := decide_eq_false f6n
      have f7n : ¬ get_funct3 insn = funct3_slt := by rw [c21]; decide
      have f7 : decide (get_funct3 insn = funct3_slt) = false := decide_eq_false f7n
      have f8n : ¬ get_funct3 insn = funct3_sltu := by rw [c21]; decide
      have f8 : decide (get_funct3 insn = funct3_sltu) = false := decide_eq_false f8n
      have f9n : ¬ get_funct3 insn = funct3_xor := by rw [c21]; decide
      have f9 : decide (get_funct3 insn = funct3_xor) = false := decide_eq_false f9n
      have f10n : ¬ get_funct3 insn = funct3_or := by rw [c21]; decide
      have f10 : decide (get_funct3 insn = funct3_or) = false := decide_eq_false f10n
      have f11n : ¬ get_funct3 insn = funct3_and := by rw [c21]; decide
      have f11 : decide (get_funct3 insn = funct3_and) = false := decide_eq_false f11n
      have f12n : ¬ get_funct3 insn = funct3_srx := by rw [c21]; decide
      have f12 : decide (get_funct3 insn = funct3_srx) = false := decide_eq_false f12n
      have f13n : ¬ get_opcode insn = opcode_load_imm := by rw [c20]; decide
      have f13 : decide (get_opcode insn = opcode_load_imm) = false := decide_eq_false f13n
      have f14n : ¬ get_opcode insn = opcode_btype := by rw [c20]; decide
      have f14 : decide (get_opcode insn = opcode_btype) = false := decide_eq_false f14n
      have f15n : ¬ get_opcode insn = opcode_jal := by rw [c20]; decide
      have f15 : decide (get_opcode insn = opcode_jal) = false := decide_eq_false f15n
      have f16n : ¬ get_opcode insn = opcode_jalr := by rw [c20]; decide
      have f16 : decide (get_opcode insn = opcode_jalr) = false := decide_eq_false f16n
      have f17n : ¬ get_opcode insn = opcode_system := by rw [c20]; decide
      have f17 : decide (get_opcode insn = opcode_system) = false := decide_eq_false f17n
      have e : lookup insn = none := by
        unfold lookup instr_table
        simp only [List.find?_cons, List.find?_nil, entry_matches, field_ok, f1, f2, f3, f4, f5,
          f6, f7, f8, f9, f10, f11, f12, f13, f14, f15, f16, f17, Bool.and_true, Bool.true_and,
          Bool.false_and, Bool.and_false]
      rw [e]
      exact h_slli_loose c20 c21 z7
    rw [if_neg c21]
    by_cases c22 : get_funct3 insn = funct3_add
    · rw [if_pos c22]
      have f1n : ¬ get_opcode insn = opcode_lui := by rw [c20]; decide
      have f1 : decide (get_opcode insn = opcode_lui) = false := decide_eq_false f1n
      have f2n : ¬ get_opcode insn = opcode_auipc := by rw [c20]; decide
      have f2 : decide (get_opcode insn = opcode_auipc) = false := decide_eq_false f2n
      have f3n : ¬ get_opcode insn = opcode_rtype := by rw [c20]; decide
      have f3 : decide (get_opcode insn = opcode_rtype) = false := decide_eq_false f3n
      have f4n : ¬ get_opcode insn = opcode_stype := by rw [c20]; decide
      have f4 : decide (get_opcode insn = opcode_stype) = false := decide_eq_false f4n
      have f5n : ¬ get_funct3 insn = funct3_sll := by rw [c22]; decide
      have f5 : decide (get_funct3 insn = funct3_sll) = false := decide_eq_false f5n
      have f6 : decide (get_opcode insn = opcode_alu_imm) = true := decide_eq_true c20
      have f7 : decide (get_funct3 insn = funct3_add) = true := decide_eq_true c22
      have e : lookup insn
          = some ⟨"addi", operand_form.alu_imm, opcode_alu_imm, some funct3_add, none, none⟩ := by
        unfold lookup instr_table
        simp only [List.find?_cons, List.find?_nil, entry_matches, field_ok, f1, f2, f3, f4, f5,
          f6, f7, Bool.and_true, Bool.true_and, Bool.false_and, Bool.and_false]
      rw [e]
      exact h_addi c20 c22
    rw [if_neg c22]
    by_cases c23 : get_funct3 insn = funct3_slt
    · rw [if_pos c23]
      have f1n : ¬ get_opcode insn = opcode_lui := by rw [c20]; decide
      have f1 : decide (get_opcode insn = opcode_lui) = false := decide_eq_false f1n
      have f2n : ¬ get_opcode insn = opcode_auipc := by rw [c20]; decide
      have f2 : decide (get_opcode insn = opcode_auipc) = false := decide_eq_false f2n
      have f3n : ¬ get_opcode insn = opcode_rtype := by rw [c20]; decide
      have f3 : decide (get_opcode insn = opcode_rtype) = false := decide_eq_false f3n
      have f4n : ¬ get_opcode insn = opcode_stype := by rw [c20]; decide
      have f4 : decide (get_opcode insn = opcode_stype) = false := decide_eq_false f4n
      have f5n : ¬ get_funct3 insn = funct3_sll := by rw [c23]; decide
      have f5 : decide (get_funct3 insn = funct3_sll) = false := decide_eq_false f5n
      have f6n : ¬ get_funct3 insn = funct3_add := by rw [c23]; decide
      have f6 : decide (get_funct3 insn = funct3_add) = false := decide_eq_false f6n
      have f7 : decide (get_opcode insn = opcode_alu_imm) = true := decide_eq_true c20
      have f8 : decide (get_funct3 insn = funct3_slt) = true := decide_eq_true c23
      have e : lookup insn
          = some ⟨"slti", operand_form.alu_imm, opcode_alu_imm, some funct3_slt, none, none⟩ := by
        unfold lookup instr_table
        simp only [List.find?_cons, List.find?_nil, entry_matches, field_ok, f1, f2, f3, f4, f5,
          f6, f7, f8, Bool.and_true, Bool.true_and, Bool.false_and, Bool.and_false]
      rw [e]
      exact h_slti c20 c23
    rw [if_neg c23]
    by_cases c24 : get_funct3 insn = funct3_sltu
    · rw [if_pos c24]
      have f1n : ¬ get_opcode insn = opcode_lui := by rw [c20]; decide
      have f1 : decide (get_opcode insn = opcode_lui) = false := decide_eq_false f1n
      have f2n : ¬ get_opcode insn = opcode_auipc := by rw [c20]; decide
      have f2 : decide (get_opcode insn = opcode_auipc) = false := decide_eq_false f2n
      have f3n : ¬ get_opcode insn = opcode_rtype := by rw [c20]; decide
      have f3 : decide (get_opcode insn = opcode_rtype) = false := decide_eq_false f3n
      have f4n : ¬ get_opcode insn = opcode_stype := by rw [c20]; decide
      have f4 : decide (get_opcode insn = opcode_stype) = false := decide_eq_false f4n
      have f5n : ¬ get_funct3 insn = funct3_sll := by rw [c24]; decide
      have f5 : decide (get_funct3 insn = funct3_sll) = false := decide_eq_false f5n
      have f6n : ¬ get_funct3 insn = funct3_add := by rw [c24]; decide
      have f6 : decide (get_funct3 insn = funct3_add) = false := decide_eq_false f6n
      have f7n : ¬ get_funct3 insn = funct3_slt := by rw [c24]; decide
      have f7 : decide (get_funct3 insn = funct3_slt) = false := decide_eq_false f7n
      have f8 : decide (get_opcode insn = opcode_alu_imm) = true := decide_eq_true c20
      have f9 : decide (get_funct3 insn = funct3_sltu) = true := decide_eq_true c24
      have e : lookup insn
          = some ⟨"sltiu", operand_form.alu_imm, opcode_alu_imm,
              some funct3_sltu, none, none⟩ := by
        unfold lookup instr_table
        simp only [List.find?_cons, List.find?_nil, entry_matches, field_ok, f1, f2, f3, f4, f5,
          f6, f7, f8, f9, Bool.and_true, Bool.true_and, Bool.false_and, Bool.and_false]
      rw [e]
      exact h_sltiu c20 c24
    rw [if_neg c24]
    by_cases c25 : get_funct3 insn = funct3_xor
    · rw [if_pos c25]
      have f1n : ¬ get_opcode insn = opcode_lui := by rw [c20]; decide
      have f1 : decide (get_opcode insn = opcode_lui) = false := decide_eq_false f1n
      have f2n : ¬ get_opcode insn = opcode_auipc := by rw [c20]; decide
      have f2 : decide (get_opcode insn = opcode_auipc) = false := decide_eq_false f2n
      have f3n : ¬ get_opcode insn = opcode_rtype := by rw [c20]; decide
      have f3 : decide (get_opcode insn = opcode_rtype) = false := decide_eq_false f3n
      have f4n : ¬ get_opcode insn = opcode_stype := by rw [c20]; decide
      have f4 : decide (get_opcode insn = opcode_stype) = false := decide_eq_false f4n
      have f5n : ¬ get_funct3 insn = funct3_sll := by rw [c25]; decide
      have f5 : decide (get_funct3 insn = funct3_sll) = false := decide_eq_false f5n
      have f6n : ¬ get_funct3 insn = funct3_add := by rw [c25]; decide
      have f6 : decide (get_funct3 insn = funct3_add) = false := decide_eq_false f6n
      have f7n : ¬ get_funct3 insn = funct3_slt := by rw [c25]; decide
      have f7 : decide (get_funct3 insn = funct3_slt) = false := decide_eq_false f7n
      have f8n : ¬ get_funct3 insn = funct3_sltu := by rw [c25]; decide
      have f8 : decide (get_funct3 insn = funct3_sltu) = false := decide_eq_false f8n
      have f9 : decide (get_opcode insn = opcode_alu_imm) = true := decide_eq_true c20
      have f10 : decide (get_funct3 insn = funct3_xor) = true := decide_eq_true c25
      have e : lookup insn
          = some ⟨"xori", operand_form.alu_imm, opcode_alu_imm, some funct3_xor, none, none⟩ := by
        unfold lookup instr_table
        simp only [List.find?_cons, List.find?_nil, entry_matches, field_ok, f1, f2, f3, f4, f5,
          f6, f7, f8, f9, f10, Bool.and_true, Bool.true_and, Bool.false_and, Bool.and_false]
      rw [e]
      exact h_xori c20 c25
    rw [if_neg c25]
    by_cases c26 : get_funct3 insn = funct3_or
    · rw [if_pos c26]
      have f1n : ¬ get_opcode insn = opcode_lui := by rw [c20]; decide
      have f1 : decide (get_opcode insn = opcode_lui) = false := decide_eq_false f1n
      have f2n : ¬ get_opcode insn = opcode_auipc := by rw [c20]; decide
      have f2 : decide (get_opcode insn = opcode_auipc) = false := decide_eq_false f2n
      have f3n : ¬ get_opcode insn = opcode_rtype := by rw [c20]; decide
      have f3 : decide (get_opcode insn = opcode_rtype) = false := decide_eq_false f3n
      have f4n : ¬ get_opcode insn = opcode_stype := by rw [c20]; decide
      have f4 : decide (get_opcode insn = opcode_stype) = false := decide_eq_false f4n
      have f5n : ¬ get_funct3 insn = funct3_sll := by rw [c26]; decide
      have f5 : decide (get_funct3 insn = funct3_sll) = false := decide_eq_false f5n
      have f6n : ¬ get_funct3 insn = funct3_add := by rw [c26]; decide
      have f6 : decide (get_funct3 insn = funct3_add) = false := decide_eq_false f6n
      have f7n : ¬ get_funct3 insn = funct3_slt := by rw [c26]; decide
      have f7 : decide (get_funct3 insn = funct3_slt) = false := decide_eq_false f7n
      have f8n : ¬ get_funct3 insn = funct3_sltu := by rw [c26]; decide
      have f8 : decide (get_funct3 insn = funct3_sltu) = false := decide_eq_false f8n
      have f9n : ¬ get_funct3 insn = funct3_xor := by rw [c26]; decide
      have f9 : decide (get_funct3 insn = funct3_xor) = false := decide_eq_false f9n
      have f10 : decide (get_opcode insn = opcode_alu_imm) = true := decide_eq_true c20
      have f11 : decide (get_funct3 insn = funct3_or) = true := decide_eq_true c26
      have e : lookup insn
          = some ⟨"ori", operand_form.alu_imm, opcode_alu_imm, some funct3_or, none, none⟩ := by
        unfold lookup instr_table
        simp only [List.find?_cons, List.find?_nil, entry_matches, field_ok, f1, f2, f3, f4, f5,
          f6, f7, f8, f9, f10, f11, Bool.and_true, Bool.true_and, Bool.false_and, Bool.and_false]
      rw [e]
      exact h_ori c20 c26
    rw [if_neg c26]
    by_cases c27 : get_funct3 insn = funct3_and
    · rw [if_pos c27]
      have f1n : ¬ get_opcode insn = opcode_lui := by rw [c20]; decide
      have f1 : decide (get_opcode insn = opcode_lui) = false := decide_eq_false f1n
      have f2n : ¬ get_opcode insn = opcode_auipc := by rw [c20]; decide
      have f2 : decide (get_opcode insn = opcode_auipc) = false := decide_eq_false f2n
      have f3n : ¬ get_opcode insn = opcode_rtype := by rw [c20]; decide
      have f3 : decide (get_opcode insn = opcode_rtype) = false := decide_eq_false f3n
      have f4n : ¬ get_opcode insn = opcode_stype := by rw [c20]; decide
      have f4 : decide (get_opcode insn = opcode_stype) = false := decide_eq_false f4n
      have f5n : ¬ get_funct3 insn = funct3_sll := by rw [c27]; decide
      have f5 : decide (get_funct3 insn = funct3_sll) = false := decide_eq_false f5n
      have f6n : ¬ get_funct3 insn = funct3_add := by rw [c27]; decide
      have f6 : decide (get_funct3 insn = funct3_add) = false := decide_eq_false f6n
      have f7n : ¬ get_funct3 insn = funct3_slt := by rw [c27]; decide
      have f7 : decide (get_funct3 insn = funct3_slt) = false := decide_eq_false f7n
      have f8n : ¬ get_funct3 insn = funct3_sltu := by rw [c27]; decide
      have f8 : decide (get_funct3 insn = funct3_sltu) = false := decide_eq_false f8n
      have f9n : ¬ get_funct3 insn = funct3_xor := by rw [c27]; decide
      have f9 : decide (get_funct3 insn = funct3_xor) = false := decide_eq_false f9n
      have f10n : ¬ get_funct3 insn = funct3_or := by rw [c27]; decide
      have f10 : decide (get_funct3 insn = funct3_or) = false := decide_eq_false f10n
      have f11 : decide (get_opcode insn = opcode_alu_imm) = true := decide_eq_true c20
      have f12 : decide (get_funct3 insn = funct3_and) = true := decide_eq_true c27
      have e : lookup insn
          = some ⟨"andi", operand_form.alu_imm, opcode_alu_imm, some funct3_and, none, none⟩ := by
        unfold lookup instr_table
        simp only [List.find?_cons, List.find?_nil, entry_matches, field_ok, f1, f2, f3, f4, f5,
          f6, f7, f8, f9, f10, f11, f12, Bool.and_true, Bool.true_and, Bool.false_and,
          Bool.and_false]
      rw [e]
      exact h_andi c20 c27
    rw [if_neg c27]
    by_cases c28 : get_funct3 insn = funct3_srx
    · rw [if_pos c28]
      by_cases c29 : get_funct7 insn = funct7_srl
      · rw [if_pos c29]
        have f1n : ¬ get_opcode insn = opcode_lui := by rw [c20]; decide
        have f1 : decide (get_opcode insn = opcode_lui) = false := decide_eq_false f1n
        have f2n : ¬ get_opcode insn = opcode_auipc := by rw [c20]; decide
        have f2 : decide (get_opcode insn = opcode_auipc) = false := decide_eq_false f2n
        have f3n : ¬ get_opcode insn = opcode_rtype := by rw [c20]; decide
        have f3 : decide (get_opcode insn = opcode_rtype) = false := decide_eq_false f3n
        have f4n : ¬ get_opcode insn = opcode_stype := by rw [c20]; decide
        have f4 : decide (get_opcode insn = opcode_stype) = false := decide_eq_false f4n
        have f5n : ¬ get_funct3 insn = funct3_sll := by rw [c28]; decide
        have f5 : decide (get_funct3 insn = funct3_sll) = false := decide_eq_false f5n
        have f6n : ¬ get_funct3 insn = funct3_add := by rw [c28]; decide
        have f6 : decide (get_funct3 insn = funct3_add) = false := decide_eq_false f6n
        have f7n : ¬ get_funct3 insn = funct3_slt := by rw [c28]; decide
        have f7 : decide (get_funct3 insn = funct3_slt) = false := decide_eq_false f7n
        have f8n : ¬ get_funct3 insn = funct3_sltu := by rw [c28]; decide
        have f8 : decide (get_funct3 insn = funct3_sltu) = false := decide_eq_false f8n
        have f9n : ¬ get_funct3 insn = funct3_xor := by rw [c28]; decide
        have f9 : decide (get_funct3 insn = funct3_xor) = false := decide_eq_false f9n
        have f10n : ¬ get_funct3 insn = funct3_or := by rw [c28]; decide
        have f10 : decide (get_funct3 insn = funct3_or) = false := decide_eq_false f10n
        have f11n : ¬ get_funct3 insn = funct3_and := by rw [c28]; decide
        have f11 : decide (get_funct3 insn = funct3_and) = false := decide_eq_false f11n
        have f12 : decide (get_opcode insn = opcode_alu_imm) = true := decide_eq_true c20
        have f13 : decide (get_funct3 insn = funct3_srx) = true := decide_eq_true c28
        have f14 : decide (get_funct7 insn = funct7_srl) = true := decide_eq_true c29
        have e : lookup insn
            = some ⟨"srli", operand_form.shift_imm, opcode_alu_imm,
                some funct3_srx, some funct7_srl, none⟩ := by
          unfold lookup instr_table
          simp only [List.find?_cons, List.find?_nil, entry_matches, field_ok, f1, f2, f3, f4,
            f5, f6, f7, f8, f9, f10, f11, f12, f13, f14, Bool.and_true, Bool.true_and,
            Bool.false_and, Bool.and_false]
        rw [e]
        exact h_srli c20 c28 c29
      rw [if_neg c29]
      by_cases c30 : get_funct7 insn = funct7_sra
      · rw [if_pos c30]
        have f1n : ¬ get_opcode insn = opcode_lui := by rw [c20]; decide
        have f1 : decide (get_opcode insn = opcode_lui) = false := decide_eq_false f1n
        have f2n : ¬ get_opcode insn = opcode_auipc := by rw [c20]; decide
        have f2 : decide (get_opcode insn = opcode_auipc) = false := decide_eq_false f2n
        have f3n : ¬ get_opcode insn = opcode_rtype := by rw [c20]; decide
        have f3 : decide (get_opcode insn = opcode_rtype) = false := decide_eq_false f3n
        have f4n : ¬ get_opcode insn = opcode_stype := by rw [c20]; decide
        have f4 : decide (get_opcode insn = opcode_stype) = false := decide_eq_false f4n
        have f5n : ¬ get_funct3 insn = funct3_sll := by rw [c28]; decide
        have f5 : decide (get_funct3 insn = funct3_sll) = false := decide_eq_false f5n
        have f6n : ¬ get_funct3 insn = funct3_add := by rw [c28]; decide
        have f6 : decide (get_funct3 insn = funct3_add) = false := decide_eq_false f6n
        have f7n : ¬ get_funct3 insn = funct3_slt := by rw [c28]; decide
        have f7 : decide (get_funct3 insn = funct3_slt) = false := decide_eq_false f7n
        have f8n : ¬ get_funct3 insn = funct3_sltu := by rw [c28]; decide
        have f8 : decide (get_funct3 insn = funct3_sltu) = false := decide_eq_false f8n
        have f9n : ¬ get_funct3 insn = funct3_xor := by rw [c28]; decide
        have f9 : decide (get_funct3 insn = funct3_xor) = false := decide_eq_false f9n
        have f10n : ¬ get_funct3 insn = funct3_or := by rw [c28]; decide
        have f10 : decide (get_funct3 insn = funct3_or) = false := decide_eq_false f10n
        have f11n : ¬ get_funct3 insn = funct3_and := by rw [c28]; decide
        have f11 : decide (get_funct3 insn = funct3_and) = false := decide_eq_false f11n
        have f12n : ¬ get_funct7 insn = funct7_srl := by rw [c30]; decide
        have f12 : decide (get_funct7 insn = funct7_srl) = false := decide_eq_false f12n
        have f13 : decide (get_opcode insn = opcode_alu_imm) = true := decide_eq_true c20
        have f14 : decide (get_funct3 insn = funct3_srx) = true := decide_eq_true c28
        have f15 : decide (get_funct7 insn = funct7_sra) = true := decide_eq_true c30
        have e : lookup insn
            = some ⟨"srai", operand_form.shift_imm, opcode_alu_imm,
                some funct3_srx, some funct7_sra, none⟩ := by
          unfold lookup instr_table
          simp only [List.find?_cons, List.find?_nil, entry_matches, field_ok, f1, f2, f3, f4,
            f5, f6, f7, f8, f9, f10, f11, f12, f13, f14, f15, Bool.and_true, Bool.true_and,
            Bool.false_and, Bool.and_false]
        rw [e]
        exact h_srai c20 c28 c30
      rw [if_neg c30]
      have f1n : ¬ get_opcode insn = opcode_lui := by rw [c20]; decide
      have f1 : decide (get_opcode insn = opcode_lui) = false := decide_eq_false f1n
      have f2n : ¬ get_opcode insn = opcode_auipc := by rw [c20]; decide
      have f2 : decide (get_opcode insn = opcode_auipc) = false := decide_eq_false f2n
      have f3n : ¬ get_opcode insn = opcode_rtype := by rw [c20]; decide
      have f3 : decide (get_opcode insn = opcode_rtype) = false := decide_eq_false f3n
      have f4n : ¬ get_opcode insn = opcode_stype := by rw [c20]; decide
      have f4 : decide (get_opcode insn = opcode_stype) = false := decide_eq_false f4n
      have f5n : ¬ get_funct3 insn = funct3_sll := by rw [c28]; decide
      have f5 : decide (get_funct3 insn = funct3_sll) = false := decide_eq_false f5n
      have f6n : ¬ get_funct3 insn = funct3_add := by rw [c28]; decide
      have f6 : decide (get_funct3 insn = funct3_add) = false := decide_eq_false f6n
      have f7n : ¬ get_funct3 insn = funct3_slt := by rw [c28]; decide
      have f7 : decide (get_funct3 insn = funct3_slt) = false := decide_eq_false f7n
      have f8n : ¬ get_funct3 insn = funct3_sltu := by rw [c28]; decide
      have f8 : decide (get_funct3 insn = funct3_sltu) = false := decide_eq_false f8n
      have f9n : ¬ get_funct3 insn = funct3_xor := by rw [c28]; decide
      have f9 : decide (get_funct3 insn = funct3_xor) = false := decide_eq_false f9n
      have f10n : ¬ get_funct3 insn = funct3_or := by rw [c28]; decide
      have f10 : decide (get_funct3 insn = funct3_or) = false := decide_eq_false f10n
      have f11n : ¬ get_funct3 insn = funct3_and := by rw [c28]; decide
      have f11 : decide (get_funct3 insn = funct3_and) = false := decide_eq_false f11n
      have f12 : decide (get_funct7 insn = funct7_srl) = false := decide_eq_false c29
      have f13 : decide (get_funct7 insn = funct7_sra) = false := decide_eq_false c30
      have f14n : ¬ get_opcode insn = opcode_load_imm := by rw [c20]; decide
      have f14 : decide (get_opcode insn = opcode_load_imm) = false := decide_eq_false f14n
      have f15n : ¬ get_opcode insn = opcode_btype := by rw [c20]; decide
      have f15 : decide (get_opcode insn = opcode_btype) = false := decide_eq_false f15n
      have f16n : ¬ get_opcode insn = opcode_jal := by rw [c20]; decide
      have f16 : decide (get_opcode insn = opcode_jal) = false := decide_eq_false f16n
      have f17n : ¬ get_opcode insn = opcode_jalr := by rw [c20]; decide
      have f17 : decide (get_opcode insn = opcode_jalr) = false := decide_eq_false f17n
      have f18n : ¬ get_opcode insn = opcode_system := by rw [c20]; decide
      have f18 : decide (get_opcode insn = opcode_system) = false := decide_eq_false f18n
      have e : lookup insn = none := by
        unfold lookup instr_table
        simp only [List.find?_cons, List.find?_nil, entry_matches, field_ok, f1, f2, f3, f4, f5,
          f6, f7, f8, f9, f10, f11, f12, f13, f14, f15, f16, f17, f18, Bool.and_true,
          Bool.true_and, Bool.false_and, Bool.and_false]
      rw [e]
      exact h_illegal
    rw [if_neg c28]
    have f1n : ¬ get_opcode insn = opcode_lui := by rw [c20]; decide
    have f1 : decide (get_opcode insn = opcode_lui) = false := decide_eq_false f1n
    have f2n : ¬ get_opcode insn = opcode_auipc := by rw [c20]; decide
    have f2 : decide (get_opcode insn = opcode_auipc) = false := decide_eq_false f2n
    have f3n : ¬ get_opcode insn = opcode_rtype := by rw [c20]; decide
    have f3 : decide (get_opcode insn = opcode_rtype) = false := decide_eq_false f3n
    have f4n : ¬ get_opcode insn = opcode_stype := by rw [c20]; decide
    have f4 : decide (get_opcode insn = opcode_stype) = false := decide_eq_false f4n
    have f5 : decide (get_funct3 insn = funct3_sll) = false := decide_eq_false c21
    have f6 : decide (get_funct3 insn = funct3_add) = false := decide_eq_false c22
    have f7 : decide (get_funct3 insn = funct3_slt) = false := decide_eq_false c23
    have f8 : decide (get_funct3 insn = funct3_sltu) = false := decide_eq_false c24
    have f9 : decide (get_funct3 insn = funct3_xor) = false := decide_eq_false c25
    have f10 : decide (get_funct3 insn = funct3_or) = false := decide_eq_false c26
    have f11 : decide (get_funct3 insn = funct3_and) = false := decide_eq_false c27
    have f12 : decide (get_funct3 insn = funct3_srx) = false := decide_eq_false c28
    have f13n : ¬ get_opcode insn = opcode_load_imm := by rw [c20]; decide
    have f13 : decide (get_opcode insn = opcode_load_imm) = false := decide_eq_false f13n
    have f14n : ¬ get_opcode insn = opcode_btype := by rw [c20]; decide
    have f14 : decide (get_opcode insn = opcode_btype) = false := decide_eq_false f14n
    have f15n : ¬ get_opcode insn = opcode_jal := by rw [c20]; decide
    have f15 : decide (get_opcode insn = opcode_jal) = false := decide_eq_false f15n
    have f16n : ¬ get_opcode insn = opcode_jalr := by rw [c20]; decide
    have f16 : decide (get_opcode insn = opcode_jalr) = false := decide_eq_false f16n
    have f17n : ¬ get_opcode insn = opcode_system := by rw [c20]; decide
    have f17 : decide (get_opcode insn = opcode_system) = false := decide_eq_false f17n
    have e : lookup insn = none := by
      unfold lookup instr_table
      simp only [List.find?_cons, List.find?_nil, entry_matches, field_ok, f1, f2, f3, f4, f5,
        f6, f7, f8, f9, f10, f11, f12, f13, f14, f15, f16, f17, Bool.and_true, Bool.true_and,
        Bool.false_and, Bool.and_false]
    rw [e]
    exact h_illegal
  rw [if_neg c20]
  by_cases c31 : get_opcode insn = opcode_load_imm
  · rw [if_pos c31]
    by_cases c32 : get_funct3 insn = funct3_lb
    · rw [if_pos c32]
      have f1n : ¬ get_opcode insn = opcode_lui := by rw [c31]; decide
      have f1 : decide (get_opcode insn = opcode_lui) = false := decide_eq_false f1n
      have f2n : ¬ get_opcode insn = opcode_auipc := by rw [c31]; decide
      have f2 : decide (get_opcode insn = opcode_auipc) = false := decide_eq_false f2n
      have f3n : ¬ get_opcode insn = opcode_rtype := by rw [c31]; decide
      have f3 : decide (get_opcode insn = opcode_rtype) = false := decide_eq_false f3n
      have f4n : ¬ get_opcode insn = opcode_stype := by rw [c31]; decide
      have f4 : decide (get_opcode insn = opcode_stype) = false := decide_eq_false f4n
      have f5n : ¬ get_opcode insn = opcode_alu_imm := by rw [c31]; decide
      have f5 : decide (get_opcode insn = opcode_alu_imm) = false := decide_eq_false f5n
      have f6 : decide (get_opcode insn = opcode_load_imm) = true := decide_eq_true c31
      have f7 : decide (get_funct3 insn = funct3_lb) = true := decide_eq_true c32
      have e : lookup insn
          = some ⟨"lb", operand_form.load, opcode_load_imm, some funct3_lb, none, none⟩ := by
        unfold lookup instr_table
        simp only [List.find?_cons, List.find?_nil, entry_matches, field_ok, f1, f2, f3, f4, f5,
          f6, f7, Bool.and_true, Bool.true_and, Bool.false_and, Bool.and_false]
      rw [e]
      exact h_lb c31 c32
    rw [if_neg c32]
    by_cases c33 : get_funct3 insn = funct3_lh
    · rw [if_pos c33]
      have f1n : ¬ get_opcode insn = opcode_lui := by rw [c31]; decide
      have f1 : decide (get_opcode insn = opcode_lui) = false := decide_eq_false f1n
      have f2n : ¬ get_opcode insn = opcode_auipc := by rw [c31]; decide
      have f2 : decide (get_opcode insn = opcode_auipc) = false := decide_eq_false f2n
      have f3n : ¬ get_opcode insn = opcode_rtype := by rw [c31]; decide
      have f3 : decide (get_opcode insn = opcode_rtype) = false := decide_eq_false f3n
      have f4n : ¬ get_opcode insn = opcode_stype := by rw [c31]; decide
      have f4 : decide (get_opcode insn = opcode_stype) = false := decide_eq_false f4n
      have f5n : ¬ get_opcode insn = opcode_alu_imm := by rw [c31]; decide
      have f5 : decide (get_opcode insn = opcode_alu_imm) = false := decide_eq_false f5n
      have f6n : ¬ get_funct3 insn = funct3_lb := by rw [c33]; decide
      have f6 : decide (get_funct3 insn = funct3_lb) = false := decide_eq_false f6n
      have f7 : decide (get_opcode insn = opcode_load_imm) = true := decide_eq_true c31
      have f8 : decide (get_funct3 insn = funct3_lh) = true := decide_eq_true c33
      have e : lookup insn
          = some ⟨"lh", operand_form.load, opcode_load_imm, some funct3_lh, none, none⟩ := by
        unfold lookup instr_table
        simp only [List.find?_cons, List.find?_nil, entry_matches, field_ok, f1, f2, f3, f4, f5,
          f6, f7, f8, Bool.and_true, Bool.true_and, Bool.false_and, Bool.and_false]
      rw [e]
      exact h_lh c31 c33
    rw [if_neg c33]
    by_cases c34 : get_funct3 insn = funct3_lw
    · rw [if_pos c34]
      have f1n : ¬ get_opcode insn = opcode_lui := by rw [c31]; decide
      have f1 : decide (get_opcode insn = opcode_lui) = false := decide_eq_false f1n
      have f2n : ¬ get_opcode insn = opcode_auipc := by rw [c31]; decide
      have f2 : decide (get_opcode insn = opcode_auipc) = false := decide_eq_false f2n
      have f3n : ¬ get_opcode insn = opcode_rtype := by rw [c31]; decide
      have f3 : decide (get_opcode insn = opcode_rtype) = false := decide_eq_false f3n
      have f4n : ¬ get_opcode insn = opcode_stype := by rw [c31]; decide
      have f4 : decide (get_opcode insn = opcode_stype) = false := decide_eq_false f4n
      have f5n : ¬ get_opcode insn = opcode_alu_imm := by rw [c31]; decide
      have f5 : decide (get_opcode insn = opcode_alu_imm) = false := decide_eq_false f5n
      have f6n : ¬ get_funct3 insn = funct3_lb := by rw [c34]; decide
      have f6 : decide (get_funct3 insn = funct3_lb) = false := decide_eq_false f6n
      have f7n : ¬ get_funct3 insn = funct3_lh := by rw [c34]; decide
      have f7 : decide (get_funct3 insn = funct3_lh) = false := decide_eq_false f7n
      have f8 : decide (get_opcode insn = opcode_load_imm) = true := decide_eq_true c31
      have f9 : decide (get_funct3 insn = funct3_lw) = true := decide_eq_true c34
      have e : lookup insn
          = some ⟨"lw", operand_form.load, opcode_load_imm, some funct3_lw, none, none⟩ := by
        unfold lookup instr_table
        simp only [List.find?_cons, List.find?_nil, entry_matches, field_ok, f1, f2, f3, f4, f5,
          f6, f7, f8, f9, Bool.and_true, Bool.true_and, Bool.false_and, Bool.and_false]
      rw [e]
      exact h_lw c31 c34
    rw [if_neg c34]
    by_cases c35 : get_funct3 insn = funct3_lbu
    · rw [if_pos c35]
      have f1n : ¬ get_opcode insn = opcode_lui := by rw [c31]; decide
      have f1 : decide (get_opcode insn = opcode_lui) = false := decide_eq_false f1n
      have f2n : ¬ get_opcode insn = opcode_auipc := by rw [c31]; decide
      have f2 : decide (get_opcode insn = opcode_auipc) = false := decide_eq_false f2n
      have f3n : ¬ get_opcode insn = opcode_rtype := by rw [c31]; decide
      have f3 : decide (get_opcode insn = opcode_rtype) = false := decide_eq_false f3n
      have f4n : ¬ get_opcode insn = opcode_stype := by rw [c31]; decide
      have f4 : decide (get_opcode insn = opcode_stype) = false := decide_eq_false f4n
      have f5n : ¬ get_opcode insn = opcode_alu_imm := by rw [c31]; decide
      have f5 : decide (get_opcode insn = opcode_alu_imm) = false := decide_eq_false f5n
      have f6n : ¬ get_funct3 insn = funct3_lb := by rw [c35]; decide
      have f6 : decide (get_funct3 insn = funct3_lb) = false := decide_eq_false f6n
      have f7n : ¬ get_funct3 insn = funct3_lh := by rw [c35]; decide
      have f7 : decide (get_funct3 insn = funct3_lh) = false := decide_eq_false f7n
      have f8n : ¬ get_funct3 insn = funct3_lw := by rw [c35]; decide
      have f8 : decide (get_funct3 insn = funct3_lw) = false := decide_eq_false f8n
      have f9 : decide (get_opcode insn = opcode_load_imm) = true := decide_eq_true c31
      have f10 : decide (get_funct3 insn = funct3_lbu) = true := decide_eq_true c35
      have e : lookup insn
          = some ⟨"lbu", operand_form.load, opcode_load_imm, some funct3_lbu, none, none⟩ := by
        unfold lookup instr_table
        simp only [List.find?_cons, List.find?_nil, entry_matches, field_ok, f1, f2, f3, f4, f5,
          f6, f7, f8, f9, f10, Bool.and_true, Bool.true_and, Bool.false_and, Bool.and_false]
      rw [e]
      exact h_lbu c31 c35
    rw [if_neg c35]
    by_cases c36 : get_funct3 insn = funct3_lhu
    · rw [if_pos c36]
      have f1n : ¬ get_opcode insn = opcode_lui := by rw [c31]; decide
      have f1 : decide (get_opcode insn = opcode_lui) = false := decide_eq_false f1n
      have f2n : ¬ get_opcode insn = opcode_auipc := by rw [c31]; decide
      have f2 : decide (get_opcode insn = opcode_auipc) = false := decide_eq_false f2n
      have f3n : ¬ get_opcode insn = opcode_rtype := by rw [c31]; decide
      have f3 : decide (get_opcode insn = opcode_rtype) = false := decide_eq_false f3n
      have f4n : ¬ get_opcode insn = opcode_stype := by rw [c31]; decide
      have f4 : decide (get_opcode insn = opcode_stype) = false := decide_eq_false f4n
      have f5n : ¬ get_opcode insn = opcode_alu_imm := by rw [c31]; decide
      have f5 : decide (get_opcode insn = opcode_alu_imm) = false := decide_eq_false f5n
      have f6n : ¬ get_funct3 insn = funct3_lb := by rw [c36]; decide
      have f6 : decide (get_funct3 insn = funct3_lb) = false := decide_eq_false f6n
      have f7n : ¬ get_funct3 insn = funct3_lh := by rw [c36]; decide
      have f7 : decide (get_funct3 insn = funct3_lh) = false := decide_eq_false f7n
      have f8n : ¬ get_funct3 insn = funct3_lw := by rw [c36]; decide
      have f8 : decide (get_funct3 insn = funct3_lw) = false := decide_eq_false f8n
      have f9n : ¬ get_funct3 insn = funct3_lbu := by rw [c36]; decide
      have f9 : decide (get_funct3 insn = funct3_lbu) = false := decide_eq_false f9n
      have f10 : decide (get_opcode insn = opcode_load_imm) = true := decide_eq_true c31
      have f11 : decide (get_funct3 insn = funct3_lhu) = true := decide_eq_true c36
      have e : lookup insn
          = some ⟨"lhu", operand_form.load, opcode_load_imm, some funct3_lhu, none, none⟩ := by
        unfold lookup instr_table
        simp only [List.find?_cons, List.find?_nil, entry_matches, field_ok, f1, f2, f3, f4, f5,
          f6, f7, f8, f9, f10, f11, Bool.and_true, Bool.true_and, Bool.false_and, Bool.and_false]
      rw [e]
      exact h_lhu c31 c36
    rw [if_neg c36]
    have f1n : ¬ get_opcode insn = opcode_lui := by rw [c31]; decide
    have f1 : decide (get_opcode insn = opcode_lui) = false := decide_eq_false f1n
    have f2n : ¬ get_opcode insn = opcode_auipc := by rw [c31]; decide
    have f2 : decide (get_opcode insn = opcode_auipc) = false := decide_eq_false f2n
    have f3n : ¬ get_opcode insn = opcode_rtype := by rw [c31]; decide
    have f3 : decide (get_opcode insn = opcode_rtype) = false := decide_eq_false f3n
    have f4n : ¬ get_opcode insn = opcode_stype := by rw [c31]; decide
    have f4 : decide (get_opcode insn = opcode_stype) = false := decide_eq_false f4n
    have f5n : ¬ get_opcode insn = opcode_alu_imm := by rw [c31]; decide
    have f5 : decide (get_opcode insn = opcode_alu_imm) = false := decide_eq_false f5n
    have f6 : decide (get_funct3 insn = funct3_lb) = false := decide_eq_false c32
    have f7 : decide (get_funct3 insn = funct3_lh) = false := decide_eq_false c33
    have f8 : decide (get_funct3 insn = funct3_lw) = false := decide_eq_false c34
    have f9 : decide (get_funct3 insn = funct3_lbu) = false := decide_eq_false c35
    have f10 : decide (get_funct3 insn = funct3_lhu) = false := decide_eq_false c36
    have f11n : ¬ get_opcode insn = opcode_btype := by rw [c31]; decide
    have f11 : decide (get_opcode insn = opcode_btype) = false := decide_eq_false f11n
    have f12n : ¬ get_opcode insn = opcode_jal := by rw [c31]; decide
    have f12 : decide (get_opcode insn = opcode_jal) = false := decide_eq_false f12n
    have f13n : ¬ get_opcode insn = opcode_jalr := by rw [c31]; decide
    have f13 : decide (get_opcode insn = opcode_jalr) = false := decide_eq_false f13n
    have f14n : ¬ get_opcode insn = opcode_system := by rw [c31]; decide
    have f14 : decide (get_opcode insn = opcode_system) = false := decide_eq_false f14n
    have e : lookup insn = none := by
      unfold lookup instr_table
      simp only [List.find?_cons, List.find?_nil, entry_matches, field_ok, f1, f2, f3, f4, f5,
        f6, f7, f8, f9, f10, f11, f12, f13, f14, Bool.and_true, Bool.true_and, Bool.false_and,
        Bool.and_false]
    rw [e]
    exact h_illegal
  rw [if_neg c31]
  by_cases c37 : get_opcode insn = opcode_btype
  · rw [if_pos c37]
    by_cases c38 : get_funct3 insn = funct3_beq
    · rw [if_pos c38]
      have f1n : ¬ get_opcode insn = opcode_lui := by rw [c37]; decide
      have f1 : decide (get_opcode insn = opcode_lui) = false := decide_eq_false f1n
      have f2n : ¬ get_opcode insn = opcode_auipc := by rw [c37]; decide
      have f2 : decide (get_opcode insn = opcode_auipc) = false := decide_eq_false f2n
      have f3n : ¬ get_opcode insn = opcode_rtype := by rw [c37]; decide
      have f3 : decide (get_opcode insn = opcode_rtype) = false := decide_eq_false f3n
      have f4n : ¬ get_opcode insn = opcode_stype := by rw [c37]; decide
      have f4 : decide (get_opcode insn = opcode_stype) = false := decide_eq_false f4n
      have f5n : ¬ get_opcode insn = opcode_alu_imm := by rw [c37]; decide
      have f5 : decide (get_opcode insn = opcode_alu_imm) = false := decide_eq_false f5n
      have f6n : ¬ get_opcode insn = opcode_load_imm := by rw [c37]; decide
      have f6 : decide (get_opcode insn = opcode_load_imm) = false := decide_eq_false f6n
      have f7 : decide (get_opcode insn = opcode_btype) = true := decide_eq_true c37
      have f8 : decide (get_funct3 insn = funct3_beq) = true := decide_eq_true c38
      have e : lookup insn
          = some ⟨"beq", operand_form.branch, opcode_btype, some funct3_beq, none, none⟩ := by
        unfold lookup instr_table
        simp only [List.find?_cons, List.find?_nil, entry_matches, field_ok, f1, f2, f3, f4, f5,
          f6, f7, f8, Bool.and_true, Bool.true_and, Bool.false_and, Bool.and_false]
      rw [e]
      exact h_beq c37 c38
    rw [if_neg c38]
    by_cases c39 : get_funct3 insn = funct3_bne
    · rw [if_pos c39]
      have f1n : ¬ get_opcode insn = opcode_lui := by rw [c37]; decide
      have f1 : decide (get_opcode insn = opcode_lui) = false := decide_eq_false f1n
      have f2n : ¬ get_opcode insn = opcode_auipc := by rw [c37]; decide
      have f2 : decide (get_opcode insn = opcode_auipc) = false := decide_eq_false f2n
      have f3n : ¬ get_opcode insn = opcode_rtype := by rw [c37]; decide
      have f3 : decide (get_opcode insn = opcode_rtype) = false := decide_eq_false f3n
      have f4n : ¬ get_opcode insn = opcode_stype := by rw [c37]; decide
      have f4 : decide (get_opcode insn = opcode_stype) = false := decide_eq_false f4n
      have f5n : ¬ get_opcode insn = opcode_alu_imm := by rw [c37]; decide
      have f5 : decide (get_opcode insn = opcode_alu_imm) = false := decide_eq_false f5n
      have f6n : ¬ get_opcode insn = opcode_load_imm := by rw [c37]; decide
      have f6 : decide (get_opcode insn = opcode_load_imm) = false := decide_eq_false f6n
      have f7n : ¬ get_funct3 insn = funct3_beq := by rw [c39]; decide
      have f7 : decide (get_funct3 insn = funct3_beq) = false := decide_eq_false f7n
      have f8 : decide (get_opcode insn = opcode_btype) = true := decide_eq_true c37
      have f9 : decide (get_funct3 insn = funct3_bne) = true := decide_eq_true c39
      have e : lookup insn
          = some ⟨"bne", operand_form.branch, opcode_btype, some funct3_bne, none, none⟩ := by
        unfold lookup instr_table
        simp only [List.find?_cons, List.find?_nil, entry_matches, field_ok, f1, f2, f3, f4, f5,
          f6, f7, f8, f9, Bool.and_true, Bool.true_and, Bool.false_and, Bool.and_false]
      rw [e]
      exact h_bne c37 c39
    rw [if_neg c39]
    by_cases c40 : get_funct3 insn = funct3_blt
    · rw [if_pos c40]
      have f1n : ¬ get_opcode insn = opcode_lui := by rw [c37]; decide
      have f1 : decide (get_opcode insn = opcode_lui) = false := decide_eq_false f1n
      have f2n : ¬ get_opcode insn = opcode_auipc := by rw [c37]; decide
      have f2 : decide (get_opcode insn = opcode_auipc) = false := decide_eq_false f2n
      have f3n : ¬ get_opcode insn = opcode_rtype := by rw [c37]; decide
      have f3 : decide (get_opcode insn = opcode_rtype) = false := decide_eq_false f3n
      have f4n : ¬ get_opcode insn = opcode_stype := by rw [c37]; decide
      have f4 : decide (get_opcode insn = opcode_stype) = false := decide_eq_false f4n
      have f5n : ¬ get_opcode insn = opcode_alu_imm := by rw [c37]; decide
      have f5 : decide (get_opcode insn = opcode_alu_imm) = false := decide_eq_false f5n
      have f6n : ¬ get_opcode insn = opcode_load_imm := by rw [c37]; decide
      have f6 : decide (get_opcode insn = opcode_load_imm) = false := decide_eq_false f6n
      have f7n : ¬ get_funct3 insn = funct3_beq := by rw [c40]; decide
      have f7 : decide (get_funct3 insn = funct3_beq) = false := decide_eq_false f7n
      have f8n : ¬ get_funct3 insn = funct3_bne := by rw [c40]; decide
      have f8 : decide (get_funct3 insn = funct3_bne) = false := decide_eq_false f8n
      have f9 : decide (get_opcode insn = opcode_btype) = true := decide_eq_true c37
      have f10 : decide (get_funct3 insn = funct3_blt) = true := decide_eq_true c40
      have e : lookup insn
          = some ⟨"blt", operand_form.branch, opcode_btype, some funct3_blt, none, none⟩ := by
        unfold lookup instr_table
        simp only [List.find?_cons, List.find?_nil, entry_matches, field_ok, f1, f2, f3, f4, f5,
          f6, f7, f8, f9, f10, Bool.and_true, Bool.true_and, Bool.false_and, Bool.and_false]
      rw [e]
      exact h_blt c37 c40
    rw [if_neg c40]
    by_cases c41 : get_funct3 insn = funct3_bge
    · rw [if_pos c41]
      have f1n : ¬ get_opcode insn = opcode_lui := by rw [c37]; decide
      have f1 : decide (get_opcode insn = opcode_lui) = false := decide_eq_false f1n
      have f2n : ¬ get_opcode insn = opcode_auipc := by rw [c37]; decide
      have f2 : decide (get_opcode insn = opcode_auipc) = false := decide_eq_false f2n
      have f3n : ¬ get_opcode insn = opcode_rtype := by rw [c37]; decide
      have f3 : decide (get_opcode insn = opcode_rtype) = false := decide_eq_false f3n
      have f4n : ¬ get_opcode insn = opcode_stype := by rw [c37]; decide
      have f4 : decide (get_opcode insn = opcode_stype) = false := decide_eq_false f4n
      have f5n : ¬ get_opcode insn = opcode_alu_imm := by rw [c37]; decide
      have f5 : decide (get_opcode insn = opcode_alu_imm) = false := decide_eq_false f5n
      have f6n : ¬ get_opcode insn = opcode_load_imm := by rw [c37]; decide
      have f6 : decide (get_opcode insn = opcode_load_imm) = false := decide_eq_false f6n
      have f7n : ¬ get_funct3 insn = funct3_beq := by rw [c41]; decide
      have f7 : decide (get_funct3 insn = funct3_beq) = false := decide_eq_false f7n
      have f8n : ¬ get_funct3 insn = funct3_bne := by rw [c41]; decide
      have f8 : decide (get_funct3 insn = funct3_bne) = false := decide_eq_false f8n
      have f9n : ¬ get_funct3 insn = funct3_blt := by rw [c41]; decide
      have f9 : decide (get_funct3 insn = funct3_blt) = false := decide_eq_false f9n
      have f10 : decide (get_opcode insn = opcode_btype) = true := decide_eq_true c37
      have f11 : decide (get_funct3 insn = funct3_bge) = true := decide_eq_true c41
      have e : lookup insn
          = some ⟨"bge", operand_form.branch, opcode_btype, some funct3_bge, none, none⟩ := by
        unfold lookup instr_table
        simp only [List.find?_cons, List.find?_nil, entry_matches, field_ok, f1, f2, f3, f4, f5,
          f6, f7, f8, f9, f10, f11, Bool.and_true, Bool.true_and, Bool.false_and, Bool.and_false]
      rw [e]
      exact h_bge c37 c41
    rw [if_neg c41]
    by_cases c42 : get_funct3 insn = funct3_bltu
    · rw [if_pos c42]
      have f1n : ¬ get_opcode insn = opcode_lui := by rw [c37]; decide
      have f1 : decide (get_opcode insn = opcode_lui) = false := decide_eq_false f1n
      have f2n : ¬ get_opcode insn = opcode_auipc := by rw [c37]; decide
      have f2 : decide (get_opcode insn = opcode_auipc) = false := decide_eq_false f2n
      have f3n : ¬ get_opcode insn = opcode_rtype := by rw [c37]; decide
      have f3 : decide (get_opcode insn = opcode_rtype) = false := decide_eq_false f3n
      have f4n : ¬ get_opcode insn = opcode_stype := by rw [c37]; decide
      have f4 : decide (get_opcode insn = opcode_stype) = false := decide_eq_false f4n
      have f5n : ¬ get_opcode insn = opcode_alu_imm := by rw [c37]; decide
      have f5 : decide (get_opcode insn = opcode_alu_imm) = false := decide_eq_false f5n
      have f6n : ¬ get_opcode insn = opcode_load_imm := by rw [c37]; decide
      have f6 : decide (get_opcode insn = opcode_load_imm) = false := decide_eq_false f6n
      have f7n : ¬ get_funct3 insn = funct3_beq := by rw [c42]; decide
      have f7 : decide (get_funct3 insn = funct3_beq) = false := decide_eq_false f7n
      have f8n : ¬ get_funct3 insn = funct3_bne := by rw [c42]; decide
      have f8 : decide (get_funct3 insn = funct3_bne) = false := decide_eq_false f8n
      have f9n : ¬ get_funct3 insn = funct3_blt := by rw [c42]; decide
      have f9 : decide (get_funct3 insn = funct3_blt) = false := decide_eq_false f9n
      have f10n : ¬ get_funct3 insn = funct3_bge := by rw [c42]; decide
      have f10 : decide (get_funct3 insn = funct3_bge) = false := decide_eq_false f10n
      have f11 : decide (get_opcode insn = opcode_btype) = true := decide_eq_true c37
      have f12 : decide (get_funct3 insn = funct3_bltu) = true := decide_eq_true c42
      have e : lookup insn
          = some ⟨"bltu", operand_form.branch, opcode_btype, some funct3_bltu, none, none⟩ := by
        unfold lookup instr_table
        simp only [List.find?_cons, List.find?_nil, entry_matches, field_ok, f1, f2, f3, f4, f5,
          f6, f7, f8, f9, f10, f11, f12, Bool.and_true, Bool.true_and, Bool.false_and,
          Bool.and_false]
      rw [e]
      exact h_bltu c37 c42
    rw [if_neg c42]
    by_cases c43 : get_funct3 insn = funct3_bgeu
    · rw [if_pos c43]
      have f1n : ¬ get_opcode insn = opcode_lui := by rw [c37]; decide
      have f1 : decide (get_opcode insn = opcode_lui) = false := decide_eq_false f1n
      have f2n : ¬ get_opcode insn = opcode_auipc := by rw [c37]; decide
      have f2 : decide (get_opcode insn = opcode_auipc) = false := decide_eq_false f2n
      have f3n : ¬ get_opcode insn = opcode_rtype := by rw [c37]; decide
      have f3 : decide (get_opcode insn = opcode_rtype) = false := decide_eq_false f3n
      have f4n : ¬ get_opcode insn = opcode_stype := by rw [c37]; decide
      have f4 : decide (get_opcode insn = opcode_stype) = false := decide_eq_false f4n
      have f5n : ¬ get_opcode insn = opcode_alu_imm := by rw [c37]; decide
      have f5 : decide (get_opcode insn = opcode_alu_imm) = false := decide_eq_false f5n
      have f6n : ¬ get_opcode insn = opcode_load_imm := by rw [c37]; decide
      have f6 : decide (get_opcode insn = opcode_load_imm) = false := decide_eq_false f6n
      have f7n : ¬ get_funct3 insn = funct3_beq := by rw [c43]; decide
      have f7 : decide (get_funct3 insn = funct3_beq) = false := decide_eq_false f7n
      have f8n : ¬ get_funct3 insn = funct3_bne := by rw [c43]; decide
      have f8 : decide (get_funct3 insn = funct3_bne) = false := decide_eq_false f8n
      have f9n : ¬ get_funct3 insn = funct3_blt := by rw [c43]; decide
      have f9 : decide (get_funct3 insn = funct3_blt) = false := decide_eq_false f9n
      have f10n : ¬ get_funct3 insn = funct3_bge := by rw [c43]; decide
      have f10 : decide (get_funct3 insn = funct3_bge) = false := decide_eq_false f10n
      have f11n : ¬ get_funct3 insn = funct3_bltu := by rw [c43]; decide
      have f11 : decide (get_funct3 insn = funct3_bltu) = false := decide_eq_false f11n
      have f12 : decide (get_opcode insn = opcode_btype) = true := decide_eq_true c37
      have f13 : decide (get_funct3 insn = funct3_bgeu) = true := decide_eq_true c43
      have e : lookup insn
          = some ⟨"bgeu", operand_form.branch, opcode_btype, some funct3_bgeu, none, none⟩ := by
        unfold lookup instr_table
        simp only [List.find?_cons, List.find?_nil, entry_matches, field_ok, f1, f2, f3, f4, f5,
          f6, f7, f8, f9, f10, f11, f12, f13, Bool.and_true, Bool.true_and, Bool.false_and,
          Bool.and_false]
      rw [e]
      exact h_bgeu c37 c43
    rw [if_neg c43]
    have f1n : ¬ get_opcode insn = opcode_lui := by rw [c37]; decide
    have f1 : decide (get_opcode insn = opcode_lui) = false := decide_eq_false f1n
    have f2n : ¬ get_opcode insn = opcode_auipc := by rw [c37]; decide
    have f2 : decide (get_opcode insn = opcode_auipc) = false := decide_eq_false f2n
    have f3n : ¬ get_opcode insn = opcode_rtype := by rw [c37]; decide
    have f3 : decide (get_opcode insn = opcode_rtype) = false := decide_eq_false f3n
    have f4n : ¬ get_opcode insn = opcode_stype := by rw [c37]; decide
    have f4 : decide (get_opcode insn = opcode_stype) = false := decide_eq_false f4n
    have f5n : ¬ get_opcode insn = opcode_alu_imm := by rw [c37]; decide
    have f5 : decide (get_opcode insn = opcode_alu_imm) = false := decide_eq_false f5n
    have f6n : ¬ get_opcode insn = opcode_load_imm := by rw [c37]; decide
    have f6 : decide (get_opcode insn = opcode_load_imm) = false := decide_eq_false f6n
    have f7 : decide (get_funct3 insn = funct3_beq) = false := decide_eq_false c38
    have f8 : decide (get_funct3 insn = funct3_bne) = false := decide_eq_false c39
    have f9 : decide (get_funct3 insn = funct3_blt) = false := decide_eq_false c40
    have f10 : decide (get_funct3 insn = funct3_bge) = false := decide_eq_false c41
    have f11 : decide (get_funct3 insn = funct3_bltu) = false := decide_eq_false c42
    have f12 : decide (get_funct3 insn = funct3_bgeu) = false := decide_eq_false c43
    have f13n : ¬ get_opcode insn = opcode_jal := by rw [c37]; decide
    have f13 : decide (get_opcode insn = opcode_jal) = false := decide_eq_false f13n
    have f14n : ¬ get_opcode insn = opcode_jalr := by rw [c37]; decide
    have f14 : decide (get_opcode insn = opcode_jalr) = false := decide_eq_false f14n
    have f15n : ¬ get_opcode insn = opcode_system := by rw [c37]; decide
    have f15 : decide (get_opcode insn = opcode_system) = false := decide_eq_false f15n
    have e : lookup insn = none := by
      unfold lookup instr_table
      simp only [List.find?_cons, List.find?_nil, entry_matches, field_ok, f1, f2, f3, f4, f5,
        f6, f7, f8, f9, f10, f11, f12, f13, f14, f15, Bool.and_true, Bool.true_and,
        Bool.false_and, Bool.and_false]
    rw [e]
    exact h_illegal
  rw [if_neg c37]
  by_cases c44 : get_opcode insn = opcode_jal
  · rw [if_pos c44]
    have f1n : ¬ get_opcode insn = opcode_lui := by rw [c44]; decide
    have f1 : decide (get_opcode insn = opcode_lui) = false := decide_eq_false f1n
    have f2n : ¬ get_opcode insn = opcode_auipc := by rw [c44]; decide
    have f2 : decide (get_opcode insn = opcode_auipc) = false := decide_eq_false f2n
    have f3n : ¬ get_opcode insn = opcode_rtype := by rw [c44]; decide
    have f3 : decide (get_opcode insn = opcode_rtype) = false := decide_eq_false f3n
    have f4n : ¬ get_opcode insn = opcode_stype := by rw [c44]; decide
    have f4 : decide (get_opcode insn = opcode_stype) = false := decide_eq_false f4n
    have f5n : ¬ get_opcode insn = opcode_alu_imm := by rw [c44]; decide
    have f5 : decide (get_opcode insn = opcode_alu_imm) = false := decide_eq_false f5n
    have f6n : ¬ get_opcode insn = opcode_load_imm := by rw [c44]; decide
    have f6 : decide (get_opcode insn = opcode_load_imm) = false := decide_eq_false f6n
    have f7n : ¬ get_opcode insn = opcode_btype := by rw [c44]; decide
    have f7 : decide (get_opcode insn = opcode_btype) = false := decide_eq_false f7n
    have f8 : decide (get_opcode insn = opcode_jal) = true := decide_eq_true c44
    have e : lookup insn = some ⟨"jal", operand_form.jump, opcode_jal, none, none, none⟩ := by
      unfold lookup instr_table
      simp only [List.find?_cons, List.find?_nil, entry_matches, field_ok, f1, f2, f3, f4, f5,
        f6, f7, f8, Bool.and_true, Bool.true_and, Bool.false_and, Bool.and_false]
    rw [e]
    exact h_jal c44
  rw [if_neg c44]
  by_cases c45 : get_opcode insn = opcode_jalr
  · rw [if_pos c45]
    have f1n : ¬ get_opcode insn = opcode_lui := by rw [c45]; decide
    have f1 : decide (get_opcode insn = opcode_lui) = false := decide_eq_false f1n
    have f2n : ¬ get_opcode insn = opcode_auipc := by rw [c45]; decide
    have f2 : decide (get_opcode insn = opcode_auipc) = false := decide_eq_false f2n
    have f3n : ¬ get_opcode insn = opcode_rtype := by rw [c45]; decide
    have f3 : decide (get_opcode insn = opcode_rtype) = false := decide_eq_false f3n
    have f4n : ¬ get_opcode insn = opcode_stype := by rw [c45]; decide
    have f4 : decide (get_opcode insn = opcode_stype) = false := decide_eq_false f4n
    have f5n : ¬ get_opcode insn = opcode_alu_imm := by rw [c45]; decide
    have f5 : decide (get_opcode insn = opcode_alu_imm) = false := decide_eq_false f5n
    have f6n : ¬ get_opcode insn = opcode_load_imm := by rw [c45]; decide
    have f6 : decide (get_opcode insn = opcode_load_imm) = false := decide_eq_false f6n
    have f7n : ¬ get_opcode insn = opcode_btype := by rw [c45]; decide
    have f7 : decide (get_opcode insn = opcode_btype) = false := decide_eq_false f7n
    have f8n : ¬ get_opcode insn = opcode_jal := by rw [c45]; decide
    have f8 : decide (get_opcode insn = opcode_jal) = false := decide_eq_false f8n
    have f9 : decide (get_opcode insn = opcode_jalr) = true := decide_eq_true c45
    have e : lookup insn
        = some ⟨"jalr", operand_form.jump_reg, opcode_jalr, none, none, none⟩ := by
      unfold lookup instr_table
      simp only [List.find?_cons, List.find?_nil, entry_matches, field_ok, f1, f2, f3, f4, f5,
        f6, f7, f8, f9, Bool.and_true, Bool.true_and, Bool.false_and, Bool.and_false]
    rw [e]
    exact h_jalr c45
  rw [if_neg c45]
  by_cases c46 : get_opcode insn = opcode_system
  · rw [if_pos c46]
    by_cases c47 : insn = insn_ecall
    · rw [if_pos c47]
      have f1n : ¬ get_opcode insn = opcode_lui := by rw [c46]; decide
      have f1 : decide (get_opcode insn = opcode_lui) = false := decide_eq_false f1n
      have f2n : ¬ get_opcode insn = opcode_auipc := by rw [c46]; decide
      have f2 : decide (get_opcode insn = opcode_auipc) = false := decide_eq_false f2n
      have f3n : ¬ get_opcode insn = opcode_rtype := by rw [c46]; decide
      have f3 : decide (get_opcode insn = opcode_rtype) = false := decide_eq_false f3n
      have f4n : ¬ get_opcode insn = opcode_stype := by rw [c46]; decide
      have f4 : decide (get_opcode insn = opcode_stype) = false := decide_eq_false f4n
      have f5n : ¬ get_opcode insn = opcode_alu_imm := by rw [c46]; decide
      have f5 : decide (get_opcode insn = opcode_alu_imm) = false := decide_eq_false f5n
      have f6n : ¬ get_opcode insn = opcode_load_imm := by rw [c46]; decide
      have f6 : decide (get_opcode insn = opcode_load_imm) = false := decide_eq_false f6n
      have f7n : ¬ get_opcode insn = opcode_btype := by rw [c46]; decide
      have f7 : decide (get_opcode insn = opcode_btype) = false := decide_eq_false f7n
      have f8n : ¬ get_opcode insn = opcode_jal := by rw [c46]; decide
      have f8 : decide (get_opcode insn = opcode_jal) = false := decide_eq_false f8n
      have f9n : ¬ get_opcode insn = opcode_jalr := by rw [c46]; decide
      have f9 : decide (get_opcode insn = opcode_jalr) = false := decide_eq_false f9n
      have f10 : decide (get_opcode insn = opcode_system) = true := decide_eq_true c46
      have f11 : decide (get_funct3 insn = 0) = true := decide_eq_true (by rw [c47]; decide)
      have f12 : decide (insn = insn_ecall) = true := decide_eq_true c47
      have e : lookup insn
          = some ⟨"ecall", operand_form.bare, opcode_system, some 0, none, some insn_ecall⟩ := by
        unfold lookup instr_table
        simp only [List.find?_cons, List.find?_nil, entry_matches, field_ok, f1, f2, f3, f4, f5,
          f6, f7, f8, f9, f10, f11, f12, Bool.and_true, Bool.true_and, Bool.false_and,
          Bool.and_false]
      rw [e]
      exact h_ecall c46 c47
    rw [if_neg c47]
    by_cases c48 : insn = insn_ebreak
    · rw [if_pos c48]
      have f1n : ¬ get_opcode insn = opcode_lui := by rw [c46]; decide
      have f1 : decide (get_opcode insn = opcode_lui) = false := decide_eq_false f1n
      have f2n : ¬ get_opcode insn = opcode_auipc := by rw [c46]; decide
      have f2 : decide (get_opcode insn = opcode_auipc) = false := decide_eq_false f2n
      have f3n : ¬ get_opcode insn = opcode_rtype := by rw [c46]; decide
      have f3 : decide (get_opcode insn = opcode_rtype) = false := decide_eq_false f3n
      have f4n : ¬ get_opcode insn = opcode_stype := by rw [c46]; decide
      have f4 : decide (get_opcode insn = opcode_stype) = false := decide_eq_false f4n
      have f5n : ¬ get_opcode insn = opcode_alu_imm := by rw [c46]; decide
      have f5 : decide (get_opcode insn = opcode_alu_imm) = false := decide_eq_false f5n
      have f6n : ¬ get_opcode insn = opcode_load_imm := by rw [c46]; decide
      have f6 : decide (get_opcode insn = opcode_load_imm) = false := decide_eq_false f6n
      have f7n : ¬ get_opcode insn = opcode_btype := by rw [c46]; decide
      have f7 : decide (get_opcode insn = opcode_btype) = false := decide_eq_false f7n
      have f8n : ¬ get_opcode insn = opcode_jal := by rw [c46]; decide
      have f8 : decide (get_opcode insn = opcode_jal) = false := decide_eq_false f8n
      have f9n : ¬ get_opcode insn = opcode_jalr := by rw [c46]; decide
      have f9 : decide (get_opcode insn = opcode_jalr) = false := decide_eq_false f9n
      have f10n : ¬ insn = insn_ecall := by rw [c48]; decide
      have f10 : decide (insn = insn_ecall) = false := decide_eq_false f10n
      have f11 : decide (get_opcode insn = opcode_system) = true := decide_eq_true c46
      have f12 : decide (get_funct3 insn = 0) = true := decide_eq_true (by rw [c48]; decide)
      have f13 : decide (insn = insn_ebreak) = true := decide_eq_true c48
      have e : lookup insn
          = some ⟨"ebreak", operand_form.bare, opcode_system,
              some 0, none, some insn_ebreak⟩ := by
        unfold lookup instr_table
        simp only [List.find?_cons, List.find?_nil, entry_matches, field_ok, f1, f2, f3, f4, f5,
          f6, f7, f8, f9, f10, f11, f12, f13, Bool.and_true, Bool.true_and, Bool.false_and,
          Bool.and_false]
      rw [e]
      exact h_ebreak c46 c48
    rw [if_neg c48]
    by_cases c49 : get_funct3 insn = funct3_csrrw
    · rw [if_pos c49]
      have f1n : ¬ get_opcode insn = opcode_lui := by rw [c46]; decide
      have f1 : decide (get_opcode insn = opcode_lui) = false := decide_eq_false f1n
      have f2n : ¬ get_opcode insn = opcode_auipc := by rw [c46]; decide
      have f2 : decide (get_opcode insn = opcode_auipc) = false := decide_eq_false f2n
      have f3n : ¬ get_opcode insn = opcode_rtype := by rw [c46]; decide
      have f3 : decide (get_opcode insn = opcode_rtype) = false := decide_eq_false f3n
      have f4n : ¬ get_opcode insn = opcode_stype := by rw [c46]; decide
      have f4 : decide (get_opcode insn = opcode_stype) = false := decide_eq_false f4n
      have f5n : ¬ get_opcode insn = opcode_alu_imm := by rw [c46]; decide
      have f5 : decide (get_opcode insn = opcode_alu_imm) = false := decide_eq_false f5n
      have f6n : ¬ get_opcode insn = opcode_load_imm := by rw [c46]; decide
      have f6 : decide (get_opcode insn = opcode_load_imm) = false := decide_eq_false f6n
      have f7n : ¬ get_opcode insn = opcode_btype := by rw [c46]; decide
      have f7 : decide (get_opcode insn = opcode_btype) = false := decide_eq_false f7n
      have f8n : ¬ get_opcode insn = opcode_jal := by rw [c46]; decide
      have f8 : decide (get_opcode insn = opcode_jal) = false := decide_eq_false f8n
      have f9n : ¬ get_opcode insn = opcode_jalr := by rw [c46]; decide
      have f9 : decide (get_opcode insn = opcode_jalr) = false := decide_eq_false f9n
      have f10n : ¬ get_funct3 insn = 0 := by rw [c49]; decide
      have f10 : decide (get_funct3 insn = 0) = false := decide_eq_false f10n
      have f11 : decide (get_opcode insn = opcode_system) = true := decide_eq_true c46
      have f12 : decide (get_funct3 insn = funct3_csrrw) = true := decide_eq_true c49
      have e : lookup insn
          = some ⟨"csrrw", operand_form.csr_reg, opcode_system,
              some funct3_csrrw, none, none⟩ := by
        unfold lookup instr_table
        simp only [List.find?_cons, List.find?_nil, entry_matches, field_ok, f1, f2, f3, f4, f5,
          f6, f7, f8, f9, f10, f11, f12, Bool.and_true, Bool.true_and, Bool.false_and,
          Bool.and_false]
      rw [e]
      exact h_csrrw c46 c49
    rw [if_neg c49]
    by_cases c50 : get_funct3 insn = funct3_csrrs
    · rw [if_pos c50]
      have f1n : ¬ get_opcode insn = opcode_lui := by rw [c46]; decide
      have f1 : decide (get_opcode insn = opcode_lui) = false := decide_eq_false f1n
      have f2n : ¬ get_opcode insn = opcode_auipc := by rw [c46]; decide
      have f2 : decide (get_opcode insn = opcode_auipc) = false := decide_eq_false f2n
      have f3n : ¬ get_opcode insn = opcode_rtype := by rw [c46]; decide
      have f3 : decide (get_opcode insn = opcode_rtype) = false := decide_eq_false f3n
      have f4n : ¬ get_opcode insn = opcode_stype := by rw [c46]; decide
      have f4 : decide (get_opcode insn = opcode_stype) = false := decide_eq_false f4n
      have f5n : ¬ get_opcode insn = opcode_alu_imm := by rw [c46]; decide
      have f5 : decide (get_opcode insn = opcode_alu_imm) = false := decide_eq_false f5n
      have f6n : ¬ get_opcode insn = opcode_load_imm := by rw [c46]; decide
      have f6 : decide (get_opcode insn = opcode_load_imm) = false := decide_eq_false f6n
      have f7n : ¬ get_opcode insn = opcode_btype := by rw [c46]; decide
      have f7 : decide (get_opcode insn = opcode_btype) = false := decide_eq_false f7n
      have f8n : ¬ get_opcode insn = opcode_jal := by rw [c46]; decide
      have f8 : decide (get_opcode insn = opcode_jal) = false := decide_eq_false f8n
      have f9n : ¬ get_opcode insn = opcode_jalr := by rw [c46]; decide
      have f9 : decide (get_opcode insn = opcode_jalr) = false := decide_eq_false f9n
      have f10n : ¬ get_funct3 insn = 0 := by rw [c50]; decide
      have f10 : decide (get_funct3 insn = 0) = false := decide_eq_false f10n
      have f11n : ¬ get_funct3 insn = funct3_csrrw := by rw [c50]; decide
      have f11 : decide (get_funct3 insn = funct3_csrrw) = false := decide_eq_false f11n
      have f12 : decide (get_opcode insn = opcode_system) = true := decide_eq_true c46
      have f13 : decide (get_funct3 insn = funct3_csrrs) = true := decide_eq_true c50
      have e : lookup insn
          = some ⟨"csrrs", operand_form.csr_reg, opcode_system,
              some funct3_csrrs, none, none⟩ := by
        unfold lookup instr_table
        simp only [List.find?_cons, List.find?_nil, entry_matches, field_ok, f1, f2, f3, f4, f5,
          f6, f7, f8, f9, f10, f11, f12, f13, Bool.and_true, Bool.true_and, Bool.false_and,
          Bool.and_false]
      rw [e]
      exact h_csrrs c46 c50
    rw [if_neg c50]
    by_cases c51 : get_funct3 insn = funct3_csrrc
    · rw [if_pos c51]
      have f1n : ¬ get_opcode insn = opcode_lui := by rw [c46]; decide
      have f1 : decide (get_opcode insn = opcode_lui) = false := decide_eq_false f1n
      have f2n : ¬ get_opcode insn = opcode_auipc := by rw [c46]; decide
      have f2 : decide (get_opcode insn = opcode_auipc) = false := decide_eq_false f2n
      have f3n : ¬ get_opcode insn = opcode_rtype := by rw [c46]; decide
      have f3 : decide (get_opcode insn = opcode_rtype) = false := decide_eq_false f3n
      have f4n : ¬ get_opcode insn = opcode_stype := by rw [c46]; decide
      have f4 : decide (get_opcode insn = opcode_stype) = false := decide_eq_false f4n
      have f5n : ¬ get_opcode insn = opcode_alu_imm := by rw [c46]; decide
      have f5 : decide (get_opcode insn = opcode_alu_imm) = false := decide_eq_false f5n
      have f6n : ¬ get_opcode insn = opcode_load_imm := by rw [c46]; decide
      have f6 : decide (get_opcode insn = opcode_load_imm) = false := decide_eq_false f6n
      have f7n : ¬ get_opcode insn = opcode_btype := by rw [c46]; decide
      have f7 : decide (get_opcode insn = opcode_btype) = false := decide_eq_false f7n
      have f8n : ¬ get_opcode insn = opcode_jal := by rw [c46]; decide
      have f8 : decide (get_opcode insn = opcode_jal) = false := decide_eq_false f8n
      have f9n : ¬ get_opcode insn = opcode_jalr := by rw [c46]; decide
      have f9 : decide (get_opcode insn = opcode_jalr) = false := decide_eq_false f9n
      have f10n : ¬ get_funct3 insn = 0 := by rw [c51]; decide
      have f10 : decide (get_funct3 insn = 0) = false := decide_eq_false f10n
      have f11n : ¬ get_funct3 insn = funct3_csrrw := by rw [c51]; decide
      have f11 : decide (get_funct3 insn = funct3_csrrw) = false := decide_eq_false f11n
      have f12n : ¬ get_funct3 insn = funct3_csrrs := by rw [c51]; decide
      have f12 : decide (get_funct3 insn = funct3_csrrs) = false := decide_eq_false f12n
      have f13 : decide (get_opcode insn = opcode_system) = true := decide_eq_true c46
      have f14 : decide (get_funct3 insn = funct3_csrrc) = true := decide_eq_true c51
      have e : lookup insn
          = some ⟨"csrrc", operand_form.csr_reg, opcode_system,
              some funct3_csrrc, none, none⟩ := by
        unfold lookup instr_table
        simp only [List.find?_cons, List.find?_nil, entry_matches, field_ok, f1, f2, f3, f4, f5,
          f6, f7, f8, f9, f10, f11, f12, f13, f14, Bool.and_true, Bool.true_and, Bool.false_and,
          Bool.and_false]
      rw [e]
      exact h_csrrc c46 c51
    rw [if_neg c51]
    by_cases c52 : get_funct3 insn = funct3_csrrwi
    · rw [if_pos c52]
      have f1n : ¬ get_opcode insn = opcode_lui := by rw [c46]; decide
      have f1 : decide (get_opcode insn = opcode_lui) = false := decide_eq_false f1n
      have f2n : ¬ get_opcode insn = opcode_auipc := by rw [c46]; decide
      have f2 : decide (get_opcode insn = opcode_auipc) = false := decide_eq_false f2n
      have f3n : ¬ get_opcode insn = opcode_rtype := by rw [c46]; decide
      have f3 : decide (get_opcode insn = opcode_rtype) = false := decide_eq_false f3n
      have f4n : ¬ get_opcode insn = opcode_stype := by rw [c46]; decide
      have f4 : decide (get_opcode insn = opcode_stype) = false := decide_eq_false f4n
      have f5n : ¬ get_opcode insn = opcode_alu_imm := by rw [c46]; decide
      have f5 : decide (get_opcode insn = opcode_alu_imm) = false := decide_eq_false f5n
      have f6n : ¬ get_opcode insn = opcode_load_imm := by rw [c46]; decide
      have f6 : decide (get_opcode insn = opcode_load_imm) = false := decide_eq_false f6n
      have f7n : ¬ get_opcode insn = opcode_btype := by rw [c46]; decide
      have f7 : decide (get_opcode insn = opcode_btype) = false := decide_eq_false f7n
      have f8n : ¬ get_opcode insn = opcode_jal := by rw [c46]; decide
      have f8 : decide (get_opcode insn = opcode_jal) = false := decide_eq_false f8n
      have f9n : ¬ get_opcode insn = opcode_jalr := by rw [c46]; decide
      have f9 : decide (get_opcode insn = opcode_jalr) = false := decide_eq_false f9n
      have f10n : ¬ get_funct3 insn = 0 := by rw [c52]; decide
      have f10 : decide (get_funct3 insn = 0) = false := decide_eq_false f10n
      have f11n : ¬ get_funct3 insn = funct3_csrrw := by rw [c52]; decide
      have f11 : decide (get_funct3 insn = funct3_csrrw) = false := decide_eq_false f11n
      have f12n : ¬ get_funct3 insn = funct3_csrrs := by rw [c52]; decide
      have f12 : decide (get_funct3 insn = funct3_csrrs) = false := decide_eq_false f12n
      have f13n : ¬ get_funct3 insn = funct3_csrrc := by rw [c52]; decide
      have f13 : decide (get_funct3 insn = funct3_csrrc) = false := decide_eq_false f13n
      have f14 : decide (get_opcode insn = opcode_system) = true := decide_eq_true c46
      have f15 : decide (get_funct3 insn = funct3_csrrwi) = true := decide_eq_true c52
      have e : lookup insn
          = some ⟨"csrrwi", operand_form.csr_imm, opcode_system,
              some funct3_csrrwi, none, none⟩ := by
        unfold lookup instr_table
        simp only [List.find?_cons, List.find?_nil, entry_matches, field_ok, f1, f2, f3, f4, f5,
          f6, f7, f8, f9, f10, f11, f12, f13, f14, f15, Bool.and_true, Bool.true_and,
          Bool.false_and, Bool.and_false]
      rw [e]
      exact h_csrrwi c46 c52
    rw [if_neg c52]
    by_cases c53 : get_funct3 insn = funct3_csrrsi
    · rw [if_pos c53]
      have f1n : ¬ get_opcode insn = opcode_lui := by rw [c46]; decide
      have f1 : decide (get_opcode insn = opcode_lui) = false := decide_eq_false f1n
      have f2n : ¬ get_opcode insn = opcode_auipc := by rw [c46]; decide
      have f2 : decide (get_opcode insn = opcode_auipc) = false := decide_eq_false f2n
      have f3n : ¬ get_opcode insn = opcode_rtype := by rw [c46]; decide
      have f3 : decide (get_opcode insn = opcode_rtype) = false := decide_eq_false f3n
      have f4n : ¬ get_opcode insn = opcode_stype := by rw [c46]; decide
      have f4 : decide (get_opcode insn = opcode_stype) = false := decide_eq_false f4n
      have f5n : ¬ get_opcode insn = opcode_alu_imm := by rw [c46]; decide
      have f5 : decide (get_opcode insn = opcode_alu_imm) = false := decide_eq_false f5n
      have f6n : ¬ get_opcode insn = opcode_load_imm := by rw [c46]; decide
      have f6 : decide (get_opcode insn = opcode_load_imm) = false := decide_eq_false f6n
      have f7n : ¬ get_opcode insn = opcode_btype := by rw [c46]; decide
      have f7 : decide (get_opcode insn = opcode_btype) = false := decide_eq_false f7n
      have f8n : ¬ get_opcode insn = opcode_jal := by rw [c46]; decide
      have f8 : decide (get_opcode insn = opcode_jal) = false := decide_eq_false f8n
      have f9n : ¬ get_opcode insn = opcode_jalr := by rw [c46]; decide
      have f9 : decide (get_opcode insn = opcode_jalr) = false := decide_eq_false f9n
      have f10n : ¬ get_funct3 insn = 0 := by rw [c53]; decide
      have f10 : decide (get_funct3 insn = 0) = false := decide_eq_false f10n
      have f11n : ¬ get_funct3 insn = funct3_csrrw := by rw [c53]; decide
      have f11 : decide (get_funct3 insn = funct3_csrrw) = false := decide_eq_false f11n
      have f12n : ¬ get_funct3 insn = funct3_csrrs := by rw [c53]; decide
      have f12 : decide (get_funct3 insn = funct3_csrrs) = false := decide_eq_false f12n
      have f13n : ¬ get_funct3 insn = funct3_csrrc := by rw [c53]; decide
      have f13 : decide (get_funct3 insn = funct3_csrrc) = false := decide_eq_false f13n
      have f14n : ¬ get_funct3 insn = funct3_csrrwi := by rw [c53]; decide
      have f14 : decide (get_funct3 insn = funct3_csrrwi) = false := decide_eq_false f14n
      have f15 : decide (get_opcode insn = opcode_system) = true := decide_eq_true c46
      have f16 : decide (get_funct3 insn = funct3_csrrsi) = true := decide_eq_true c53
      have e : lookup insn
          = some ⟨"csrrsi", operand_form.csr_imm, opcode_system,
              some funct3_csrrsi, none, none⟩ := by
        unfold lookup instr_table
        simp only [List.find?_cons, List.find?_nil, entry_matches, field_ok, f1, f2, f3, f4, f5,
          f6, f7, f8, f9, f10, f11, f12, f13, f14, f15, f16, Bool.and_true, Bool.true_and,
          Bool.false_and, Bool.and_false]
      rw [e]
      exact h_csrrsi c46 c53
    rw [if_neg c53]
    by_cases c54 : get_funct3 insn = funct3_csrrci
    · rw [if_pos c54]
      have f1n : ¬ get_opcode insn = opcode_lui := by rw [c46]; decide
      have f1 : decide (get_opcode insn = opcode_lui) = false := decide_eq_false f1n
      have f2n : ¬ get_opcode insn = opcode_auipc := by rw [c46]; decide
      have f2 : decide (get_opcode insn = opcode_auipc) = false := decide_eq_false f2n
      have f3n : ¬ get_opcode insn = opcode_rtype := by rw [c46]; decide
      have f3 : decide (get_opcode insn = opcode_rtype) = false := decide_eq_false f3n
      have f4n : ¬ get_opcode insn = opcode_stype := by rw [c46]; decide
      have f4 : decide (get_opcode insn = opcode_stype) = false := decide_eq_false f4n
      have f5n : ¬ get_opcode insn = opcode_alu_imm := by rw [c46]; decide
      have f5 : decide (get_opcode insn = opcode_alu_imm) = false := decide_eq_false f5n
      have f6n : ¬ get_opcode insn = opcode_load_imm := by rw [c46]; decide
      have f6 : decide (get_opcode insn = opcode_load_imm) = false := decide_eq_false f6n
      have f7n : ¬ get_opcode insn = opcode_btype := by rw [c46]; decide
      have f7 : decide (get_opcode insn = opcode_btype) = false := decide_eq_false f7n
      have f8n : ¬ get_opcode insn = opcode_jal := by rw [c46]; decide
      have f8 : decide (get_opcode insn = opcode_jal) = false := decide_eq_false f8n
      have f9n : ¬ get_opcode insn = opcode_jalr := by rw [c46]; decide
      have f9 : decide (get_opcode insn = opcode_jalr) = false := decide_eq_false f9n
      have f10n : ¬ get_funct3 insn = 0 := by rw [c54]; decide
      have f10 : decide (get_funct3 insn = 0) = false := decide_eq_false f10n
      have f11n : ¬ get_funct3 insn = funct3_csrrw := by rw [c54]; decide
      have f11 : decide (get_funct3 insn = funct3_csrrw) = false := decide_eq_false f11n
      have f12n : ¬ get_funct3 insn = funct3_csrrs := by rw [c54]; decide
      have f12 : decide (get_funct3 insn = funct3_csrrs) = false := decide_eq_false f12n
      have f13n : ¬ get_funct3 insn = funct3_csrrc := by rw [c54]; decide
      have f13 : decide (get_funct3 insn = funct3_csrrc) = false := decide_eq_false f13n
      have f14n : ¬ get_funct3 insn = funct3_csrrwi := by rw [c54]; decide
      have f14 : decide (get_funct3 insn = funct3_csrrwi) = false := decide_eq_false f14n
      have f15n : ¬ get_funct3 insn = funct3_csrrsi := by rw [c54]; decide
      have f15 : decide (get_funct3 insn = funct3_csrrsi) = false := decide_eq_false f15n
      have f16 : decide (get_opcode insn = opcode_system) = true := decide_eq_true c46
      have f17 : decide (get_funct3 insn = funct3_csrrci) = true := decide_eq_true c54
      have e : lookup insn
          = some ⟨"csrrci", operand_form.csr_imm, opcode_system,
              some funct3_csrrci, none, none⟩ := by
        unfold lookup instr_table
        simp only [List.find?_cons, List.find?_nil, entry_matches, field_ok, f1, f2, f3, f4, f5,
          f6, f7, f8, f9, f10, f11, f12, f13, f14, f15, f16, f17, Bool.and_true, Bool.true_and,
          Bool.false_and, Bool.and_false]
      rw [e]
      exact h_csrrci c46 c54
    rw [if_neg c54]
    have f1n : ¬ get_opcode insn = opcode_lui := by rw [c46]; decide
    have f1 : decide (get_opcode insn = opcode_lui) = false := decide_eq_false f1n
    have f2n : ¬ get_opcode insn = opcode_auipc := by rw [c46]; decide
    have f2 : decide (get_opcode insn = opcode_auipc) = false := decide_eq_false f2n
    have f3n : ¬ get_opcode insn = opcode_rtype := by rw [c46]; decide
    have f3 : decide (get_opcode insn = opcode_rtype) = false := decide_eq_false f3n
    have f4n : ¬ get_opcode insn = opcode_stype := by rw [c46]; decide
    have f4 : decide (get_opcode insn = opcode_stype) = false := decide_eq_false f4n
    have f5n : ¬ get_opcode insn = opcode_alu_imm := by rw [c46]; decide
    have f5 : decide (get_opcode insn = opcode_alu_imm) = false := decide_eq_false f5n
    have f6n : ¬ get_opcode insn = opcode_load_imm := by rw [c46]; decide
    have f6 : decide (get_opcode insn = opcode_load_imm) = false := decide_eq_false f6n
    have f7n : ¬ get_opcode insn = opcode_btype := by rw [c46]; decide
    have f7 : decide (get_opcode insn = opcode_btype) = false := decide_eq_false f7n
    have f8n : ¬ get_opcode insn = opcode_jal := by rw [c46]; decide
    have f8 : decide (get_opcode insn = opcode_jal) = false := decide_eq_false f8n
    have f9n : ¬ get_opcode insn = opcode_jalr := by rw [c46]; decide
    have f9 : decide (get_opcode insn = opcode_jalr) = false := decide_eq_false f9n
    have f10 : decide (insn = insn_ecall) = false := decide_eq_false c47
    have f11 : decide (insn = insn_ebreak) = false := decide_eq_false c48
    have f12 : decide (get_funct3 insn = funct3_csrrw) = false := decide_eq_false c49
    have f13 : decide (get_funct3 insn = funct3_csrrs) = false := decide_eq_false c50
    have f14 : decide (get_funct3 insn = funct3_csrrc) = false := decide_eq_false c51
    have f15 : decide (get_funct3 insn = funct3_csrrwi) = false := decide_eq_false c52
    have f16 : decide (get_funct3 insn = funct3_csrrsi) = false := decide_eq_false c53
    have f17 : decide (get_funct3 insn = funct3_csrrci) = false := decide_eq_false c54
    have e : lookup insn = none := by
      unfold lookup instr_table
      simp only [List.find?_cons, List.find?_nil, entry_matches, field_ok, f1, f2, f3, f4, f5,
        f6, f7, f8, f9, f10, f11, f12, f13, f14, f15, f16, f17, Bool.and_true, Bool.true_and,
        Bool.false_and, Bool.and_false]
    rw [e]
    exact h_illegal
  rw [if_neg c46]
  have f1 : decide (get_opcode insn = opcode_lui) = false := decide_eq_false c1
  have f2 : decide (get_opcode insn = opcode_auipc) = false := decide_eq_false c2
  have f3 : decide (get_opcode insn = opcode_rtype) = false := decide_eq_false c3
  have f4 : decide (get_opcode insn = opcode_stype) = false := decide_eq_false c16
  have f5 : decide (get_opcode insn = opcode_alu_imm) = false := decide_eq_false c20
  have f6 : decide (get_opcode insn = opcode_load_imm) = false := decide_eq_false c31
  have f7 : decide (get_opcode insn = opcode_btype) = false := decide_eq_false c37
  have f8 : decide (get_opcode insn = opcode_jal) = false := decide_eq_false c44
  have f9 : decide (get_opcode insn = opcode_jalr) = false := decide_eq_false c45
  have f10 : decide (get_opcode insn = opcode_system) = false := decide_eq_false c46
  have e : lookup insn = none := by
    unfold lookup instr_table
    simp only [List.find?_cons, List.find?_nil, entry_matches, field_ok, f1, f2, f3, f4, f5, f6,
      f7, f8, f9, f10, Bool.and_true, Bool.true_and, Bool.false_and, Bool.and_false]
  rw [e]
  exact h_illegal

theorem rendered_plain (addr insn : Nat) (e : insn_entry) (t : String)
    (hne : t ≠ render_illegal_insn insn) (hf : e.form ≠ operand_form.bare)
    (ht : t = contract_text e addr insn) :
    rendered_as addr insn (some e) t := by
  refine ⟨?_, fun k => absurd k (by simp)⟩
  intro e2 he
  simp only [Option.some.injEq] at he
  subst he
  exact ⟨hne, fun _ => ht, fun k => absurd k hf⟩

theorem rendered_bare (addr insn : Nat) (e : insn_entry) (t : String)
    (hne : t ≠ render_illegal_insn insn) (hf : e.form = operand_form.bare)
    (ht : t = e.mnemonic)
    (hw : (insn = insn_ecall ∧ e.mnemonic = "ecall") ∨
      (insn = insn_ebreak ∧ e.mnemonic = "ebreak")) :
    rendered_as addr insn (some e) t := by
  refine ⟨?_, fun k => absurd k (by simp)⟩
  intro e2 he
  simp only [Option.some.injEq] at he
  subst he
  exact ⟨hne, fun k => absurd hf k, fun _ => ⟨ht, hw⟩⟩

theorem rendered_loose (addr insn : Nat) (e : insn_entry) (t : String)
    (hm : e ∈ instr_table) (ho : e.opcode = get_opcode insn)
    (hf : e.funct3 = some (get_funct3 insn)) (h0 : e.funct7 = some 0)
    (h7 : ¬ get_funct7 insn = 0) (hne : t ≠ render_illegal_insn insn)
    (ht : t = mnemonic_field e.mnemonic ++ contract_operands (loose_form e.form) addr insn) :
    rendered_as addr insn none t :=
  ⟨fun _ he => absurd he (by simp), fun _ => Or.inr ⟨h7, e, hm, ho, hf, h0, hne, ht⟩⟩

/-- The text `decode` returns is, for every word, the rendering of the entry of the
instruction table the word has the key of. -/
theorem decode_rendered (addr insn : Nat) :
    rendered_as addr insn (lookup insn) (decode addr insn) := by
  apply decode_lookup (rendered_as addr insn) addr insn
  case h_lui =>
    intro _
    exact rendered_plain addr insn _ _ (render_lui_ne_illegal _) (by decide)
      (text_upper addr insn "lui")
  case h_auipc =>
    intro _
    exact rendered_plain addr insn _ _ (render_auipc_ne_illegal _) (by decide)
      (text_upper addr insn "auipc")
  case h_add =>
    intro _ _ _
    exact rendered_plain addr insn _ _ (render_rtype_ne_illegal _ _ (by decide)) (by decide)
      (text_rtype addr insn "add")
  case h_sub =>
    intro _ _ _
    exact rendered_plain addr insn _ _ (render_rtype_ne_illegal _ _ (by decide)) (by decide)
      (text_rtype addr insn "sub")
  case h_sll =>
    intro _ _ _
    exact rendered_plain addr insn _ _ (render_rtype_ne_illegal _ _ (by decide)) (by decide)
      (text_rtype addr insn "sll")
  case h_sll_loose =>
    intro ho hf h7
    exact rendered_loose addr insn
      ⟨"sll", operand_form.alu_reg, opcode_rtype, some funct3_sll, some 0, none⟩ _
      (by decide) ho.symm (by rw [hf]) rfl h7 (render_rtype_ne_illegal _ _ (by decide))
      (text_rtype addr insn "sll")
  case h_slt =>
    intro _ _ _
    exact rendered_plain addr insn _ _ (render_rtype_ne_illegal _ _ (by decide)) (by decide)
      (text_rtype addr insn "slt")
  case h_slt_loose =>
    intro ho hf h7
    exact rendered_loose addr insn
      ⟨"slt", operand_form.alu_reg, opcode_rtype, some funct3_slt, some 0, none⟩ _
      (by decide) ho.symm (by rw [hf]) rfl h7 (render_rtype_ne_illegal _ _ (by decide))
      (text_rtype addr insn "slt")
  case h_sltu =>
    intro _ _ _
    exact rendered_plain addr insn _ _ (render_rtype_ne_illegal _ _ (by decide)) (by decide)
      (text_rtype addr insn "sltu")
  case h_sltu_loose =>
    intro ho hf h7
    exact rendered_loose addr insn
      ⟨"sltu", operand_form.alu_reg, opcode_rtype, some funct3_sltu, some 0, none⟩ _
      (by decide) ho.symm (by rw [hf]) rfl h7 (render_rtype_ne_illegal _ _ (by decide))
      (text_rtype addr insn "sltu")
  case h_xor =>
    intro _ _ _
    exact rendered_plain addr insn _ _ (render_rtype_ne_illegal _ _ (by decide)) (by decide)
      (text_rtype addr insn "xor")
  case h_xor_loose =>
    intro ho hf h7
    exact rendered_loose addr insn
      ⟨"xor", operand_form.alu_reg, opcode_rtype, some funct3_xor, some 0, none⟩ _
      (by decide) ho.symm (by rw [hf]) rfl h7 (render_rtype_ne_illegal _ _ (by decide))
      (text_rtype addr insn "xor")
  case h_srl =>
    intro _ _ _
    exact rendered_plain addr insn _ _ (render_rtype_ne_illegal _ _ (by decide)) (by decide)
      (text_rtype addr insn "srl")
  case h_sra =>
    intro _ _ _
    exact rendered_plain addr insn _ _ (render_rtype_ne_illegal _ _ (by decide)) (by decide)
      (text_rtype addr insn "sra")
  case h_or =>
    intro _ _ _
    exact rendered_plain addr insn _ _ (render_rtype_ne_illegal _ _ (by decide)) (by decide)
      (text_rtype addr insn "or")
  case h_or_loose =>
    intro ho hf h7
    exact rendered_loose addr insn
      ⟨"or", operand_form.alu_reg, opcode_rtype, some funct3_or, some 0, none⟩ _
      (by decide) ho.symm (by rw [hf]) rfl h7 (render_rtype_ne_illegal _ _ (by decide))
      (text_rtype addr insn "or")
  case h_and =>
    intro _ _ _
    exact rendered_plain addr insn _ _ (render_rtype_ne_illegal _ _ (by decide)) (by decide)
      (text_rtype addr insn "and")
  case h_and_loose =>
    intro ho hf h7
    exact rendered_loose addr insn
      ⟨"and", operand_form.alu_reg, opcode_rtype, some funct3_and, some 0, none⟩ _
      (by decide) ho.symm (by rw [hf]) rfl h7 (render_rtype_ne_illegal _ _ (by decide))
      (text_rtype addr insn "and")
  case h_sb =>
    intro _ _
    exact rendered_plain addr insn _ _ (render_stype_ne_illegal _ _ (by decide)) (by decide)
      (text_store addr insn "sb")
  case h_sh =>
    intro _ _
    exact rendered_plain addr insn _ _ (render_stype_ne_illegal _ _ (by decide)) (by decide)
      (text_store addr insn "sh")
  case h_sw =>
    intro _ _
    exact rendered_plain addr insn _ _ (render_stype_ne_illegal _ _ (by decide)) (by decide)
      (text_store addr insn "sw")
  case h_slli =>
    intro _ _ h7
    exact rendered_plain addr insn _ _ (render_itype_alu_ne_illegal _ _ _ (by decide)) (by decide)
      (by rw [imm_i_low insn h7]; exact text_shift_imm addr insn "slli")
  case h_slli_loose =>
    intro ho hf h7
    exact rendered_loose addr insn
      ⟨"slli", operand_form.shift_imm, opcode_alu_imm, some funct3_sll, some 0, none⟩ _
      (by decide) ho.symm (by rw [hf]) rfl h7 (render_itype_alu_ne_illegal _ _ _ (by decide))
      (text_alu_imm addr insn "slli")
  case h_addi =>
    intro _ _
    exact rendered_plain addr insn _ _ (render_itype_alu_ne_illegal _ _ _ (by decide)) (by decide)
      (text_alu_imm addr insn "addi")
  case h_slti =>
    intro _ _
    exact rendered_plain addr insn _ _ (render_itype_alu_ne_illegal _ _ _ (by decide)) (by decide)
      (text_alu_imm addr insn "slti")
  case h_sltiu =>
    intro _ _
    exact rendered_plain addr insn _ _ (render_itype_alu_ne_illegal _ _ _ (by decide)) (by decide)
      (text_alu_imm addr insn "sltiu")
  case h_xori =>
    intro _ _
    exact rendered_plain addr insn _ _ (render_itype_alu_ne_illegal _ _ _ (by decide)) (by decide)
      (text_alu_imm addr insn "xori")
  case h_ori =>
    intro _ _
    exact rendered_plain addr insn _ _ (render_itype_alu_ne_illegal _ _ _ (by decide)) (by decide)
      (text_alu_imm addr insn "ori")
  case h_andi =>
    intro _ _
    exact rendered_plain addr insn _ _ (render_itype_alu_ne_illegal _ _ _ (by decide)) (by decide)
      (text_alu_imm addr insn "andi")
  case h_srli =>
    intro _ _ h7
    exact rendered_plain addr insn _ _ (render_itype_alu_ne_illegal _ _ _ (by decide)) (by decide)
      (by rw [imm_i_low insn h7]; exact text_shift_imm addr insn "srli")
  case h_srai =>
    intro _ _ _
    exact rendered_plain addr insn _ _ (render_itype_alu_ne_illegal _ _ _ (by decide)) (by decide)
      (by
        rw [show toS32 (toU32 (get_imm_i insn) % XLEN) = ((bitfield insn 24 20 : Nat) : Int)
          from (imm_shift_masked insn).1]
        exact text_shift_imm addr insn "srai")
  case h_lb =>
    intro _ _
    exact rendered_plain addr insn _ _ (render_itype_load_ne_illegal _ _ (by decide)) (by decide)
      (text_load addr insn "lb")
  case h_lh =>
    intro _ _
    exact rendered_plain addr insn _ _ (render_itype_load_ne_illegal _ _ (by decide)) (by decide)
      (text_load addr insn "lh")
  case h_lw =>
    intro _ _
    exact rendered_plain addr insn _ _ (render_itype_load_ne_illegal _ _ (by decide)) (by decide)
      (text_load addr insn "lw")
  case h_lbu =>
    intro _ _
    exact rendered_plain addr insn _ _ (render_itype_load_ne_illegal _ _ (by decide)) (by decide)
      (text_load addr insn "lbu")
  case h_lhu =>
    intro _ _
    exact rendered_plain addr insn _ _ (render_itype_load_ne_illegal _ _ (by decide)) (by decide)
      (text_load addr insn "lhu")
  case h_beq =>
    intro _ _
    exact rendered_plain addr insn _ _ (render_btype_ne_illegal _ _ _ (by decide)) (by decide)
      (text_btype addr insn "beq")
  case h_bne =>
    intro _ _
    exact rendered_plain addr insn _ _ (render_btype_ne_illegal _ _ _ (by decide)) (by decide)
      (text_btype addr insn "bne")
  case h_blt =>
    intro _ _
    exact rendered_plain addr insn _ _ (render_btype_ne_illegal _ _ _ (by decide)) (by decide)
      (text_btype addr insn "blt")
  case h_bge =>
    intro _ _
    exact rendered_plain addr insn _ _ (render_btype_ne_illegal _ _ _ (by decide)) (by decide)
      (text_btype addr insn "bge")
  case h_bltu =>
    intro _ _
    exact rendered_plain addr insn _ _ (render_btype_ne_illegal _ _ _ (by decide)) (by decide)
      (text_btype addr insn "bltu")
  case h_bgeu =>
    intro _ _
    exact rendered_plain addr insn _ _ (render_btype_ne_illegal _ _ _ (by decide)) (by decide)
      (text_btype addr insn "bgeu")
  case h_jal =>
    intro _
    exact rendered_plain addr insn _ _ (render_jal_ne_illegal _ _) (by decide)
      (text_jal addr insn)
  case h_jalr =>
    intro _
    exact rendered_plain addr insn _ _ (render_jalr_ne_illegal _) (by decide)
      (text_jalr addr insn)
  case h_ecall =>
    intro _ he
    exact rendered_bare addr insn _ _ (by
      show "ecall" ≠ "ERROR: UNIMPLEMENTED INSTRUCTION"
      decide) rfl rfl (Or.inl ⟨he, rfl⟩)
  case h_ebreak =>
    intro _ he
    exact rendered_bare addr insn _ _ (by
      show "ebreak" ≠ "ERROR: UNIMPLEMENTED INSTRUCTION"
      decide) rfl rfl (Or.inr ⟨he, rfl⟩)
  case h_csrrw =>
    intro _ _
    exact rendered_plain addr insn _ _ (render_csrrx_ne_illegal _ _ (by decide)) (by decide)
      (text_csrrx addr insn "csrrw")
  case h_csrrs =>
    intro _ _
    exact rendered_plain addr insn _ _ (render_csrrx_ne_illegal _ _ (by decide)) (by decide)
      (text_csrrx addr insn "csrrs")
  case h_csrrc =>
    intro _ _
    exact rendered_plain addr insn _ _ (render_csrrx_ne_illegal _ _ (by decide)) (by decide)
      (text_csrrx addr insn "csrrc")
  case h_csrrwi =>
    intro _ _
    exact rendered_plain addr insn _ _ (render_csrrxi_ne_illegal _ _ (by decide)) (by decide)
      (text_csrrxi addr insn "csrrwi")
  case h_csrrsi =>
    intro _ _
    exact rendered_plain addr insn _ _ (render_csrrxi_ne_illegal _ _ (by decide)) (by decide)
      (text_csrrxi addr insn "csrrsi")
  case h_csrrci =>
    intro _ _
    exact rendered_plain addr insn _ _ (render_csrrxi_ne_illegal _ _ (by decide)) (by decide)
      (text_csrrxi addr insn "csrrci")
  case h_illegal => exact ⟨fun e he => absurd he (by simp), fun _ => Or.inl rfl⟩

/-- The entry `lookup` finds is an entry of the table whose key the word has, and the only
one. -/
theorem lookup_sound (insn : Nat) (e : insn_entry) (h : lookup insn = some e) :
    e ∈ instr_table ∧ entry_matches e insn = true ∧
    ∀ e2 ∈ instr_table, entry_matches e2 insn = true → e2 = e := by
  unfold lookup at h
  have hm := List.mem_of_find?_eq_some h
  have hp : entry_matches e insn = true := by
    have k := List.find?_some h
    exact k
  exact ⟨hm, hp, fun e2 h2 m2 =>
    table_keys_disjoint e2 h2 e hm (matches_agree insn e2 e m2 hp)⟩

/-- With no entry found, no entry of the table has the key of the word. -/
theorem lookup_none (insn : Nat) (h : lookup insn = none) :
    ∀ e ∈ instr_table, entry_matches e insn = false := by
  unfold lookup at h
  intro e he
  have k := List.find?_eq_none.mp h e he
  simpa using k

set_option maxRecDepth 100000 in
/-- C30 (counterexample): the word `0x00000073` is rendered as the five characters
`ecall`, not as illegal, and this text starts with no mnemonic padded to 8 characters,
whatever the mnemonic and the operands; the same holds of `0x00100073`, rendered `ebreak`. -/
theorem C30_ecall_not_padded :
    decode 0 0x00000073 = "ecall" ∧ decode 0 0x00000073 ≠ render_illegal_insn 0x00000073 ∧
    (∀ m operands : String, decode 0 0x00000073 ≠ mnemonic_field m ++ operands) ∧
    decode 0 0x00100073 = "ebreak" ∧ decode 0 0x00100073 ≠ render_illegal_insn 0x00100073 ∧
    (∀ m operands : String, decode 0 0x00100073 ≠ mnemonic_field m ++ operands) := by
  have e1 : decode 0 0x00000073 = "ecall" := by decide
  have e2 : decode 0 0x00100073 = "ebreak" := by decide
  have len : ∀ m operands : String, 8 ≤ (mnemonic_field m ++ operands).length := by
    intro m operands
    unfold mnemonic_field
    rw [String.length_append, String.length_append, pad_length]
    omega
  refine ⟨e1, by rw [e1]; decide, ?_, e2, by rw [e2]; decide, ?_⟩
  · intro m operands k
    have l := len m operands
    rw [← k, e1] at l
    exact absurd l (by decide)
  · intro m operands k
    have l := len m operands
    rw [← k, e2] at l
    exact absurd l (by decide)

set_option maxRecDepth 100000 in
/-- C30 (amended): for every address and every word that has the key of an instruction of
the table, the word has the key of that instruction only, and `decode` returns the text of
the rendering contract for it, the mnemonic of the instruction left-justified and padded
with blanks to exactly 8 characters followed by the operands of its shape, except that for
`ecall` (`0x00000073`) and `ebreak` (`0x00100073`) the text is the bare mnemonic.  For a
word with the key of no instruction `decode` returns the illegal-instruction text, or, for
some words with `funct7 ≠ 0`, at which it does not look, the mnemonic and the operands of
the instruction with the same opcode and `funct3` and with `funct7 = 0`, the last operand of
`slli` being then the whole I-immediate: `0x022091B3` is rendered as `sll` and `0x02109093`
as `slli x1,x1,33`.  The illegal-instruction text is returned for no word that has the key
of an instruction.  Every mnemonic of the table has at most 6 characters and fills exactly
8 once padded. -/
theorem C30_rendering_contract (addr insn : Nat) :
    (∀ e, lookup insn = some e →
      e ∈ instr_table ∧ entry_matches e insn = true ∧
      (∀ e2 ∈ instr_table, entry_matches e2 insn = true → e2 = e) ∧
      decode addr insn ≠ render_illegal_insn insn ∧
      (e.form ≠ operand_form.bare → decode addr insn = contract_text e addr insn) ∧
      (e.form = operand_form.bare →
        decode addr insn = e.mnemonic ∧
        ((insn = insn_ecall ∧ e.mnemonic = "ecall") ∨
          (insn = insn_ebreak ∧ e.mnemonic = "ebreak")))) ∧
    (lookup insn = none →
      (∀ e ∈ instr_table, entry_matches e insn = false) ∧
      (decode addr insn = render_illegal_insn insn ∨
        (get_funct7 insn ≠ 0 ∧ ∃ e ∈ instr_table,
          e.opcode = get_opcode insn ∧ e.funct3 = some (get_funct3 insn) ∧
          e.funct7 = some 0 ∧ decode addr insn ≠ render_illegal_insn insn ∧
          decode addr insn
            = mnemonic_field e.mnemonic ++ contract_operands (loose_form e.form) addr insn))) ∧
    (decode addr insn = render_illegal_insn insn → lookup insn = none) ∧
    (∀ e ∈ instr_table, e.mnemonic.length ≤ 6 ∧ (mnemonic_field e.mnemonic).length = 8) ∧
    decode 0 0x00500093 = "addi    x1,x0,5" ∧
    lookup 0x00500093
      = some ⟨"addi", operand_form.alu_imm, opcode_alu_imm, some funct3_add, none, none⟩ ∧
    decode 0 0x00208463 = "beq     x1,x2,0x00000008" ∧
    decode 0 0x00109093 = "slli    x1,x1,1" ∧
    lookup 0x022091B3 = none ∧ decode 0 0x022091B3 = "sll     x3,x1,x2" ∧
    lookup 0x02109093 = none ∧ decode 0 0x02109093 = "slli    x1,x1,33" := by
  have key := decode_rendered addr insn
  refine ⟨?_, ?_, ?_, by decide, by decide, by decide, by decide, by decide, by decide,
    by decide, by decide, by decide⟩
  · intro e he
    obtain ⟨m1, m2, m3⟩ := lookup_sound insn e he
    obtain ⟨k0, k1, k2⟩ := key.1 e he
    exact ⟨m1, m2, m3, k0, k1, k2⟩
  · intro hn
    exact ⟨lookup_none insn hn, key.2 hn⟩
  · intro k
    cases hl : lookup insn with
    | none => rfl
    | some e => exact absurd k (key.1 e hl).1

/-! ## The text on the standard output -/

theorem join_append (l1 l2 : List String) :
    String.join (l1 ++ l2) = String.join l1 ++ String.join l2 := by
  induction l1 with
  | nil => simp [String.join]
  | cons a t ih => rw [List.cons_append, join_cons, join_cons, ih, String.append_assoc]

theorem warnings_append (n : Nat) (l1 l2 : List Nat) :
    warnings n (l1 ++ l2) = warnings n l1 ++ warnings n l2 := by
  unfold warnings
  rw [List.filter_append, List.map_append, join_append]

theorem warnings_nil (n : Nat) : warnings n [] = "" := rfl

theorem warnings_in (n a : Nat) (h : a < n) : warnings n [a] = "" := by
  unfold warnings
  rw [List.filter_cons_of_neg (by simpa using h)]
  rfl

theorem warnings_out (n a : Nat) (h : n ≤ a) : warnings n [a] = warning_line a := by
  unfold warnings
  rw [List.filter_cons_of_pos (by simpa using h)]
  simp [String.join]

theorem check_illegal_out_eq (m : memory) (i : Nat) (c : String) :
    m.check_illegal_out i c = (m.check_illegal i, c ++ warnings m.mem.length [i]) := by
  unfold memory.check_illegal_out memory.check_illegal
  by_cases h : i < m.mem.length
  · rw [if_pos h, warnings_in _ _ h, String.append_empty]
    simp [h]
  · rw [if_neg h, warnings_out _ _ (by omega)]
    simp [h]

theorem get8_out_eq (m : memory) (a : Nat) (c : String) :
    m.get8_out a c = (m.get8 a, c ++ warnings m.mem.length [a]) := by
  unfold memory.get8_out memory.get8
  rw [check_illegal_out_eq]
  dsimp only
  by_cases h : m.check_illegal a = true
  · rw [if_pos h, if_pos h]
  · rw [if_neg h, if_neg h]

theorem get16_out_eq (o : eval_order) (m : memory) (a : Nat) (c : String) :
    ∃ l : List Nat, m.get16_out o a c = (m.get16 a, c ++ warnings m.mem.length l) ∧
      ∀ x ∈ l, x = a ∨ x = (a + 1) % 4294967296 := by
  unfold memory.get16_out memory.get16
  cases o.get16_left_first with
  | true =>
    refine ⟨[a, (a + 1) % 4294967296], ?_, ?_⟩
    · simp only [if_true, get8_out_eq]
      rw [String.append_assoc, ← warnings_append]
      rfl
    · intro x hx
      simpa using hx
  | false =>
    refine ⟨[(a + 1) % 4294967296, a], ?_, ?_⟩
    · simp only [Bool.false_eq_true, if_false, get8_out_eq]
      rw [String.append_assoc, ← warnings_append]
      rfl
    · intro x hx
      simp only [List.mem_cons, List.mem_singleton, List.not_mem_nil, or_false] at hx
      exact hx.symm

theorem get32_out_eq (o : eval_order) (m : memory) (a : Nat) (c : String) :
    ∃ l : List Nat, m.get32_out o a c = (m.get32 a, c ++ warnings m.mem.length l) ∧
      ∀ x ∈ l, x = a ∨ x = (a + 1) % 4294967296 ∨ x = (a + 2) % 4294967296 ∨
        x = ((a + 2) % 4294967296 + 1) % 4294967296 := by
  unfold memory.get32_out memory.get32
  cases o.get32_left_first with
  | true =>
    obtain ⟨l1, e1, h1⟩ := get16_out_eq o m a c
    obtain ⟨l2, e2, h2⟩ := get16_out_eq o m ((a + 2) % 4294967296)
      (c ++ warnings m.mem.length l1)
    refine ⟨l1 ++ l2, ?_, ?_⟩
    · simp only [if_true, e1, e2]
      rw [String.append_assoc, ← warnings_append]
    · intro x hx
      rcases List.mem_append.mp hx with k | k
      · rcases h1 x k with k | k
        · exact Or.inl k
        · exact Or.inr (Or.inl k)
      · rcases h2 x k with k | k
        · exact Or.inr (Or.inr (Or.inl k))
        · exact Or.inr (Or.inr (Or.inr k))
  | false =>
    obtain ⟨l2, e2, h2⟩ := get16_out_eq o m ((a + 2) % 4294967296) c
    obtain ⟨l1, e1, h1⟩ := get16_out_eq o m a (c ++ warnings m.mem.length l2)
    refine ⟨l2 ++ l1, ?_, ?_⟩
    · simp only [Bool.false_eq_true, if_false, e1, e2]
      rw [String.append_assoc, ← warnings_append]
    · intro x hx
      rcases List.mem_append.mp hx with k | k
      · rcases h2 x k with k | k
        · exact Or.inr (Or.inr (Or.inl k))
        · exact Or.inr (Or.inr (Or.inr k))
      · rcases h1 x k with k | k
        · exact Or.inl k
        · exact Or.inr (Or.inl k)

theorem set8_out_eq (m : memory) (a v : Nat) (c : String) :
    m.set8_out a v c = (m.set8 a v, c ++ warnings m.mem.length [a]) := by
  unfold memory.set8_out memory.set8
  rw [check_illegal_out_eq]
  dsimp only
  by_cases h : m.check_illegal a = true
  · rw [if_pos h, if_pos h]
  · rw [if_neg h, if_neg h]

theorem set16_out_eq (m : memory) (a v : Nat) (c : String) :
    m.set16_out a v c = (m.set16 a v).map
      (fun m2 => (m2, c ++ warnings m.mem.length [(a + 1) % 4294967296, a])) := by
  unfold memory.set16_out memory.set16
  simp only [set8_out_eq, set8_length]
  rw [String.append_assoc, ← warnings_append]
  rfl

theorem set32_out_eq (m : memory) (a v : Nat) (c : String) :
    m.set32_out a v c = (m.set32 a v).map
      (fun m2 => (m2, c ++ warnings m.mem.length
        [((a + 1) % 4294967296 + 1) % 4294967296, (a + 1) % 4294967296,
         ((a + 2) % 4294967296 + 1) % 4294967296, (a + 2) % 4294967296])) := by
  unfold memory.set32_out memory.set32
  rw [set16_out_eq]
  cases h1 : m.set16 ((a + 1) % 4294967296) (v >>> 8) with
  | none => rfl
  | some m1 =>
    simp only [Option.map_some']
    rw [set16_out_eq, set16_length m m1 _ _ h1]
    cases h2 : m1.set16 ((a + 2) % 4294967296) (v >>> 16) with
    | none => rfl
    | some m2 =>
      simp only [Option.map_some']
      rw [String.append_assoc, ← warnings_append]
      rfl

/-- Case analysis on a word along the `switch` of `exec`, for `exec` with and without the
output and for `decode` together: a property of the results of each instruction function and
of its rendering, under the conditions of the `case` labels, and of the results of
`exec_illegal_insn` for the words of the `default:` labels, is a property of the results of
`exec_out`, `exec` and `decode`. -/
theorem exec_out_cases (P : Option machine → Option rv32i_hart → String → Prop)
    (o : eval_order) (w : machine) (insn : Nat) (pos : Bool) (addr : Nat)
    (h_lui : get_opcode insn = opcode_lui →
      P (some (exec_lui_out w insn pos)) (some (exec_lui w.hart insn))
        (render_lui insn))
    (h_auipc : get_opcode insn = opcode_auipc →
      P (some (exec_auipc_out w insn pos)) (some (exec_auipc w.hart insn))
        (render_auipc insn))
    (h_add : get_opcode insn = opcode_rtype → get_funct3 insn = funct3_add →
      get_funct7 insn = funct7_add →
      P (some (exec_add_out w insn pos)) (some (exec_add w.hart insn))
        (render_rtype insn "add"))
    (h_sub : get_opcode insn = opcode_rtype → get_funct3 insn = funct3_add →
      get_funct7 insn = funct7_sub →
      P (some (exec_sub_out w insn pos)) (some (exec_sub w.hart insn))
        (render_rtype insn "sub"))
    (h_sll : get_opcode insn = opcode_rtype → get_funct3 insn = funct3_sll →
      P (exec_sll_out w insn pos) (exec_sll w.hart insn)
        (render_rtype insn "sll"))
    (h_slt : get_opcode insn = opcode_rtype → get_funct3 insn = funct3_slt →
      P (some (exec_slt_out w insn pos)) (some (exec_slt w.hart insn))
        (render_rtype insn "slt"))
    (h_sltu : get_opcode insn = opcode_rtype → get_funct3 insn = funct3_sltu →
      P (some (exec_sltu_out w insn pos)) (some (exec_sltu w.hart insn))
        (render_rtype insn "sltu"))
    (h_xor : get_opcode insn = opcode_rtype → get_funct3 insn = funct3_xor →
      P (some (exec_xor_out w insn pos)) (some (exec_xor w.hart insn))
        (render_rtype insn "xor"))
    (h_srl : get_opcode insn = opcode_rtype → get_funct3 insn = funct3_srx →
      get_funct7 insn = funct7_srl →
      P (exec_srl_out w insn pos) (exec_srl w.hart insn)
        (render_rtype insn "srl"))
    (h_sra : get_opcode insn = opcode_rtype → get_funct3 insn = funct3_srx →
      get_funct7 insn = funct7_sra →
      P (exec_sra_out w insn pos) (exec_sra w.hart insn)
        (render_rtype insn "sra"))
    (h_or : get_opcode insn = opcode_rtype → get_funct3 insn = funct3_or →
      P (some (exec_or_out w insn pos)) (some (exec_or w.hart insn))
        (render_rtype insn "or"))
    (h_and : get_opcode insn = opcode_rtype → get_funct3 insn = funct3_and →
      P (some (exec_and_out w insn pos)) (some (exec_and w.hart insn))
        (render_rtype insn "and"))
    (h_sb : get_opcode insn = opcode_stype → get_funct3 insn = funct3_sb →
      P (some (exec_sb_out w insn pos)) (some (exec_sb w.hart insn))
        (render_stype insn "sb"))
    (h_sh : get_opcode insn = opcode_stype → get_funct3 insn = funct3_sh →
      P (exec_sh_out w insn pos) (exec_sh w.hart insn)
        (render_stype insn "sh"))
    (h_sw : get_opcode insn = opcode_stype → get_funct3 insn = funct3_sw →
      P (exec_sw_out w insn pos) (exec_sw w.hart insn)
        (render_stype insn "sw"))
    (h_slli : get_opcode insn = opcode_alu_imm → get_funct3 insn = funct3_sll →
      P (exec_slli_out w insn pos) (exec_slli w.hart insn)
        (render_itype_alu insn "slli" (get_imm_i insn)))
    (h_addi : get_opcode insn = opcode_alu_imm → get_funct3 insn = funct3_add →
      P (some (exec_addi_out w insn pos)) (some (exec_addi w.hart insn))
        (render_itype_alu insn "addi" (get_imm_i insn)))
    (h_slti : get_opcode insn = opcode_alu_imm → get_funct3 insn = funct3_slt →
      P (some (exec_slti_out w insn pos)) (some (exec_slti w.hart insn))
        (render_itype_alu insn "slti" (get_imm_i insn)))
    (h_sltiu : get_opcode insn = opcode_alu_imm → get_funct3 insn = funct3_sltu →
      P (some (exec_sltiu_out w insn pos)) (some (exec_sltiu w.hart insn))
        (render_itype_alu insn "sltiu" (get_imm_i insn)))
    (h_xori : get_opcode insn = opcode_alu_imm → get_funct3 insn = funct3_xor →
      P (some (exec_xori_out w insn pos)) (some (exec_xori w.hart insn))
        (render_itype_alu insn "xori" (get_imm_i insn)))
    (h_ori : get_opcode insn = opcode_alu_imm → get_funct3 insn = funct3_or →
      P (some (exec_ori_out w insn pos)) (some (exec_ori w.hart insn))
        (render_itype_alu insn "ori" (get_imm_i insn)))
    (h_andi : get_opcode insn = opcode_alu_imm → get_funct3 insn = funct3_and →
      P (some (exec_andi_out w insn pos)) (some (exec_andi w.hart insn))
        (render_itype_alu insn "andi" (get_imm_i insn)))
    (h_srli : get_opcode insn = opcode_alu_imm → get_funct3 insn = funct3_srx →
      get_funct7 insn = funct7_srl →
      P (exec_srli_out w insn pos) (exec_srli w.hart insn)
        (render_itype_alu insn "srli" (get_imm_i insn)))
    (h_srai : get_opcode insn = opcode_alu_imm → get_funct3 insn = funct3_srx →
      get_funct7 insn = funct7_sra →
      P (exec_srai_out w insn pos) (exec_srai w.hart insn)
        (render_itype_alu insn "srai" (toS32 (toU32 (get_imm_i insn) % XLEN))))
    (h_lb : get_opcode insn = opcode_load_imm → get_funct3 insn = funct3_lb →
      P (some (exec_lb_out w insn pos)) (some (exec_lb w.hart insn))
        (render_itype_load insn "lb"))
    (h_lh : get_opcode insn = opcode_load_imm → get_funct3 insn = funct3_lh →
      P (some (exec_lh_out o w insn pos)) (some (exec_lh w.hart insn))
        (render_itype_load insn "lh"))
    (h_lw : get_opcode insn = opcode_load_imm → get_funct3 insn = funct3_lw →
      P (some (exec_lw_out o w insn pos)) (some (exec_lw w.hart insn))
        (render_itype_load insn "lw"))
    (h_lbu : get_opcode insn = opcode_load_imm → get_funct3 insn = funct3_lbu →
      P (some (exec_lbu_out w insn pos)) (some (exec_lbu w.hart insn))
        (render_itype_load insn "lbu"))
    (h_lhu : get_opcode insn = opcode_load_imm → get_funct3 insn = funct3_lhu →
      P (some (exec_lhu_out o w insn pos)) (some (exec_lhu w.hart insn))
        (render_itype_load insn "lhu"))
    (h_beq : get_opcode insn = opcode_btype → get_funct3 insn = funct3_beq →
      P (some (exec_beq_out w insn pos)) (some (exec_beq w.hart insn))
        (render_btype addr insn "beq"))
    (h_bne : get_opcode insn = opcode_btype → get_funct3 insn = funct3_bne →
      P (some (exec_bne_out w insn pos)) (some (exec_bne w.hart insn))
        (render_btype addr insn "bne"))
    (h_blt : get_opcode insn = opcode_btype → get_funct3 insn = funct3_blt →
      P (some (exec_blt_out w insn pos)) (some (exec_blt w.hart insn))
        (render_btype addr insn "blt"))
    (h_bge : get_opcode insn = opcode_btype → get_funct3 insn = funct3_bge →
      P (some (exec_bge_out w insn pos)) (some (exec_bge w.hart insn))
        (render_btype addr insn "bge"))
    (h_bltu : get_opcode insn = opcode_btype → get_funct3 insn = funct3_bltu →
      P (some (exec_bltu_out w insn pos)) (some (exec_bltu w.hart insn))
        (render_btype addr insn "bltu"))
    (h_bgeu : get_opcode insn = opcode_btype → get_funct3 insn = funct3_bgeu →
      P (some (exec_bgeu_out w insn pos)) (some (exec_bgeu w.hart insn))
        (render_btype addr insn "bgeu"))
    (h_jal : get_opcode insn = opcode_jal →
      P (some (exec_jal_out w insn pos)) (some (exec_jal w.hart insn))
        (render_jal addr insn))
    (h_jalr : get_opcode insn = opcode_jalr →
      P (some (exec_jalr_out w insn pos)) (some (exec_jalr w.hart insn))
        (render_jalr insn))
    (h_ebreak : get_opcode insn = opcode_system → insn = insn_ebreak →
      P (some (exec_ebreak_out w insn pos)) (some (exec_ebreak w.hart insn))
        (render_ebreak insn))
    (h_csrrs : get_opcode insn = opcode_system → get_funct3 insn = funct3_csrrs →
      P (some (exec_csrrs_out w insn pos)) (some (exec_csrrs w.hart insn))
        (render_csrrx insn "csrrs"))
    (h_illegal_insn : dispatches_illegal insn = true →
      P (some (exec_illegal_insn_out w insn pos)) (some (exec_illegal_insn w.hart insn))
        (decode addr insn)) :
    P (exec_out o w insn pos) (exec w.hart insn) (decode addr insn) := by
  have key : ∀ d, d = decode addr insn →
      P (exec_out o w insn pos) (exec w.hart insn) d := by
    intro d hd0
    have hd := hd0
    unfold decode at hd
    unfold exec_out exec
    dsimp only at hd ⊢
    by_cases c1 : get_opcode insn = opcode_lui
    · rw [if_pos c1, if_pos c1]
      rw [if_pos c1] at hd
      rw [hd]
      exact h_lui c1
    rw [if_neg c1, if_neg c1]
    rw [if_neg c1] at hd
    by_cases c2 : get_opcode insn = opcode_auipc
    · rw [if_pos c2, if_pos c2]
      rw [if_pos c2] at hd
      rw [hd]
      exact h_auipc c2
    rw [if_neg c2, if_neg c2]
    rw [if_neg c2] at hd
    by_cases c3 : get_opcode insn = opcode_rtype
    · rw [if_pos c3, if_pos c3]
      rw [if_pos c3] at hd
      by_cases c4 : get_funct3 insn = funct3_add
      · rw [if_pos c4, if_pos c4]
        rw [if_pos c4] at hd
        by_cases c5 : get_funct7 insn = funct7_add
        · rw [if_pos c5, if_pos c5]
          rw [if_pos c5] at hd
          rw [hd]
          exact h_add c3 c4 c5
        rw [if_neg c5, if_neg c5]
        rw [if_neg c5] at hd
        by_cases c6 : get_funct7 insn = funct7_sub
        · rw [if_pos c6, if_pos c6]
          rw [if_pos c6] at hd
          rw [hd]
          exact h_sub c3 c4 c6
        rw [if_neg c6, if_neg c6]
        rw [if_neg c6] at hd
        rw [hd0]
        exact h_illegal_insn (by
          unfold dispatches_illegal
          rw [if_neg c1, if_neg c2, if_pos c3, if_pos c4, if_neg c5, if_neg c6])
      rw [if_neg c4, if_neg c4]
      rw [if_neg c4] at hd
      by_cases c7 : get_funct3 insn = funct3_sll
      · rw [if_pos c7, if_pos c7]
        rw [if_pos c7] at hd
        rw [hd]
        exact h_sll c3 c7
      rw [if_neg c7, if_neg c7]
      rw [if_neg c7] at hd
      by_cases c8 : get_funct3 insn = funct3_slt
      · rw [if_pos c8, if_pos c8]
        rw [if_pos c8] at hd
        rw [hd]
        exact h_slt c3 c8
      rw [if_neg c8, if_neg c8]
      rw [if_neg c8] at hd
      by_cases c9 : get_funct3 insn = funct3_sltu
      · rw [if_pos c9, if_pos c9]
        rw [if_pos c9] at hd
        rw [hd]
        exact h_sltu c3 c9
      rw [if_neg c9, if_neg c9]
      rw [if_neg c9] at hd
      by_cases c10 : get_funct3 insn = funct3_xor
      · rw [if_pos c10, if_pos c10]
        rw [if_pos c10] at hd
        rw [hd]
        exact h_xor c3 c10
      rw [if_neg c10, if_neg c10]
      rw [if_neg c10] at hd
      by_cases c11 : get_funct3 insn = funct3_srx
      · rw [if_pos c11, if_pos c11]
        rw [if_pos c11] at hd
        by_cases c12 : get_funct7 insn = funct7_srl
        · rw [if_pos c12, if_pos c12]
          rw [if_pos c12] at hd
          rw [hd]
          exact h_srl c3 c11 c12
        rw [if_neg c12, if_neg c12]
        rw [if_neg c12] at hd
        by_cases c13 : get_funct7 insn = funct7_sra
        · rw [if_pos c13, if_pos c13]
          rw [if_pos c13] at hd
          rw [hd]
          exact h_sra c3 c11 c13
        rw [if_neg c13, if_neg c13]
        rw [if_neg c13] at hd
        rw [hd0]
        exact h_illegal_insn (by
          unfold dispatches_illegal
          rw [if_neg c1, if_neg c2, if_pos c3, if_neg c4, if_neg c7, if_neg c8, if_neg c9,
            if_neg c10, if_pos c11, if_neg c12, if_neg c13])
      rw [if_neg c11, if_neg c11]
      rw [if_neg c11] at hd
      by_cases c14 : get_funct3 insn = funct3_or
      · rw [if_pos c14, if_pos c14]
        rw [if_pos c14] at hd
        rw [hd]
        exact h_or c3 c14
      rw [if_neg c14, if_neg c14]
      rw [if_neg c14] at hd
      by_cases c15 : get_funct3 insn = funct3_and
      · rw [if_pos c15, if_pos c15]
        rw [if_pos c15] at hd
        rw [hd]
        exact h_and c3 c15
      rw [if_neg c15, if_neg c15]
      rw [if_neg c15] at hd
      rw [hd0]
      exact h_illegal_insn (by
        unfold dispatches_illegal
        rw [if_neg c1, if_neg c2, if_pos c3, if_neg c4, if_neg c7, if_neg c8, if_neg c9,
          if_neg c10, if_neg c11, if_neg c14, if_neg c15])
    rw [if_neg c3, if_neg c3]
    rw [if_neg c3] at hd
    by_cases c16 : get_opcode insn = opcode_stype
    · rw [if_pos c16, if_pos c16]
      rw [if_pos c16] at hd
      by_cases c17 : get_funct3 insn = funct3_sb
      · rw [if_pos c17, if_pos c17]
        rw [if_pos c17] at hd
        rw [hd]
        exact h_sb c16 c17
      rw [if_neg c17, if_neg c17]
      rw [if_neg c17] at hd
      by_cases c18 : get_funct3 insn = funct3_sh
      · rw [if_pos c18, if_pos c18]
        rw [if_pos c18] at hd
        rw [hd]
        exact h_sh c16 c18
      rw [if_neg c18, if_neg c18]
      rw [if_neg c18] at hd
      by_cases c19 : get_funct3 insn = funct3_sw
      · rw [if_pos c19, if_pos c19]
        rw [if_pos c19] at hd
        rw [hd]
        exact h_sw c16 c19
      rw [if_neg c19, if_neg c19]
      rw [if_neg c19] at hd
      rw [hd0]
      exact h_illegal_insn (by
        unfold dispatches_illegal
        rw [if_neg c1, if_neg c2, if_neg c3, if_pos c16, if_neg c17, if_neg c18, if_neg c19])
    rw [if_neg c16, if_neg c16]
    rw [if_neg c16] at hd
    by_cases c20 : get_opcode insn = opcode_alu_imm
    · rw [if_pos c20, if_pos c20]
      rw [if_pos c20] at hd
      by_cases c21 : get_funct3 insn = funct3_sll
      · rw [if_pos c21, if_pos c21]
        rw [if_pos c21] at hd
        rw [hd]
        exact h_slli c20 c21
      rw [if_neg c21, if_neg c21]
      rw [if_neg c21] at hd
      by_cases c22 : get_funct3 insn = funct3_add
      · rw [if_pos c22, if_pos c22]
        rw [if_pos c22] at hd
        rw [hd]
        exact h_addi c20 c22
      rw [if_neg c22, if_neg c22]
      rw [if_neg c22] at hd
      by_cases c23 : get_funct3 insn = funct3_slt
      · rw [if_pos c23, if_pos c23]
        rw [if_pos c23] at hd
        rw [hd]
        exact h_slti c20 c23
      rw [if_neg c23, if_neg c23]
      rw [if_neg c23] at hd
      by_cases c24 : get_funct3 insn = funct3_sltu
      · rw [if_pos c24, if_pos c24]
        rw [if_pos c24] at hd
        rw [hd]
        exact h_sltiu c20 c24
      rw [if_neg c24, if_neg c24]
      rw [if_neg c24] at hd
      by_cases c25 : get_funct3 insn = funct3_xor
      · rw [if_pos c25, if_pos c25]
        rw [if_pos c25] at hd
        rw [hd]
        exact h_xori c20 c25
      rw [if_neg c25, if_neg c25]
      rw [if_neg c25] at hd
      by_cases c26 : get_funct3 insn = funct3_or
      · rw [if_pos c26, if_pos c26]
        rw [if_pos c26] at hd
        rw [hd]
        exact h_ori c20 c26
      rw [if_neg c26, if_neg c26]
      rw [if_neg c26] at hd
      by_cases c27 : get_funct3 insn = funct3_and
      · rw [if_pos c27, if_pos c27]
        rw [if_pos c27] at hd
        rw [hd]
        exact h_andi c20 c27
      rw [if_neg c27, if_neg c27]
      rw [if_neg c27] at hd
      by_cases c28 : get_funct3 insn = funct3_srx
      · rw [if_pos c28, if_pos c28]
        rw [if_pos c28] at hd
        by_cases c29 : get_funct7 insn = funct7_srl
        · rw [if_pos c29, if_pos c29]
          rw [if_pos c29] at hd
          rw [hd]
          exact h_srli c20 c28 c29
        rw [if_neg c29, if_neg c29]
        rw [if_neg c29] at hd
        by_cases c30 : get_funct7 insn = funct7_sra
        · rw [if_pos c30, if_pos c30]
          rw [if_pos c30] at hd
          rw [hd]
          exact h_srai c20 c28 c30
        rw [if_neg c30, if_neg c30]
        rw [if_neg c30] at hd
        rw [hd0]
        exact h_illegal_insn (by
          unfold dispatches_illegal
          rw [if_neg c1, if_neg c2, if_neg c3, if_neg c16, if_pos c20, if_neg c21, if_neg c22,
            if_neg c23, if_neg c24, if_neg c25, if_neg c26, if_neg c27, if_pos c28, if_neg c29,
            if_neg c30])
      rw [if_neg c28, if_neg c28]
      rw [if_neg c28] at hd
      rw [hd0]
      exact h_illegal_insn (by
        unfold dispatches_illegal
        rw [if_neg c1, if_neg c2, if_neg c3, if_neg c16, if_pos c20, if_neg c21, if_neg c22,
          if_neg c23, if_neg c24, if_neg c25, if_neg c26, if_neg c27, if_neg c28])
    rw [if_neg c20, if_neg c20]
    rw [if_neg c20] at hd
    by_cases c31 : get_opcode insn = opcode_load_imm
    · rw [if_pos c31, if_pos c31]
      rw [if_pos c31] at hd
      by_cases c32 : get_funct3 insn = funct3_lb
      · rw [if_pos c32, if_pos c32]
        rw [if_pos c32] at hd
        rw [hd]
        exact h_lb c31 c32
      rw [if_neg c32, if_neg c32]
      rw [if_neg c32] at hd
      by_cases c33 : get_funct3 insn = funct3_lh
      · rw [if_pos c33, if_pos c33]
        rw [if_pos c33] at hd
        rw [hd]
        exact h_lh c31 c33
      rw [if_neg c33, if_neg c33]
      rw [if_neg c33] at hd
      by_cases c34 : get_funct3 insn = funct3_lw
      · rw [if_pos c34, if_pos c34]
        rw [if_pos c34] at hd
        rw [hd]
        exact h_lw c31 c34
      rw [if_neg c34, if_neg c34]
      rw [if_neg c34] at hd
      by_cases c35 : get_funct3 insn = funct3_lbu
      · rw [if_pos c35, if_pos c35]
        rw [if_pos c35] at hd
        rw [hd]
        exact h_lbu c31 c35
      rw [if_neg c35, if_neg c35]
      rw [if_neg c35] at hd
      by_cases c36 : get_funct3 insn = funct3_lhu
      · rw [if_pos c36, if_pos c36]
        rw [if_pos c36] at hd
        rw [hd]
        exact h_lhu c31 c36
      rw [if_neg c36, if_neg c36]
      rw [if_neg c36] at hd
      rw [hd0]
      exact h_illegal_insn (by
        unfold dispatches_illegal
        rw [if_neg c1, if_neg c2, if_neg c3, if_neg c16, if_neg c20, if_pos c31, if_neg c32,
          if_neg c33, if_neg c34, if_neg c35, if_neg c36])
    rw [if_neg c31, if_neg c31]
    rw [if_neg c31] at hd
    by_cases c37 : get_opcode insn = opcode_btype
    · rw [if_pos c37, if_pos c37]
      rw [if_pos c37] at hd
      by_cases c38 : get_funct3 insn = funct3_beq
      · rw [if_pos c38, if_pos c38]
        rw [if_pos c38] at hd
        rw [hd]
        exact h_beq c37 c38
      rw [if_neg c38, if_neg c38]
      rw [if_neg c38] at hd
      by_cases c39 : get_funct3 insn = funct3_bne
      · rw [if_pos c39, if_pos c39]
        rw [if_pos c39] at hd
        rw [hd]
        exact h_bne c37 c39
      rw [if_neg c39, if_neg c39]
      rw [if_neg c39] at hd
      by_cases c40 : get_funct3 insn = funct3_blt
      · rw [if_pos c40, if_pos c40]
        rw [if_pos c40] at hd
        rw [hd]
        exact h_blt c37 c40
      rw [if_neg c40, if_neg c40]
      rw [if_neg c40] at hd
      by_cases c41 : get_funct3 insn = funct3_bge
      · rw [if_pos c41, if_pos c41]
        rw [if_pos c41] at hd
        rw [hd]
        exact h_bge c37 c41
      rw [if_neg c41, if_neg c41]
      rw [if_neg c41] at hd
      by_cases c42 : get_funct3 insn = funct3_bltu
      · rw [if_pos c42, if_pos c42]
        rw [if_pos c42] at hd
        rw [hd]
        exact h_bltu c37 c42
      rw [if_neg c42, if_neg c42]
      rw [if_neg c42] at hd
      by_cases c43 : get_funct3 insn = funct3_bgeu
      · rw [if_pos c43, if_pos c43]
        rw [if_pos c43] at hd
        rw [hd]
        exact h_bgeu c37 c43
      rw [if_neg c43, if_neg c43]
      rw [if_neg c43] at hd
      rw [hd0]
      exact h_illegal_insn (by
        unfold dispatches_illegal
        rw [if_neg c1, if_neg c2, if_neg c3, if_neg c16, if_neg c20, if_neg c31, if_pos c37,
          if_neg c38, if_neg c39, if_neg c40, if_neg c41, if_neg c42, if_neg c43])
    rw [if_neg c37, if_neg c37]
    rw [if_neg c37] at hd
    by_cases c44 : get_opcode insn = opcode_jal
    · rw [if_pos c44, if_pos c44]
      rw [if_pos c44] at hd
      rw [hd]
      exact h_jal c44
    rw [if_neg c44, if_neg c44]
    rw [if_neg c44] at hd
    by_cases c45 : get_opcode insn = opcode_jalr
    · rw [if_pos c45, if_pos c45]
      rw [if_pos c45] at hd
      rw [hd]
      exact h_jalr c45
    rw [if_neg c45, if_neg c45]
    rw [if_neg c45] at hd
    by_cases c46 : get_opcode insn = opcode_system
    · rw [if_pos c46, if_pos c46]
      rw [if_pos c46] at hd
      by_cases c47 : insn = insn_ebreak
      · rw [if_pos c47, if_pos c47]
        have ne : ¬ insn = insn_ecall := by rw [c47]; decide
        rw [if_neg ne, if_pos c47] at hd
        rw [hd]
        exact h_ebreak c46 c47
      rw [if_neg c47, if_neg c47]
      by_cases c48 : get_funct3 insn = funct3_csrrs
      · rw [if_pos c48, if_pos c48]
        have ne : ¬ insn = insn_ecall := fun e => by
          rw [e] at c48; exact absurd c48 (by decide)
        have nw : ¬ get_funct3 insn = funct3_csrrw := by rw [c48]; decide
        rw [if_neg ne, if_neg c47, if_neg nw, if_pos c48] at hd
        rw [hd]
        exact h_csrrs c46 c48
      rw [if_neg c48, if_neg c48]
      rw [hd0]
      exact h_illegal_insn (by
        unfold dispatches_illegal
        rw [if_neg c1, if_neg c2, if_neg c3, if_neg c16, if_neg c20, if_neg c31, if_neg c37,
          if_neg c44, if_neg c45, if_pos c46, if_neg c47, if_neg c48])
    rw [if_neg c46, if_neg c46]
    rw [if_neg c46] at hd
    rw [hd0]
    exact h_illegal_insn (by
      unfold dispatches_illegal
      rw [if_neg c1, if_neg c2, if_neg c3, if_neg c16, if_neg c20, if_neg c31, if_neg c37,
        if_neg c44, if_neg c45, if_neg c46])
  exact key _ rfl

theorem exec_sb_out_hart (w : machine) (insn : Nat) (pos : Bool) :
    (exec_sb_out w insn pos).hart = exec_sb w.hart insn := by
  unfold exec_sb_out exec_sb
  simp only [set8_out_eq]
  cases pos <;> rfl

theorem exec_sh_out_hart (w : machine) (insn : Nat) (pos : Bool) :
    (exec_sh_out w insn pos).map machine.hart = exec_sh w.hart insn := by
  unfold exec_sh_out exec_sh
  simp only [set16_out_eq, Option.map_map]
  cases pos <;> rfl

theorem exec_sw_out_hart (w : machine) (insn : Nat) (pos : Bool) :
    (exec_sw_out w insn pos).map machine.hart = exec_sw w.hart insn := by
  unfold exec_sw_out exec_sw
  simp only [set32_out_eq, Option.map_map]
  cases pos <;> rfl

theorem exec_csrrs_out_hart (w : machine) (insn : Nat) (pos : Bool) :
    (exec_csrrs_out w insn pos).hart = exec_csrrs w.hart insn := by
  unfold exec_csrrs_out exec_csrrs
  dsimp only
  by_cases hc : toU32 (get_imm_i insn) &&& 0x00000fff ≠ 0xf14 ∨ get_rs1 insn ≠ 0
  · simp only [if_pos hc]
    cases pos <;> rfl
  · simp only [if_neg hc]
    cases hh : w.hart.halt <;> cases pos <;> simp [machine.put, hh]

/-- The hart that `exec` with the output ends in is the result of `exec`, whatever `pos` is:
no `if(pos)` block and no warning changes the state. -/
theorem exec_out_hart (o : eval_order) (w : machine) (insn : Nat) (pos : Bool) :
    (exec_out o w insn pos).map machine.hart = exec w.hart insn := by
  apply exec_out_cases (fun r1 r2 _ => r1.map machine.hart = r2) o w insn pos 0
  case h_lui =>
    intro _
    cases pos <;> rfl
  case h_auipc =>
    intro _
    cases pos <;> rfl
  case h_add =>
    intro _ _ _
    cases pos <;> rfl
  case h_sub =>
    intro _ _ _
    cases pos <;> rfl
  case h_sll =>
    intro _ _
    unfold exec_sll_out exec_sll
    rw [Option.map_map]
    cases pos <;> rfl
  case h_slt =>
    intro _ _
    cases pos <;> rfl
  case h_sltu =>
    intro _ _
    cases pos <;> rfl
  case h_xor =>
    intro _ _
    cases pos <;> rfl
  case h_srl =>
    intro _ _ _
    unfold exec_srl_out exec_srl
    rw [Option.map_map]
    cases pos <;> rfl
  case h_sra =>
    intro _ _ _
    unfold exec_sra_out exec_sra
    rw [Option.map_map]
    cases pos <;> rfl
  case h_or =>
    intro _ _
    cases pos <;> rfl
  case h_and =>
    intro _ _
    cases pos <;> rfl
  case h_sb =>
    intro _ _
    exact congrArg some (exec_sb_out_hart w insn pos)
  case h_sh =>
    intro _ _
    exact exec_sh_out_hart w insn pos
  case h_sw =>
    intro _ _
    exact exec_sw_out_hart w insn pos
  case h_slli =>
    intro _ _
    unfold exec_slli_out exec_slli
    rw [Option.map_map]
    cases pos <;> rfl
  case h_addi =>
    intro _ _
    cases pos <;> rfl
  case h_slti =>
    intro _ _
    cases pos <;> rfl
  case h_sltiu =>
    intro _ _
    cases pos <;> rfl
  case h_xori =>
    intro _ _
    cases pos <;> rfl
  case h_ori =>
    intro _ _
    cases pos <;> rfl
  case h_andi =>
    intro _ _
    cases pos <;> rfl
  case h_srli =>
    intro _ _ _
    unfold exec_srli_out exec_srli
    rw [Option.map_map]
    cases pos <;> rfl
  case h_srai =>
    intro _ _ _
    unfold exec_srai_out exec_srai
    rw [Option.map_map]
    cases pos <;> rfl
  case h_lb =>
    intro _ _
    cases pos <;> rfl
  case h_lh =>
    intro _ _
    cases pos <;> rfl
  case h_lw =>
    intro _ _
    cases pos <;> rfl
  case h_lbu =>
    intro _ _
    cases pos <;> rfl
  case h_lhu =>
    intro _ _
    cases pos <;> rfl
  case h_beq =>
    intro _ _
    cases pos <;> rfl
  case h_bne =>
    intro _ _
    cases pos <;> rfl
  case h_blt =>
    intro _ _
    cases pos <;> rfl
  case h_bge =>
    intro _ _
    cases pos <;> rfl
  case h_bltu =>
    intro _ _
    cases pos <;> rfl
  case h_bgeu =>
    intro _ _
    cases pos <;> rfl
  case h_jal =>
    intro _
    cases pos <;> rfl
  case h_jalr =>
    intro _
    cases pos <;> rfl
  case h_ebreak =>
    intro _ _
    cases pos <;> rfl
  case h_csrrs =>
    intro _ _
    exact congrArg some (exec_csrrs_out_hart w insn pos)
  case h_illegal_insn =>
    intro _
    cases pos <;> rfl

theorem get32_out_fst (o : eval_order) (m : memory) (a : Nat) (c : String) :
    (m.get32_out o a c).1 = m.get32 a := by
  obtain ⟨l, e, _⟩ := get32_out_eq o m a c
  rw [e]

/-- The hart that `tick` with the output ends in is the result of `tick`: neither the
toggles nor the text written change the state. -/
theorem tick_out_hart (o : eval_order) (w : machine) (hdr : String) :
    (tick_out o w hdr).map machine.hart = tick w.hart := by
  cases hh : w.hart.halt with
  | true =>
    rw [tick_halted w.hart hh]
    unfold tick_out
    rw [if_pos hh]
    rfl
  | false =>
    rw [tick_running w.hart hh]
    unfold tick_out
    rw [if_neg (by rw [hh]; simp)]
    dsimp only
    by_cases hr : w.hart.show_registers = true
    · rw [if_pos hr]
      dsimp only [machine.put]
      by_cases hi : w.hart.show_instructions = true
      · rw [if_pos hi, exec_out_hart, get32_out_fst]; rfl
      · rw [if_neg hi, exec_out_hart, get32_out_fst]; rfl
    · rw [if_neg hr]
      dsimp only [machine.put]
      by_cases hi : w.hart.show_instructions = true
      · rw [if_pos hi, exec_out_hart, get32_out_fst]; rfl
      · rw [if_neg hi, exec_out_hart, get32_out_fst]; rfl

set_option maxRecDepth 100000 in
/-- C35: for every hart state, every text already written and every order of evaluation,
one tick with the toggles `show_instructions = a` and `show_registers = b`, in the model
where `tick` reads the toggles, calls `dump`, passes `pos` to `exec` and every instruction
function runs its `if(pos)` block, is defined exactly when the tick with both toggles
cleared is, and it ends with the same PC, registers, memory, counter, halt flag and halt
reason; its hart is the result of `tick`.  Only the text differs: the tick that executes
`addi x1,x0,5` on a fresh hart writes nothing with both toggles cleared, and the line of
the trace after `00000000: 00500093  ` with `show_instructions` set. -/
theorem C35_tracing_does_not_influence (o : eval_order) (h : rv32i_hart) (c hdr : String)
    (a b : Bool) :
    (tick_out o ⟨h.with_flags a b, c⟩ hdr).map machine.hart = tick (h.with_flags a b) ∧
    (tick_out o ⟨h.with_flags a b, c⟩ hdr = none ↔
      tick_out o ⟨h.with_flags false false, c⟩ hdr = none) ∧
    (∀ w1, tick_out o ⟨h.with_flags a b, c⟩ hdr = some w1 →
      ∃ w2, tick_out o ⟨h.with_flags false false, c⟩ hdr = some w2 ∧
        w1.hart.pc = w2.hart.pc ∧ w1.hart.regs = w2.hart.regs ∧ w1.hart.mem = w2.hart.mem ∧
        w1.hart.insn_counter = w2.hart.insn_counter ∧ w1.hart.halt = w2.hart.halt ∧
        w1.hart.halt_reason = w2.hart.halt_reason ∧ w1.hart.mhartid = w2.hart.mhartid) ∧
    (tick_out o ⟨(scenario [0x00500093]).with_flags false false, ""⟩ "").map machine.cout
      = some "" ∧
    (tick_out o ⟨(scenario [0x00500093]).with_flags true false, ""⟩ "").map machine.cout
      = some ("00000000: 00500093  addi    x1,x0,5                    " ++
          "// x1 = 0x00000000 + 0x00000005 = 0x00000005\n") := by
  have key : ∀ (x y : Bool), (tick_out o ⟨h.with_flags x y, c⟩ hdr).map machine.hart
      = (tick h).map (fun h2 => h2.with_flags x y) := by
    intro x y
    rw [tick_out_hart]
    show tick (h.with_flags x y) = _
    cases hh : h.halt with
    | true =>
      rw [tick_halted h hh, tick_halted (h.with_flags x y) hh]
      rfl
    | false =>
      rw [tick_running h hh, tick_running (h.with_flags x y) hh]
      exact exec_flags (counted h) x y _
  refine ⟨tick_out_hart o _ hdr, ?_, ?_, ?_, ?_⟩
  · have k1 := key a b
    have k2 := key false false
    cases h1 : tick_out o ⟨h.with_flags a b, c⟩ hdr <;>
      cases h2 : tick_out o ⟨h.with_flags false false, c⟩ hdr <;>
      cases h3 : tick h <;> rw [h1, h3] at k1 <;> rw [h2, h3] at k2 <;> simp at k1 k2 ⊢
  · intro w1 e
    have k1 := key a b
    have k2 := key false false
    rw [e] at k1
    cases ht : tick h with
    | none => rw [ht] at k1; exact absurd k1 (by simp)
    | some h0 =>
      rw [ht] at k1 k2
      simp only [Option.map_some', Option.some.injEq] at k1
      cases h2 : tick_out o ⟨h.with_flags false false, c⟩ hdr with
      | none => rw [h2] at k2; exact absurd k2 (by simp)
      | some w2 =>
        rw [h2] at k2
        simp only [Option.map_some', Option.some.injEq] at k2
        refine ⟨w2, rfl, ?_⟩
        rw [k1, k2]
        exact ⟨rfl, rfl, rfl, rfl, rfl, rfl, rfl⟩
  · cases o with
    | mk x y => cases x <;> cases y <;> decide
  · cases o with
    | mk x y => cases x <;> cases y <;> decide

end RV32I
